import Mathlib

/-! libTAS frame boundary: a shallow embedding.

Embedding of `src/library/frame.cpp` (render-skip policy, frame boundary
controller), `src/library/inputs/inputs.cpp` (input state merger),
`src/library/socketwrappers.cpp` (the `socket` override) and
`src/library/xlib/xwindows.cpp` (the window hooks).

Conventions of the embedding:

* C++ `unsigned int` / `uint64_t` values are natural numbers reduced modulo
  `2^32` / `2^64` after every operation that can wrap.
* C++ `int` values are integers.  Signed overflow is undefined behaviour in
  C++, so the embedding describes the executions in which every `int` result is
  representable, where machine arithmetic and integer arithmetic coincide.
* A `float` is its IEEE-754 binary32 bit pattern (a natural number below
  `2^32`); the only float operations of the code, `fps > 1` and `fps - 1`, are
  defined on bit patterns.
* A `long` event mask of Xlib is its 64-bit pattern (a natural number below
  `2^64`); a `Window` and an `Atom` are natural numbers.
-/

namespace libtas

set_option linter.unreachableTactic false
set_option linter.unusedTactic false

/-! ## IEEE-754 binary32 on bit patterns -/

/-- Bit pattern of the float `1.0f`. -/
def F32_ONE : Nat := 0x3F800000

/-- Bit pattern of `+infinity`. -/
def F32_INF : Nat := 0x7F800000

/-- Biased exponent field of a bit pattern. -/
def f32_exp (b : Nat) : Nat := (b / 2 ^ 23) % 256

/-- Fraction field of a bit pattern. -/
def f32_man (b : Nat) : Nat := b % 2 ^ 23

/-- The comparison `fps > 1`.  Non-negative floats are ordered like their bit
patterns; a NaN (pattern above `+infinity`) and every pattern with the sign bit
set compare false. -/
def f32_gt_one (b : Nat) : Bool := decide (F32_ONE < b ∧ b ≤ F32_INF)

/-- Floor of the base-2 logarithm, by halving at most `fuel` times. -/
def log2_fuel : Nat → Nat → Nat
  | 0, _ => 0
  | fuel + 1, n => if n < 2 then 0 else log2_fuel fuel (n / 2) + 1

/-- Floor of the base-2 logarithm of `n` (`0` for `n = 0`): the position of
the leading one bit. -/
def ilog2 (n : Nat) : Nat := log2_fuel n n

/-- Round a positive real `d * 2^-23` to binary32, round-to-nearest-even, and
return its bit pattern.  Only used for results that are normal numbers. -/
def f32_round (d : Nat) : Nat :=
  let l := ilog2 d
  if l ≤ 23 then
    (l + 104) * 2 ^ 23 + (d * 2 ^ (23 - l) - 2 ^ 23)
  else
    let sh := l - 23
    let q := d / 2 ^ sh
    let r := d % 2 ^ sh
    let half := 2 ^ (sh - 1)
    let up := decide (half < r) || (decide (r = half) && decide (q % 2 = 1))
    (l + 104) * 2 ^ 23 + ((if up then q + 1 else q) - 2 ^ 23)

/-- The float operation `fps--` (that is `fps - 1.0f`) for a pattern with
`fps > 1`: the exact difference, in units of `2^-23`, rounded to nearest even.
`+infinity - 1` is `+infinity`. -/
def f32_sub_one (b : Nat) : Nat :=
  if f32_exp b = 255 then b
  else f32_round ((2 ^ 23 + f32_man b) * 2 ^ (f32_exp b - 127) - 2 ^ 23)

/-- Bit pattern of the float whose value is the integer `n`, for
`1 ≤ n ≤ 2^24` (every such integer is a binary32 number). -/
def f32_of_nat (n : Nat) : Nat :=
  (127 + ilog2 n) * 2 ^ 23 + (n - 2 ^ ilog2 n) * 2 ^ (23 - ilog2 n)

/-! ## Shared configuration -/

/-- The values of `SharedConfig::fastforward_render` that the `switch` of
`skipDraw` tells apart: the two named cases and any other value (which reaches
`default`). -/
inductive FastForwardRender where
  | FF_RENDER_NO
  | FF_RENDER_ALL
  | FF_RENDER_OTHER (v : Nat)
  deriving DecidableEq, Repr

/-- The fields of `Global::shared_config` read by the frame boundary and the
input merger. -/
structure SharedConfig where
  fastforward : Bool
  running : Bool
  av_dumping : Bool
  fastforward_render : FastForwardRender
  nb_controllers : Int
  osd_encode : Bool
  variable_framerate : Bool
  framerate_num : Nat
  framerate_den : Nat
  /-- `async_events & ASYNC_XEVENTS_BEG` -/
  async_xevents_beg : Bool
  /-- `async_events & ASYNC_XEVENTS_END` -/
  async_xevents_end : Bool
  /-- `async_events & ASYNC_SDLEVENTS_BEG` -/
  async_sdlevents_beg : Bool
  /-- `async_events & ASYNC_SDLEVENTS_END` -/
  async_sdlevents_end : Bool
  /-- `game_specific_sync & GC_SYNC_WITNESS` -/
  gc_sync_witness : Bool
  /-- `game_specific_sync & GC_SYNC_CELESTE` -/
  gc_sync_celeste : Bool
  /-- `debug_state & DEBUG_NATIVE_EVENTS` -/
  debug_native_events : Bool
  /-- `savestate_settings & SS_FORK` -/
  ss_fork : Bool
  deriving DecidableEq, Repr

/-! ## Render-skip policy (`skipDraw`) -/

/-- The shift count `(skip_freq >> 23) - 126 - 3` of `skipDraw`, computed in
`unsigned int` arithmetic from the bit pattern of `fps - 1`. -/
def skipShiftCount (bits : Nat) : Nat :=
  (((bits / 2 ^ 23) % 2 ^ 32 + 2 ^ 32 - 126) % 2 ^ 32 + 2 ^ 32 - 3) % 2 ^ 32

/-- The `unsigned int` shift `1U << c`.  For `c ≥ 32` C++ leaves the result
undefined; `undefShl c` is the value the target produces there. -/
def shl_one (undefShl : Nat → Nat) (c : Nat) : Nat :=
  if c < 32 then (1 * 2 ^ c) % 2 ^ 32 else undefShl c % 2 ^ 32

/-- The local `skip_freq` of `skipDraw` when the counter test is reached
(lines 108-126). -/
def skip_freq (undefShl : Nat → Nat) (fps : Nat) : Nat :=
  let f0 : Nat := 1
  let f1 :=
    if f32_gt_one fps then
      shl_one undefShl (skipShiftCount (f32_sub_one fps))
    else f0
  if f1 < 4 then 4 else f1

/-- The function `skipDraw`: given the configuration, the static
`skip_counter` and `fps`, the returned flag and the new `skip_counter`. -/
def skipDraw (undefShl : Nat → Nat) (cfg : SharedConfig) (skip_counter : Nat)
    (fps : Nat) : Bool × Nat :=
  if !cfg.fastforward then (false, skip_counter)
  else if !cfg.running then (false, skip_counter)
  else if cfg.av_dumping then (false, skip_counter)
  else
    match cfg.fastforward_render with
    | .FF_RENDER_NO => (true, skip_counter)
    | .FF_RENDER_ALL => (false, skip_counter)
    | .FF_RENDER_OTHER _ =>
      let freq := skip_freq undefShl fps
      let c := (skip_counter + 1) % 2 ^ 32
      if freq ≤ c then (false, 0) else (true, c)

/-- Consecutive calls of `skipDraw`, one per `(configuration, fps)` pair,
threading the static counter: the returned flags and the final counter. -/
def skipDrawCalls (undefShl : Nat → Nat) :
    Nat → List (SharedConfig × Nat) → List Bool × Nat
  | c, [] => ([], c)
  | c, (cfg, fps) :: rest =>
    let r := skipDraw undefShl cfg c fps
    let rs := skipDrawCalls undefShl r.2 rest
    (r.1 :: rs.1, rs.2)

/-- The configuration is in AUTO mode: `skipDraw` reaches the frequency
computation. -/
def isAuto (cfg : SharedConfig) : Bool :=
  cfg.fastforward && cfg.running && !cfg.av_dumping &&
    (match cfg.fastforward_render with
     | .FF_RENDER_OTHER _ => true
     | _ => false)

/-! ## Input snapshots (`AllInputs`) and the input merger -/

/-- Modelled from the spec: the pointer mode of an input snapshot, ABSOLUTE or
RELATIVE (the declaration of `SingleInput` is not part of the sources). -/
inductive PointerMode where
  | POINTER_MODE_ABSOLUTE
  | POINTER_MODE_RELATIVE
  deriving DecidableEq, Repr

/-- Modelled from the spec: the pointer record of a snapshot, mode, `int`
coordinates and button mask (the declaration of `MouseInputs` is not part of
the sources). -/
structure MouseInputs where
  mode : PointerMode
  x : Int
  y : Int
  mask : Nat
  deriving DecidableEq, Repr

/-- Modelled from the spec: the state record of one controller, copied as a
whole by the merger (the declaration of `ControllerInputs` is not part of the
sources). -/
structure ControllerInputs where
  axes : List Int
  buttons : Nat
  deriving DecidableEq, Repr

/-- Modelled from the spec: the miscellaneous flags word of a snapshot. -/
structure MiscInputs where
  flags : Nat
  deriving DecidableEq, Repr

/-- Modelled from the spec: an input snapshot (`AllInputs`, whose declaration
is not part of the sources): the key array, the pointer record, the controller
array, the flags word, and the frame-rate and real-time values that
`receive_messages` reads from a received snapshot.  Arrays are functions of the
index; the objects behind `pointer`, `controllers[j]` and `misc` are held by
value. -/
structure AllInputs where
  keyboard : Nat → Nat
  pointer : MouseInputs
  controllers : Nat → ControllerInputs
  misc : MiscInputs
  framerate_num : Nat
  framerate_den : Nat
  realtime_sec : Nat
  realtime_nsec : Nat

/-- The snapshot left by `buildAndClear`: every field zero, ABSOLUTE mode. -/
def AllInputs.cleared : AllInputs where
  keyboard := fun _ => 0
  pointer := ⟨.POINTER_MODE_ABSOLUTE, 0, 0, 0⟩
  controllers := fun _ => ⟨[], 0⟩
  misc := ⟨0⟩
  framerate_num := 0
  framerate_den := 0
  realtime_sec := 0
  realtime_nsec := 0

/-- The globals of `inputs.cpp`. -/
structure InputState where
  ai : AllInputs
  old_ai : AllInputs
  game_ai : AllInputs
  old_game_ai : AllInputs
  game_unclipped_ai : AllInputs
  old_game_unclipped_ai : AllInputs
  pointer_clipping : Bool
  clipping_x : Int
  clipping_y : Int
  clipping_w : Int
  clipping_h : Int

/-- The assignment `a.keyboard[i] = v`. -/
def AllInputs.setKey (a : AllInputs) (i v : Nat) : AllInputs :=
  { a with keyboard := Function.update a.keyboard i v }

/-- The assignment `*a.controllers[j] = c`. -/
def AllInputs.setController (a : AllInputs) (j : Nat) (c : ControllerInputs) :
    AllInputs :=
  { a with controllers := Function.update a.controllers j c }

/-- The assignment `a.pointer->mode = m`. -/
def AllInputs.setMode (a : AllInputs) (m : PointerMode) : AllInputs :=
  { a with pointer := { a.pointer with mode := m } }

/-- The assignment `a.pointer->x = v`. -/
def AllInputs.setX (a : AllInputs) (v : Int) : AllInputs :=
  { a with pointer := { a.pointer with x := v } }

/-- The assignment `a.pointer->y = v`. -/
def AllInputs.setY (a : AllInputs) (v : Int) : AllInputs :=
  { a with pointer := { a.pointer with y := v } }

/-- The assignment `a.pointer->mask = v`. -/
def AllInputs.setMask (a : AllInputs) (v : Nat) : AllInputs :=
  { a with pointer := { a.pointer with mask := v } }

/-- The assignment `a.misc->flags = v`. -/
def AllInputs.setFlags (a : AllInputs) (v : Nat) : AllInputs :=
  { a with misc := { a.misc with flags := v } }

/-- The loop `for (int i = 0; i < n; i++) body(i)` on a state. -/
def forLoop {σ : Type} (n : Nat) (body : Nat → σ → σ) (s : σ) : σ :=
  (List.range n).foldl (fun acc i => body i acc) s

/-- The pointer-mode step of `updateGameInputs` (lines 46-67). -/
def mergePointer (s : InputState) : InputState :=
  let s := { s with game_ai := s.game_ai.setMode s.ai.pointer.mode }
  if s.game_ai.pointer.mode = .POINTER_MODE_RELATIVE then
    let s := { s with
      game_ai := s.game_ai.setX (s.game_ai.pointer.x + s.ai.pointer.x) }
    let s := { s with
      game_ai := s.game_ai.setY (s.game_ai.pointer.y + s.ai.pointer.y) }
    let s := { s with
      game_unclipped_ai :=
        s.game_unclipped_ai.setX (s.game_unclipped_ai.pointer.x + s.ai.pointer.x) }
    { s with
      game_unclipped_ai :=
        s.game_unclipped_ai.setY (s.game_unclipped_ai.pointer.y + s.ai.pointer.y) }
  else if s.old_game_ai.pointer.mode = .POINTER_MODE_RELATIVE then
    let s := { s with game_ai := s.game_ai.setX s.old_game_ai.pointer.x }
    let s := { s with game_ai := s.game_ai.setY s.old_game_ai.pointer.y }
    let s := { s with
      game_unclipped_ai := s.game_unclipped_ai.setX s.game_unclipped_ai.pointer.x }
    { s with
      game_unclipped_ai := s.game_unclipped_ai.setY s.game_unclipped_ai.pointer.y }
  else
    let dx := s.ai.pointer.x - s.old_ai.pointer.x
    let s := { s with game_ai := s.game_ai.setX (s.game_ai.pointer.x + dx) }
    let dy := s.ai.pointer.y - s.old_ai.pointer.y
    let s := { s with game_ai := s.game_ai.setY (s.game_ai.pointer.y + dy) }
    let dx := s.ai.pointer.x - s.old_ai.pointer.x
    let s := { s with
      game_unclipped_ai :=
        s.game_unclipped_ai.setX (s.game_unclipped_ai.pointer.x + dx) }
    let dy := s.ai.pointer.y - s.old_ai.pointer.y
    { s with
      game_unclipped_ai :=
        s.game_unclipped_ai.setY (s.game_unclipped_ai.pointer.y + dy) }

/-- The clipping step of `updateGameInputs` (lines 75-86). -/
def clipPointer (s : InputState) : InputState :=
  if s.pointer_clipping then
    let s :=
      if s.game_ai.pointer.x < s.clipping_x then
        { s with game_ai := s.game_ai.setX s.clipping_x }
      else if s.game_ai.pointer.x ≥ s.clipping_x + s.clipping_w then
        { s with game_ai := s.game_ai.setX (s.clipping_x + s.clipping_w - 1) }
      else s
    if s.game_ai.pointer.y < s.clipping_y then
      { s with game_ai := s.game_ai.setY s.clipping_y }
    else if s.game_ai.pointer.y ≥ s.clipping_y + s.clipping_h then
      { s with game_ai := s.game_ai.setY (s.clipping_y + s.clipping_h - 1) }
    else s
  else s

/-- The function `updateGameInputs`.  `MAXKEYS` is `AllInputs::MAXKEYS` and
`nb_controllers` is `Global::shared_config.nb_controllers`. -/
def updateGameInputs (MAXKEYS : Nat) (nb_controllers : Int) (s : InputState) :
    InputState :=
  let s := { s with old_game_ai := s.game_ai }
  let s := { s with old_game_unclipped_ai := s.game_unclipped_ai }
  let s := forLoop MAXKEYS
    (fun i s => { s with game_ai := s.game_ai.setKey i (s.ai.keyboard i) }) s
  let s := mergePointer s
  let s := { s with game_ai := s.game_ai.setMask s.ai.pointer.mask }
  let s := forLoop nb_controllers.toNat
    (fun ji s =>
      { s with game_ai := s.game_ai.setController ji (s.ai.controllers ji) }) s
  let s := clipPointer s
  let s := { s with game_ai := s.game_ai.setFlags s.ai.misc.flags }
  { s with old_ai := s.ai }

/-! ## The frame boundary controller (`frame.cpp`)

The controller is embedded as a state transformer over `World`, the mutable
state it reads and writes, with the answers of its collaborators supplied by an
`Env`.  Every collaborator call, send and receive is appended to
`World.trace`.  The embedding follows the `__unix__` build; `perfTimer`
switches and debug log lines other than the error log are not traced. -/

/-- Tags sent to the controller process (`MSGB_*` of `messages.h`, which is not
part of the sources, so tags are symbolic); `raw v` is a literal integer tag as
in `sendMessage(-1)`. -/
inductive MsgB where
  | MSGB_FRAMECOUNT_TIME
  | MSGB_GAMEINFO
  | MSGB_FPS
  | MSGB_INVALIDATE_SAVESTATES
  | MSGB_NONDRAW_FRAME
  | MSGB_START_FRAMEBOUNDARY
  | MSGB_LUA_RESOLUTION
  | MSGB_LOADING_SUCCEEDED
  | MSGB_SAVING_SUCCEEDED
  | raw (v : Int)
  deriving DecidableEq, Repr

/-- Tags received from the controller process (`MSGN_*`, symbolic).  `other v`
is an integer that is none of the named tags; the named tags are non-negative.
`other (-1)` is what `receiveMessageNonBlocking` returns when no message is
available. -/
inductive MsgN where
  | MSGN_START_FRAMEBOUNDARY
  | MSGN_RAMWATCH
  | MSGN_LUA_RESOLUTION
  | MSGN_LUA_TEXT
  | MSGN_LUA_PIXEL
  | MSGN_LUA_RECT
  | MSGN_LUA_LINE
  | MSGN_LUA_ELLIPSE
  | MSGN_USERQUIT
  | MSGN_CONFIG
  | MSGN_DUMP_FILE
  | MSGN_SCREENSHOT
  | MSGN_ALL_INPUTS
  | MSGN_EXPOSE
  | MSGN_PREVIEW_INPUTS
  | MSGN_SAVESTATE_PATH
  | MSGN_SAVESTATE_INDEX
  | MSGN_SAVESTATE
  | MSGN_LOADSTATE
  | MSGN_STOP_ENCODE
  | MSGN_OSD_MSG
  | MSGN_MARKER
  | MSGN_END_FRAMEBOUNDARY
  | other (v : Int)
  deriving DecidableEq, Repr

/-- The test `message < 0` on a received tag. -/
def MsgN.isNeg : MsgN → Bool
  | .other v => decide (v < 0)
  | _ => false

/-- What the controller process puts on the socket, in order.  `idle` marks a
moment at which nothing is available (a non-blocking poll there finds no
message, a blocking read waits past it). -/
inductive Item where
  | idle
  | tag (m : MsgN)
  | int (v : Int)
  | u32 (v : Nat)
  | str (s : String)
  | config (c : SharedConfig)
  | inputs (a : AllInputs)

/-- Payloads written with `sendData`. -/
inductive Data where
  | u64 (v : Nat)
  | f32 (bits : Nat)
  | int (v : Int)
  | gameInfo
  deriving DecidableEq, Repr

/-- Text handed to `MessageWindow::insert`. -/
inductive OsdText where
  | stateSaved (slot : Int)
  | text (s : String)
  deriving DecidableEq, Repr

/-- The collaborator functions that `frameBoundary` and its helpers call. -/
inductive Fn where
  | setCheckpointThread
  | setMainThread
  | busyLoopReset
  | screenCaptureInit
  | xlibWaitForEmpty
  | sdlWaitForEmpty
  | detWait
  | isUnity
  | unitySyncWaitAll
  | enterFrameBoundary
  | mixAllSources
  | flushDelay
  | draw
  | pushNativeSDLEvents
  | pushNativeXlibEvents
  | pushNativeXcbEvents
  | exitFrameBoundary
  | tickFrame
  | hasThreadListChanged
  | resetThreadListChanged
  | watchesReset
  | luaDrawReset
  | watchesInsert
  | getDimensions
  | luaInsertText
  | luaInsertPixel
  | luaInsertRect
  | luaInsertLine
  | luaInsertEllipse
  | windowTitleUpdate
  | hudDrawAll
  | hudRender
  | hudEndFrame
  | hudNewFrame
  | hudDoRender
  | copyScreenToSurface
  | copySurfaceToScreen
  | restoreScreenState
  | avencoderNew
  | encodeOneFrame
  | avencoderDelete
  | updateGameInputs
  | xlibLock
  | xlibResetEmpty
  | xlibUnlock
  | sdlLock
  | sdlResetEmpty
  | sdlUnlock
  | generateInputEvents
  | syncControllerEvents
  | skipDraw
  | messageWindowInsert
  | waitChild
  | usleep
  | sdlInsertQuit1
  | sdlInsertQuit2
  | xSendDeleteWindow
  | xSync
  | setDumpFile
  | screenshotSave
  | setRealTime
  | setSavestatePath
  | setSavestateIndex
  | checkpoint
  | setCurrentToParent
  | printError
  | isLoading
  | restore
  | setMarkerText
  | logError
  deriving DecidableEq, Repr

/-- An argument of a traced call. -/
inductive Arg where
  | int (v : Int)
  | nat (v : Nat)
  | bool (b : Bool)
  | str (s : String)
  | osd (t : OsdText)
  deriving DecidableEq, Repr

/-- One entry of the trace of a frame boundary. -/
inductive Event where
  | lockSocket
  | unlockSocket
  | sendMessage (m : MsgB)
  | sendData (d : Data)
  | receiveMessage (m : MsgN)
  | receiveMessageNonBlocking (m : MsgN)
  | receiveData
  | call (fn : Fn) (args : List Arg)
  deriving DecidableEq, Repr

/-- The fields of `Global::game_info` that `frameBoundary` uses. -/
structure GameInfo where
  tosend : Bool
  /-- `video & GameInfo::SDL1` -/
  sdl1 : Bool
  /-- `video & GameInfo::SDL2` -/
  sdl2 : Bool
  deriving DecidableEq, Repr

/-- The two time bases read by `sendFrameCountTime`. -/
inductive TimeType where
  | TIMETYPE_UNTRACKED_MONOTONIC
  | TIMETYPE_UNTRACKED_REALTIME
  deriving DecidableEq, Repr

/-- The mutable state of the frame boundary: the statics and globals of
`frame.cpp`, the `Global` flags, the globals of `inputs.cpp`, the collaborator
state the controller tests, the locals of `receive_messages`, what is still to
be read from the socket, and the trace so far. -/
structure World where
  framecount : Nat
  nondraw_framecount : Nat
  didASavestate : Bool
  skip_counter : Nat
  inputs_built : Bool
  fps : Nat
  lfps : Nat
  is_exiting : Bool
  skipping_draw : Bool
  shared_config : SharedConfig
  game_info : GameInfo
  inp : InputState
  /-- The pointer `avencoder` is non-null. -/
  avencoder : Bool
  /-- The flag behind `ThreadManager::hasThreadListChanged`. -/
  threadListChanged : Bool
  /-- `x11::gameXWindows` -/
  gameXWindows : List Nat
  /-- `x11::gameDisplays`: for each of the `GAMEDISPLAYNUM` slots, whether the
  display pointer is non-null. -/
  gameDisplays : List Bool
  /-- Local `slot` of `receive_messages`. -/
  slot : Int
  /-- Local `preview_ai` of `receive_messages`. -/
  preview_ai : AllInputs
  incoming : List Item
  trace : List Event

/-- The answers of the collaborators.  An answer that can differ from call to
call takes the length of the trace at the call as its argument. -/
structure Env where
  undefShl : Nat → Nat
  MAXKEYS : Nat
  isUnity : Bool
  isLoopback : Bool
  /-- Result of `DeterministicTimer::enterFrameBoundary`. -/
  timeIncrement : Nat
  /-- `FPSMonitor::tickFrame`: from the frame count and the current
  `(fps, lfps)`, the new pair. -/
  tickFrame : Nat → Nat × Nat → Nat × Nat
  /-- Return value of `sendMessage`. -/
  sendMessageRet : Nat → Int
  /-- `getTicks(kind)`: seconds and nanoseconds. -/
  getTicks : TimeType → Nat → Int × Int
  /-- The slots that successive `SaveStateManager::waitChild` calls return
  before the first negative result. -/
  deadChildren : Nat → List Int
  /-- Status returned by `SaveStateManager::checkpoint`. -/
  checkpoint : Int → Nat → Int
  isLoading : Nat → Bool
  /-- `SaveStateManager::restore`: `none` when the state was restored (the call
  does not come back), else the error status. -/
  restore : Int → Nat → Option Int
  doRender : Nat → Bool
  getDimensions : Nat → Int × Int
  /-- Indeterminate initial value of the local `slot` of `receive_messages`. -/
  slot0 : Int

/-- How an execution of `frameBoundary` ends, when it does not simply go on:
the call returns; the process exits; a read waits for data that never comes;
a read meets data of another kind than the code expects (the byte stream is
out of step, what follows depends on the raw bytes); a restored savestate
replaces the execution; `MYASSERT` fails; a loop bound of the embedding is
used up (does not happen with the bounds `frameBoundary` passes). -/
inductive Outcome where
  | exited (status : Int)
  | blocked
  | desync
  | restored
  | assertFailed
  | outOfFuel
  deriving DecidableEq, Repr

/-- Result of running a piece of the controller: a value and the new state, or
the state at which the execution stopped and why. -/
inductive R (α : Type) where
  | ok (a : α) (w : World)
  | stop (o : Outcome) (w : World)

/-- The state of a result. -/
def R.world {α : Type} : R α → World
  | .ok _ w => w
  | .stop _ w => w

/-- The result is a normal return. -/
def R.returned {α : Type} : R α → Bool
  | .ok _ _ => true
  | .stop _ _ => false

/-- Pieces of the controller: functions of the environment and the state. -/
def M (α : Type) : Type := Env → World → R α

/-- Sequencing: a stop is propagated. -/
def M.bind {α β : Type} (m : M α) (f : α → M β) : M β :=
  fun e w => match m e w with
    | .ok a w1 => f a e w1
    | .stop o w1 => .stop o w1

instance : Monad M where
  pure a := fun _ w => .ok a w
  bind := M.bind

/-- Read the state. -/
def getW : M World := fun _ w => .ok w w

/-- Read the environment. -/
def getE : M Env := fun e w => .ok e w

/-- Change the state. -/
def modifyW (f : World → World) : M Unit := fun _ w => .ok () (f w)

/-- The execution stops here. -/
def stopWith {α : Type} (o : Outcome) : M α := fun _ w => .stop o w

/-- Append an event to the trace. -/
def emit (ev : Event) : M Unit :=
  modifyW fun w => { w with trace := w.trace ++ [ev] }

/-- Record a collaborator call. -/
def call (fn : Fn) (args : List Arg) : M Unit := emit (.call fn args)

/-- Length of the trace, the argument of call-dependent answers. -/
def stamp : M Nat := fun _ w => .ok w.trace.length w

/-- The statement `if (c) { body }`. -/
def whenM (c : Bool) (body : M Unit) : M Unit :=
  if c then body else pure ()

/-! ### The message channel -/

/-- The next thing on the socket that is not an `idle` mark, and what follows
it; `none` when nothing more ever arrives. -/
def nextItem : List Item → Option (Item × List Item)
  | [] => none
  | .idle :: rest => nextItem rest
  | it :: rest => some (it, rest)

/-- A blocking read of the next item. -/
def readItem : M Item := fun _ w =>
  match nextItem w.incoming with
  | none => .stop .blocked { w with incoming := [] }
  | some (it, rest) => .ok it { w with incoming := rest }

/-- The call `receiveMessage()`. -/
def receiveMessage : M MsgN := do
  let it ← readItem
  match it with
  | .tag m => do emit (.receiveMessage m); pure m
  | _ => stopWith .desync

/-- The call `receiveMessageNonBlocking()`: the tag that is available, or
`other (-1)` when there is none.  The flag tells that nothing will ever arrive
any more. -/
def receiveMessageNonBlocking : M (MsgN × Bool) := do
  let w ← getW
  match w.incoming with
  | [] => do emit (.receiveMessageNonBlocking (.other (-1))); pure (.other (-1), true)
  | .idle :: rest => do
    modifyW fun w => { w with incoming := rest }
    emit (.receiveMessageNonBlocking (.other (-1)))
    pure (.other (-1), false)
  | .tag m :: rest => do
    modifyW fun w => { w with incoming := rest }
    emit (.receiveMessageNonBlocking m)
    pure (m, false)
  | _ :: _ => stopWith .desync

/-- The call `receiveData(&v, sizeof(int))`. -/
def receiveInt : M Int := do
  let it ← readItem
  match it with
  | .int v => do emit .receiveData; pure v
  | _ => stopWith .desync

/-- The call `receiveData(&v, sizeof(uint32_t))`. -/
def receiveU32 : M Nat := do
  let it ← readItem
  match it with
  | .u32 v => do emit .receiveData; pure v
  | _ => stopWith .desync

/-- The calls `receiveString()` and `receiveCString(..)`. -/
def receiveString : M String := do
  let it ← readItem
  match it with
  | .str v => do emit .receiveData; pure v
  | _ => stopWith .desync

/-- The call `receiveData(&Global::shared_config, sizeof(SharedConfig))`. -/
def receiveConfig : M Unit := do
  let it ← readItem
  match it with
  | .config c => do
    emit .receiveData
    modifyW fun w => { w with shared_config := c }
  | _ => stopWith .desync

/-- The call `a.recv()` on an `AllInputs`. -/
def receiveInputs : M AllInputs := do
  let it ← readItem
  match it with
  | .inputs a => do emit .receiveData; pure a
  | _ => stopWith .desync

/-- The call `sendMessage(m)` with its return value. -/
def sendMessage (m : MsgB) : M Int := do
  let n ← stamp
  let e ← getE
  emit (.sendMessage m)
  pure (e.sendMessageRet n)

/-- The call `sendData(..)`. -/
def sendData (d : Data) : M Unit := emit (.sendData d)

/-- A `uint64_t` holding the value of a `time_t` or `long`. -/
def toU64 (v : Int) : Nat := (v % 2 ^ 64).toNat

/-- The function `sendFrameCountTime`. -/
def sendFrameCountTime : M Unit := do
  let ret ← sendMessage .MSGB_FRAMECOUNT_TIME
  if ret = -1 then stopWith (.exited 1)
  else do
    let w ← getW
    sendData (.u64 w.framecount)
    let e ← getE
    let n ← stamp
    let ticks := e.getTicks .TIMETYPE_UNTRACKED_MONOTONIC n
    sendData (.u64 (toU64 ticks.1))
    sendData (.u64 (toU64 ticks.2))
    let n ← stamp
    let ticks := e.getTicks .TIMETYPE_UNTRACKED_REALTIME n
    sendData (.u64 (toU64 ticks.1))
    sendData (.u64 (toU64 ticks.2))

/-! ### Helpers of `frame.cpp` -/

/-- The send of `XSendEvent` and `XSync` to every open display, the loop of
`pushQuitEvent`. -/
def pushQuitDisplays (window : Nat) : Nat → List Bool → M Unit
  | _, [] => pure ()
  | i, d :: rest => do
    whenM d do
      call .xSendDeleteWindow [.nat i, .nat window]
      call .xSync [.nat i]
    pushQuitDisplays window (i + 1) rest

/-- The function `pushQuitEvent`. -/
def pushQuitEvent : M Unit := do
  let w ← getW
  whenM w.game_info.sdl1 (call .sdlInsertQuit1 [])
  whenM w.game_info.sdl2 (call .sdlInsertQuit2 [])
  match w.gameXWindows with
  | [] => pure ()
  | front :: _ => pushQuitDisplays front 0 w.gameDisplays

/-- The function `screen_redraw`; `draw` tells whether the callback is
non-empty. -/
def screen_redraw (draw : Bool) : M Unit := do
  let w ← getW
  whenM (!w.skipping_draw && draw) do
    let n ← stamp
    let e ← getE
    call .hudDoRender []
    whenM (e.doRender n) do
      call .hudNewFrame []
      call .copySurfaceToScreen []
      let w ← getW
      call .hudDrawAll [.nat w.framecount, .nat w.nondraw_framecount]
      call .hudRender []
      call .draw []

/-- The loop "catch dead children spawned for state saving": one
`waitChild` per reaped child, each followed by a message, and the final
`waitChild` that returns a negative slot. -/
def catchDeadChildrenLoop : List Int → M Unit
  | [] => call .waitChild []
  | slot :: rest => do
    call .waitChild []
    call .messageWindowInsert [.osd (.stateSaved slot)]
    catchDeadChildrenLoop rest

/-- The loop above at the current point of the execution. -/
def catchDeadChildren : M Unit := do
  let n ← stamp
  let e ← getE
  catchDeadChildrenLoop (e.deadChildren n)

/-! ### The blocking drain -/

/-- The `switch` inside the first receive loop of `frameBoundary` (lines
296-372).  A tag without a `case` falls through the `switch`. -/
def handleDisplayMessage (message : MsgN) : M Unit :=
  match message with
  | .MSGN_RAMWATCH => do
    let ramwatch ← receiveString
    call .watchesInsert [.str ramwatch]
  | .MSGN_LUA_RESOLUTION => do
    let n ← stamp
    let e ← getE
    call .getDimensions []
    let _ ← sendMessage .MSGB_LUA_RESOLUTION
    sendData (.int (e.getDimensions n).1)
    sendData (.int (e.getDimensions n).2)
  | .MSGN_LUA_TEXT => do
    let x ← receiveInt
    let y ← receiveInt
    let text ← receiveString
    let color ← receiveU32
    call .luaInsertText [.int x, .int y, .str text, .nat color]
  | .MSGN_LUA_PIXEL => do
    let x ← receiveInt
    let y ← receiveInt
    let color ← receiveU32
    call .luaInsertPixel [.int x, .int y, .nat color]
  | .MSGN_LUA_RECT => do
    let x ← receiveInt
    let y ← receiveInt
    let w ← receiveInt
    let h ← receiveInt
    let thickness ← receiveInt
    let color ← receiveU32
    let filled ← receiveInt
    call .luaInsertRect
      [.int x, .int y, .int w, .int h, .int thickness, .nat color, .int filled]
  | .MSGN_LUA_LINE => do
    let x0 ← receiveInt
    let y0 ← receiveInt
    let x1 ← receiveInt
    let y1 ← receiveInt
    let color ← receiveU32
    call .luaInsertLine [.int x0, .int y0, .int x1, .int y1, .nat color]
  | .MSGN_LUA_ELLIPSE => do
    let center_x ← receiveInt
    let center_y ← receiveInt
    let radius_x ← receiveInt
    let radius_y ← receiveInt
    let color ← receiveU32
    call .luaInsertEllipse
      [.int center_x, .int center_y, .int radius_x, .int radius_y, .nat color]
  | _ => pure ()

/-- The loop `while (message != MSGN_START_FRAMEBOUNDARY) { .. }` of
`frameBoundary`, at most `fuel` iterations. -/
def blockingDrainLoop : Nat → MsgN → M Unit
  | 0, _ => stopWith .outOfFuel
  | fuel + 1, message =>
    if message = .MSGN_START_FRAMEBOUNDARY then pure ()
    else do
      handleDisplayMessage message
      let message ← receiveMessage
      blockingDrainLoop fuel message

/-- The blocking drain of `frameBoundary` (lines 293-374).  Every iteration
reads at least one item, so the bound is never reached. -/
def blockingDrain : M Unit := do
  let message ← receiveMessage
  let w ← getW
  blockingDrainLoop (w.incoming.length + 1) message

/-! ### The non-blocking drain (`receive_messages`) -/

/-- The block run when `message < 0` (lines 625-663).  The result tells
whether `receive_messages` goes on (`false`: it returns because the game is
exiting). -/
def idleBlock : M Bool := do
  call .pushNativeXlibEvents []
  call .pushNativeXcbEvents []
  let w ← getW
  if w.is_exiting then pure false
  else do
    whenM (!w.shared_config.fastforward) (call .usleep [.nat 100])
    catchDeadChildren
    pure true

/-- The case `MSGN_SAVESTATE` of `receive_messages`. -/
def handleSavestate (draw : Bool) : M Unit := do
  let w ← getW
  let e ← getE
  let n ← stamp
  call .checkpoint [.int w.slot]
  let status := e.checkpoint w.slot n
  whenM (decide (status = 0)) do
    call .setCurrentToParent []
    modifyW fun w => { w with didASavestate := true }
  call .printError [.int status]
  let n ← stamp
  call .isLoading []
  if e.isLoading n then do
    let _ ← sendMessage .MSGB_LOADING_SUCCEEDED
    let message ← receiveMessage
    if message ≠ .MSGN_CONFIG then stopWith .assertFailed
    else do
      receiveConfig
      sendFrameCountTime
      screen_redraw draw
  else if status = 0 then do
    let _ ← sendMessage .MSGB_SAVING_SUCCEEDED
    let w ← getW
    whenM (!w.shared_config.ss_fork)
      (call .messageWindowInsert [.osd (.stateSaved w.slot)])
  else do
    let _ ← sendMessage (.raw (-1))

/-- The case `MSGN_LOADSTATE` of `receive_messages`. -/
def handleLoadstate : M Unit := do
  let w ← getW
  let e ← getE
  let n ← stamp
  call .restore [.int w.slot]
  match e.restore w.slot n with
  | none => stopWith .restored
  | some status => do
    call .printError [.int status]
    sendFrameCountTime

/-- The `switch` of `receive_messages` (lines 666-826).  The result tells
whether the loop goes on (`false`: the function returns). -/
def handleControlMessage (draw : Bool) (message : MsgN) : M Bool :=
  match message with
  | .MSGN_USERQUIT => do
    pushQuitEvent
    modifyW fun w => { w with is_exiting := true }
    pure true
  | .MSGN_CONFIG => do
    receiveConfig
    pure true
  | .MSGN_DUMP_FILE => do
    let dumpfile ← receiveString
    let ffmpeg_options ← receiveString
    call .setDumpFile [.str dumpfile, .str ffmpeg_options]
    pure true
  | .MSGN_SCREENSHOT => do
    let screenshotfile ← receiveString
    call .screenshotSave [.str screenshotfile, .bool draw]
    pure true
  | .MSGN_ALL_INPUTS => do
    let a ← receiveInputs
    modifyW fun w => { w with inp := { w.inp with ai := a } }
    let w ← getW
    whenM w.shared_config.variable_framerate
      (modifyW fun w => { w with shared_config :=
        { w.shared_config with
          framerate_num := w.inp.ai.framerate_num
          framerate_den := w.inp.ai.framerate_den } })
    whenM (decide (w.inp.ai.realtime_sec ≠ 0))
      (call .setRealTime [.nat w.inp.ai.realtime_sec, .nat w.inp.ai.realtime_nsec])
    pure true
  | .MSGN_EXPOSE => do
    screen_redraw draw
    pure true
  | .MSGN_PREVIEW_INPUTS => do
    let a ← receiveInputs
    modifyW fun w => { w with preview_ai := a }
    pure true
  | .MSGN_SAVESTATE_PATH => do
    let savestatepath ← receiveString
    call .setSavestatePath [.str savestatepath]
    pure true
  | .MSGN_SAVESTATE_INDEX => do
    let v ← receiveInt
    modifyW fun w => { w with slot := v }
    call .setSavestateIndex [.int v]
    pure true
  | .MSGN_SAVESTATE => do
    handleSavestate draw
    pure true
  | .MSGN_LOADSTATE => do
    handleLoadstate
    pure true
  | .MSGN_STOP_ENCODE => do
    let w ← getW
    whenM w.avencoder do
      call .avencoderDelete []
      modifyW fun w => { w with
        avencoder := false
        shared_config := { w.shared_config with av_dumping := false } }
      call .windowTitleUpdate [.int (-1), .int (-1)]
    pure true
  | .MSGN_OSD_MSG => do
    let text ← receiveString
    call .messageWindowInsert [.osd (.text text)]
    pure true
  | .MSGN_MARKER => do
    let text ← receiveString
    call .setMarkerText [.str text]
    pure true
  | .MSGN_END_FRAMEBOUNDARY => pure false
  | .other v =>
    if v = -1 then pure true
    else do
      call .logError []
      pure false
  | _ => do
    call .logError []
    pure false

/-- The loop `while (1) { .. }` of `receive_messages` (lines 622-827), at most
`fuel` iterations.  When nothing more will ever arrive and the game is not
exiting, the loop polls for ever: the execution is `blocked`. -/
def receiveLoop (draw : Bool) : Nat → M Unit
  | 0 => stopWith .outOfFuel
  | fuel + 1 => do
    let (message, never) ← receiveMessageNonBlocking
    let goOn ← (if message.isNeg then idleBlock else pure true)
    if !goOn then pure ()
    else do
      let goOn ← handleControlMessage draw message
      if !goOn then pure ()
      else if never then stopWith .blocked
      else receiveLoop draw fuel

/-- The function `receive_messages`.  Every iteration of its loop reads at
least one item, so the bound is never reached. -/
def receive_messages (draw : Bool) : M Unit := do
  let e ← getE
  modifyW fun w => { w with preview_ai := AllInputs.cleared, slot := e.slot0 }
  catchDeadChildren
  let w ← getW
  receiveLoop draw (w.incoming.length + 1)

/-! ### `frameBoundary` -/

/-- The HUD block that appears twice in the render phase (lines 389-398 and
431-440). -/
def drawHud (draw : Bool) : M Unit := do
  if draw then do
    let w ← getW
    call .hudDrawAll [.nat w.framecount, .nat w.nondraw_framecount]
    call .hudRender []
  else
    call .hudEndFrame []

/-- The outbound handshake of `frameBoundary` (lines 254-289). -/
def outboundHandshake (draw : Bool) : M Unit := do
  emit .lockSocket
  sendFrameCountTime
  let w ← getW
  whenM w.game_info.tosend do
    let _ ← sendMessage .MSGB_GAMEINFO
    sendData .gameInfo
    modifyW fun w => { w with game_info := { w.game_info with tosend := false } }
  let _ ← sendMessage .MSGB_FPS
  let w ← getW
  sendData (.f32 w.fps)
  sendData (.f32 w.lfps)
  call .hasThreadListChanged []
  whenM w.threadListChanged do
    let _ ← sendMessage .MSGB_INVALIDATE_SAVESTATES
    call .resetThreadListChanged []
    modifyW fun w => { w with threadListChanged := false }
  whenM (!draw) do
    let _ ← sendMessage .MSGB_NONDRAW_FRAME
  let _ ← sendMessage .MSGB_START_FRAMEBOUNDARY
  call .watchesReset []
  call .luaDrawReset []

/-- The render phase of `frameBoundary` (lines 377-449). -/
def renderPhase (draw : Bool) (timeIncrement : Nat) : M Unit := do
  whenM (!draw)
    (modifyW fun w =>
      { w with nondraw_framecount := (w.nondraw_framecount + 1) % 2 ^ 64 })
  let w ← getW
  whenM (!w.skipping_draw)
    (call .windowTitleUpdate [.nat w.fps, .nat w.lfps])
  whenM (!w.skipping_draw && w.shared_config.osd_encode)
    (drawHud draw)
  whenM (!w.skipping_draw)
    (whenM draw
      (call .copyScreenToSurface []))
  (if w.shared_config.av_dumping then do
    whenM (!w.avencoder) do
      call .avencoderNew []
      modifyW fun w => { w with avencoder := true }
    call .encodeOneFrame [.bool draw, .nat timeIncrement]
  else
    whenM w.avencoder do
      call .avencoderDelete []
      modifyW fun w => { w with avencoder := false })
  whenM (!w.skipping_draw && !w.shared_config.osd_encode)
    (drawHud draw)
  whenM (!w.skipping_draw && draw)
    (call .draw [])

/-- The end of `frameBoundary`, after `receive_messages` (lines 454-549). -/
def inputPhase (draw : Bool) : M Unit := do
  emit .unlockSocket
  let w ← getW
  whenM (!w.skipping_draw && draw)
    (call .restoreScreenState [])
  whenM (w.game_info.sdl1 || w.game_info.sdl2)
    (call .pushNativeSDLEvents [])
  whenM (!w.shared_config.debug_native_events) do
    call .pushNativeXlibEvents []
    call .pushNativeXcbEvents []
  let e ← getE
  call .updateGameInputs []
  modifyW fun w =>
    { w with inp := updateGameInputs e.MAXKEYS w.shared_config.nb_controllers w.inp }
  let cfg := w.shared_config
  whenM (cfg.async_xevents_beg || cfg.async_xevents_end) do
    call .xlibLock []
    call .xlibResetEmpty []
  whenM (cfg.async_sdlevents_beg || cfg.async_sdlevents_end) do
    call .sdlLock []
    call .sdlResetEmpty []
  whenM (!cfg.debug_native_events)
    (call .generateInputEvents [])
  whenM (cfg.async_xevents_beg || cfg.async_xevents_end)
    (call .xlibUnlock [])
  whenM (cfg.async_sdlevents_beg || cfg.async_sdlevents_end)
    (call .sdlUnlock [])
  call .syncControllerEvents []
  whenM cfg.async_xevents_beg
    (call .xlibWaitForEmpty [])
  whenM cfg.async_sdlevents_beg
    (call .sdlWaitForEmpty [])
  let w ← getW
  call .skipDraw [.nat w.fps]
  let r := skipDraw e.undefShl w.shared_config w.skip_counter w.fps
  modifyW fun w => { w with skipping_draw := r.1, skip_counter := r.2 }
  call .exitFrameBoundary []
  whenM (!r.1)
    (call .hudNewFrame [])

/-- The exit path of `frameBoundary` (lines 218-238). -/
def exitPath (draw : Bool) : M Unit := do
  call .flushDelay []
  whenM draw
    (call .draw [])
  let w ← getW
  whenM (w.game_info.sdl1 || w.game_info.sdl2)
    (call .pushNativeSDLEvents [])
  whenM (!w.shared_config.debug_native_events) do
    call .pushNativeXlibEvents []
    call .pushNativeXcbEvents []
  call .exitFrameBoundary []

/-- The start of `frameBoundary`, up to the exit check (lines 158-215); the
result is `timeIncrement`. -/
def enterPhase (draw : Bool) : M Nat := do
  let w ← getW
  whenM (!w.inputs_built)
    (modifyW fun w => { w with
      inp := { w.inp with
        ai := AllInputs.cleared
        old_ai := AllInputs.cleared
        game_ai := AllInputs.cleared
        old_game_ai := AllInputs.cleared
        game_unclipped_ai := AllInputs.cleared
        old_game_unclipped_ai := AllInputs.cleared }
      inputs_built := true })
  call .setCheckpointThread []
  call .setMainThread []
  call .busyLoopReset []
  call .screenCaptureInit []
  whenM w.shared_config.async_xevents_end
    (call .xlibWaitForEmpty [])
  whenM w.shared_config.async_sdlevents_end
    (call .sdlWaitForEmpty [])
  whenM (w.shared_config.gc_sync_witness && decide (w.framecount > 11) && draw)
    (call .detWait [])
  whenM w.shared_config.gc_sync_celeste
    (call .detWait [])
  let e ← getE
  call .isUnity []
  whenM e.isUnity
    (call .unitySyncWaitAll [])
  call .enterFrameBoundary []
  whenM (!e.isLoopback)
    (call .mixAllSources [.nat e.timeIncrement])
  pure e.timeIncrement

/-- The function `frameBoundary`; `draw` tells whether the callback is
non-empty.  The draw callback itself is the traced call `draw`. -/
def frameBoundary (draw : Bool) : M Unit := do
  let timeIncrement ← enterPhase draw
  let w ← getW
  if w.is_exiting then
    exitPath draw
  else do
    modifyW fun w => { w with framecount := (w.framecount + 1) % 2 ^ 64 }
    whenM draw do
      let e ← getE
      let w ← getW
      call .tickFrame [.nat w.framecount]
      modifyW fun w => { w with
        fps := (e.tickFrame w.framecount (w.fps, w.lfps)).1
        lfps := (e.tickFrame w.framecount (w.fps, w.lfps)).2 }
    outboundHandshake draw
    blockingDrain
    renderPhase draw timeIncrement
    receive_messages draw
    inputPhase draw

/-- Run `frameBoundary` from a state. -/
def runFrame (e : Env) (draw : Bool) (w : World) : R Unit :=
  frameBoundary draw e w

/-! ## Definitions used in statements -/

/-- The clamp that the clipping step applies to one coordinate. -/
def clipAxis (origin size v : Int) : Int :=
  if v < origin then origin else if v ≥ origin + size then origin + size - 1 else v

/-- The value that the pointer-mode rules give one coordinate of a delivered
snapshot: `cur` is the coordinate before the call, `frozen` the value it takes
on the switch from RELATIVE to ABSOLUTE, `a` and `o` the supplied coordinate
and its previous value. -/
def modeRule (aiMode gameMode : PointerMode) (cur frozen a o : Int) : Int :=
  if aiMode = .POINTER_MODE_RELATIVE then cur + a
  else if gameMode = .POINTER_MODE_RELATIVE then frozen
  else cur + (a - o)

/-- The piece `m` leaves the observation `proj` of the state unchanged, however
it ends. -/
structure Keeps {α β : Type} (proj : World → β) (m : M α) : Prop where
  keep : ∀ e w, proj (m e w).world = proj w

/-- The observation does not depend on the trace or on the unread input. -/
def ChannelFree {β : Type} (proj : World → β) : Prop :=
  ∀ (w : World) (t : List Event) (i : List Item),
    proj { w with trace := t, incoming := i } = proj w

/-- A result `r` reached from the state `w`: nothing was put back on the
socket, and the execution did not stop for lack of loop iterations. -/
def Good {α : Type} (w : World) (r : R α) : Prop :=
  r.world.incoming.length ≤ w.incoming.length ∧ ∀ w1, r ≠ .stop .outOfFuel w1

/-- The piece `m` only consumes input and never uses up a loop bound. -/
structure Tame {α : Type} (m : M α) : Prop where
  good : ∀ e w, Good w (m e w)

/-! ## Configurations used in examples -/

/-- A snapshot for examples: cleared, with the given pointer record. -/
def snapshotWithPointer (p : MouseInputs) : AllInputs :=
  { AllInputs.cleared with pointer := p }

/-- An input state for examples: every snapshot cleared, with the given
clipping settings. -/
def inputStateCleared (clip : Bool) (x y w h : Int) : InputState :=
  { ai := AllInputs.cleared, old_ai := AllInputs.cleared, game_ai := AllInputs.cleared,
    old_game_ai := AllInputs.cleared, game_unclipped_ai := AllInputs.cleared,
    old_game_unclipped_ai := AllInputs.cleared, pointer_clipping := clip,
    clipping_x := x, clipping_y := y, clipping_w := w, clipping_h := h }


/-- A configuration for examples: fast-forward on, running, not dumping, with
the given render mode. -/
def cfgFastForward (mode : FastForwardRender) : SharedConfig :=
  { fastforward := true, running := true, av_dumping := false,
    fastforward_render := mode, nb_controllers := 1, osd_encode := false,
    variable_framerate := false, framerate_num := 60, framerate_den := 1,
    async_xevents_beg := false, async_xevents_end := false,
    async_sdlevents_beg := false, async_sdlevents_end := false,
    gc_sync_witness := false, gc_sync_celeste := false,
    debug_native_events := false, ss_fork := false }


/-- An environment for examples: every send succeeds, no child process, every
snapshot request fails. -/
def envExample : Env :=
  { undefShl := fun _ => 0, MAXKEYS := 16, isUnity := false, isLoopback := false,
    timeIncrement := 1, tickFrame := fun _ p => p, sendMessageRet := fun _ => 0,
    getTicks := fun _ _ => (0, 0), deadChildren := fun _ => [],
    checkpoint := fun _ _ => 1, isLoading := fun _ => false,
    restore := fun _ _ => some 1, doRender := fun _ => true,
    getDimensions := fun _ => (640, 480), slot0 := 0 }

/-- A state for examples: a fresh process with the given frame count, exit
flag and socket contents. -/
def worldExample (framecount : Nat) (is_exiting : Bool) (incoming : List Item) : World :=
  { framecount := framecount, nondraw_framecount := 0, didASavestate := false,
    skip_counter := 0, inputs_built := false, fps := 0, lfps := 0,
    is_exiting := is_exiting, skipping_draw := false,
    shared_config := cfgFastForward (.FF_RENDER_OTHER 1),
    game_info := { tosend := true, sdl1 := false, sdl2 := true },
    inp := inputStateCleared false 0 0 0 0, avencoder := false,
    threadListChanged := false, gameXWindows := [], gameDisplays := [],
    slot := 0, preview_ai := AllInputs.cleared, incoming := incoming, trace := [] }

/-! ## Definitions for the input snapshots, the exit path and the traces -/

/-- One frame of input merging: the snapshot supplied for the frame, the
number of configured controllers and the clipping settings in force when
`updateGameInputs` runs. -/
structure MergeStep where
  ai : AllInputs
  nb_controllers : Int
  pointer_clipping : Bool
  clipping_x : Int
  clipping_y : Int
  clipping_w : Int
  clipping_h : Int

/-- The call of `updateGameInputs` of one frame. -/
def applyMergeStep (MAXKEYS : Nat) (s : InputState) (st : MergeStep) : InputState :=
  updateGameInputs MAXKEYS st.nb_controllers
    { s with
      ai := st.ai
      pointer_clipping := st.pointer_clipping
      clipping_x := st.clipping_x
      clipping_y := st.clipping_y
      clipping_w := st.clipping_w
      clipping_h := st.clipping_h }

/-- A sequence of `updateGameInputs` calls, one per frame. -/
def runMerges (MAXKEYS : Nat) (s : InputState) (steps : List MergeStep) : InputState :=
  steps.foldl (applyMergeStep MAXKEYS) s

/-- The unclipped delivered snapshot still has the non-pointer fields of a
cleared snapshot. -/
def UnclippedStale (s : InputState) : Prop :=
  s.game_unclipped_ai.keyboard = AllInputs.cleared.keyboard ∧
  s.game_unclipped_ai.pointer.mode = AllInputs.cleared.pointer.mode ∧
  s.game_unclipped_ai.pointer.mask = AllInputs.cleared.pointer.mask ∧
  s.game_unclipped_ai.controllers = AllInputs.cleared.controllers ∧
  s.game_unclipped_ai.misc = AllInputs.cleared.misc

/-- A merge step for examples: clipping inactive, one controller. -/
def mergeStepOf (a : AllInputs) : MergeStep :=
  { ai := a, nb_controllers := 1, pointer_clipping := false,
    clipping_x := 0, clipping_y := 0, clipping_w := 0, clipping_h := 0 }

/-- The events of the exit path. -/
def exitEvents (draw : Bool) (w : World) : List Event :=
  [.call .flushDelay []] ++ (if draw then [.call .draw []] else []) ++
    (if w.game_info.sdl1 || w.game_info.sdl2 then [.call .pushNativeSDLEvents []] else []) ++
    (if !w.shared_config.debug_native_events then
      [.call .pushNativeXlibEvents [], .call .pushNativeXcbEvents []] else []) ++
    [.call .exitFrameBoundary []]

/-- The state after the one-time `buildAndClear` of the six snapshots. -/
def builtInputs (w : World) : World :=
  if !w.inputs_built then
    { w with
      inp := { w.inp with
        ai := AllInputs.cleared
        old_ai := AllInputs.cleared
        game_ai := AllInputs.cleared
        old_game_ai := AllInputs.cleared
        game_unclipped_ai := AllInputs.cleared
        old_game_unclipped_ai := AllInputs.cleared }
      inputs_built := true }
  else w

/-- The events of `frameBoundary` up to the exit check. -/
def enterEvents (e : Env) (draw : Bool) (w : World) : List Event :=
  [.call .setCheckpointThread [], .call .setMainThread [], .call .busyLoopReset [],
    .call .screenCaptureInit []] ++
  (if w.shared_config.async_xevents_end then [.call .xlibWaitForEmpty []] else []) ++
  (if w.shared_config.async_sdlevents_end then [.call .sdlWaitForEmpty []] else []) ++
  (if w.shared_config.gc_sync_witness && decide (w.framecount > 11) && draw then
    [.call .detWait []] else []) ++
  (if w.shared_config.gc_sync_celeste then [.call .detWait []] else []) ++
  [.call .isUnity []] ++
  (if e.isUnity then [.call .unitySyncWaitAll []] else []) ++
  [.call .enterFrameBoundary []] ++
  (if !e.isLoopback then [.call .mixAllSources [.nat e.timeIncrement]] else [])

/-- The events that the two drains and the render phase can add to the trace:
receives, payload sends, the tags sent by message handlers, and collaborator
calls other than the ones `frameBoundary` makes itself around these phases. -/
def midEvent : Event → Bool
  | .lockSocket => false
  | .unlockSocket => false
  | .sendMessage .MSGB_GAMEINFO => false
  | .sendMessage .MSGB_FPS => false
  | .sendMessage .MSGB_INVALIDATE_SAVESTATES => false
  | .sendMessage .MSGB_NONDRAW_FRAME => false
  | .sendMessage .MSGB_START_FRAMEBOUNDARY => false
  | .sendMessage _ => true
  | .sendData _ => true
  | .receiveMessage _ => true
  | .receiveMessageNonBlocking _ => true
  | .receiveData => true
  | .call .updateGameInputs _ => false
  | .call .skipDraw _ => false
  | .call .exitFrameBoundary _ => false
  | .call .enterFrameBoundary _ => false
  | .call _ _ => true

/-- The events that the blocking drain can add to the trace: as `midEvent`,
without the draw callback and without polls. -/
def drainEvent : Event → Bool
  | .call .draw _ => false
  | .receiveMessageNonBlocking _ => false
  | ev => midEvent ev

/-- The state that only the frame-level code of `frameBoundary` writes. -/
def frameFields (w : World) :
    GameInfo × Bool × Nat × Bool × Nat × Nat × Nat × Bool :=
  (w.game_info, w.skipping_draw, w.skip_counter, w.threadListChanged, w.framecount,
    w.fps, w.lfps, w.inputs_built)

/-- What a piece `m` does to the trace and how it can end the process: it
only appends events, all of them satisfying `Q`; it leaves the observation
`proj` of the state unchanged; and it ends the process with `exit` only with
status 1, right after sending a `MSGB_FRAMECOUNT_TIME` tag whose `sendMessage`
returned -1. -/
structure Traced {α β : Type} (Q : Event → Prop) (proj : World → β) (m : M α) : Prop where
  grows : ∀ e w, ∃ t, (m e w).world.trace = w.trace ++ t ∧ ∀ ev ∈ t, Q ev
  fixed : ∀ e w, proj (m e w).world = proj w
  exits : ∀ e w s w1, m e w = .stop (.exited s) w1 →
    s = 1 ∧ ∃ t0, w1.trace = t0 ++ [.sendMessage .MSGB_FRAMECOUNT_TIME] ∧
      e.sendMessageRet t0.length = -1

/-- The events of a successful `sendFrameCountTime` from the state `w`. -/
def frameCountTimeEvents (e : Env) (w : World) : List Event :=
  [.sendMessage .MSGB_FRAMECOUNT_TIME,
   .sendData (.u64 w.framecount),
   .sendData (.u64 (toU64 (e.getTicks .TIMETYPE_UNTRACKED_MONOTONIC (w.trace.length + 2)).1)),
   .sendData (.u64 (toU64 (e.getTicks .TIMETYPE_UNTRACKED_MONOTONIC (w.trace.length + 2)).2)),
   .sendData (.u64 (toU64 (e.getTicks .TIMETYPE_UNTRACKED_REALTIME (w.trace.length + 4)).1)),
   .sendData (.u64 (toU64 (e.getTicks .TIMETYPE_UNTRACKED_REALTIME (w.trace.length + 4)).2))]

/-- A collaborator call other than `updateGameInputs` and `skipDraw`: not a
socket operation. -/
def quietCall : Event → Bool
  | .call .updateGameInputs _ => false
  | .call .skipDraw _ => false
  | .call _ _ => true
  | _ => false

/-! ## Event classes of the drains -/

/-- The property of events that the blocking drain emits. -/
@[reducible] def DrainOK (ev : Event) : Prop := drainEvent ev = true

/-- The property of events that the drains and the render phase emit. -/
@[reducible] def MidOK (ev : Event) : Prop := midEvent ev = true

/-! ## Definitions for the savestate handlers -/

/-- An event other than the send of `MSGB_SAVING_SUCCEEDED`. -/
def notSavingSucceeded : Event → Bool
  | .sendMessage .MSGB_SAVING_SUCCEEDED => false
  | _ => true

/-- The property of events of a save that did not succeed. -/
@[reducible] def NotSaved (ev : Event) : Prop := notSavingSucceeded ev = true

/-! ## Display messages -/

/-- How an execution stopped, if it did. -/
def R.stopped {α : Type} : R α → Option Outcome
  | .ok _ _ => none
  | .stop o _ => some o

/-- A message that the blocking drain of `frameBoundary` has a `case` for,
with its payload. -/
inductive DisplayMsg where
  | ramwatch (s : String)
  | luaResolution
  | luaText (x y : Int) (text : String) (color : Nat)
  | luaPixel (x y : Int) (color : Nat)
  | luaRect (x y w h thickness : Int) (color : Nat) (filled : Int)
  | luaLine (x0 y0 x1 y1 : Int) (color : Nat)
  | luaEllipse (center_x center_y radius_x radius_y : Int) (color : Nat)

/-- The tag of a display message. -/
def DisplayMsg.tagOf : DisplayMsg → MsgN
  | .ramwatch _ => .MSGN_RAMWATCH
  | .luaResolution => .MSGN_LUA_RESOLUTION
  | .luaText _ _ _ _ => .MSGN_LUA_TEXT
  | .luaPixel _ _ _ => .MSGN_LUA_PIXEL
  | .luaRect _ _ _ _ _ _ _ => .MSGN_LUA_RECT
  | .luaLine _ _ _ _ _ => .MSGN_LUA_LINE
  | .luaEllipse _ _ _ _ _ => .MSGN_LUA_ELLIPSE

/-- What the controller puts on the socket after the tag of a display
message. -/
def DisplayMsg.payload : DisplayMsg → List Item
  | .ramwatch s => [.str s]
  | .luaResolution => []
  | .luaText x y text color => [.int x, .int y, .str text, .u32 color]
  | .luaPixel x y color => [.int x, .int y, .u32 color]
  | .luaRect x y w h thickness color filled =>
    [.int x, .int y, .int w, .int h, .int thickness, .u32 color, .int filled]
  | .luaLine x0 y0 x1 y1 color => [.int x0, .int y0, .int x1, .int y1, .u32 color]
  | .luaEllipse cx cy rx ry color => [.int cx, .int cy, .int rx, .int ry, .u32 color]

/-- What handling a display message adds to the trace after the receive of
its tag: the receives of the payload and the call that applies the message;
`n` is the length of the trace when the handling starts. -/
def DisplayMsg.applied (e : Env) (n : Nat) : DisplayMsg → List Event
  | .ramwatch s => [.receiveData, .call .watchesInsert [.str s]]
  | .luaResolution =>
    [.call .getDimensions [], .sendMessage .MSGB_LUA_RESOLUTION,
     .sendData (.int (e.getDimensions n).1), .sendData (.int (e.getDimensions n).2)]
  | .luaText x y text color =>
    [.receiveData, .receiveData, .receiveData, .receiveData,
     .call .luaInsertText [.int x, .int y, .str text, .nat color]]
  | .luaPixel x y color =>
    [.receiveData, .receiveData, .receiveData,
     .call .luaInsertPixel [.int x, .int y, .nat color]]
  | .luaRect x y w h thickness color filled =>
    [.receiveData, .receiveData, .receiveData, .receiveData, .receiveData, .receiveData,
     .receiveData,
     .call .luaInsertRect
       [.int x, .int y, .int w, .int h, .int thickness, .nat color, .int filled]]
  | .luaLine x0 y0 x1 y1 color =>
    [.receiveData, .receiveData, .receiveData, .receiveData, .receiveData,
     .call .luaInsertLine [.int x0, .int y0, .int x1, .int y1, .nat color]]
  | .luaEllipse cx cy rx ry color =>
    [.receiveData, .receiveData, .receiveData, .receiveData, .receiveData,
     .call .luaInsertEllipse [.int cx, .int cy, .int rx, .int ry, .nat color]]

/-- A sequence of display messages as the controller writes it. -/
def encodeDisplay : List DisplayMsg → List Item
  | [] => []
  | m :: ms => .tag m.tagOf :: (m.payload ++ encodeDisplay ms)

/-- The trace after the display messages `ms` have been received and applied
one after the other, starting with the trace `t`. -/
def drainTrace (e : Env) : List Event → List DisplayMsg → List Event
  | t, [] => t
  | t, m :: ms =>
    drainTrace e (t ++ (.receiveMessage m.tagOf :: m.applied e (t.length + 1))) ms

/-! ## Definitions for the outbound handshake -/

/-- The state of a non-exit `frameBoundary` call when the outbound handshake
starts: the snapshots built, the frame count increased, the FPS values
recomputed when a draw callback is given. -/
def frameStart (e : Env) (draw : Bool) (w : World) : World :=
  { builtInputs w with
    framecount := (w.framecount + 1) % 2 ^ 64
    fps := if draw then
        (e.tickFrame ((w.framecount + 1) % 2 ^ 64) (w.fps, w.lfps)).1 else w.fps
    lfps := if draw then
        (e.tickFrame ((w.framecount + 1) % 2 ^ 64) (w.fps, w.lfps)).2 else w.lfps
    trace := w.trace ++ (enterEvents e draw w ++
      (if draw then [.call .tickFrame [.nat ((w.framecount + 1) % 2 ^ 64)]] else [])) }

/-- The events of an outbound handshake whose first send succeeds, from the
state `w`. -/
def handshakeEvents (e : Env) (draw : Bool) (w : World) : List Event :=
  [.lockSocket] ++
  frameCountTimeEvents e { w with trace := w.trace ++ [.lockSocket] } ++
  (if w.game_info.tosend then [.sendMessage .MSGB_GAMEINFO, .sendData .gameInfo] else []) ++
  [.sendMessage .MSGB_FPS, .sendData (.f32 w.fps), .sendData (.f32 w.lfps),
   .call .hasThreadListChanged []] ++
  (if w.threadListChanged then
    [.sendMessage .MSGB_INVALIDATE_SAVESTATES, .call .resetThreadListChanged []] else []) ++
  (if !draw then [.sendMessage .MSGB_NONDRAW_FRAME] else []) ++
  [.sendMessage .MSGB_START_FRAMEBOUNDARY, .call .watchesReset [], .call .luaDrawReset []]

/-- The tag of a `sendMessage` event. -/
def sentTag : Event → Option MsgB
  | .sendMessage m => some m
  | _ => none

/-- A receive of any kind. -/
def Event.isReceive : Event → Bool
  | .receiveMessage _ => true
  | .receiveMessageNonBlocking _ => true
  | .receiveData => true
  | _ => false

/-- The tags that the outbound handshake sends, in order. -/
def handshakeTags (draw : Bool) (w : World) : List MsgB :=
  [.MSGB_FRAMECOUNT_TIME] ++ (if w.game_info.tosend then [.MSGB_GAMEINFO] else []) ++
  [.MSGB_FPS] ++ (if w.threadListChanged then [.MSGB_INVALIDATE_SAVESTATES] else []) ++
  (if !draw then [.MSGB_NONDRAW_FRAME] else []) ++ [.MSGB_START_FRAMEBOUNDARY]

/-- A collaborator call of the set-up of a frame: not the draw callback, not
`updateGameInputs`, `skipDraw` or `exitFrameBoundary`, and not a socket
operation. -/
def setupEvent : Event → Bool
  | .call .updateGameInputs _ => false
  | .call .skipDraw _ => false
  | .call .draw _ => false
  | .call .exitFrameBoundary _ => false
  | .call _ _ => true
  | _ => false

/-- The events of a non-exit `frameBoundary` call before the outbound
handshake. -/
def setupEvents (e : Env) (draw : Bool) (w : World) : List Event :=
  enterEvents e draw w ++
    (if draw then [.call .tickFrame [.nat ((w.framecount + 1) % 2 ^ 64)]] else [])

/-- No condition on events. -/
@[reducible] def AnyEvent (_ : Event) : Prop := True

/-- No observation of the state. -/
def noFields (_ : World) : Unit := ()

/-! ## Definitions for the rest of the frame -/

/-- The events that can follow the outbound handshake in a frame: anything
but `lockSocket` and the tags of the handshake. -/
def restEvent : Event → Bool
  | .lockSocket => false
  | .sendMessage .MSGB_GAMEINFO => false
  | .sendMessage .MSGB_FPS => false
  | .sendMessage .MSGB_INVALIDATE_SAVESTATES => false
  | .sendMessage .MSGB_NONDRAW_FRAME => false
  | .sendMessage .MSGB_START_FRAMEBOUNDARY => false
  | _ => true

/-- The property of events that follow the outbound handshake. -/
@[reducible] def RestOK (ev : Event) : Prop := restEvent ev = true

/-- The two flags that the outbound handshake clears. -/
def flagFields (w : World) : Bool × Bool := (w.game_info.tosend, w.threadListChanged)

/-- The first thing the piece `m` does to the trace, if anything, is to
receive a message tag; if it stops before, the trace is as it was. -/
structure StartsWithReceive {α : Type} (m : M α) : Prop where
  first : ∀ e w, (∃ o w1, m e w = .stop o w1 ∧ w1.trace = w.trace) ∨
    (∃ x t, (m e w).world.trace = w.trace ++ .receiveMessage x :: t)

/-! ## Sequences of frames -/

/-- A sequence of `frameBoundary` calls that all return: each call has its
own collaborator answers, its own draw callback (present or not), and the
items that the controller has written to the socket since the previous call.
The result is the state after the last call, or `none` when a call does not
return. -/
def runFrames : World → List (Env × Bool × List Item) → Option World
  | w, [] => some w
  | w, (e, draw, more) :: fs =>
    match runFrame e draw { w with incoming := w.incoming ++ more } with
    | .ok _ w1 => runFrames w1 fs
    | .stop _ _ => none

/-! ## Definitions for the non-blocking drain -/

/-- The values that the `switch` of `receive_messages` has a `case` for. -/
def recognized : MsgN → Bool
  | .MSGN_USERQUIT => true
  | .MSGN_CONFIG => true
  | .MSGN_DUMP_FILE => true
  | .MSGN_SCREENSHOT => true
  | .MSGN_ALL_INPUTS => true
  | .MSGN_EXPOSE => true
  | .MSGN_PREVIEW_INPUTS => true
  | .MSGN_SAVESTATE_PATH => true
  | .MSGN_SAVESTATE_INDEX => true
  | .MSGN_SAVESTATE => true
  | .MSGN_LOADSTATE => true
  | .MSGN_STOP_ENCODE => true
  | .MSGN_OSD_MSG => true
  | .MSGN_MARKER => true
  | .MSGN_END_FRAMEBOUNDARY => true
  | .other v => decide (v = -1)
  | _ => false

/-- The piece `m` never returns `false`. -/
structure EndsTrue (m : M Bool) : Prop where
  ne_false : ∀ e w w1, m e w ≠ .ok false w1

/-- The property of events that are collaborator calls. -/
@[reducible] def QuietOK (ev : Event) : Prop := quietCall ev = true

/-- The events of the loop of `pushQuitEvent` over the displays. -/
def quitDisplayEvents (window : Nat) : Nat → List Bool → List Event
  | _, [] => []
  | i, d :: rest =>
    (if d then [.call .xSendDeleteWindow [.nat i, .nat window], .call .xSync [.nat i]]
      else []) ++ quitDisplayEvents window (i + 1) rest

/-- The events of `pushQuitEvent`. -/
def quitEvents (w : World) : List Event :=
  (if w.game_info.sdl1 then [.call .sdlInsertQuit1 []] else []) ++
  (if w.game_info.sdl2 then [.call .sdlInsertQuit2 []] else []) ++
  (match w.gameXWindows with
    | [] => []
    | front :: _ => quitDisplayEvents front 0 w.gameDisplays)

/-- Why `receive_messages` has returned, read off the trace `t` and the exit
flag at the return: the last poll received END_FRAMEBOUNDARY; or the last poll
found no message (a negative value) while the game is exiting; or the last
poll received a value that the `switch` has no `case` for, and the error was
logged. -/
def ReturnCause (t : List Event) (is_exiting : Bool) : Prop :=
  (∃ t0, t = t0 ++ [.receiveMessageNonBlocking .MSGN_END_FRAMEBOUNDARY]) ∨
  (is_exiting = true ∧ ∃ t0 v, v < 0 ∧
    t = t0 ++ [.receiveMessageNonBlocking (.other v), .call .pushNativeXlibEvents [],
      .call .pushNativeXcbEvents []]) ∨
  (∃ t0 m mid, recognized m = false ∧
    t = t0 ++ (.receiveMessageNonBlocking m :: mid) ++ [.call .logError []] ∧
    ∀ ev ∈ mid, quietCall ev = true)

/-! ## Definitions for the end of the frame -/

/-- The events of `frameBoundary` between `unlockSocket` and the call of
`updateGameInputs`. -/
def afterUnlockEvents (draw : Bool) (w : World) : List Event :=
  (if !w.skipping_draw && draw then [.call .restoreScreenState []] else []) ++
  (if w.game_info.sdl1 || w.game_info.sdl2 then [.call .pushNativeSDLEvents []] else []) ++
  (if !w.shared_config.debug_native_events then
    [.call .pushNativeXlibEvents [], .call .pushNativeXcbEvents []] else [])

/-- The events of `frameBoundary` between the call of `updateGameInputs` and
the call of `skipDraw`. -/
def afterMergeEvents (w : World) : List Event :=
  (if w.shared_config.async_xevents_beg || w.shared_config.async_xevents_end then
    [.call .xlibLock [], .call .xlibResetEmpty []] else []) ++
  (if w.shared_config.async_sdlevents_beg || w.shared_config.async_sdlevents_end then
    [.call .sdlLock [], .call .sdlResetEmpty []] else []) ++
  (if !w.shared_config.debug_native_events then [.call .generateInputEvents []] else []) ++
  (if w.shared_config.async_xevents_beg || w.shared_config.async_xevents_end then
    [.call .xlibUnlock []] else []) ++
  (if w.shared_config.async_sdlevents_beg || w.shared_config.async_sdlevents_end then
    [.call .sdlUnlock []] else []) ++
  [.call .syncControllerEvents []] ++
  (if w.shared_config.async_xevents_beg then [.call .xlibWaitForEmpty []] else []) ++
  (if w.shared_config.async_sdlevents_beg then [.call .sdlWaitForEmpty []] else [])

/-- The events of the end of `frameBoundary`, from `unlockSocket` on. -/
def inputEvents (e : Env) (draw : Bool) (w : World) : List Event :=
  [.unlockSocket] ++ (afterUnlockEvents draw w ++
    ([.call .updateGameInputs []] ++ (afterMergeEvents w ++
      ([.call .skipDraw [.nat w.fps], .call .exitFrameBoundary []] ++
        (if !(skipDraw e.undefShl w.shared_config w.skip_counter w.fps).1 then
          [.call .hudNewFrame []] else [])))))

/-- An event of the outbound handshake after `lockSocket`: a send, or a
collaborator call that is neither the draw callback nor `updateGameInputs`. -/
def handshakeEvent : Event → Bool
  | .sendMessage _ => true
  | .sendData _ => true
  | ev => setupEvent ev

/-- The events that mark the phases of a frame: the lock and the unlock of
the socket, the input merge, the skip decision, the clock exit. -/
def phaseMarker : Event → Bool
  | .lockSocket => true
  | .unlockSocket => true
  | .call .updateGameInputs _ => true
  | .call .skipDraw _ => true
  | .call .exitFrameBoundary _ => true
  | _ => false

/-- A send or a receive on the socket. -/
def Event.isSocketIO : Event → Bool
  | .sendMessage _ => true
  | .sendData _ => true
  | .receiveMessage _ => true
  | .receiveMessageNonBlocking _ => true
  | .receiveData => true
  | _ => false

/-- An invocation of the draw callback. -/
def Event.isDraw : Event → Bool
  | .call .draw _ => true
  | _ => false

/-! ## The socket override and the window hooks (`socketwrappers.cpp`, `xlib/xwindows.cpp`) -/

/-- `AF_INET` of `<sys/socket.h>` on Linux. -/
def AF_INET : Int := 2

/-- `AF_INET6` of `<sys/socket.h>` on Linux. -/
def AF_INET6 : Int := 10

/-- `EACCES` of `<errno.h>` on Linux. -/
def EACCES : Int := 13

/-- What a call of the `socket` override leaves behind: the value returned,
the value of `errno`, and whether `orig::socket` was called. -/
structure SocketOutcome where
  ret : Int
  errno : Int
  calledOrig : Bool
  deriving DecidableEq, Repr

/-- The override `socket` of `socketwrappers.cpp` (lines 31-45).
`debug_native_inet` is the test `debug_state & DEBUG_NATIVE_INET` on the shared
configuration, `errno` the value of `errno` before the call, and `orig` the
original function: from its three arguments and `errno`, its return value and
the `errno` it leaves. -/
def socket (debug_native_inet : Bool) (orig : Int → Int → Int → Int → Int × Int)
    (errno : Int) (domain type protocol : Int) : SocketOutcome :=
  if domain = AF_INET ∨ domain = AF_INET6 then
    if !debug_native_inet then
      { ret := -1, errno := EACCES, calledOrig := false }
    else
      { ret := (orig domain type protocol errno).1
        errno := (orig domain type protocol errno).2
        calledOrig := true }
  else
    { ret := (orig domain type protocol errno).1
      errno := (orig domain type protocol errno).2
      calledOrig := true }

/-- An original `socket` for examples: it returns the descriptor 3 and leaves
`errno` as it is. -/
def origSocketExample : Int → Int → Int → Int → Int × Int := fun _ _ _ errno => (3, errno)

/-- What the window hooks of `xwindows.cpp` do that can be observed from
outside: socket operations and calls of collaborators and of the original X
functions. -/
inductive XCall where
  | lockSocket
  | sendMessage_MSGB_WINDOW_ID
  | sendData_u32 (v : Nat)
  | unlockSocket
  | ScreenCapture_isInited
  | ScreenCapture_fini
  | ScreenCapture_init
  | orig_XDestroyWindow (w : Nat)
  | XResizeWindow (w width height : Nat)
  | XRRSizes
  deriving DecidableEq, Repr

/-- The function `sendXWindow` (lines 150-158); a `Window` is an
`unsigned long`, the payload is its conversion to `uint32_t`. -/
def sendXWindow (w : Nat) : List XCall :=
  [.lockSocket, .sendMessage_MSGB_WINDOW_ID, .sendData_u32 (w % 2 ^ 32), .unlockSocket]

/-- The loop of `XDestroyWindow` that erases the first element equal to `w`
(lines 184-189). -/
def eraseFirst (w : Nat) : List Nat → List Nat
  | [] => []
  | x :: rest => if w = x then rest else x :: eraseFirst w rest

/-- The function `XDestroyWindow` (lines 160-194): from the list
`gameXWindows`, the flag `is_exiting` and the answer of
`ScreenCapture::isInited`, the new list and what the call does, in order. -/
def XDestroyWindow (gameXWindows : List Nat) (is_exiting inited : Bool) (w : Nat) :
    List Nat × List XCall :=
  match gameXWindows with
  | [] => (eraseFirst w [], [.orig_XDestroyWindow w])
  | front :: rest =>
    if w = front then
      match rest with
      | [] =>
        ([], [.ScreenCapture_isInited, .ScreenCapture_fini] ++ sendXWindow 0 ++
          [.orig_XDestroyWindow w])
      | next :: others =>
        if !is_exiting then
          (next :: others, [.ScreenCapture_isInited, .ScreenCapture_fini] ++
            sendXWindow next ++ (if inited then [.ScreenCapture_init] else []) ++
            [.orig_XDestroyWindow w])
        else
          (next :: others, [.ScreenCapture_isInited, .ScreenCapture_fini,
            .orig_XDestroyWindow w])
    else (eraseFirst w (front :: rest), [.orig_XDestroyWindow w])

/-- A send of the tag WINDOW_ID. -/
def XCall.isWindowId : XCall → Bool
  | .sendMessage_MSGB_WINDOW_ID => true
  | _ => false

/-- `KeyPressMask` of `<X11/X.h>`, `1L<<0`. -/
def KeyPressMask : Nat := 2 ^ 0

/-- `KeyReleaseMask` of `<X11/X.h>`, `1L<<1`. -/
def KeyReleaseMask : Nat := 2 ^ 1

/-- `ButtonPressMask` of `<X11/X.h>`, `1L<<2`. -/
def ButtonPressMask : Nat := 2 ^ 2

/-- `ButtonReleaseMask` of `<X11/X.h>`, `1L<<3`. -/
def ButtonReleaseMask : Nat := 2 ^ 3

/-- `PointerMotionMask` of `<X11/X.h>`, `1L<<6`. -/
def PointerMotionMask : Nat := 2 ^ 6

/-- `CWEventMask` of `<X11/X.h>`, `1L<<11`. -/
def CWEventMask : Nat := 2 ^ 11

/-- The operator `~` on a `long`, as an operation on 64-bit patterns. -/
def notLong (x : Nat) : Nat := 2 ^ 64 - 1 - x % 2 ^ 64

/-- The two statements `event_mask &= ~(KeyPressMask | KeyReleaseMask);
event_mask &= ~(ButtonPressMask | ButtonReleaseMask | PointerMotionMask);`
that `XSelectInput`, `XCreateWindow` and `XChangeWindowAttributes` share, on
the 64-bit pattern of the `long`. -/
def maskInputEvents (event_mask : Nat) : Nat :=
  (event_mask &&& notLong (KeyPressMask ||| KeyReleaseMask)) &&&
    notLong (ButtonPressMask ||| ButtonReleaseMask ||| PointerMotionMask)

/-- What a window hook does with an event mask: the mask it hands to
`XlibEventQueue::setMask`, if it calls it, and the mask that the original X
function receives. -/
structure MaskEffect where
  recorded : Option Nat
  forwarded : Nat
  deriving DecidableEq, Repr

/-- The event mask in `XSelectInput` (lines 282-296). -/
def XSelectInput (event_mask : Nat) : MaskEffect :=
  { recorded := some event_mask, forwarded := maskInputEvents event_mask }

/-- The event mask in `XCreateWindow` (lines 84-106): `valuemask` and
`attributes->event_mask` on entry. -/
def XCreateWindow (valuemask event_mask : Nat) : MaskEffect :=
  if valuemask &&& CWEventMask ≠ 0 then
    { recorded := some event_mask, forwarded := maskInputEvents event_mask }
  else
    { recorded := none, forwarded := event_mask }

/-- The event mask in `XChangeWindowAttributes` (lines 505-524); `native` is
the answer of `GlobalState::isNative`. -/
def XChangeWindowAttributes (native : Bool) (valuemask event_mask : Nat) : MaskEffect :=
  if native then { recorded := none, forwarded := event_mask }
  else if valuemask &&& CWEventMask ≠ 0 then
    { recorded := some event_mask, forwarded := maskInputEvents event_mask }
  else
    { recorded := none, forwarded := event_mask }

/-- The bit positions of the five native input event masks. -/
def inputEventBit (i : Nat) : Bool :=
  decide (2 ^ i = KeyPressMask ∨ 2 ^ i = KeyReleaseMask ∨ 2 ^ i = ButtonPressMask ∨
    2 ^ i = ButtonReleaseMask ∨ 2 ^ i = PointerMotionMask)

/-- The locals of the `_NET_WM_STATE` branch of `XChangeProperty`: the array
`newatoms`, the index `j`, and the calls made so far. -/
structure AtomFilter where
  newatoms : Nat → Nat
  j : Nat
  calls : List XCall

/-- One iteration of the loop over `atoms` (lines 378-405).  `FULLSCREEN` and
`ABOVE` are the atoms `_NET_WM_STATE_FULLSCREEN` and `_NET_WM_STATE_ABOVE`,
`screen` is `(shared_config.screen_width, shared_config.screen_height)`, and
`xrandr` the first size that `XRRSizes` returns when the library is built
with XRandR. -/
def netWmStateBody (FULLSCREEN ABOVE : Nat) (screen : Nat × Nat)
    (xrandr : Option (Nat × Nat)) (w : Nat) (atoms : List Nat) (i : Nat)
    (s : AtomFilter) : AtomFilter :=
  if atoms.getD i 0 = FULLSCREEN then
    { s with calls := s.calls ++
        (if screen.1 ≠ 0 then [.XResizeWindow w screen.1 screen.2]
         else
          match xrandr with
          | some size => [.XRRSizes, .XResizeWindow w size.1 size.2]
          | none => []) }
  else if atoms.getD i 0 = ABOVE then s
  else { s with newatoms := Function.update s.newatoms s.j (atoms.getD i 0), j := s.j + 1 }

/-- The branch `property == x11_atom(_NET_WM_STATE)` of `XChangeProperty` in
the non-native state (lines 374-407): `atoms` is the input array, of length
`nelements`, and `garbage` the indeterminate initial content of `newatoms`.
The result is what `orig::XChangeProperty` receives as data (the first `j`
cells of `newatoms`) and as element count (`j`), and the calls made before. -/
def XChangeProperty_NET_WM_STATE (FULLSCREEN ABOVE : Nat) (screen : Nat × Nat)
    (xrandr : Option (Nat × Nat)) (garbage : Nat → Nat) (w : Nat) (atoms : List Nat) :
    List Nat × Nat × List XCall :=
  let s := forLoop atoms.length (netWmStateBody FULLSCREEN ABOVE screen xrandr w atoms)
    { newatoms := garbage, j := 0, calls := [] }
  ((List.range s.j).map s.newatoms, s.j, s.calls)

/-! ## Definitions for the render phase -/

/-- The events of the HUD block `drawHud` from the state `w`. -/
def hudEvents (draw : Bool) (w : World) : List Event :=
  if draw then
    [.call .hudDrawAll [.nat w.framecount, .nat w.nondraw_framecount], .call .hudRender []]
  else [.call .hudEndFrame []]

/-- The events of the render phase from the state `w`, in order. -/
def renderEvents (draw : Bool) (timeIncrement : Nat) (w : World) : List Event :=
  (if !w.skipping_draw then [.call .windowTitleUpdate [.nat w.fps, .nat w.lfps]] else []) ++
  (if !w.skipping_draw && w.shared_config.osd_encode then hudEvents draw w else []) ++
  (if !w.skipping_draw && draw then [.call .copyScreenToSurface []] else []) ++
  (if w.shared_config.av_dumping then
    (if !w.avencoder then [.call .avencoderNew []] else []) ++
      [.call .encodeOneFrame [.bool draw, .nat timeIncrement]]
   else if w.avencoder then [.call .avencoderDelete []] else []) ++
  (if !w.skipping_draw && !w.shared_config.osd_encode then hudEvents draw w else []) ++
  (if !w.skipping_draw && draw then [.call .draw []] else [])

/-- The state that the render phase reads. -/
def renderFields (w : World) : Bool × SharedConfig × Bool × Nat × Nat × Nat × Nat :=
  (w.skipping_draw, w.shared_config, w.avencoder, w.framecount, w.nondraw_framecount,
    w.fps, w.lfps)

/-- The event is the call that feeds a frame to the encoder. -/
def Event.isEncode : Event → Bool
  | .call .encodeOneFrame _ => true
  | _ => false

/-- A state for examples: a fresh process in fast-forward with render mode
FF_RENDER_NO, dumping or not, and the given socket contents. -/
def worldDumping (av_dumping : Bool) (incoming : List Item) : World :=
  { worldExample 5 false incoming with
    shared_config := { cfgFastForward .FF_RENDER_NO with av_dumping := av_dumping } }

/-! # Theorems -/

/-! ## Render-skip policy -/

theorem skip_freq_ge_four (u : Nat → Nat) (fps : Nat) : 4 ≤ skip_freq u fps := by
  unfold skip_freq
  dsimp only
  split_ifs <;> omega

theorem shl_one_lt (u : Nat → Nat) (c : Nat) : shl_one u c < 2 ^ 32 := by
  unfold shl_one
  split <;> exact Nat.mod_lt _ (by norm_num)

theorem skip_freq_lt (u : Nat → Nat) (fps : Nat) : skip_freq u fps < 2 ^ 32 := by
  unfold skip_freq
  dsimp only
  split_ifs <;> first | exact shl_one_lt _ _ | norm_num

theorem skipDraw_auto (u : Nat → Nat) (cfg : SharedConfig) (c fps : Nat)
    (h : isAuto cfg = true) :
    skipDraw u cfg c fps =
      if skip_freq u fps ≤ (c + 1) % 2 ^ 32 then (false, 0)
      else (true, (c + 1) % 2 ^ 32) := by
  unfold isAuto at h
  unfold skipDraw
  cases hm : cfg.fastforward_render <;> simp_all

theorem skipDrawCalls_nil (u : Nat → Nat) (c : Nat) :
    skipDrawCalls u c [] = ([], c) := rfl

theorem skipDrawCalls_cons (u : Nat → Nat) (c : Nat) (p : SharedConfig × Nat)
    (rest : List (SharedConfig × Nat)) :
    skipDrawCalls u c (p :: rest) =
      ((skipDraw u p.1 c p.2).1 :: (skipDrawCalls u (skipDraw u p.1 c p.2).2 rest).1,
       (skipDrawCalls u (skipDraw u p.1 c p.2).2 rest).2) := by
  cases p; rfl

/-- With a constant frequency `f` and a counter below `f`, call number `i`
(from zero) returns false exactly when `f` divides `c + i + 1`. -/
theorem skipDrawCalls_const (u : Nat → Nat) (f : Nat)
    (calls : List (SharedConfig × Nat))
    (hc : ∀ p ∈ calls, isAuto p.1 = true ∧ skip_freq u p.2 = f) :
    ∀ (c i : Nat), c < f → i < calls.length →
      ((skipDrawCalls u c calls).1[i]? = some false ↔ f ∣ c + i + 1) ∧
      ((skipDrawCalls u c calls).1[i]? = some true ↔ ¬ f ∣ c + i + 1) := by
  induction calls with
  | nil => intro c i _ hi; simp at hi
  | cons p rest ih =>
    intro c i hcf hi
    have hp := hc p (List.mem_cons_self _ _)
    have hrest : ∀ q ∈ rest, isAuto q.1 = true ∧ skip_freq u q.2 = f :=
      fun q hq => hc q (List.mem_cons_of_mem _ hq)
    have hf4 : 4 ≤ f := hp.2 ▸ skip_freq_ge_four u p.2
    have hf32 : f < 2 ^ 32 := hp.2 ▸ skip_freq_lt u p.2
    have hmod : (c + 1) % 2 ^ 32 = c + 1 := Nat.mod_eq_of_lt (by omega)
    rw [skipDrawCalls_cons, skipDraw_auto u p.1 c p.2 hp.1, hp.2, hmod]
    by_cases hle : f ≤ c + 1
    · have hcf1 : c + 1 = f := by omega
      simp only [hle, if_true]
      cases i with
      | zero =>
        simp only [List.getElem?_cons_zero, add_zero]
        rw [hcf1]; simp
      | succ i =>
        simp only [List.getElem?_cons_succ]
        have hi' : i < rest.length := by simpa using hi
        have := ih hrest 0 i (by omega) hi'
        have e : c + (i + 1) + 1 = f + (0 + i + 1) := by omega
        rw [e, Nat.dvd_add_right (dvd_refl f)]
        exact this
    · simp only [hle, if_false]
      cases i with
      | zero =>
        simp only [List.getElem?_cons_zero, add_zero]
        have : ¬ f ∣ c + 1 := fun hd => by
          have := Nat.le_of_dvd (by omega) hd
          omega
        simp [this]
      | succ i =>
        simp only [List.getElem?_cons_succ]
        have hi' : i < rest.length := by simpa using hi
        have := ih hrest (c + 1) i (by omega) hi'
        have e : c + (i + 1) + 1 = c + 1 + i + 1 := by omega
        rw [e]
        exact this

/-- After a call that returns false the counter is small again: a call that
returns false has at least three calls before it since the counter was `c`,
and none of the three calls after it returns false. -/
theorem skipDrawCalls_gap (u : Nat → Nat) (calls : List (SharedConfig × Nat))
    (hc : ∀ p ∈ calls, isAuto p.1 = true) :
    ∀ (c i : Nat), (skipDrawCalls u c calls).1[i]? = some false →
      3 ≤ c + i ∧ ∀ d, 1 ≤ d → d ≤ 3 →
        (skipDrawCalls u c calls).1[i + d]? ≠ some false := by
  induction calls with
  | nil => intro c i h; simp [skipDrawCalls_nil] at h
  | cons p rest ih =>
    intro c i h
    have hp := hc p (List.mem_cons_self _ _)
    have hrest : ∀ q ∈ rest, isAuto q.1 = true :=
      fun q hq => hc q (List.mem_cons_of_mem _ hq)
    have hf4 := skip_freq_ge_four u p.2
    have hmle : (c + 1) % 2 ^ 32 ≤ c + 1 := Nat.mod_le _ _
    rw [skipDrawCalls_cons, skipDraw_auto u p.1 c p.2 hp] at h ⊢
    by_cases hle : skip_freq u p.2 ≤ (c + 1) % 2 ^ 32
    · simp only [hle, if_true] at h ⊢
      cases i with
      | zero =>
        refine ⟨by omega, ?_⟩
        intro d hd1 hd3
        obtain ⟨d', rfl⟩ : ∃ d', d = d' + 1 := ⟨d - 1, by omega⟩
        simp only [zero_add, List.getElem?_cons_succ]
        intro hfalse
        have := (ih hrest 0 d' hfalse).1
        omega
      | succ i =>
        simp only [List.getElem?_cons_succ] at h
        have := ih hrest 0 i h
        refine ⟨by omega, ?_⟩
        intro d hd1 hd3
        have e : i + 1 + d = (i + d) + 1 := by omega
        rw [e, List.getElem?_cons_succ]
        exact this.2 d hd1 hd3
    · simp only [hle, if_false] at h ⊢
      cases i with
      | zero => simp at h
      | succ i =>
        simp only [List.getElem?_cons_succ] at h
        have := ih hrest _ i h
        refine ⟨?_, ?_⟩
        · by_cases hw : c + 1 < 2 ^ 32
          · rw [Nat.mod_eq_of_lt hw] at this; omega
          · omega
        · intro d hd1 hd3
          have e : i + 1 + d = (i + d) + 1 := by omega
          rw [e, List.getElem?_cons_succ]
          exact this.2 d hd1 hd3

theorem log2_fuel_eq : ∀ (fuel n : Nat), n ≤ fuel → log2_fuel fuel n = Nat.log 2 n := by
  intro fuel
  induction fuel with
  | zero =>
    intro n hn
    have : n = 0 := by omega
    subst this
    simp [log2_fuel]
  | succ fuel ih =>
    intro n hn
    unfold log2_fuel
    by_cases h : n < 2
    · simp [h, Nat.log_of_lt h]
    · simp only [h, if_false]
      rw [Nat.log_of_one_lt_of_le (by norm_num) (by omega : 2 ≤ n), ih (n / 2) (by omega)]

theorem ilog2_eq_log (n : Nat) : ilog2 n = Nat.log 2 n :=
  log2_fuel_eq n n le_rfl

theorem ilog2_eq_of {n k : Nat} (h1 : 2 ^ k ≤ n) (h2 : n < 2 ^ (k + 1)) :
    ilog2 n = k := by
  rw [ilog2_eq_log]
  exact Nat.log_eq_of_pow_le_of_lt_pow h1 h2

theorem exists_log_bounds {n : Nat} (h : 1 ≤ n) :
    2 ^ Nat.log 2 n ≤ n ∧ n < 2 ^ (Nat.log 2 n + 1) :=
  ⟨Nat.pow_log_le_self 2 (by omega), Nat.lt_pow_succ_log_self (by norm_num) n⟩


theorem f32_of_nat_fields {n k : Nat} (hk : k ≤ 24) (h1 : 2 ^ k ≤ n)
    (h2 : n < 2 ^ (k + 1)) (h24 : n ≤ 2 ^ 24) :
    f32_exp (f32_of_nat n) = 127 + k ∧
      f32_man (f32_of_nat n) = (n - 2 ^ k) * 2 ^ (23 - k) := by
  have e1 : ilog2 n = k := ilog2_eq_of h1 h2
  simp only [f32_exp, f32_man, f32_of_nat, e1]
  interval_cases k <;> norm_num at h1 h2 h24 ⊢ <;> omega

theorem f32_sub_one_diff {n k : Nat} (hk : k ≤ 24) (h1 : 2 ^ k ≤ n)
    (h2 : n < 2 ^ (k + 1)) (h24 : n ≤ 2 ^ 24) :
    (2 ^ 23 + (n - 2 ^ k) * 2 ^ (23 - k)) * 2 ^ (127 + k - 127) - 2 ^ 23 =
      (n - 1) * 2 ^ 23 := by
  interval_cases k <;> norm_num at h1 h2 h24 ⊢ <;> omega

theorem f32_round_exact {m j : Nat} (hj : j ≤ 23) (h1 : 2 ^ j ≤ m)
    (h2 : m < 2 ^ (j + 1)) :
    f32_round (m * 2 ^ 23) = f32_of_nat m := by
  have e1 : ilog2 m = j := ilog2_eq_of h1 h2
  have hl : ilog2 (m * 2 ^ 23) = 23 + j := by
    apply ilog2_eq_of
    · rw [Nat.add_comm, pow_add]; exact Nat.mul_le_mul_right _ h1
    · rw [show 23 + j + 1 = (j + 1) + 23 by omega, pow_add]
      exact Nat.mul_lt_mul_of_pos_right h2 (by norm_num)
  simp only [f32_round, f32_of_nat, hl, e1]
  interval_cases j <;> norm_num at h1 h2 ⊢ <;> first | omega | (split_ifs <;> omega)


theorem f32_sub_one_of_nat {n : Nat} (h2 : 2 ≤ n) (h24 : n ≤ 2 ^ 24) :
    f32_sub_one (f32_of_nat n) = f32_of_nat (n - 1) := by
  obtain ⟨h1, h1'⟩ := exists_log_bounds (show 1 ≤ n by omega)
  have hk : Nat.log 2 n ≤ 24 :=
    Nat.lt_succ_iff.mp (Nat.log_lt_of_lt_pow (by omega) (by norm_num at h24 ⊢; omega))
  obtain ⟨he, hm⟩ := f32_of_nat_fields hk h1 h1' h24
  obtain ⟨g1, g1'⟩ := exists_log_bounds (show 1 ≤ n - 1 by omega)
  have hj : Nat.log 2 (n - 1) ≤ 23 :=
    Nat.lt_succ_iff.mp (Nat.log_lt_of_lt_pow (by omega) (by norm_num at h24 ⊢; omega))
  unfold f32_sub_one
  rw [if_neg (by rw [he]; omega), he, hm, f32_sub_one_diff hk h1 h1' h24,
    f32_round_exact hj g1 g1']

theorem f32_gt_one_of_nat {n : Nat} (h2 : 2 ≤ n) (h24 : n ≤ 2 ^ 24) :
    f32_gt_one (f32_of_nat n) = true := by
  obtain ⟨h1, h1'⟩ := exists_log_bounds (show 1 ≤ n by omega)
  have hk : Nat.log 2 n ≤ 24 :=
    Nat.lt_succ_iff.mp (Nat.log_lt_of_lt_pow (by omega) (by norm_num at h24 ⊢; omega))
  have hk1 : 1 ≤ Nat.log 2 n := by
    by_contra hlt
    have h0 : Nat.log 2 n = 0 := by omega
    rw [h0] at h1'
    norm_num at h1'
    omega
  have e1 : ilog2 n = Nat.log 2 n := ilog2_eq_log n
  simp only [f32_gt_one, f32_of_nat, e1, F32_ONE, F32_INF, decide_eq_true_eq]
  generalize Nat.log 2 n = k at *
  interval_cases k <;> norm_num at h1 h1' h24 ⊢ <;> omega

theorem clog_eq_log_pred {n : Nat} (h2 : 2 ≤ n) :
    Nat.clog 2 n = Nat.log 2 (n - 1) + 1 := by
  obtain ⟨g1, g1'⟩ := exists_log_bounds (show 1 ≤ n - 1 by omega)
  apply le_antisymm
  · exact (Nat.le_pow_iff_clog_le (by norm_num)).mp (by omega)
  · by_contra hlt
    have hle : Nat.clog 2 n ≤ Nat.log 2 (n - 1) := by omega
    have := (Nat.le_pow_iff_clog_le (by norm_num)).mpr hle
    omega

theorem skip_freq_of_nat (u : Nat → Nat) {n : Nat} (h5 : 5 ≤ n) (h24 : n ≤ 2 ^ 24) :
    f32_exp (f32_sub_one (f32_of_nat n)) = 127 + Nat.log 2 (n - 1) ∧
    skipShiftCount (f32_sub_one (f32_of_nat n)) = Nat.log 2 (n - 1) - 2 ∧
    skip_freq u (f32_of_nat n) = max 4 (2 ^ (Nat.log 2 (n - 1) - 2)) ∧
    2 ^ Nat.clog 2 n / 8 = 2 ^ (Nat.log 2 (n - 1) - 2) := by
  obtain ⟨g1, g1'⟩ := exists_log_bounds (show 1 ≤ n - 1 by omega)
  have hj : Nat.log 2 (n - 1) ≤ 23 :=
    Nat.lt_succ_iff.mp (Nat.log_lt_of_lt_pow (by omega) (by norm_num at h24 ⊢; omega))
  have hj2 : 2 ≤ Nat.log 2 (n - 1) := by
    by_contra hlt
    have : Nat.log 2 (n - 1) + 1 ≤ 2 := by omega
    have := Nat.pow_le_pow_right (show 0 < 2 by norm_num) this
    omega
  have hsub := f32_sub_one_of_nat (show 2 ≤ n by omega) h24
  obtain ⟨he, hm⟩ := f32_of_nat_fields (show Nat.log 2 (n - 1) ≤ 24 by omega) g1 g1'
    (show n - 1 ≤ 2 ^ 24 by omega)
  have hcount : skipShiftCount (f32_of_nat (n - 1)) = Nat.log 2 (n - 1) - 2 := by
    have hdiv : f32_of_nat (n - 1) / 2 ^ 23 = 127 + Nat.log 2 (n - 1) := by
      have hlt : f32_of_nat (n - 1) < 2 ^ 31 := by
        have e1 : ilog2 (n - 1) = Nat.log 2 (n - 1) := ilog2_eq_log _
        simp only [f32_of_nat, e1]
        generalize Nat.log 2 (n - 1) = k at *
        interval_cases k <;> norm_num at g1 g1' ⊢ <;> omega
      unfold f32_exp at he
      norm_num at he hlt ⊢
      omega
    unfold skipShiftCount
    rw [hdiv]
    norm_num
    omega
  refine ⟨by rw [hsub, he], by rw [hsub, hcount], ?_, ?_⟩
  · unfold skip_freq
    simp only [f32_gt_one_of_nat (show 2 ≤ n by omega) h24, if_true, hsub, hcount]
    have hs : shl_one u (Nat.log 2 (n - 1) - 2) = 2 ^ (Nat.log 2 (n - 1) - 2) := by
      unfold shl_one
      rw [if_pos (by omega), one_mul]
      exact Nat.mod_eq_of_lt (Nat.pow_lt_pow_right (by norm_num) (by omega))
    rw [hs]
    split_ifs with h4
    · exact (max_eq_left (by omega)).symm
    · exact (max_eq_right (by omega)).symm
  · rw [clog_eq_log_pred (by omega)]
    have e : Nat.log 2 (n - 1) + 1 = (Nat.log 2 (n - 1) - 2) + 3 := by omega
    rw [e, pow_add]
    norm_num

/-- C2: `skipDraw` follows the ordered decision table.  It returns false, and
leaves the skip counter unchanged, whenever fast-forward is off, or the game is
not running, or `av_dumping` is on, or the render mode is `FF_RENDER_ALL`; with
fast-forward on, running and not dumping it returns true, counter unchanged,
when the mode is `FF_RENDER_NO`. -/
theorem skipDraw_table (undefShl : Nat → Nat) (cfg : SharedConfig) (c fps : Nat) :
    ((cfg.fastforward = false ∨ cfg.running = false ∨ cfg.av_dumping = true ∨
        cfg.fastforward_render = .FF_RENDER_ALL) →
      skipDraw undefShl cfg c fps = (false, c)) ∧
    (cfg.fastforward = true → cfg.running = true → cfg.av_dumping = false →
      cfg.fastforward_render = .FF_RENDER_NO →
      skipDraw undefShl cfg c fps = (true, c)) := by
  constructor
  · intro h
    unfold skipDraw
    rcases h with h | h | h | h
    · simp [h]
    · simp [h]
    · simp [h]
    · simp [h]
  · intro h1 h2 h3 h4
    simp [skipDraw, h1, h2, h3, h4]

/-- Witness of `skipDraw_table`: a paused configuration and a render-none
configuration. -/
theorem skipDraw_table_witness :
    skipDraw (fun _ => 0) { cfgFastForward .FF_RENDER_ALL with running := false } 5
        (f32_of_nat 65) = (false, 5) ∧
    skipDraw (fun _ => 0) (cfgFastForward .FF_RENDER_NO) 5 (f32_of_nat 65) = (true, 5) :=
  ⟨(skipDraw_table _ _ 5 _).1 (Or.inr (Or.inl rfl)),
   (skipDraw_table _ _ 5 _).2 rfl rfl rfl rfl⟩

/-- One flag per call. -/
theorem skipDrawCalls_length (u : Nat → Nat) (calls : List (SharedConfig × Nat)) :
    ∀ c, (skipDrawCalls u c calls).1.length = calls.length := by
  induction calls with
  | nil => intro c; rfl
  | cons p rest ih => intro c; rw [skipDrawCalls_cons]; simp [ih]

/-- An entry of a list of flags that is not false is true. -/
theorem flag_true_of_ne_false {l : List Bool} {i : Nat} (hi : i < l.length)
    (h : l[i]? ≠ some false) : l[i]? = some true := by
  rw [List.getElem?_eq_getElem hi] at h ⊢
  cases hb : l[i] <;> simp_all

/-- C3: in AUTO mode the skip frequency computed by `skipDraw` is the
reference value "divide fps by 8, round up to the next power of two, floor at
4".  For every `fps` for which `fps > 1` is false (in particular every
`fps ≤ 1`) it is 4.  For every integer-valued `fps = n` with `5 ≤ n ≤ 2^24`,
writing `P = 2 ^ Nat.clog 2 n` for the smallest power of two that is at least
`n`: `fps - 1` is the float `n - 1`; the frequency is `max 4 (P / 8)`;
`2 ^ (e - 129) = P / 8` for the biased exponent `e` of `fps - 1`; `P / 8` is the
smallest power of two that is at least `n / 8`; and an AUTO-mode call returns
false exactly when the incremented counter reaches `max 4 (P / 8)`. -/
theorem skip_freq_reference (u : Nat → Nat) :
    (∀ fps, f32_gt_one fps = false → skip_freq u fps = 4) ∧
    (∀ n, 5 ≤ n → n ≤ 2 ^ 24 →
      f32_sub_one (f32_of_nat n) = f32_of_nat (n - 1) ∧
      skip_freq u (f32_of_nat n) = max 4 (2 ^ Nat.clog 2 n / 8) ∧
      2 ^ (f32_exp (f32_sub_one (f32_of_nat n)) - 129) = 2 ^ Nat.clog 2 n / 8 ∧
      (n ≤ 2 ^ Nat.clog 2 n ∧ ∀ i, n ≤ 2 ^ i → 2 ^ Nat.clog 2 n ≤ 2 ^ i) ∧
      (n ≤ 8 * (2 ^ Nat.clog 2 n / 8) ∧
        ∀ i, n ≤ 8 * 2 ^ i → 2 ^ Nat.clog 2 n / 8 ≤ 2 ^ i) ∧
      (∀ cfg c, isAuto cfg = true →
        ((skipDraw u cfg c (f32_of_nat n)).1 = false ↔
          max 4 (2 ^ Nat.clog 2 n / 8) ≤ (c + 1) % 2 ^ 32))) := by
  constructor
  · intro fps h
    simp [skip_freq, h]
  · intro n h5 h24
    obtain ⟨he, _, hf, hp⟩ := skip_freq_of_nat u h5 h24
    have hclog := clog_eq_log_pred (show 2 ≤ n by omega)
    obtain ⟨g1, g1'⟩ := exists_log_bounds (show 1 ≤ n - 1 by omega)
    have hj2 : 2 ≤ Nat.log 2 (n - 1) := by
      by_contra hlt
      have : Nat.log 2 (n - 1) + 1 ≤ 2 := by omega
      have := Nat.pow_le_pow_right (show 0 < 2 by norm_num) this
      omega
    have hfreq : skip_freq u (f32_of_nat n) = max 4 (2 ^ Nat.clog 2 n / 8) := by
      rw [hf, hp]
    have h8 : 8 * (2 ^ Nat.clog 2 n / 8) = 2 ^ Nat.clog 2 n := by
      rw [hp, hclog]
      obtain ⟨j, hj⟩ : ∃ j, Nat.log 2 (n - 1) = j + 2 := ⟨Nat.log 2 (n - 1) - 2, by omega⟩
      rw [hj]
      simp only [Nat.add_sub_cancel, pow_succ]
      omega
    refine ⟨f32_sub_one_of_nat (by omega) h24, hfreq, ?_,
      ⟨Nat.le_pow_clog (by norm_num) n, ?_⟩, ⟨?_, ?_⟩, ?_⟩
    · rw [he, hp, show 127 + Nat.log 2 (n - 1) - 129 = Nat.log 2 (n - 1) - 2 by omega]
    · intro i hi
      exact Nat.pow_le_pow_right (by norm_num) ((Nat.le_pow_iff_clog_le (by norm_num)).mp hi)
    · rw [h8]; exact Nat.le_pow_clog (by norm_num) n
    · intro i hi
      have h3 : n ≤ 2 ^ (i + 3) := by rw [pow_add]; omega
      have := Nat.pow_le_pow_right (show 0 < 2 by norm_num)
        ((Nat.le_pow_iff_clog_le (by norm_num)).mp h3)
      rw [pow_add] at this
      omega
    · intro cfg c hauto
      rw [skipDraw_auto u cfg c _ hauto, hfreq]
      split_ifs with h
      · exact ⟨fun _ => h, fun _ => rfl⟩
      · exact ⟨fun hh => absurd hh (by simp), fun hh => absurd hh h⟩

/-- Witness of `skip_freq_reference`: `fps = 1.0` and `fps = 4096`. -/
theorem skip_freq_reference_witness :
    skip_freq (fun _ => 0) F32_ONE = 4 ∧
    skip_freq (fun _ => 0) (f32_of_nat 4096) = max 4 (2 ^ Nat.clog 2 4096 / 8) :=
  ⟨(skip_freq_reference _).1 F32_ONE (by decide),
   ((skip_freq_reference _).2 4096 (by decide) (by decide)).2.1⟩

/-- The skip frequency at `fps = 65` is 16. -/
theorem skip_freq_65 (u : Nat → Nat) : skip_freq u (f32_of_nat 65) = 16 := by
  have h := (skip_freq_of_nat u (show 5 ≤ 65 by norm_num) (by norm_num)).2.2.1
  have hl : Nat.log 2 (65 - 1) = 6 :=
    Nat.log_eq_of_pow_le_of_lt_pow (by norm_num) (by norm_num)
  rw [h, hl]
  norm_num

/-- C4 fails as stated: with `fps = 65` the skip frequency is 16, not 8, and
starting from counter 0 each of the first eight AUTO-mode calls, the eighth
included, returns true (skip). -/
theorem skipDraw_fps65_eighth_call_skips :
    skip_freq (fun _ => 0) (f32_of_nat 65) = 16 ∧
    (skipDrawCalls (fun _ => 0) 0
      (List.replicate 8 (cfgFastForward (.FF_RENDER_OTHER 1), f32_of_nat 65))).1 =
        [true, true, true, true, true, true, true, true] := by
  decide

/-- C4, amended: in AUTO mode with `fps = 65` the skip frequency is 16
(65 rounds up to 128 and 128 / 8 = 16); starting from counter 0, call number
`i + 1` of `skipDraw(65)` returns false exactly when 16 divides `i + 1`, and
true otherwise. -/
theorem skipDraw_fps65_every_16th (u : Nat → Nat) (cfg : SharedConfig)
    (hauto : isAuto cfg = true) (N i : Nat) (hi : i < N) :
    skip_freq u (f32_of_nat 65) = 16 ∧
    ((skipDrawCalls u 0 (List.replicate N (cfg, f32_of_nat 65))).1[i]? = some false ↔
      16 ∣ i + 1) ∧
    ((skipDrawCalls u 0 (List.replicate N (cfg, f32_of_nat 65))).1[i]? = some true ↔
      ¬ 16 ∣ i + 1) := by
  have h := skipDrawCalls_const u 16 (List.replicate N (cfg, f32_of_nat 65))
    (fun p hp => by
      rw [List.eq_of_mem_replicate hp]
      exact ⟨hauto, skip_freq_65 u⟩) 0 i (by norm_num) (by simpa using hi)
  simpa using And.intro (skip_freq_65 u) h

/-- Witness of `skipDraw_fps65_every_16th`: call number 32 of 40. -/
theorem skipDraw_fps65_every_16th_witness :
    ((skipDrawCalls (fun _ => 0) 0
        (List.replicate 40 (cfgFastForward (.FF_RENDER_OTHER 1), f32_of_nat 65))).1[31]? =
      some false ↔ 16 ∣ 31 + 1) :=
  (skipDraw_fps65_every_16th (fun _ => 0) (cfgFastForward (.FF_RENDER_OTHER 1))
    (by decide) 40 31 (by decide)).2.1

/-- C5: the skip-counter schedule.  An AUTO-mode call returns false exactly
when the incremented counter reaches the skip frequency of that call, and the
counter is then 0 (otherwise it is the incremented counter).  From counter 0
and with a constant frequency `f`, call number `i + 1` returns false exactly
when `f` divides `i + 1`.  From counter 0 and for arbitrary fps values, two
calls that return false are at least four calls apart and the three calls
after the first of them return true. -/
theorem skipDraw_schedule (u : Nat → Nat) :
    (∀ cfg c fps, isAuto cfg = true →
      ((skipDraw u cfg c fps).1 = false ↔ skip_freq u fps ≤ (c + 1) % 2 ^ 32) ∧
      ((skipDraw u cfg c fps).1 = false → (skipDraw u cfg c fps).2 = 0) ∧
      ((skipDraw u cfg c fps).1 = true → (skipDraw u cfg c fps).2 = (c + 1) % 2 ^ 32)) ∧
    (∀ calls f, (∀ p ∈ calls, isAuto p.1 = true ∧ skip_freq u p.2 = f) →
      ∀ i, i < calls.length →
        ((skipDrawCalls u 0 calls).1[i]? = some false ↔ f ∣ i + 1)) ∧
    (∀ calls, (∀ p ∈ calls, isAuto p.1 = true) →
      ∀ i j, i < j →
        (skipDrawCalls u 0 calls).1[i]? = some false →
        (skipDrawCalls u 0 calls).1[j]? = some false →
        i + 4 ≤ j ∧
        (skipDrawCalls u 0 calls).1[i + 1]? = some true ∧
        (skipDrawCalls u 0 calls).1[i + 2]? = some true ∧
        (skipDrawCalls u 0 calls).1[i + 3]? = some true) := by
  refine ⟨?_, ?_, ?_⟩
  · intro cfg c fps hauto
    rw [skipDraw_auto u cfg c fps hauto]
    split_ifs with h
    · exact ⟨⟨fun _ => h, fun _ => rfl⟩, fun _ => rfl, fun hh => absurd hh (by simp)⟩
    · exact ⟨⟨fun hh => absurd hh (by simp), fun hh => absurd hh h⟩,
        fun hh => absurd hh (by simp), fun _ => rfl⟩
  · intro calls f hc i hi
    cases calls with
    | nil => simp at hi
    | cons p rest =>
      have hf4 : 4 ≤ f := (hc p (List.mem_cons_self _ _)).2 ▸ skip_freq_ge_four u p.2
      have := (skipDrawCalls_const u f (p :: rest) hc 0 i (by omega) hi).1
      simpa using this
  · intro calls hc i j hij hi hj
    have hgap := (skipDrawCalls_gap u calls hc 0 i hi).2
    have hjlt : j < (skipDrawCalls u 0 calls).1.length := by
      by_contra hge
      rw [List.getElem?_eq_none (by omega)] at hj
      exact absurd hj (by simp)
    have h4 : i + 4 ≤ j := by
      by_contra hlt
      exact hgap (j - i) (by omega) (by omega) (by rw [show i + (j - i) = j by omega]; exact hj)
    exact ⟨h4,
      flag_true_of_ne_false (by omega) (hgap 1 le_rfl (by norm_num)),
      flag_true_of_ne_false (by omega) (hgap 2 (by norm_num) (by norm_num)),
      flag_true_of_ne_false (by omega) (hgap 3 (by norm_num) le_rfl)⟩

/-- Witness of `skipDraw_schedule`: eight calls at `fps = 5`, whose fourth and
eighth call return false. -/
theorem skipDraw_schedule_witness :
    3 + 4 ≤ 7 ∧
    (skipDrawCalls (fun _ => 0) 0
      (List.replicate 8 (cfgFastForward (.FF_RENDER_OTHER 1), f32_of_nat 5))).1[3 + 1]? =
        some true ∧
    (skipDrawCalls (fun _ => 0) 0
      (List.replicate 8 (cfgFastForward (.FF_RENDER_OTHER 1), f32_of_nat 5))).1[3 + 2]? =
        some true ∧
    (skipDrawCalls (fun _ => 0) 0
      (List.replicate 8 (cfgFastForward (.FF_RENDER_OTHER 1), f32_of_nat 5))).1[3 + 3]? =
        some true :=
  (skipDraw_schedule (fun _ => 0)).2.2
    (List.replicate 8 (cfgFastForward (.FF_RENDER_OTHER 1), f32_of_nat 5))
    (by decide) 3 7 (by decide) (by decide) (by decide)

/-! ## Input merger -/

theorem forLoop_succ {σ : Type} (n : Nat) (body : Nat → σ → σ) (s : σ) :
    forLoop (n + 1) body s = body n (forLoop n body s) := by
  simp [forLoop, List.range_succ, List.foldl_append]

theorem forLoop_zero {σ : Type} (body : Nat → σ → σ) (s : σ) :
    forLoop 0 body s = s := rfl

/-- Closed form of the key-copy loop. -/
theorem forLoop_keys (n : Nat) (s : InputState) :
    forLoop n (fun i s => { s with game_ai := s.game_ai.setKey i (s.ai.keyboard i) }) s =
      { s with game_ai := { s.game_ai with
          keyboard := fun i => if i < n then s.ai.keyboard i else s.game_ai.keyboard i } } := by
  induction n with
  | zero => simp [forLoop_zero]
  | succ n ih =>
    rw [forLoop_succ, ih]
    simp only [AllInputs.setKey]
    congr 2
    funext i
    simp only [Function.update_apply]
    split_ifs <;> first | rfl | omega | (subst_vars; rfl)

/-- Closed form of the controller-copy loop. -/
theorem forLoop_controllers (n : Nat) (s : InputState) :
    forLoop n (fun ji s =>
        { s with game_ai := s.game_ai.setController ji (s.ai.controllers ji) }) s =
      { s with game_ai := { s.game_ai with
          controllers := fun j =>
            if j < n then s.ai.controllers j else s.game_ai.controllers j } } := by
  induction n with
  | zero => simp [forLoop_zero]
  | succ n ih =>
    rw [forLoop_succ, ih]
    simp only [AllInputs.setController]
    congr 2
    funext i
    simp only [Function.update_apply]
    split_ifs <;> first | rfl | omega | (subst_vars; rfl)

theorem clipPointer_fields (s : InputState) :
    (clipPointer s).game_ai.pointer.x =
      (if s.pointer_clipping then clipAxis s.clipping_x s.clipping_w s.game_ai.pointer.x
       else s.game_ai.pointer.x) ∧
    (clipPointer s).game_ai.pointer.y =
      (if s.pointer_clipping then clipAxis s.clipping_y s.clipping_h s.game_ai.pointer.y
       else s.game_ai.pointer.y) ∧
    (clipPointer s).game_ai.pointer.mode = s.game_ai.pointer.mode ∧
    (clipPointer s).game_ai.pointer.mask = s.game_ai.pointer.mask ∧
    (clipPointer s).game_ai.keyboard = s.game_ai.keyboard ∧
    (clipPointer s).game_ai.controllers = s.game_ai.controllers ∧
    (clipPointer s).game_ai.misc = s.game_ai.misc ∧
    (clipPointer s).game_unclipped_ai = s.game_unclipped_ai ∧
    (clipPointer s).ai = s.ai ∧ (clipPointer s).old_ai = s.old_ai ∧
    (clipPointer s).old_game_ai = s.old_game_ai ∧
    (clipPointer s).old_game_unclipped_ai = s.old_game_unclipped_ai ∧
    (clipPointer s).pointer_clipping = s.pointer_clipping ∧
    (clipPointer s).clipping_x = s.clipping_x ∧ (clipPointer s).clipping_y = s.clipping_y ∧
    (clipPointer s).clipping_w = s.clipping_w ∧ (clipPointer s).clipping_h = s.clipping_h := by
  unfold clipPointer clipAxis
  simp only [AllInputs.setX, AllInputs.setY]
  split_ifs <;> simp_all


set_option maxHeartbeats 1000000 in
/-- Every field of the state after `updateGameInputs`, in closed form. -/
theorem updateGameInputs_fields (MAXKEYS : Nat) (nb : Int) (s : InputState) :
    (updateGameInputs MAXKEYS nb s).old_game_ai = s.game_ai ∧
    (updateGameInputs MAXKEYS nb s).old_game_unclipped_ai = s.game_unclipped_ai ∧
    (updateGameInputs MAXKEYS nb s).old_ai = s.ai ∧
    (updateGameInputs MAXKEYS nb s).ai = s.ai ∧
    (updateGameInputs MAXKEYS nb s).pointer_clipping = s.pointer_clipping ∧
    (updateGameInputs MAXKEYS nb s).clipping_x = s.clipping_x ∧
    (updateGameInputs MAXKEYS nb s).clipping_y = s.clipping_y ∧
    (updateGameInputs MAXKEYS nb s).clipping_w = s.clipping_w ∧
    (updateGameInputs MAXKEYS nb s).clipping_h = s.clipping_h ∧
    (updateGameInputs MAXKEYS nb s).game_ai.keyboard =
      (fun i => if i < MAXKEYS then s.ai.keyboard i else s.game_ai.keyboard i) ∧
    (updateGameInputs MAXKEYS nb s).game_ai.controllers =
      (fun j => if j < nb.toNat then s.ai.controllers j else s.game_ai.controllers j) ∧
    (updateGameInputs MAXKEYS nb s).game_ai.pointer.mode = s.ai.pointer.mode ∧
    (updateGameInputs MAXKEYS nb s).game_ai.pointer.mask = s.ai.pointer.mask ∧
    (updateGameInputs MAXKEYS nb s).game_ai.misc.flags = s.ai.misc.flags ∧
    (updateGameInputs MAXKEYS nb s).game_ai.pointer.x =
      (if s.pointer_clipping then
        clipAxis s.clipping_x s.clipping_w
          (modeRule s.ai.pointer.mode s.game_ai.pointer.mode s.game_ai.pointer.x
            s.game_ai.pointer.x s.ai.pointer.x s.old_ai.pointer.x)
       else modeRule s.ai.pointer.mode s.game_ai.pointer.mode s.game_ai.pointer.x
            s.game_ai.pointer.x s.ai.pointer.x s.old_ai.pointer.x) ∧
    (updateGameInputs MAXKEYS nb s).game_ai.pointer.y =
      (if s.pointer_clipping then
        clipAxis s.clipping_y s.clipping_h
          (modeRule s.ai.pointer.mode s.game_ai.pointer.mode s.game_ai.pointer.y
            s.game_ai.pointer.y s.ai.pointer.y s.old_ai.pointer.y)
       else modeRule s.ai.pointer.mode s.game_ai.pointer.mode s.game_ai.pointer.y
            s.game_ai.pointer.y s.ai.pointer.y s.old_ai.pointer.y) ∧
    (updateGameInputs MAXKEYS nb s).game_unclipped_ai.pointer.x =
      modeRule s.ai.pointer.mode s.game_ai.pointer.mode s.game_unclipped_ai.pointer.x
        s.game_unclipped_ai.pointer.x s.ai.pointer.x s.old_ai.pointer.x ∧
    (updateGameInputs MAXKEYS nb s).game_unclipped_ai.pointer.y =
      modeRule s.ai.pointer.mode s.game_ai.pointer.mode s.game_unclipped_ai.pointer.y
        s.game_unclipped_ai.pointer.y s.ai.pointer.y s.old_ai.pointer.y ∧
    (updateGameInputs MAXKEYS nb s).game_unclipped_ai.pointer.mode =
      s.game_unclipped_ai.pointer.mode ∧
    (updateGameInputs MAXKEYS nb s).game_unclipped_ai.pointer.mask =
      s.game_unclipped_ai.pointer.mask ∧
    (updateGameInputs MAXKEYS nb s).game_unclipped_ai.keyboard =
      s.game_unclipped_ai.keyboard ∧
    (updateGameInputs MAXKEYS nb s).game_unclipped_ai.controllers =
      s.game_unclipped_ai.controllers ∧
    (updateGameInputs MAXKEYS nb s).game_unclipped_ai.misc = s.game_unclipped_ai.misc := by
  unfold updateGameInputs
  simp only [forLoop_keys, forLoop_controllers, AllInputs.setMask, AllInputs.setFlags]
  generalize hm : mergePointer _ = m
  have hmf : m.ai = s.ai ∧ m.old_ai = s.old_ai ∧ m.old_game_ai = s.game_ai ∧
      m.old_game_unclipped_ai = s.game_unclipped_ai ∧
      m.pointer_clipping = s.pointer_clipping ∧ m.clipping_x = s.clipping_x ∧
      m.clipping_y = s.clipping_y ∧ m.clipping_w = s.clipping_w ∧
      m.clipping_h = s.clipping_h ∧
      m.game_ai.keyboard =
        (fun i => if i < MAXKEYS then s.ai.keyboard i else s.game_ai.keyboard i) ∧
      m.game_ai.controllers = s.game_ai.controllers ∧
      m.game_ai.misc = s.game_ai.misc ∧
      m.game_ai.pointer.mode = s.ai.pointer.mode ∧
      m.game_ai.pointer.x = modeRule s.ai.pointer.mode s.game_ai.pointer.mode
        s.game_ai.pointer.x s.game_ai.pointer.x s.ai.pointer.x s.old_ai.pointer.x ∧
      m.game_ai.pointer.y = modeRule s.ai.pointer.mode s.game_ai.pointer.mode
        s.game_ai.pointer.y s.game_ai.pointer.y s.ai.pointer.y s.old_ai.pointer.y ∧
      m.game_unclipped_ai.pointer.x = modeRule s.ai.pointer.mode s.game_ai.pointer.mode
        s.game_unclipped_ai.pointer.x s.game_unclipped_ai.pointer.x s.ai.pointer.x
        s.old_ai.pointer.x ∧
      m.game_unclipped_ai.pointer.y = modeRule s.ai.pointer.mode s.game_ai.pointer.mode
        s.game_unclipped_ai.pointer.y s.game_unclipped_ai.pointer.y s.ai.pointer.y
        s.old_ai.pointer.y ∧
      m.game_unclipped_ai.pointer.mode = s.game_unclipped_ai.pointer.mode ∧
      m.game_unclipped_ai.pointer.mask = s.game_unclipped_ai.pointer.mask ∧
      m.game_unclipped_ai.keyboard = s.game_unclipped_ai.keyboard ∧
      m.game_unclipped_ai.controllers = s.game_unclipped_ai.controllers ∧
      m.game_unclipped_ai.misc = s.game_unclipped_ai.misc := by
    subst hm
    unfold mergePointer modeRule
    simp only [AllInputs.setMode, AllInputs.setX, AllInputs.setY]
    split_ifs <;> simp_all
  obtain ⟨h1, h2, h3, h4, h5, h6, h7, h8, h9, h10, h11, h12, h13, h14, h15, h16, h17,
    h18, h19, h20, h21, h22⟩ := hmf
  have hcf := clipPointer_fields
    { m with game_ai := { m.game_ai with
        pointer := { m.game_ai.pointer with mask := m.ai.pointer.mask }
        controllers := fun j =>
          if j < nb.toNat then m.ai.controllers j else m.game_ai.controllers j } }
  generalize hc : clipPointer _ = c at hcf ⊢
  obtain ⟨c1, c2, c3, c4, c5, c6, c7, c8, c9, c10, c11, c12, c13, c14, c15, c16, c17⟩ := hcf
  simp only [] at c1 c2 c3 c4 c5 c6 c7 c8 c9 c10 c11 c12 c13 c14 c15 c16 c17
  simp only [c1, c2, c3, c4, c5, c6, c7, c8, c9, c10, c11, c12, c13, c14, c15, c16, c17,
    h1, h2, h3, h4, h5, h6, h7, h8, h9, h10, h11, h12, h13, h14, h15, h16, h17,
    h18, h19, h20, h21, h22, and_self]



theorem clipAxis_of_inside {o w v : Int} (h1 : o ≤ v) (h2 : v < o + w) :
    clipAxis o w v = v := by
  unfold clipAxis
  split_ifs <;> omega

theorem clipAxis_idem {o w : Int} (hw : 1 ≤ w) (v : Int) :
    clipAxis o w (clipAxis o w v) = clipAxis o w v := by
  unfold clipAxis
  split_ifs <;> omega

/-- C6: after `updateGameInputs`, `old_game_ai` is `game_ai` as it was before
the call, `old_game_unclipped_ai` is `game_unclipped_ai` as it was before the
call, `old_ai` is the supplied snapshot `ai`, and `ai` is not modified. -/
theorem updateGameInputs_previous (MAXKEYS : Nat) (nb : Int) (s : InputState) :
    (updateGameInputs MAXKEYS nb s).old_game_ai = s.game_ai ∧
    (updateGameInputs MAXKEYS nb s).old_game_unclipped_ai = s.game_unclipped_ai ∧
    (updateGameInputs MAXKEYS nb s).old_ai = s.ai ∧
    (updateGameInputs MAXKEYS nb s).ai = s.ai := by
  obtain ⟨h1, h2, h3, h4, _⟩ := updateGameInputs_fields MAXKEYS nb s
  exact ⟨h1, h2, h3, h4⟩

/-- C7: after `updateGameInputs` the delivered snapshot agrees with the
supplied one on every key below `MAXKEYS`, on the pointer mode, the button
mask and the misc flags, and on controller `j` for every `j < nb_controllers`;
delivered controllers with index at least `nb_controllers` keep their value. -/
theorem updateGameInputs_copies (MAXKEYS : Nat) (nb : Int) (s : InputState) :
    (∀ i, i < MAXKEYS →
      (updateGameInputs MAXKEYS nb s).game_ai.keyboard i = s.ai.keyboard i) ∧
    (updateGameInputs MAXKEYS nb s).game_ai.pointer.mode = s.ai.pointer.mode ∧
    (updateGameInputs MAXKEYS nb s).game_ai.pointer.mask = s.ai.pointer.mask ∧
    (updateGameInputs MAXKEYS nb s).game_ai.misc.flags = s.ai.misc.flags ∧
    (∀ j : Nat, (j : Int) < nb →
      (updateGameInputs MAXKEYS nb s).game_ai.controllers j = s.ai.controllers j) ∧
    (∀ j : Nat, nb ≤ (j : Int) →
      (updateGameInputs MAXKEYS nb s).game_ai.controllers j = s.game_ai.controllers j) := by
  obtain ⟨_, _, _, _, _, _, _, _, _, hk, hc, hm, hmask, hf, _⟩ :=
    updateGameInputs_fields MAXKEYS nb s
  refine ⟨?_, hm, hmask, hf, ?_, ?_⟩
  · intro i hi
    rw [hk]
    simp [hi]
  · intro j hj
    rw [hc]
    have : j < nb.toNat := by omega
    simp [this]
  · intro j hj
    rw [hc]
    have : ¬ j < nb.toNat := by omega
    simp [this]

/-- Witness of `updateGameInputs_copies`: two configured controllers. -/
theorem updateGameInputs_copies_witness :
    (updateGameInputs 16 2
        { inputStateCleared false 0 0 0 0 with
          ai := { AllInputs.cleared with controllers := fun _ => ⟨[7], 1⟩ } }).game_ai.controllers 1
      = ⟨[7], 1⟩ ∧
    (updateGameInputs 16 2
        { inputStateCleared false 0 0 0 0 with
          ai := { AllInputs.cleared with controllers := fun _ => ⟨[7], 1⟩ } }).game_ai.controllers 2
      = ⟨[], 0⟩ :=
  ⟨(updateGameInputs_copies 16 2 _).2.2.2.2.1 1 (by decide),
   (updateGameInputs_copies 16 2 _).2.2.2.2.2 2 (by decide)⟩

/-- C8: relative-mode accumulation.  After two consecutive merges whose
supplied pointer mode is RELATIVE, with supplied deltas `a1.pointer` then
`a2.pointer`, the unclipped delivered position is its initial value plus both
deltas, and so is the delivered position when pointer clipping is inactive. -/
theorem updateGameInputs_relative_accumulates (MAXKEYS : Nat) (nb1 nb2 : Int)
    (s : InputState) (a1 a2 : AllInputs)
    (h1 : a1.pointer.mode = .POINTER_MODE_RELATIVE)
    (h2 : a2.pointer.mode = .POINTER_MODE_RELATIVE) :
    (updateGameInputs MAXKEYS nb2
      { updateGameInputs MAXKEYS nb1 { s with ai := a1 } with ai := a2 }).game_unclipped_ai.pointer.x
        = s.game_unclipped_ai.pointer.x + a1.pointer.x + a2.pointer.x ∧
    (updateGameInputs MAXKEYS nb2
      { updateGameInputs MAXKEYS nb1 { s with ai := a1 } with ai := a2 }).game_unclipped_ai.pointer.y
        = s.game_unclipped_ai.pointer.y + a1.pointer.y + a2.pointer.y ∧
    (s.pointer_clipping = false →
      (updateGameInputs MAXKEYS nb2
        { updateGameInputs MAXKEYS nb1 { s with ai := a1 } with ai := a2 }).game_ai.pointer.x
          = s.game_ai.pointer.x + a1.pointer.x + a2.pointer.x ∧
      (updateGameInputs MAXKEYS nb2
        { updateGameInputs MAXKEYS nb1 { s with ai := a1 } with ai := a2 }).game_ai.pointer.y
          = s.game_ai.pointer.y + a1.pointer.y + a2.pointer.y) := by
  have f1 := updateGameInputs_fields MAXKEYS nb1 { s with ai := a1 }
  generalize updateGameInputs MAXKEYS nb1 { s with ai := a1 } = s1 at f1 ⊢
  have f2 := updateGameInputs_fields MAXKEYS nb2 { s1 with ai := a2 }
  generalize updateGameInputs MAXKEYS nb2 { s1 with ai := a2 } = s2 at f2 ⊢
  obtain ⟨_, _, _, _, p5, _, _, _, _, _, _, _, _, _, p15, p16, p17, p18, _⟩ := f1
  obtain ⟨_, _, _, _, _, _, _, _, _, _, _, _, _, _, q15, q16, q17, q18, _⟩ := f2
  simp only [modeRule, h1, if_true] at p5 p15 p16 p17 p18
  simp only [modeRule, h2, if_true] at q15 q16 q17 q18
  refine ⟨by rw [q17, p17], by rw [q18, p18], ?_⟩
  intro hclip
  rw [hclip] at p5 p15 p16
  rw [p5] at q15 q16
  simp only [Bool.false_eq_true, if_false] at p15 p16 q15 q16
  exact ⟨by rw [q15, p15], by rw [q16, p16]⟩

/-- Witness of `updateGameInputs_relative_accumulates`: deltas `(2, -1)` then
`(3, 0)` from a cleared state give `(5, -1)`. -/
theorem updateGameInputs_relative_accumulates_witness :
    (updateGameInputs 16 1
      { updateGameInputs 16 1
          { inputStateCleared false 0 0 0 0 with
            ai := snapshotWithPointer ⟨.POINTER_MODE_RELATIVE, 2, -1, 0⟩ } with
        ai := snapshotWithPointer ⟨.POINTER_MODE_RELATIVE, 3, 0, 0⟩ }).game_ai.pointer.x
      = 0 + 2 + 3 ∧
    (updateGameInputs 16 1
      { updateGameInputs 16 1
          { inputStateCleared false 0 0 0 0 with
            ai := snapshotWithPointer ⟨.POINTER_MODE_RELATIVE, 2, -1, 0⟩ } with
        ai := snapshotWithPointer ⟨.POINTER_MODE_RELATIVE, 3, 0, 0⟩ }).game_ai.pointer.y
      = 0 + (-1) + 0 :=
  (updateGameInputs_relative_accumulates 16 1 1 (inputStateCleared false 0 0 0 0)
    (snapshotWithPointer ⟨.POINTER_MODE_RELATIVE, 2, -1, 0⟩)
    (snapshotWithPointer ⟨.POINTER_MODE_RELATIVE, 3, 0, 0⟩) rfl rfl).2.2 rfl


/-- C9: merge idempotence.  When `updateGameInputs` is called twice in a row
with the same supplied snapshot, whose pointer mode is ABSOLUTE, and clipping,
if active, has width and height at least 1, the second call leaves the
delivered and the unclipped delivered pointer position as the first call left
them, whatever the delivered pointer mode was before the first call. -/
theorem updateGameInputs_absolute_idempotent (MAXKEYS : Nat) (nb1 nb2 : Int)
    (s : InputState) (hmode : s.ai.pointer.mode = .POINTER_MODE_ABSOLUTE)
    (hclip : s.pointer_clipping = true → 1 ≤ s.clipping_w ∧ 1 ≤ s.clipping_h) :
    (updateGameInputs MAXKEYS nb2 (updateGameInputs MAXKEYS nb1 s)).game_ai.pointer.x =
      (updateGameInputs MAXKEYS nb1 s).game_ai.pointer.x ∧
    (updateGameInputs MAXKEYS nb2 (updateGameInputs MAXKEYS nb1 s)).game_ai.pointer.y =
      (updateGameInputs MAXKEYS nb1 s).game_ai.pointer.y ∧
    (updateGameInputs MAXKEYS nb2 (updateGameInputs MAXKEYS nb1 s)).game_unclipped_ai.pointer.x =
      (updateGameInputs MAXKEYS nb1 s).game_unclipped_ai.pointer.x ∧
    (updateGameInputs MAXKEYS nb2 (updateGameInputs MAXKEYS nb1 s)).game_unclipped_ai.pointer.y =
      (updateGameInputs MAXKEYS nb1 s).game_unclipped_ai.pointer.y := by
  have f1 := updateGameInputs_fields MAXKEYS nb1 s
  generalize updateGameInputs MAXKEYS nb1 s = s1 at f1 ⊢
  have f2 := updateGameInputs_fields MAXKEYS nb2 s1
  generalize updateGameInputs MAXKEYS nb2 s1 = s2 at f2 ⊢
  obtain ⟨_, _, p3, p4, p5, p6, p7, p8, p9, _, _, p12, _, _, p15, p16, _⟩ := f1
  obtain ⟨_, _, _, _, _, _, _, _, _, _, _, _, _, _, q15, q16, q17, q18, _⟩ := f2
  have e1 : s1.ai.pointer.mode = .POINTER_MODE_ABSOLUTE := by rw [p4, hmode]
  have e2 : s1.game_ai.pointer.mode = .POINTER_MODE_ABSOLUTE := by rw [p12, hmode]
  have e3 : s1.old_ai = s1.ai := by rw [p3, p4]
  simp only [modeRule, e1, e2, e3, if_false, sub_self, add_zero, reduceCtorEq] at q15 q16 q17 q18
  refine ⟨?_, ?_, q17, q18⟩
  · rw [q15]
    split_ifs with hc
    · rw [p5] at hc
      rw [p15, if_pos hc, p6, p8]
      exact clipAxis_idem (hclip hc).1 _
    · rfl
  · rw [q16]
    split_ifs with hc
    · rw [p5] at hc
      rw [p16, if_pos hc, p7, p9]
      exact clipAxis_idem (hclip hc).2 _
    · rfl

/-- Witness of `updateGameInputs_absolute_idempotent`: clip region
`{x:10, y:10, w:100, h:50}`. -/
theorem updateGameInputs_absolute_idempotent_witness :
    (updateGameInputs 16 1 (updateGameInputs 16 1
      { inputStateCleared true 10 10 100 50 with
        ai := snapshotWithPointer ⟨.POINTER_MODE_ABSOLUTE, 500, 20, 0⟩ })).game_ai.pointer.x =
    (updateGameInputs 16 1
      { inputStateCleared true 10 10 100 50 with
        ai := snapshotWithPointer ⟨.POINTER_MODE_ABSOLUTE, 500, 20, 0⟩ }).game_ai.pointer.x :=
  (updateGameInputs_absolute_idempotent 16 1 1
    { inputStateCleared true 10 10 100 50 with
      ai := snapshotWithPointer ⟨.POINTER_MODE_ABSOLUTE, 500, 20, 0⟩ }
    rfl (fun _ => by decide)).1

/-- C10: mode-switch freeze.  When the delivered pointer mode is RELATIVE
and the supplied one is ABSOLUTE, the delivered position after the merge is
the pre-call position passed through the clipping step, whatever the supplied
coordinates and `old_ai` are; the unclipped position is unchanged; and when
clipping is inactive or the pre-call position lies inside the clip region the
delivered position equals its pre-call value. -/
theorem updateGameInputs_mode_switch_freeze (MAXKEYS : Nat) (nb : Int) (s : InputState)
    (hg : s.game_ai.pointer.mode = .POINTER_MODE_RELATIVE)
    (ha : s.ai.pointer.mode = .POINTER_MODE_ABSOLUTE) :
    (updateGameInputs MAXKEYS nb s).game_ai.pointer.x =
      (if s.pointer_clipping then clipAxis s.clipping_x s.clipping_w s.game_ai.pointer.x
       else s.game_ai.pointer.x) ∧
    (updateGameInputs MAXKEYS nb s).game_ai.pointer.y =
      (if s.pointer_clipping then clipAxis s.clipping_y s.clipping_h s.game_ai.pointer.y
       else s.game_ai.pointer.y) ∧
    (updateGameInputs MAXKEYS nb s).game_unclipped_ai.pointer.x =
      s.game_unclipped_ai.pointer.x ∧
    (updateGameInputs MAXKEYS nb s).game_unclipped_ai.pointer.y =
      s.game_unclipped_ai.pointer.y ∧
    ((s.pointer_clipping = false ∨
        (s.clipping_x ≤ s.game_ai.pointer.x ∧
          s.game_ai.pointer.x < s.clipping_x + s.clipping_w ∧
          s.clipping_y ≤ s.game_ai.pointer.y ∧
          s.game_ai.pointer.y < s.clipping_y + s.clipping_h)) →
      (updateGameInputs MAXKEYS nb s).game_ai.pointer.x = s.game_ai.pointer.x ∧
      (updateGameInputs MAXKEYS nb s).game_ai.pointer.y = s.game_ai.pointer.y) := by
  obtain ⟨_, _, _, _, _, _, _, _, _, _, _, _, _, _, p15, p16, p17, p18, _⟩ :=
    updateGameInputs_fields MAXKEYS nb s
  simp only [modeRule, hg, ha, if_true, if_false, reduceCtorEq] at p15 p16 p17 p18
  refine ⟨p15, p16, p17, p18, ?_⟩
  rintro (hc | ⟨hx1, hx2, hy1, hy2⟩)
  · rw [p15, p16, hc]
    exact ⟨rfl, rfl⟩
  · rw [p15, p16]
    split_ifs
    · exact ⟨clipAxis_of_inside hx1 hx2, clipAxis_of_inside hy1 hy2⟩
    · exact ⟨rfl, rfl⟩

/-- Witness of `updateGameInputs_mode_switch_freeze`: clipping inactive. -/
theorem updateGameInputs_mode_switch_freeze_witness :
    (updateGameInputs 16 1
      { inputStateCleared false 0 0 0 0 with
        game_ai := snapshotWithPointer ⟨.POINTER_MODE_RELATIVE, 40, 30, 0⟩
        ai := snapshotWithPointer ⟨.POINTER_MODE_ABSOLUTE, 640, 480, 0⟩ }).game_ai.pointer.x = 40 ∧
    (updateGameInputs 16 1
      { inputStateCleared false 0 0 0 0 with
        game_ai := snapshotWithPointer ⟨.POINTER_MODE_RELATIVE, 40, 30, 0⟩
        ai := snapshotWithPointer ⟨.POINTER_MODE_ABSOLUTE, 640, 480, 0⟩ }).game_ai.pointer.y = 30 :=
  (updateGameInputs_mode_switch_freeze 16 1
    { inputStateCleared false 0 0 0 0 with
      game_ai := snapshotWithPointer ⟨.POINTER_MODE_RELATIVE, 40, 30, 0⟩
      ai := snapshotWithPointer ⟨.POINTER_MODE_ABSOLUTE, 640, 480, 0⟩ }
    rfl rfl).2.2.2.2 (Or.inl rfl)

/-! ## Frame boundary -/

theorem keeps_pure {α β : Type} (proj : World → β) (a : α) :
    Keeps proj (pure a : M α) := ⟨fun _ _ => rfl⟩

theorem keeps_bind {α β γ : Type} (proj : World → γ) {m : M α} {f : α → M β}
    (hm : Keeps proj m) (hf : ∀ a, Keeps proj (f a)) : Keeps proj (m >>= f) := by
  constructor
  intro e w
  show proj (M.bind m f e w).world = proj w
  unfold M.bind
  have h1 := hm.keep e w
  cases hr : m e w with
  | ok a w1 =>
    rw [hr] at h1
    simp only [R.world] at h1
    simp only []
    rw [(hf a).keep e w1, h1]
  | stop o w1 =>
    rw [hr] at h1
    exact h1

theorem keeps_modifyW {β : Type} (proj : World → β) (f : World → World)
    (h : ∀ w, proj (f w) = proj w) : Keeps proj (modifyW f) := ⟨fun _ w => h w⟩

theorem keeps_getW {β : Type} (proj : World → β) : Keeps proj getW := ⟨fun _ _ => rfl⟩

theorem keeps_getE {β : Type} (proj : World → β) : Keeps proj getE := ⟨fun _ _ => rfl⟩

theorem keeps_stamp {β : Type} (proj : World → β) : Keeps proj stamp := ⟨fun _ _ => rfl⟩

theorem keeps_stopWith {α β : Type} (proj : World → β) (o : Outcome) :
    Keeps proj (stopWith o : M α) := ⟨fun _ _ => rfl⟩

theorem keeps_whenM {β : Type} (proj : World → β) {c : Bool} {body : M Unit}
    (h : Keeps proj body) : Keeps proj (whenM c body) := by
  unfold whenM
  split
  · exact h
  · exact keeps_pure _ _

theorem keeps_ite {α β : Type} (proj : World → β) {c : Prop} [Decidable c]
    {a b : M α} (ha : Keeps proj a) (hb : Keeps proj b) :
    Keeps proj (if c then a else b) := by
  split
  · exact ha
  · exact hb

theorem channelFree_framecount : ChannelFree World.framecount := fun _ _ _ => rfl

theorem keeps_emit {β : Type} {proj : World → β} (hp : ChannelFree proj) (ev : Event) :
    Keeps proj (emit ev) :=
  keeps_modifyW proj _ (fun w => hp w _ w.incoming)

theorem keeps_call {β : Type} {proj : World → β} (hp : ChannelFree proj) (fn : Fn)
    (args : List Arg) : Keeps proj (call fn args) := keeps_emit hp _

theorem keeps_readItem {β : Type} {proj : World → β} (hp : ChannelFree proj) :
    Keeps proj readItem := by
  constructor
  intro e w
  unfold readItem
  split
  · exact hp w w.trace []
  · exact hp w w.trace _

theorem keeps_receiveMessage {β : Type} {proj : World → β} (hp : ChannelFree proj) :
    Keeps proj receiveMessage := by
  unfold receiveMessage
  repeat' first
    | exact keeps_pure _ _
    | exact keeps_stopWith _ _
    | exact keeps_emit hp _
    | exact keeps_readItem hp
    | apply keeps_bind
    | apply keeps_ite
    | intro _
    | split

theorem keeps_receiveMessageNonBlocking {β : Type} {proj : World → β}
    (hp : ChannelFree proj) : Keeps proj receiveMessageNonBlocking := by
  unfold receiveMessageNonBlocking
  repeat' first
    | exact keeps_pure _ _
    | exact keeps_stopWith _ _
    | exact keeps_emit hp _
    | exact keeps_getW _
    | exact keeps_modifyW _ _ (fun w => hp w w.trace _)
    | apply keeps_bind
    | apply keeps_ite
    | intro _
    | split

theorem keeps_receiveInt {β : Type} {proj : World → β} (hp : ChannelFree proj) :
    Keeps proj receiveInt := by
  unfold receiveInt
  repeat' first
    | exact keeps_pure _ _
    | exact keeps_stopWith _ _
    | exact keeps_emit hp _
    | exact keeps_readItem hp
    | apply keeps_bind
    | apply keeps_ite
    | intro _
    | split

theorem keeps_receiveU32 {β : Type} {proj : World → β} (hp : ChannelFree proj) :
    Keeps proj receiveU32 := by
  unfold receiveU32
  repeat' first
    | exact keeps_pure _ _
    | exact keeps_stopWith _ _
    | exact keeps_emit hp _
    | exact keeps_readItem hp
    | apply keeps_bind
    | apply keeps_ite
    | intro _
    | split

theorem keeps_receiveString {β : Type} {proj : World → β} (hp : ChannelFree proj) :
    Keeps proj receiveString := by
  unfold receiveString
  repeat' first
    | exact keeps_pure _ _
    | exact keeps_stopWith _ _
    | exact keeps_emit hp _
    | exact keeps_readItem hp
    | apply keeps_bind
    | apply keeps_ite
    | intro _
    | split

theorem keeps_receiveInputs {β : Type} {proj : World → β} (hp : ChannelFree proj) :
    Keeps proj receiveInputs := by
  unfold receiveInputs
  repeat' first
    | exact keeps_pure _ _
    | exact keeps_stopWith _ _
    | exact keeps_emit hp _
    | exact keeps_readItem hp
    | apply keeps_bind
    | apply keeps_ite
    | intro _
    | split

theorem keeps_receiveConfig_framecount : Keeps World.framecount receiveConfig := by
  unfold receiveConfig
  repeat' first
    | exact keeps_pure _ _
    | exact keeps_stopWith _ _
    | exact keeps_emit channelFree_framecount _
    | exact keeps_readItem channelFree_framecount
    | exact keeps_modifyW _ _ (fun _ => rfl)
    | apply keeps_bind
    | apply keeps_ite
    | intro _
    | split

theorem keeps_sendMessage {β : Type} {proj : World → β} (hp : ChannelFree proj)
    (m : MsgB) : Keeps proj (sendMessage m) := by
  unfold sendMessage
  repeat' first
    | exact keeps_pure _ _
    | exact keeps_emit hp _
    | exact keeps_stamp _
    | exact keeps_getE _
    | apply keeps_bind
    | intro _

theorem keeps_sendData {β : Type} {proj : World → β} (hp : ChannelFree proj)
    (d : Data) : Keeps proj (sendData d) := keeps_emit hp _

theorem keeps_sendFrameCountTime {β : Type} {proj : World → β} (hp : ChannelFree proj) :
    Keeps proj sendFrameCountTime := by
  unfold sendFrameCountTime
  repeat' first
    | exact keeps_pure _ _
    | exact keeps_stopWith _ _
    | exact keeps_sendMessage hp _
    | exact keeps_sendData hp _
    | exact keeps_stamp _
    | exact keeps_getE _
    | exact keeps_getW _
    | apply keeps_bind
    | apply keeps_ite
    | intro _
    | split

theorem keeps_pushQuitDisplays_framecount (window : Nat) :
    ∀ (ds : List Bool) (i : Nat), Keeps World.framecount (pushQuitDisplays window i ds) := by
  intro ds
  induction ds with
  | nil => intro i; exact keeps_pure _ _
  | cons d rest ih =>
    intro i
    unfold pushQuitDisplays
    repeat' first
      | exact keeps_pure _ _
      | exact keeps_stopWith _ _
      | exact keeps_getW _
      | exact keeps_getE _
      | exact keeps_stamp _
      | exact keeps_call channelFree_framecount _ _
      | exact keeps_emit channelFree_framecount _
      | exact keeps_receiveMessage channelFree_framecount
      | exact keeps_receiveMessageNonBlocking channelFree_framecount
      | exact keeps_receiveInt channelFree_framecount
      | exact keeps_receiveU32 channelFree_framecount
      | exact keeps_receiveString channelFree_framecount
      | exact keeps_receiveInputs channelFree_framecount
      | exact keeps_receiveConfig_framecount
      | exact keeps_sendMessage channelFree_framecount _
      | exact keeps_sendData channelFree_framecount _
      | exact keeps_sendFrameCountTime channelFree_framecount
      | exact keeps_modifyW _ _ (fun _ => rfl)
      | exact ih _
      | apply keeps_bind
      | apply keeps_whenM
      | apply keeps_ite
      | intro _
      | split

theorem keeps_pushQuitEvent_framecount : Keeps World.framecount pushQuitEvent := by
  unfold pushQuitEvent
  repeat' first
    | exact keeps_pure _ _
    | exact keeps_stopWith _ _
    | exact keeps_getW _
    | exact keeps_getE _
    | exact keeps_stamp _
    | exact keeps_call channelFree_framecount _ _
    | exact keeps_emit channelFree_framecount _
    | exact keeps_receiveMessage channelFree_framecount
    | exact keeps_receiveMessageNonBlocking channelFree_framecount
    | exact keeps_receiveInt channelFree_framecount
    | exact keeps_receiveU32 channelFree_framecount
    | exact keeps_receiveString channelFree_framecount
    | exact keeps_receiveInputs channelFree_framecount
    | exact keeps_receiveConfig_framecount
    | exact keeps_sendMessage channelFree_framecount _
    | exact keeps_sendData channelFree_framecount _
    | exact keeps_sendFrameCountTime channelFree_framecount
    | exact keeps_modifyW _ _ (fun _ => rfl)
    | exact keeps_pushQuitDisplays_framecount _ _ _
    | apply keeps_bind
    | apply keeps_whenM
    | apply keeps_ite
    | intro _
    | split

theorem keeps_screen_redraw_framecount (draw : Bool) : Keeps World.framecount (screen_redraw draw) := by
  unfold screen_redraw
  repeat' first
    | exact keeps_pure _ _
    | exact keeps_stopWith _ _
    | exact keeps_getW _
    | exact keeps_getE _
    | exact keeps_stamp _
    | exact keeps_call channelFree_framecount _ _
    | exact keeps_emit channelFree_framecount _
    | exact keeps_receiveMessage channelFree_framecount
    | exact keeps_receiveMessageNonBlocking channelFree_framecount
    | exact keeps_receiveInt channelFree_framecount
    | exact keeps_receiveU32 channelFree_framecount
    | exact keeps_receiveString channelFree_framecount
    | exact keeps_receiveInputs channelFree_framecount
    | exact keeps_receiveConfig_framecount
    | exact keeps_sendMessage channelFree_framecount _
    | exact keeps_sendData channelFree_framecount _
    | exact keeps_sendFrameCountTime channelFree_framecount
    | exact keeps_modifyW _ _ (fun _ => rfl)
    | apply keeps_bind
    | apply keeps_whenM
    | apply keeps_ite
    | intro _
    | split

theorem keeps_catchDeadChildrenLoop_framecount :
    ∀ (slots : List Int), Keeps World.framecount (catchDeadChildrenLoop slots) := by
  intro slots
  induction slots with
  | nil => exact keeps_call channelFree_framecount _ _
  | cons slot rest ih =>
    unfold catchDeadChildrenLoop
    repeat' first
      | exact keeps_pure _ _
      | exact keeps_stopWith _ _
      | exact keeps_getW _
      | exact keeps_getE _
      | exact keeps_stamp _
      | exact keeps_call channelFree_framecount _ _
      | exact keeps_emit channelFree_framecount _
      | exact keeps_receiveMessage channelFree_framecount
      | exact keeps_receiveMessageNonBlocking channelFree_framecount
      | exact keeps_receiveInt channelFree_framecount
      | exact keeps_receiveU32 channelFree_framecount
      | exact keeps_receiveString channelFree_framecount
      | exact keeps_receiveInputs channelFree_framecount
      | exact keeps_receiveConfig_framecount
      | exact keeps_sendMessage channelFree_framecount _
      | exact keeps_sendData channelFree_framecount _
      | exact keeps_sendFrameCountTime channelFree_framecount
      | exact keeps_modifyW _ _ (fun _ => rfl)
      | exact ih
      | apply keeps_bind
      | apply keeps_whenM
      | apply keeps_ite
      | intro _
      | split

theorem keeps_catchDeadChildren_framecount : Keeps World.framecount catchDeadChildren := by
  unfold catchDeadChildren
  repeat' first
    | exact keeps_pure _ _
    | exact keeps_stopWith _ _
    | exact keeps_getW _
    | exact keeps_getE _
    | exact keeps_stamp _
    | exact keeps_call channelFree_framecount _ _
    | exact keeps_emit channelFree_framecount _
    | exact keeps_receiveMessage channelFree_framecount
    | exact keeps_receiveMessageNonBlocking channelFree_framecount
    | exact keeps_receiveInt channelFree_framecount
    | exact keeps_receiveU32 channelFree_framecount
    | exact keeps_receiveString channelFree_framecount
    | exact keeps_receiveInputs channelFree_framecount
    | exact keeps_receiveConfig_framecount
    | exact keeps_sendMessage channelFree_framecount _
    | exact keeps_sendData channelFree_framecount _
    | exact keeps_sendFrameCountTime channelFree_framecount
    | exact keeps_modifyW _ _ (fun _ => rfl)
    | exact keeps_catchDeadChildrenLoop_framecount _
    | apply keeps_bind
    | apply keeps_whenM
    | apply keeps_ite
    | intro _
    | split

theorem keeps_handleDisplayMessage_framecount (message : MsgN) :
    Keeps World.framecount (handleDisplayMessage message) := by
  unfold handleDisplayMessage
  repeat' first
    | exact keeps_pure _ _
    | exact keeps_stopWith _ _
    | exact keeps_getW _
    | exact keeps_getE _
    | exact keeps_stamp _
    | exact keeps_call channelFree_framecount _ _
    | exact keeps_emit channelFree_framecount _
    | exact keeps_receiveMessage channelFree_framecount
    | exact keeps_receiveMessageNonBlocking channelFree_framecount
    | exact keeps_receiveInt channelFree_framecount
    | exact keeps_receiveU32 channelFree_framecount
    | exact keeps_receiveString channelFree_framecount
    | exact keeps_receiveInputs channelFree_framecount
    | exact keeps_receiveConfig_framecount
    | exact keeps_sendMessage channelFree_framecount _
    | exact keeps_sendData channelFree_framecount _
    | exact keeps_sendFrameCountTime channelFree_framecount
    | exact keeps_modifyW _ _ (fun _ => rfl)
    | apply keeps_bind
    | apply keeps_whenM
    | apply keeps_ite
    | intro _
    | split

theorem keeps_blockingDrainLoop_framecount :
    ∀ (fuel : Nat) (message : MsgN),
      Keeps World.framecount (blockingDrainLoop fuel message) := by
  intro fuel
  induction fuel with
  | zero => intro message; exact keeps_stopWith _ _
  | succ fuel ih =>
    intro message
    unfold blockingDrainLoop
    repeat' first
      | exact keeps_pure _ _
      | exact keeps_stopWith _ _
      | exact keeps_getW _
      | exact keeps_getE _
      | exact keeps_stamp _
      | exact keeps_call channelFree_framecount _ _
      | exact keeps_emit channelFree_framecount _
      | exact keeps_receiveMessage channelFree_framecount
      | exact keeps_receiveMessageNonBlocking channelFree_framecount
      | exact keeps_receiveInt channelFree_framecount
      | exact keeps_receiveU32 channelFree_framecount
      | exact keeps_receiveString channelFree_framecount
      | exact keeps_receiveInputs channelFree_framecount
      | exact keeps_receiveConfig_framecount
      | exact keeps_sendMessage channelFree_framecount _
      | exact keeps_sendData channelFree_framecount _
      | exact keeps_sendFrameCountTime channelFree_framecount
      | exact keeps_modifyW _ _ (fun _ => rfl)
      | exact keeps_handleDisplayMessage_framecount _
      | exact ih _
      | apply keeps_bind
      | apply keeps_whenM
      | apply keeps_ite
      | intro _
      | split

theorem keeps_blockingDrain_framecount : Keeps World.framecount blockingDrain := by
  unfold blockingDrain
  repeat' first
    | exact keeps_pure _ _
    | exact keeps_stopWith _ _
    | exact keeps_getW _
    | exact keeps_getE _
    | exact keeps_stamp _
    | exact keeps_call channelFree_framecount _ _
    | exact keeps_emit channelFree_framecount _
    | exact keeps_receiveMessage channelFree_framecount
    | exact keeps_receiveMessageNonBlocking channelFree_framecount
    | exact keeps_receiveInt channelFree_framecount
    | exact keeps_receiveU32 channelFree_framecount
    | exact keeps_receiveString channelFree_framecount
    | exact keeps_receiveInputs channelFree_framecount
    | exact keeps_receiveConfig_framecount
    | exact keeps_sendMessage channelFree_framecount _
    | exact keeps_sendData channelFree_framecount _
    | exact keeps_sendFrameCountTime channelFree_framecount
    | exact keeps_modifyW _ _ (fun _ => rfl)
    | exact keeps_blockingDrainLoop_framecount _ _
    | apply keeps_bind
    | apply keeps_whenM
    | apply keeps_ite
    | intro _
    | split

theorem keeps_idleBlock_framecount : Keeps World.framecount idleBlock := by
  unfold idleBlock
  repeat' first
    | exact keeps_pure _ _
    | exact keeps_stopWith _ _
    | exact keeps_getW _
    | exact keeps_getE _
    | exact keeps_stamp _
    | exact keeps_call channelFree_framecount _ _
    | exact keeps_emit channelFree_framecount _
    | exact keeps_receiveMessage channelFree_framecount
    | exact keeps_receiveMessageNonBlocking channelFree_framecount
    | exact keeps_receiveInt channelFree_framecount
    | exact keeps_receiveU32 channelFree_framecount
    | exact keeps_receiveString channelFree_framecount
    | exact keeps_receiveInputs channelFree_framecount
    | exact keeps_receiveConfig_framecount
    | exact keeps_sendMessage channelFree_framecount _
    | exact keeps_sendData channelFree_framecount _
    | exact keeps_sendFrameCountTime channelFree_framecount
    | exact keeps_modifyW _ _ (fun _ => rfl)
    | exact keeps_catchDeadChildren_framecount
    | apply keeps_bind
    | apply keeps_whenM
    | apply keeps_ite
    | intro _
    | split

theorem keeps_handleSavestate_framecount (draw : Bool) :
    Keeps World.framecount (handleSavestate draw) := by
  unfold handleSavestate
  repeat' first
    | exact keeps_pure _ _
    | exact keeps_stopWith _ _
    | exact keeps_getW _
    | exact keeps_getE _
    | exact keeps_stamp _
    | exact keeps_call channelFree_framecount _ _
    | exact keeps_emit channelFree_framecount _
    | exact keeps_receiveMessage channelFree_framecount
    | exact keeps_receiveMessageNonBlocking channelFree_framecount
    | exact keeps_receiveInt channelFree_framecount
    | exact keeps_receiveU32 channelFree_framecount
    | exact keeps_receiveString channelFree_framecount
    | exact keeps_receiveInputs channelFree_framecount
    | exact keeps_receiveConfig_framecount
    | exact keeps_sendMessage channelFree_framecount _
    | exact keeps_sendData channelFree_framecount _
    | exact keeps_sendFrameCountTime channelFree_framecount
    | exact keeps_modifyW _ _ (fun _ => rfl)
    | exact keeps_screen_redraw_framecount _
    | apply keeps_bind
    | apply keeps_whenM
    | apply keeps_ite
    | intro _
    | split

theorem keeps_handleLoadstate_framecount : Keeps World.framecount handleLoadstate := by
  unfold handleLoadstate
  repeat' first
    | exact keeps_pure _ _
    | exact keeps_stopWith _ _
    | exact keeps_getW _
    | exact keeps_getE _
    | exact keeps_stamp _
    | exact keeps_call channelFree_framecount _ _
    | exact keeps_emit channelFree_framecount _
    | exact keeps_receiveMessage channelFree_framecount
    | exact keeps_receiveMessageNonBlocking channelFree_framecount
    | exact keeps_receiveInt channelFree_framecount
    | exact keeps_receiveU32 channelFree_framecount
    | exact keeps_receiveString channelFree_framecount
    | exact keeps_receiveInputs channelFree_framecount
    | exact keeps_receiveConfig_framecount
    | exact keeps_sendMessage channelFree_framecount _
    | exact keeps_sendData channelFree_framecount _
    | exact keeps_sendFrameCountTime channelFree_framecount
    | exact keeps_modifyW _ _ (fun _ => rfl)
    | apply keeps_bind
    | apply keeps_whenM
    | apply keeps_ite
    | intro _
    | split

theorem keeps_handleControlMessage_framecount (draw : Bool) (message : MsgN) :
    Keeps World.framecount (handleControlMessage draw message) := by
  unfold handleControlMessage
  repeat' first
    | exact keeps_pure _ _
    | exact keeps_stopWith _ _
    | exact keeps_getW _
    | exact keeps_getE _
    | exact keeps_stamp _
    | exact keeps_call channelFree_framecount _ _
    | exact keeps_emit channelFree_framecount _
    | exact keeps_receiveMessage channelFree_framecount
    | exact keeps_receiveMessageNonBlocking channelFree_framecount
    | exact keeps_receiveInt channelFree_framecount
    | exact keeps_receiveU32 channelFree_framecount
    | exact keeps_receiveString channelFree_framecount
    | exact keeps_receiveInputs channelFree_framecount
    | exact keeps_receiveConfig_framecount
    | exact keeps_sendMessage channelFree_framecount _
    | exact keeps_sendData channelFree_framecount _
    | exact keeps_sendFrameCountTime channelFree_framecount
    | exact keeps_modifyW _ _ (fun _ => rfl)
    | exact keeps_pushQuitEvent_framecount
    | exact keeps_screen_redraw_framecount _
    | exact keeps_handleSavestate_framecount _
    | exact keeps_handleLoadstate_framecount
    | apply keeps_bind
    | apply keeps_whenM
    | apply keeps_ite
    | intro _
    | split

theorem keeps_receiveLoop_framecount (draw : Bool) :
    ∀ (fuel : Nat), Keeps World.framecount (receiveLoop draw fuel) := by
  intro fuel
  induction fuel with
  | zero => exact keeps_stopWith _ _
  | succ fuel ih =>
    unfold receiveLoop
    repeat' first
      | exact keeps_pure _ _
      | exact keeps_stopWith _ _
      | exact keeps_getW _
      | exact keeps_getE _
      | exact keeps_stamp _
      | exact keeps_call channelFree_framecount _ _
      | exact keeps_emit channelFree_framecount _
      | exact keeps_receiveMessage channelFree_framecount
      | exact keeps_receiveMessageNonBlocking channelFree_framecount
      | exact keeps_receiveInt channelFree_framecount
      | exact keeps_receiveU32 channelFree_framecount
      | exact keeps_receiveString channelFree_framecount
      | exact keeps_receiveInputs channelFree_framecount
      | exact keeps_receiveConfig_framecount
      | exact keeps_sendMessage channelFree_framecount _
      | exact keeps_sendData channelFree_framecount _
      | exact keeps_sendFrameCountTime channelFree_framecount
      | exact keeps_modifyW _ _ (fun _ => rfl)
      | exact keeps_idleBlock_framecount
      | exact keeps_handleControlMessage_framecount _ _
      | exact ih
      | apply keeps_bind
      | apply keeps_whenM
      | apply keeps_ite
      | intro _
      | split

theorem keeps_receive_messages_framecount (draw : Bool) :
    Keeps World.framecount (receive_messages draw) := by
  unfold receive_messages
  repeat' first
    | exact keeps_pure _ _
    | exact keeps_stopWith _ _
    | exact keeps_getW _
    | exact keeps_getE _
    | exact keeps_stamp _
    | exact keeps_call channelFree_framecount _ _
    | exact keeps_emit channelFree_framecount _
    | exact keeps_receiveMessage channelFree_framecount
    | exact keeps_receiveMessageNonBlocking channelFree_framecount
    | exact keeps_receiveInt channelFree_framecount
    | exact keeps_receiveU32 channelFree_framecount
    | exact keeps_receiveString channelFree_framecount
    | exact keeps_receiveInputs channelFree_framecount
    | exact keeps_receiveConfig_framecount
    | exact keeps_sendMessage channelFree_framecount _
    | exact keeps_sendData channelFree_framecount _
    | exact keeps_sendFrameCountTime channelFree_framecount
    | exact keeps_modifyW _ _ (fun _ => rfl)
    | exact keeps_catchDeadChildren_framecount
    | exact keeps_receiveLoop_framecount _ _
    | apply keeps_bind
    | apply keeps_whenM
    | apply keeps_ite
    | intro _
    | split

theorem keeps_drawHud_framecount (draw : Bool) : Keeps World.framecount (drawHud draw) := by
  unfold drawHud
  repeat' first
    | exact keeps_pure _ _
    | exact keeps_stopWith _ _
    | exact keeps_getW _
    | exact keeps_getE _
    | exact keeps_stamp _
    | exact keeps_call channelFree_framecount _ _
    | exact keeps_emit channelFree_framecount _
    | exact keeps_receiveMessage channelFree_framecount
    | exact keeps_receiveMessageNonBlocking channelFree_framecount
    | exact keeps_receiveInt channelFree_framecount
    | exact keeps_receiveU32 channelFree_framecount
    | exact keeps_receiveString channelFree_framecount
    | exact keeps_receiveInputs channelFree_framecount
    | exact keeps_receiveConfig_framecount
    | exact keeps_sendMessage channelFree_framecount _
    | exact keeps_sendData channelFree_framecount _
    | exact keeps_sendFrameCountTime channelFree_framecount
    | exact keeps_modifyW _ _ (fun _ => rfl)
    | apply keeps_bind
    | apply keeps_whenM
    | apply keeps_ite
    | intro _
    | split

theorem keeps_outboundHandshake_framecount (draw : Bool) :
    Keeps World.framecount (outboundHandshake draw) := by
  unfold outboundHandshake
  repeat' first
    | exact keeps_pure _ _
    | exact keeps_stopWith _ _
    | exact keeps_getW _
    | exact keeps_getE _
    | exact keeps_stamp _
    | exact keeps_call channelFree_framecount _ _
    | exact keeps_emit channelFree_framecount _
    | exact keeps_receiveMessage channelFree_framecount
    | exact keeps_receiveMessageNonBlocking channelFree_framecount
    | exact keeps_receiveInt channelFree_framecount
    | exact keeps_receiveU32 channelFree_framecount
    | exact keeps_receiveString channelFree_framecount
    | exact keeps_receiveInputs channelFree_framecount
    | exact keeps_receiveConfig_framecount
    | exact keeps_sendMessage channelFree_framecount _
    | exact keeps_sendData channelFree_framecount _
    | exact keeps_sendFrameCountTime channelFree_framecount
    | exact keeps_modifyW _ _ (fun _ => rfl)
    | apply keeps_bind
    | apply keeps_whenM
    | apply keeps_ite
    | intro _
    | split

theorem keeps_renderPhase_framecount (draw : Bool) (timeIncrement : Nat) :
    Keeps World.framecount (renderPhase draw timeIncrement) := by
  unfold renderPhase
  repeat' first
    | exact keeps_pure _ _
    | exact keeps_stopWith _ _
    | exact keeps_getW _
    | exact keeps_getE _
    | exact keeps_stamp _
    | exact keeps_call channelFree_framecount _ _
    | exact keeps_emit channelFree_framecount _
    | exact keeps_receiveMessage channelFree_framecount
    | exact keeps_receiveMessageNonBlocking channelFree_framecount
    | exact keeps_receiveInt channelFree_framecount
    | exact keeps_receiveU32 channelFree_framecount
    | exact keeps_receiveString channelFree_framecount
    | exact keeps_receiveInputs channelFree_framecount
    | exact keeps_receiveConfig_framecount
    | exact keeps_sendMessage channelFree_framecount _
    | exact keeps_sendData channelFree_framecount _
    | exact keeps_sendFrameCountTime channelFree_framecount
    | exact keeps_modifyW _ _ (fun _ => rfl)
    | exact keeps_drawHud_framecount _
    | apply keeps_bind
    | apply keeps_whenM
    | apply keeps_ite
    | intro _
    | split

theorem keeps_inputPhase_framecount (draw : Bool) : Keeps World.framecount (inputPhase draw) := by
  unfold inputPhase
  repeat' first
    | exact keeps_pure _ _
    | exact keeps_stopWith _ _
    | exact keeps_getW _
    | exact keeps_getE _
    | exact keeps_stamp _
    | exact keeps_call channelFree_framecount _ _
    | exact keeps_emit channelFree_framecount _
    | exact keeps_receiveMessage channelFree_framecount
    | exact keeps_receiveMessageNonBlocking channelFree_framecount
    | exact keeps_receiveInt channelFree_framecount
    | exact keeps_receiveU32 channelFree_framecount
    | exact keeps_receiveString channelFree_framecount
    | exact keeps_receiveInputs channelFree_framecount
    | exact keeps_receiveConfig_framecount
    | exact keeps_sendMessage channelFree_framecount _
    | exact keeps_sendData channelFree_framecount _
    | exact keeps_sendFrameCountTime channelFree_framecount
    | exact keeps_modifyW _ _ (fun _ => rfl)
    | apply keeps_bind
    | apply keeps_whenM
    | apply keeps_ite
    | intro _
    | split

theorem keeps_exitPath_framecount (draw : Bool) : Keeps World.framecount (exitPath draw) := by
  unfold exitPath
  repeat' first
    | exact keeps_pure _ _
    | exact keeps_stopWith _ _
    | exact keeps_getW _
    | exact keeps_getE _
    | exact keeps_stamp _
    | exact keeps_call channelFree_framecount _ _
    | exact keeps_emit channelFree_framecount _
    | exact keeps_receiveMessage channelFree_framecount
    | exact keeps_receiveMessageNonBlocking channelFree_framecount
    | exact keeps_receiveInt channelFree_framecount
    | exact keeps_receiveU32 channelFree_framecount
    | exact keeps_receiveString channelFree_framecount
    | exact keeps_receiveInputs channelFree_framecount
    | exact keeps_receiveConfig_framecount
    | exact keeps_sendMessage channelFree_framecount _
    | exact keeps_sendData channelFree_framecount _
    | exact keeps_sendFrameCountTime channelFree_framecount
    | exact keeps_modifyW _ _ (fun _ => rfl)
    | apply keeps_bind
    | apply keeps_whenM
    | apply keeps_ite
    | intro _
    | split

theorem keeps_enterPhase_framecount (draw : Bool) : Keeps World.framecount (enterPhase draw) := by
  unfold enterPhase
  repeat' first
    | exact keeps_pure _ _
    | exact keeps_stopWith _ _
    | exact keeps_getW _
    | exact keeps_getE _
    | exact keeps_stamp _
    | exact keeps_call channelFree_framecount _ _
    | exact keeps_emit channelFree_framecount _
    | exact keeps_receiveMessage channelFree_framecount
    | exact keeps_receiveMessageNonBlocking channelFree_framecount
    | exact keeps_receiveInt channelFree_framecount
    | exact keeps_receiveU32 channelFree_framecount
    | exact keeps_receiveString channelFree_framecount
    | exact keeps_receiveInputs channelFree_framecount
    | exact keeps_receiveConfig_framecount
    | exact keeps_sendMessage channelFree_framecount _
    | exact keeps_sendData channelFree_framecount _
    | exact keeps_sendFrameCountTime channelFree_framecount
    | exact keeps_modifyW _ _ (fun _ => rfl)
    | apply keeps_bind
    | apply keeps_whenM
    | apply keeps_ite
    | intro _
    | split


theorem channelFree_is_exiting : ChannelFree World.is_exiting := fun _ _ _ => rfl

theorem keeps_enterPhase_is_exiting (draw : Bool) :
    Keeps World.is_exiting (enterPhase draw) := by
  unfold enterPhase
  repeat' first
    | exact keeps_pure _ _
    | exact keeps_getW _
    | exact keeps_getE _
    | exact keeps_call channelFree_is_exiting _ _
    | exact keeps_modifyW _ _ (fun _ => rfl)
    | apply keeps_bind
    | apply keeps_whenM
    | intro _

/-- The part of `frameBoundary` after the frame count is increased. -/
theorem keeps_frameBoundary_tail_framecount (draw : Bool) (timeIncrement : Nat) :
    Keeps World.framecount (do
      whenM draw do
        let e ← getE
        let w ← getW
        call .tickFrame [.nat w.framecount]
        modifyW fun w => { w with
          fps := (e.tickFrame w.framecount (w.fps, w.lfps)).1
          lfps := (e.tickFrame w.framecount (w.fps, w.lfps)).2 }
      outboundHandshake draw
      blockingDrain
      renderPhase draw timeIncrement
      receive_messages draw
      inputPhase draw : M Unit) := by
  repeat' first
    | exact keeps_getW _
    | exact keeps_getE _
    | exact keeps_call channelFree_framecount _ _
    | exact keeps_modifyW _ _ (fun _ => rfl)
    | exact keeps_outboundHandshake_framecount _
    | exact keeps_blockingDrain_framecount
    | exact keeps_renderPhase_framecount _ _
    | exact keeps_receive_messages_framecount _
    | exact keeps_inputPhase_framecount _
    | apply keeps_bind
    | apply keeps_whenM
    | intro _

/-- C1: for every call of `frameBoundary` that returns, the frame count after
the call is the frame count before it when `Global::is_exiting` is set at the
exit check (it is set there exactly when it is set at entry), and otherwise
the frame count before it plus one as a 64-bit unsigned value, whatever the
draw callback, the collaborators' answers and the messages received in the
two drain phases. -/
theorem frameBoundary_framecount (e : Env) (draw : Bool) (w : World)
    (h : (runFrame e draw w).returned = true) :
    (runFrame e draw w).world.framecount =
      if w.is_exiting then w.framecount else (w.framecount + 1) % 2 ^ 64 := by
  have hfc := (keeps_enterPhase_framecount draw).keep e w
  have hex := (keeps_enterPhase_is_exiting draw).keep e w
  unfold runFrame frameBoundary at h ⊢
  show (M.bind (enterPhase draw) _ e w).world.framecount = _
  change (M.bind (enterPhase draw) _ e w).returned = true at h
  unfold M.bind at h ⊢
  cases hr : enterPhase draw e w with
  | stop o w1 =>
    rw [hr] at h
    simp [R.returned] at h
  | ok t w1 =>
    rw [hr] at hfc hex
    simp only [R.world] at hfc hex
    simp only []
    show (M.bind getW _ e w1).world.framecount = _
    unfold M.bind getW
    simp only []
    by_cases hx : w1.is_exiting = true
    · rw [if_pos hx, (keeps_exitPath_framecount draw).keep e w1, hfc, ← hex, if_pos hx]
    · rw [if_neg hx]
      show (M.bind (modifyW _) _ e w1).world.framecount = _
      unfold M.bind modifyW
      simp only []
      refine ((keeps_frameBoundary_tail_framecount draw t).keep e _).trans ?_
      show (w1.framecount + 1) % 2 ^ 64 = _
      rw [← hex, if_neg hx, hfc]

/-- Witness of `frameBoundary_framecount`: a draw frame at frame count 41 whose
drains receive the start and the end acknowledgement. -/
theorem frameBoundary_framecount_witness :
    (runFrame envExample true
        (worldExample 41 false
          [.tag .MSGN_START_FRAMEBOUNDARY, .idle, .tag .MSGN_END_FRAMEBOUNDARY])).returned = true ∧
    (runFrame envExample true
        (worldExample 41 false
          [.tag .MSGN_START_FRAMEBOUNDARY, .idle, .tag .MSGN_END_FRAMEBOUNDARY])).world.framecount =
      if (worldExample 41 false
          [.tag .MSGN_START_FRAMEBOUNDARY, .idle, .tag .MSGN_END_FRAMEBOUNDARY]).is_exiting
      then 41 else (41 + 1) % 2 ^ 64 :=
  ⟨by decide!, frameBoundary_framecount envExample true _ (by decide!)⟩

/-! ## The loop bounds of the embedding suffice -/

theorem good_bind {α β : Type} {m : M α} {f : α → M β} {e : Env} {w : World}
    (hm : Good w (m e w))
    (hf : ∀ a w1, m e w = .ok a w1 → Good w1 (f a e w1)) :
    Good w ((m >>= f) e w) := by
  show Good w (M.bind m f e w)
  unfold M.bind
  cases hr : m e w with
  | ok a w1 =>
    rw [hr] at hm
    have h2 := hf a w1 hr
    exact ⟨le_trans h2.1 hm.1, h2.2⟩
  | stop o w1 =>
    rw [hr] at hm
    refine ⟨hm.1, ?_⟩
    intro w2 heq
    exact hm.2 w1 (by cases heq; rfl)

theorem tame_bind {α β : Type} {m : M α} {f : α → M β}
    (hm : Tame m) (hf : ∀ a, Tame (f a)) : Tame (m >>= f) :=
  ⟨fun e w => good_bind (hm.good e w) (fun a w1 _ => (hf a).good e w1)⟩

theorem tame_pure {α : Type} (a : α) : Tame (pure a : M α) :=
  ⟨fun _ _ => ⟨le_rfl, fun _ h => by cases h⟩⟩

theorem tame_stopWith {α : Type} (o : Outcome) (h : o ≠ .outOfFuel) :
    Tame (stopWith o : M α) :=
  ⟨fun _ _ => ⟨le_rfl, fun _ heq => h (by cases heq; rfl)⟩⟩

theorem tame_getW : Tame getW := ⟨fun _ _ => ⟨le_rfl, fun _ h => by cases h⟩⟩

theorem tame_getE : Tame getE := ⟨fun _ _ => ⟨le_rfl, fun _ h => by cases h⟩⟩

theorem tame_stamp : Tame stamp := ⟨fun _ _ => ⟨le_rfl, fun _ h => by cases h⟩⟩

theorem tame_modifyW (f : World → World)
    (h : ∀ w, (f w).incoming.length ≤ w.incoming.length) : Tame (modifyW f) :=
  ⟨fun _ w => ⟨h w, fun _ heq => by cases heq⟩⟩

theorem tame_emit (ev : Event) : Tame (emit ev) := tame_modifyW _ (fun _ => le_rfl)

theorem tame_call (fn : Fn) (args : List Arg) : Tame (call fn args) := tame_emit _

theorem tame_whenM {c : Bool} {body : M Unit} (h : Tame body) : Tame (whenM c body) := by
  unfold whenM
  split
  · exact h
  · exact tame_pure _

theorem tame_ite {α : Type} {c : Prop} [Decidable c] {a b : M α}
    (ha : Tame a) (hb : Tame b) : Tame (if c then a else b) := by
  split
  · exact ha
  · exact hb

theorem nextItem_length : ∀ (l : List Item) (it : Item) (rest : List Item),
    nextItem l = some (it, rest) → rest.length < l.length := by
  intro l
  induction l with
  | nil => intro it rest h; simp [nextItem] at h
  | cons x xs ih =>
    intro it rest h
    cases x with
    | idle =>
      have := ih it rest (by simpa [nextItem] using h)
      simp only [List.length_cons]
      omega
    | tag m => simp only [nextItem, Option.some.injEq, Prod.mk.injEq] at h; rw [← h.2]; simp
    | int v => simp only [nextItem, Option.some.injEq, Prod.mk.injEq] at h; rw [← h.2]; simp
    | u32 v => simp only [nextItem, Option.some.injEq, Prod.mk.injEq] at h; rw [← h.2]; simp
    | str v => simp only [nextItem, Option.some.injEq, Prod.mk.injEq] at h; rw [← h.2]; simp
    | config v => simp only [nextItem, Option.some.injEq, Prod.mk.injEq] at h; rw [← h.2]; simp
    | inputs v => simp only [nextItem, Option.some.injEq, Prod.mk.injEq] at h; rw [← h.2]; simp

/-- A successful `readItem` consumes input. -/
theorem readItem_ok {e : Env} {w w1 : World} {it : Item}
    (h : readItem e w = .ok it w1) : w1.incoming.length < w.incoming.length := by
  unfold readItem at h
  split at h
  · cases h
  · rename_i it2 rest hn
    cases h
    exact nextItem_length _ _ _ hn

theorem tame_readItem : Tame readItem := by
  constructor
  intro e w
  cases hr : readItem e w with
  | ok it w1 => exact ⟨le_of_lt (readItem_ok hr), fun _ h => by cases h⟩
  | stop o w1 =>
    unfold readItem at hr
    split at hr
    · cases hr
      exact ⟨Nat.zero_le _, fun _ h => by cases h⟩
    · cases hr

theorem tame_receiveMessage : Tame receiveMessage := by
  unfold receiveMessage
  repeat' first
    | exact tame_pure _
    | exact tame_stopWith _ (by decide)
    | exact tame_getW
    | exact tame_getE
    | exact tame_stamp
    | exact tame_call _ _
    | exact tame_emit _
    | exact tame_readItem
    | exact tame_modifyW _ (fun _ => le_rfl)
    | apply tame_bind
    | apply tame_whenM
    | apply tame_ite
    | intro _
    | split

theorem tame_receiveInt : Tame receiveInt := by
  unfold receiveInt
  repeat' first
    | exact tame_pure _
    | exact tame_stopWith _ (by decide)
    | exact tame_getW
    | exact tame_getE
    | exact tame_stamp
    | exact tame_call _ _
    | exact tame_emit _
    | exact tame_readItem
    | exact tame_receiveMessage
    | exact tame_modifyW _ (fun _ => le_rfl)
    | apply tame_bind
    | apply tame_whenM
    | apply tame_ite
    | intro _
    | split

theorem tame_receiveU32 : Tame receiveU32 := by
  unfold receiveU32
  repeat' first
    | exact tame_pure _
    | exact tame_stopWith _ (by decide)
    | exact tame_getW
    | exact tame_getE
    | exact tame_stamp
    | exact tame_call _ _
    | exact tame_emit _
    | exact tame_readItem
    | exact tame_receiveMessage
    | exact tame_receiveInt
    | exact tame_modifyW _ (fun _ => le_rfl)
    | apply tame_bind
    | apply tame_whenM
    | apply tame_ite
    | intro _
    | split

theorem tame_receiveString : Tame receiveString := by
  unfold receiveString
  repeat' first
    | exact tame_pure _
    | exact tame_stopWith _ (by decide)
    | exact tame_getW
    | exact tame_getE
    | exact tame_stamp
    | exact tame_call _ _
    | exact tame_emit _
    | exact tame_readItem
    | exact tame_receiveMessage
    | exact tame_receiveInt
    | exact tame_receiveU32
    | exact tame_modifyW _ (fun _ => le_rfl)
    | apply tame_bind
    | apply tame_whenM
    | apply tame_ite
    | intro _
    | split

theorem tame_receiveInputs : Tame receiveInputs := by
  unfold receiveInputs
  repeat' first
    | exact tame_pure _
    | exact tame_stopWith _ (by decide)
    | exact tame_getW
    | exact tame_getE
    | exact tame_stamp
    | exact tame_call _ _
    | exact tame_emit _
    | exact tame_readItem
    | exact tame_receiveMessage
    | exact tame_receiveInt
    | exact tame_receiveU32
    | exact tame_receiveString
    | exact tame_modifyW _ (fun _ => le_rfl)
    | apply tame_bind
    | apply tame_whenM
    | apply tame_ite
    | intro _
    | split

theorem tame_receiveConfig : Tame receiveConfig := by
  unfold receiveConfig
  repeat' first
    | exact tame_pure _
    | exact tame_stopWith _ (by decide)
    | exact tame_getW
    | exact tame_getE
    | exact tame_stamp
    | exact tame_call _ _
    | exact tame_emit _
    | exact tame_readItem
    | exact tame_receiveMessage
    | exact tame_receiveInt
    | exact tame_receiveU32
    | exact tame_receiveString
    | exact tame_receiveInputs
    | exact tame_modifyW _ (fun _ => le_rfl)
    | apply tame_bind
    | apply tame_whenM
    | apply tame_ite
    | intro _
    | split

theorem tame_sendMessage (m : MsgB) : Tame (sendMessage m) := by
  unfold sendMessage
  repeat' first
    | exact tame_pure _
    | exact tame_stopWith _ (by decide)
    | exact tame_getW
    | exact tame_getE
    | exact tame_stamp
    | exact tame_call _ _
    | exact tame_emit _
    | exact tame_readItem
    | exact tame_receiveMessage
    | exact tame_receiveInt
    | exact tame_receiveU32
    | exact tame_receiveString
    | exact tame_receiveInputs
    | exact tame_receiveConfig
    | exact tame_modifyW _ (fun _ => le_rfl)
    | apply tame_bind
    | apply tame_whenM
    | apply tame_ite
    | intro _
    | split

theorem tame_sendData (d : Data) : Tame (sendData d) := tame_emit _

theorem tame_sendFrameCountTime : Tame sendFrameCountTime := by
  unfold sendFrameCountTime
  repeat' first
    | exact tame_pure _
    | exact tame_stopWith _ (by decide)
    | exact tame_getW
    | exact tame_getE
    | exact tame_stamp
    | exact tame_call _ _
    | exact tame_emit _
    | exact tame_readItem
    | exact tame_receiveMessage
    | exact tame_receiveInt
    | exact tame_receiveU32
    | exact tame_receiveString
    | exact tame_receiveInputs
    | exact tame_receiveConfig
    | exact tame_sendMessage _
    | exact tame_sendData _
    | exact tame_modifyW _ (fun _ => le_rfl)
    | apply tame_bind
    | apply tame_whenM
    | apply tame_ite
    | intro _
    | split

theorem tame_pushQuitDisplays (window : Nat) :
    ∀ (ds : List Bool) (i : Nat), Tame (pushQuitDisplays window i ds) := by
  intro ds
  induction ds with
  | nil => intro i; exact tame_pure _
  | cons d rest ih =>
    intro i
    unfold pushQuitDisplays
    repeat' first
      | exact tame_pure _
      | exact tame_stopWith _ (by decide)
      | exact tame_getW
      | exact tame_getE
      | exact tame_stamp
      | exact tame_call _ _
      | exact tame_emit _
      | exact tame_readItem
      | exact tame_receiveMessage
      | exact tame_receiveInt
      | exact tame_receiveU32
      | exact tame_receiveString
      | exact tame_receiveInputs
      | exact tame_receiveConfig
      | exact tame_sendMessage _
      | exact tame_sendData _
      | exact tame_sendFrameCountTime
      | exact tame_modifyW _ (fun _ => le_rfl)
      | exact ih _
      | apply tame_bind
      | apply tame_whenM
      | apply tame_ite
      | intro _
      | split

theorem tame_pushQuitEvent : Tame pushQuitEvent := by
  unfold pushQuitEvent
  repeat' first
    | exact tame_pure _
    | exact tame_stopWith _ (by decide)
    | exact tame_getW
    | exact tame_getE
    | exact tame_stamp
    | exact tame_call _ _
    | exact tame_emit _
    | exact tame_readItem
    | exact tame_receiveMessage
    | exact tame_receiveInt
    | exact tame_receiveU32
    | exact tame_receiveString
    | exact tame_receiveInputs
    | exact tame_receiveConfig
    | exact tame_sendMessage _
    | exact tame_sendData _
    | exact tame_sendFrameCountTime
    | exact tame_modifyW _ (fun _ => le_rfl)
    | exact tame_pushQuitDisplays _ _ _
    | apply tame_bind
    | apply tame_whenM
    | apply tame_ite
    | intro _
    | split

theorem tame_screen_redraw (draw : Bool) : Tame (screen_redraw draw) := by
  unfold screen_redraw
  repeat' first
    | exact tame_pure _
    | exact tame_stopWith _ (by decide)
    | exact tame_getW
    | exact tame_getE
    | exact tame_stamp
    | exact tame_call _ _
    | exact tame_emit _
    | exact tame_readItem
    | exact tame_receiveMessage
    | exact tame_receiveInt
    | exact tame_receiveU32
    | exact tame_receiveString
    | exact tame_receiveInputs
    | exact tame_receiveConfig
    | exact tame_sendMessage _
    | exact tame_sendData _
    | exact tame_sendFrameCountTime
    | exact tame_modifyW _ (fun _ => le_rfl)
    | apply tame_bind
    | apply tame_whenM
    | apply tame_ite
    | intro _
    | split

theorem tame_catchDeadChildrenLoop :
    ∀ (slots : List Int), Tame (catchDeadChildrenLoop slots) := by
  intro slots
  induction slots with
  | nil => exact tame_call _ _
  | cons slot rest ih =>
    unfold catchDeadChildrenLoop
    repeat' first
      | exact tame_pure _
      | exact tame_stopWith _ (by decide)
      | exact tame_getW
      | exact tame_getE
      | exact tame_stamp
      | exact tame_call _ _
      | exact tame_emit _
      | exact tame_readItem
      | exact tame_receiveMessage
      | exact tame_receiveInt
      | exact tame_receiveU32
      | exact tame_receiveString
      | exact tame_receiveInputs
      | exact tame_receiveConfig
      | exact tame_sendMessage _
      | exact tame_sendData _
      | exact tame_sendFrameCountTime
      | exact tame_modifyW _ (fun _ => le_rfl)
      | exact ih
      | apply tame_bind
      | apply tame_whenM
      | apply tame_ite
      | intro _
      | split

theorem tame_catchDeadChildren : Tame catchDeadChildren := by
  unfold catchDeadChildren
  repeat' first
    | exact tame_pure _
    | exact tame_stopWith _ (by decide)
    | exact tame_getW
    | exact tame_getE
    | exact tame_stamp
    | exact tame_call _ _
    | exact tame_emit _
    | exact tame_readItem
    | exact tame_receiveMessage
    | exact tame_receiveInt
    | exact tame_receiveU32
    | exact tame_receiveString
    | exact tame_receiveInputs
    | exact tame_receiveConfig
    | exact tame_sendMessage _
    | exact tame_sendData _
    | exact tame_sendFrameCountTime
    | exact tame_modifyW _ (fun _ => le_rfl)
    | exact tame_catchDeadChildrenLoop _
    | apply tame_bind
    | apply tame_whenM
    | apply tame_ite
    | intro _
    | split

theorem tame_handleDisplayMessage (message : MsgN) : Tame (handleDisplayMessage message) := by
  unfold handleDisplayMessage
  repeat' first
    | exact tame_pure _
    | exact tame_stopWith _ (by decide)
    | exact tame_getW
    | exact tame_getE
    | exact tame_stamp
    | exact tame_call _ _
    | exact tame_emit _
    | exact tame_readItem
    | exact tame_receiveMessage
    | exact tame_receiveInt
    | exact tame_receiveU32
    | exact tame_receiveString
    | exact tame_receiveInputs
    | exact tame_receiveConfig
    | exact tame_sendMessage _
    | exact tame_sendData _
    | exact tame_sendFrameCountTime
    | exact tame_modifyW _ (fun _ => le_rfl)
    | apply tame_bind
    | apply tame_whenM
    | apply tame_ite
    | intro _
    | split

theorem tame_idleBlock : Tame idleBlock := by
  unfold idleBlock
  repeat' first
    | exact tame_pure _
    | exact tame_stopWith _ (by decide)
    | exact tame_getW
    | exact tame_getE
    | exact tame_stamp
    | exact tame_call _ _
    | exact tame_emit _
    | exact tame_readItem
    | exact tame_receiveMessage
    | exact tame_receiveInt
    | exact tame_receiveU32
    | exact tame_receiveString
    | exact tame_receiveInputs
    | exact tame_receiveConfig
    | exact tame_sendMessage _
    | exact tame_sendData _
    | exact tame_sendFrameCountTime
    | exact tame_modifyW _ (fun _ => le_rfl)
    | exact tame_catchDeadChildren
    | apply tame_bind
    | apply tame_whenM
    | apply tame_ite
    | intro _
    | split

theorem tame_handleSavestate (draw : Bool) : Tame (handleSavestate draw) := by
  unfold handleSavestate
  repeat' first
    | exact tame_pure _
    | exact tame_stopWith _ (by decide)
    | exact tame_getW
    | exact tame_getE
    | exact tame_stamp
    | exact tame_call _ _
    | exact tame_emit _
    | exact tame_readItem
    | exact tame_receiveMessage
    | exact tame_receiveInt
    | exact tame_receiveU32
    | exact tame_receiveString
    | exact tame_receiveInputs
    | exact tame_receiveConfig
    | exact tame_sendMessage _
    | exact tame_sendData _
    | exact tame_sendFrameCountTime
    | exact tame_modifyW _ (fun _ => le_rfl)
    | exact tame_screen_redraw _
    | apply tame_bind
    | apply tame_whenM
    | apply tame_ite
    | intro _
    | split

theorem tame_handleLoadstate : Tame handleLoadstate := by
  unfold handleLoadstate
  repeat' first
    | exact tame_pure _
    | exact tame_stopWith _ (by decide)
    | exact tame_getW
    | exact tame_getE
    | exact tame_stamp
    | exact tame_call _ _
    | exact tame_emit _
    | exact tame_readItem
    | exact tame_receiveMessage
    | exact tame_receiveInt
    | exact tame_receiveU32
    | exact tame_receiveString
    | exact tame_receiveInputs
    | exact tame_receiveConfig
    | exact tame_sendMessage _
    | exact tame_sendData _
    | exact tame_sendFrameCountTime
    | exact tame_modifyW _ (fun _ => le_rfl)
    | apply tame_bind
    | apply tame_whenM
    | apply tame_ite
    | intro _
    | split

theorem tame_handleControlMessage (draw : Bool) (message : MsgN) :
    Tame (handleControlMessage draw message) := by
  unfold handleControlMessage
  repeat' first
    | exact tame_pure _
    | exact tame_stopWith _ (by decide)
    | exact tame_getW
    | exact tame_getE
    | exact tame_stamp
    | exact tame_call _ _
    | exact tame_emit _
    | exact tame_readItem
    | exact tame_receiveMessage
    | exact tame_receiveInt
    | exact tame_receiveU32
    | exact tame_receiveString
    | exact tame_receiveInputs
    | exact tame_receiveConfig
    | exact tame_sendMessage _
    | exact tame_sendData _
    | exact tame_sendFrameCountTime
    | exact tame_modifyW _ (fun _ => le_rfl)
    | exact tame_pushQuitEvent
    | exact tame_screen_redraw _
    | exact tame_handleSavestate _
    | exact tame_handleLoadstate
    | apply tame_bind
    | apply tame_whenM
    | apply tame_ite
    | intro _
    | split

theorem tame_drawHud (draw : Bool) : Tame (drawHud draw) := by
  unfold drawHud
  repeat' first
    | exact tame_pure _
    | exact tame_stopWith _ (by decide)
    | exact tame_getW
    | exact tame_getE
    | exact tame_stamp
    | exact tame_call _ _
    | exact tame_emit _
    | exact tame_readItem
    | exact tame_receiveMessage
    | exact tame_receiveInt
    | exact tame_receiveU32
    | exact tame_receiveString
    | exact tame_receiveInputs
    | exact tame_receiveConfig
    | exact tame_sendMessage _
    | exact tame_sendData _
    | exact tame_sendFrameCountTime
    | exact tame_modifyW _ (fun _ => le_rfl)
    | apply tame_bind
    | apply tame_whenM
    | apply tame_ite
    | intro _
    | split

theorem tame_outboundHandshake (draw : Bool) : Tame (outboundHandshake draw) := by
  unfold outboundHandshake
  repeat' first
    | exact tame_pure _
    | exact tame_stopWith _ (by decide)
    | exact tame_getW
    | exact tame_getE
    | exact tame_stamp
    | exact tame_call _ _
    | exact tame_emit _
    | exact tame_readItem
    | exact tame_receiveMessage
    | exact tame_receiveInt
    | exact tame_receiveU32
    | exact tame_receiveString
    | exact tame_receiveInputs
    | exact tame_receiveConfig
    | exact tame_sendMessage _
    | exact tame_sendData _
    | exact tame_sendFrameCountTime
    | exact tame_modifyW _ (fun _ => le_rfl)
    | apply tame_bind
    | apply tame_whenM
    | apply tame_ite
    | intro _
    | split

theorem tame_renderPhase (draw : Bool) (timeIncrement : Nat) :
    Tame (renderPhase draw timeIncrement) := by
  unfold renderPhase
  repeat' first
    | exact tame_pure _
    | exact tame_stopWith _ (by decide)
    | exact tame_getW
    | exact tame_getE
    | exact tame_stamp
    | exact tame_call _ _
    | exact tame_emit _
    | exact tame_readItem
    | exact tame_receiveMessage
    | exact tame_receiveInt
    | exact tame_receiveU32
    | exact tame_receiveString
    | exact tame_receiveInputs
    | exact tame_receiveConfig
    | exact tame_sendMessage _
    | exact tame_sendData _
    | exact tame_sendFrameCountTime
    | exact tame_modifyW _ (fun _ => le_rfl)
    | exact tame_drawHud _
    | apply tame_bind
    | apply tame_whenM
    | apply tame_ite
    | intro _
    | split

theorem tame_inputPhase (draw : Bool) : Tame (inputPhase draw) := by
  unfold inputPhase
  repeat' first
    | exact tame_pure _
    | exact tame_stopWith _ (by decide)
    | exact tame_getW
    | exact tame_getE
    | exact tame_stamp
    | exact tame_call _ _
    | exact tame_emit _
    | exact tame_readItem
    | exact tame_receiveMessage
    | exact tame_receiveInt
    | exact tame_receiveU32
    | exact tame_receiveString
    | exact tame_receiveInputs
    | exact tame_receiveConfig
    | exact tame_sendMessage _
    | exact tame_sendData _
    | exact tame_sendFrameCountTime
    | exact tame_modifyW _ (fun _ => le_rfl)
    | apply tame_bind
    | apply tame_whenM
    | apply tame_ite
    | intro _
    | split

theorem tame_exitPath (draw : Bool) : Tame (exitPath draw) := by
  unfold exitPath
  repeat' first
    | exact tame_pure _
    | exact tame_stopWith _ (by decide)
    | exact tame_getW
    | exact tame_getE
    | exact tame_stamp
    | exact tame_call _ _
    | exact tame_emit _
    | exact tame_readItem
    | exact tame_receiveMessage
    | exact tame_receiveInt
    | exact tame_receiveU32
    | exact tame_receiveString
    | exact tame_receiveInputs
    | exact tame_receiveConfig
    | exact tame_sendMessage _
    | exact tame_sendData _
    | exact tame_sendFrameCountTime
    | exact tame_modifyW _ (fun _ => le_rfl)
    | apply tame_bind
    | apply tame_whenM
    | apply tame_ite
    | intro _
    | split

theorem tame_enterPhase (draw : Bool) : Tame (enterPhase draw) := by
  unfold enterPhase
  repeat' first
    | exact tame_pure _
    | exact tame_stopWith _ (by decide)
    | exact tame_getW
    | exact tame_getE
    | exact tame_stamp
    | exact tame_call _ _
    | exact tame_emit _
    | exact tame_readItem
    | exact tame_receiveMessage
    | exact tame_receiveInt
    | exact tame_receiveU32
    | exact tame_receiveString
    | exact tame_receiveInputs
    | exact tame_receiveConfig
    | exact tame_sendMessage _
    | exact tame_sendData _
    | exact tame_sendFrameCountTime
    | exact tame_modifyW _ (fun _ => le_rfl)
    | apply tame_bind
    | apply tame_whenM
    | apply tame_ite
    | intro _
    | split

/-- The world of an `ok` result, read off `Good`. -/
theorem good_ok_length {α : Type} {w w1 : World} {r : R α} {a : α}
    (hg : Good w r) (hr : r = .ok a w1) : w1.incoming.length ≤ w.incoming.length := by
  subst hr
  exact hg.1

/-- A successful `receiveMessage` consumes input. -/
theorem receiveMessage_ok {e : Env} {w w1 : World} {m : MsgN}
    (h : receiveMessage e w = .ok m w1) : w1.incoming.length < w.incoming.length := by
  unfold receiveMessage at h
  change M.bind readItem _ e w = _ at h
  unfold M.bind at h
  cases hr : readItem e w with
  | stop o w0 => rw [hr] at h; cases h
  | ok it w0 =>
    rw [hr] at h
    have h0 := readItem_ok hr
    cases it with
    | tag m0 =>
      have : w1.incoming = w0.incoming := by
        simp only [] at h
        cases h
        rfl
      rw [this]
      exact h0
    | idle => cases h
    | int v => cases h
    | u32 v => cases h
    | str v => cases h
    | config v => cases h
    | inputs v => cases h

/-- The loop of the blocking drain does not use up its bound when the bound
exceeds the number of items still to be read. -/
theorem good_blockingDrainLoop :
    ∀ (fuel : Nat) (message : MsgN) (e : Env) (w : World),
      w.incoming.length < fuel → Good w (blockingDrainLoop fuel message e w) := by
  intro fuel
  induction fuel with
  | zero => intro message e w h; omega
  | succ fuel ih =>
    intro message e w h
    unfold blockingDrainLoop
    split
    · exact (tame_pure ()).good e w
    · refine good_bind ((tame_handleDisplayMessage message).good e w) ?_
      intro _ w1 h1
      have l1 := good_ok_length ((tame_handleDisplayMessage message).good e w) h1
      refine good_bind (tame_receiveMessage.good e w1) ?_
      intro m w2 h2
      have l2 := receiveMessage_ok h2
      exact ih m e w2 (by omega)

theorem tame_blockingDrain : Tame blockingDrain := by
  constructor
  intro e w
  unfold blockingDrain
  refine good_bind (tame_receiveMessage.good e w) ?_
  intro m w1 _
  refine good_bind (tame_getW.good e w1) ?_
  intro w2 w3 h3
  cases h3
  exact good_blockingDrainLoop _ m e _ (Nat.lt_succ_self _)

theorem pure_run {α : Type} (a : α) (e : Env) (w : World) :
    (pure a : M α) e w = .ok a w := rfl

theorem bind_run {α β : Type} (m : M α) (f : α → M β) (e : Env) (w : World) :
    (m >>= f) e w = M.bind m f e w := rfl

/-- A poll never uses up a loop bound, puts nothing back, and consumes input
unless nothing more will ever arrive. -/
theorem receiveMessageNonBlocking_spec (e : Env) (w : World) :
    Good w (receiveMessageNonBlocking e w) ∧
    ∀ m never w1, receiveMessageNonBlocking e w = .ok (m, never) w1 →
      never = true ∨ w1.incoming.length < w.incoming.length := by
  unfold receiveMessageNonBlocking
  cases hi : w.incoming with
  | nil =>
    simp [bind_run, pure_run, M.bind, getW, modifyW, emit, hi, Good, R.world]
  | cons it rest =>
    cases it <;>
      simp [bind_run, pure_run, M.bind, getW, modifyW, emit, stopWith, hi, Good, R.world]

/-- The loop of `receive_messages` does not use up its bound when the bound
exceeds the number of items still to be read. -/
theorem good_receiveLoop (draw : Bool) :
    ∀ (fuel : Nat) (e : Env) (w : World),
      w.incoming.length < fuel → Good w (receiveLoop draw fuel e w) := by
  intro fuel
  induction fuel with
  | zero => intro e w h; omega
  | succ fuel ih =>
    intro e w h
    unfold receiveLoop
    obtain ⟨hg, hs⟩ := receiveMessageNonBlocking_spec e w
    refine good_bind hg ?_
    rintro ⟨message, never⟩ w1 h1
    have l1 := hs message never w1 h1
    have l1' := good_ok_length hg h1
    have hidle : Tame (if message.isNeg = true then idleBlock else pure true) :=
      tame_ite tame_idleBlock (tame_pure _)
    refine good_bind (hidle.good e w1) ?_
    intro goOn w2 h2
    have l2 := good_ok_length (hidle.good e w1) h2
    split
    · exact (tame_pure ()).good e w2
    · refine good_bind ((tame_handleControlMessage draw message).good e w2) ?_
      intro goOn2 w3 h3
      have l3 := good_ok_length ((tame_handleControlMessage draw message).good e w2) h3
      split
      · exact (tame_pure ()).good e w3
      · split
        · exact (tame_stopWith Outcome.blocked (by decide)).good e w3
        · rename_i hn
          rcases l1 with l1 | l1
          · exact absurd l1 hn
          · exact ih e w3 (by omega)

theorem tame_receive_messages (draw : Bool) : Tame (receive_messages draw) := by
  constructor
  intro e w
  unfold receive_messages
  refine good_bind (tame_getE.good e w) ?_
  intro e1 w1 _
  refine good_bind ⟨le_rfl, fun _ h => by cases h⟩ ?_
  intro _ w2 _
  refine good_bind (tame_catchDeadChildren.good e w2) ?_
  intro _ w3 _
  refine good_bind (tame_getW.good e w3) ?_
  intro w4 w5 h5
  cases h5
  exact good_receiveLoop draw _ e _ (Nat.lt_succ_self _)

theorem tame_frameBoundary (draw : Bool) : Tame (frameBoundary draw) := by
  unfold frameBoundary
  repeat' first
    | exact tame_pure _
    | exact tame_getW
    | exact tame_getE
    | exact tame_call _ _
    | exact tame_modifyW _ (fun _ => le_rfl)
    | exact tame_enterPhase _
    | exact tame_exitPath _
    | exact tame_outboundHandshake _
    | exact tame_blockingDrain
    | exact tame_renderPhase _ _
    | exact tame_receive_messages _
    | exact tame_inputPhase _
    | apply tame_bind
    | apply tame_whenM
    | apply tame_ite
    | intro _

/-- The loop bounds of the embedding are never used up: an execution of
`frameBoundary` returns or stops for one of the reasons the code has. -/
theorem runFrame_ne_outOfFuel (e : Env) (draw : Bool) (w w1 : World) :
    runFrame e draw w ≠ .stop .outOfFuel w1 :=
  ((tame_frameBoundary draw).good e w).2 w1

/-! ## Clipping, the unclipped snapshot, the exit path -/

theorem clipAxis_eq_clamp {o w : Int} (hw : 1 ≤ w) (v : Int) :
    clipAxis o w v = max o (min (o + w - 1) v) := by
  unfold clipAxis
  split_ifs <;> omega

/-- C11: with `pointer_clipping` active and a clip region of width and height
at least 1, after `updateGameInputs` the delivered pointer lies in
`clipping_x .. clipping_x + clipping_w - 1` and
`clipping_y .. clipping_y + clipping_h - 1`; each coordinate is the value of
the mode rules clamped into its range, independently of the other; a value
already inside the region is unchanged; and the unclipped delivered position
is the value of the mode rules, never clamped. -/
theorem updateGameInputs_clips (MAXKEYS : Nat) (nb : Int) (s : InputState)
    (hclip : s.pointer_clipping = true) (hw : 1 ≤ s.clipping_w) (hh : 1 ≤ s.clipping_h) :
    (s.clipping_x ≤ (updateGameInputs MAXKEYS nb s).game_ai.pointer.x ∧
      (updateGameInputs MAXKEYS nb s).game_ai.pointer.x ≤ s.clipping_x + s.clipping_w - 1 ∧
      s.clipping_y ≤ (updateGameInputs MAXKEYS nb s).game_ai.pointer.y ∧
      (updateGameInputs MAXKEYS nb s).game_ai.pointer.y ≤ s.clipping_y + s.clipping_h - 1) ∧
    ((updateGameInputs MAXKEYS nb s).game_ai.pointer.x =
        max s.clipping_x (min (s.clipping_x + s.clipping_w - 1)
          (modeRule s.ai.pointer.mode s.game_ai.pointer.mode s.game_ai.pointer.x
            s.game_ai.pointer.x s.ai.pointer.x s.old_ai.pointer.x)) ∧
      (updateGameInputs MAXKEYS nb s).game_ai.pointer.y =
        max s.clipping_y (min (s.clipping_y + s.clipping_h - 1)
          (modeRule s.ai.pointer.mode s.game_ai.pointer.mode s.game_ai.pointer.y
            s.game_ai.pointer.y s.ai.pointer.y s.old_ai.pointer.y))) ∧
    ((s.clipping_x ≤ modeRule s.ai.pointer.mode s.game_ai.pointer.mode s.game_ai.pointer.x
          s.game_ai.pointer.x s.ai.pointer.x s.old_ai.pointer.x ∧
        modeRule s.ai.pointer.mode s.game_ai.pointer.mode s.game_ai.pointer.x
          s.game_ai.pointer.x s.ai.pointer.x s.old_ai.pointer.x <
            s.clipping_x + s.clipping_w) →
      (updateGameInputs MAXKEYS nb s).game_ai.pointer.x =
        modeRule s.ai.pointer.mode s.game_ai.pointer.mode s.game_ai.pointer.x
          s.game_ai.pointer.x s.ai.pointer.x s.old_ai.pointer.x) ∧
    ((s.clipping_y ≤ modeRule s.ai.pointer.mode s.game_ai.pointer.mode s.game_ai.pointer.y
          s.game_ai.pointer.y s.ai.pointer.y s.old_ai.pointer.y ∧
        modeRule s.ai.pointer.mode s.game_ai.pointer.mode s.game_ai.pointer.y
          s.game_ai.pointer.y s.ai.pointer.y s.old_ai.pointer.y <
            s.clipping_y + s.clipping_h) →
      (updateGameInputs MAXKEYS nb s).game_ai.pointer.y =
        modeRule s.ai.pointer.mode s.game_ai.pointer.mode s.game_ai.pointer.y
          s.game_ai.pointer.y s.ai.pointer.y s.old_ai.pointer.y) ∧
    ((updateGameInputs MAXKEYS nb s).game_unclipped_ai.pointer.x =
        modeRule s.ai.pointer.mode s.game_ai.pointer.mode s.game_unclipped_ai.pointer.x
          s.game_unclipped_ai.pointer.x s.ai.pointer.x s.old_ai.pointer.x ∧
      (updateGameInputs MAXKEYS nb s).game_unclipped_ai.pointer.y =
        modeRule s.ai.pointer.mode s.game_ai.pointer.mode s.game_unclipped_ai.pointer.y
          s.game_unclipped_ai.pointer.y s.ai.pointer.y s.old_ai.pointer.y) := by
  obtain ⟨_, _, _, _, _, _, _, _, _, _, _, _, _, _, p15, p16, p17, p18, _⟩ :=
    updateGameInputs_fields MAXKEYS nb s
  rw [hclip, if_pos rfl] at p15 p16
  generalize modeRule s.ai.pointer.mode s.game_ai.pointer.mode s.game_ai.pointer.x
    s.game_ai.pointer.x s.ai.pointer.x s.old_ai.pointer.x = vx at p15 ⊢
  generalize modeRule s.ai.pointer.mode s.game_ai.pointer.mode s.game_ai.pointer.y
    s.game_ai.pointer.y s.ai.pointer.y s.old_ai.pointer.y = vy at p16 ⊢
  rw [p15, p16, clipAxis_eq_clamp hw, clipAxis_eq_clamp hh]
  refine ⟨⟨?_, ?_, ?_, ?_⟩, ⟨rfl, rfl⟩, ?_, ?_, p17, p18⟩
  · exact le_max_left _ _
  · exact max_le (by omega) (min_le_left _ _)
  · exact le_max_left _ _
  · exact max_le (by omega) (min_le_left _ _)
  · rintro ⟨h1, h2⟩
    rw [min_eq_right (by omega), max_eq_right h1]
  · rintro ⟨h1, h2⟩
    rw [min_eq_right (by omega), max_eq_right h1]

theorem updateGameInputs_clips_witness :
    (updateGameInputs 16 1
        { inputStateCleared true 10 10 100 50 with
          ai := snapshotWithPointer ⟨.POINTER_MODE_RELATIVE, 500, 400, 0⟩ }).game_ai.pointer.x
      = 109 ∧
    (updateGameInputs 16 1
        { inputStateCleared true 10 10 100 50 with
          ai := snapshotWithPointer ⟨.POINTER_MODE_RELATIVE, 500, 400, 0⟩ }).game_ai.pointer.y
      = 59 ∧
    (updateGameInputs 16 1
        { inputStateCleared true 10 10 100 50 with
          ai := snapshotWithPointer ⟨.POINTER_MODE_RELATIVE, 500, 400, 0⟩ }).game_unclipped_ai.pointer.x
      = 500 :=
  ⟨(updateGameInputs_clips 16 1
      { inputStateCleared true 10 10 100 50 with
        ai := snapshotWithPointer ⟨.POINTER_MODE_RELATIVE, 500, 400, 0⟩ }
      rfl (by decide) (by decide)).2.1.1.trans (by decide),
   (updateGameInputs_clips 16 1
      { inputStateCleared true 10 10 100 50 with
        ai := snapshotWithPointer ⟨.POINTER_MODE_RELATIVE, 500, 400, 0⟩ }
      rfl (by decide) (by decide)).2.1.2.trans (by decide),
   (updateGameInputs_clips 16 1
      { inputStateCleared true 10 10 100 50 with
        ai := snapshotWithPointer ⟨.POINTER_MODE_RELATIVE, 500, 400, 0⟩ }
      rfl (by decide) (by decide)).2.2.2.2.1.trans (by decide)⟩

theorem unclippedStale_step (MAXKEYS : Nat) (s : InputState) (st : MergeStep)
    (h : UnclippedStale s) : UnclippedStale (applyMergeStep MAXKEYS s st) := by
  unfold applyMergeStep
  obtain ⟨_, _, _, _, _, _, _, _, _, _, _, _, _, _, _, _, _, _, p19, p20, p21, p22, p23⟩ :=
    updateGameInputs_fields MAXKEYS st.nb_controllers
      { s with
        ai := st.ai
        pointer_clipping := st.pointer_clipping
        clipping_x := st.clipping_x
        clipping_y := st.clipping_y
        clipping_w := st.clipping_w
        clipping_h := st.clipping_h }
  obtain ⟨h1, h2, h3, h4, h5⟩ := h
  exact ⟨p21.trans h1, p19.trans h2, p20.trans h3, p22.trans h4, p23.trans h5⟩

theorem pointerAgree_step (MAXKEYS : Nat) (s : InputState) (st : MergeStep)
    (hc : st.pointer_clipping = false)
    (h : s.game_ai.pointer.x = s.game_unclipped_ai.pointer.x ∧
      s.game_ai.pointer.y = s.game_unclipped_ai.pointer.y) :
    (applyMergeStep MAXKEYS s st).game_ai.pointer.x =
        (applyMergeStep MAXKEYS s st).game_unclipped_ai.pointer.x ∧
      (applyMergeStep MAXKEYS s st).game_ai.pointer.y =
        (applyMergeStep MAXKEYS s st).game_unclipped_ai.pointer.y := by
  unfold applyMergeStep
  have f := updateGameInputs_fields MAXKEYS st.nb_controllers
      { s with
        ai := st.ai
        pointer_clipping := st.pointer_clipping
        clipping_x := st.clipping_x
        clipping_y := st.clipping_y
        clipping_w := st.clipping_w
        clipping_h := st.clipping_h }
  generalize updateGameInputs MAXKEYS st.nb_controllers _ = s1 at f ⊢
  obtain ⟨_, _, _, _, _, _, _, _, _, _, _, _, _, _, p15, p16, p17, p18, _⟩ := f
  simp only [hc, Bool.false_eq_true, if_false] at p15 p16
  rw [p15, p16, p17, p18, h.1, h.2]
  exact ⟨rfl, rfl⟩

theorem runMerges_stale (MAXKEYS : Nat) (steps : List MergeStep) :
    ∀ s, UnclippedStale s → UnclippedStale (runMerges MAXKEYS s steps) := by
  induction steps with
  | nil => intro s h; exact h
  | cons st rest ih =>
    intro s h
    exact ih _ (unclippedStale_step MAXKEYS s st h)

theorem runMerges_agree (MAXKEYS : Nat) (steps : List MergeStep)
    (hc : ∀ st ∈ steps, st.pointer_clipping = false) :
    ∀ s, (s.game_ai.pointer.x = s.game_unclipped_ai.pointer.x ∧
        s.game_ai.pointer.y = s.game_unclipped_ai.pointer.y) →
      (runMerges MAXKEYS s steps).game_ai.pointer.x =
          (runMerges MAXKEYS s steps).game_unclipped_ai.pointer.x ∧
        (runMerges MAXKEYS s steps).game_ai.pointer.y =
          (runMerges MAXKEYS s steps).game_unclipped_ai.pointer.y := by
  induction steps with
  | nil => intro s h; exact h
  | cons st rest ih =>
    intro s h
    exact ih (fun x hx => hc x (List.mem_cons_of_mem _ hx)) _
      (pointerAgree_step MAXKEYS s st (hc st (List.mem_cons_self _ _)) h)

/-- C12, counterexample: from all snapshots cleared, one `updateGameInputs`
call with key 65 held (clipping inactive) gives the delivered snapshot the
key, while the unclipped delivered snapshot still has no key: the two do not
agree on every key. -/
theorem unclipped_snapshot_misses_keys :
    (runMerges 16 (inputStateCleared false 0 0 0 0)
        [mergeStepOf { AllInputs.cleared with keyboard := fun _ => 65 }]).game_ai.keyboard 0 = 65 ∧
    (runMerges 16 (inputStateCleared false 0 0 0 0)
        [mergeStepOf { AllInputs.cleared with keyboard := fun _ => 65 }]).game_unclipped_ai.keyboard 0
      = 0 := by
  decide

/-- C12, amended: starting from cleared delivered snapshots, after any
sequence of `updateGameInputs` calls the unclipped delivered snapshot
`game_unclipped_ai` still has the keys, pointer mode, button mask, controllers
and misc flags of a cleared snapshot (only its pointer coordinates are ever
written), and its pointer coordinates equal those of `game_ai` as long as
clipping has never been active. -/
theorem unclipped_snapshot_invariant (MAXKEYS : Nat) (s : InputState)
    (steps : List MergeStep)
    (hg : s.game_ai = AllInputs.cleared) (hu : s.game_unclipped_ai = AllInputs.cleared) :
    (runMerges MAXKEYS s steps).game_unclipped_ai.keyboard = AllInputs.cleared.keyboard ∧
    (runMerges MAXKEYS s steps).game_unclipped_ai.pointer.mode =
      AllInputs.cleared.pointer.mode ∧
    (runMerges MAXKEYS s steps).game_unclipped_ai.pointer.mask =
      AllInputs.cleared.pointer.mask ∧
    (runMerges MAXKEYS s steps).game_unclipped_ai.controllers =
      AllInputs.cleared.controllers ∧
    (runMerges MAXKEYS s steps).game_unclipped_ai.misc = AllInputs.cleared.misc ∧
    ((∀ st ∈ steps, st.pointer_clipping = false) →
      (runMerges MAXKEYS s steps).game_ai.pointer.x =
          (runMerges MAXKEYS s steps).game_unclipped_ai.pointer.x ∧
        (runMerges MAXKEYS s steps).game_ai.pointer.y =
          (runMerges MAXKEYS s steps).game_unclipped_ai.pointer.y) := by
  have hs : UnclippedStale s := by
    unfold UnclippedStale
    rw [hu]
    exact ⟨rfl, rfl, rfl, rfl, rfl⟩
  obtain ⟨h1, h2, h3, h4, h5⟩ := runMerges_stale MAXKEYS steps s hs
  refine ⟨h1, h2, h3, h4, h5, ?_⟩
  intro hc
  exact runMerges_agree MAXKEYS steps hc s (by rw [hg, hu]; exact ⟨rfl, rfl⟩)

theorem unclipped_snapshot_invariant_witness :
    (runMerges 16 (inputStateCleared false 0 0 0 0)
        [mergeStepOf (snapshotWithPointer ⟨.POINTER_MODE_RELATIVE, 2, -1, 7⟩),
         mergeStepOf (snapshotWithPointer ⟨.POINTER_MODE_ABSOLUTE, 30, 40, 0⟩)]
      ).game_unclipped_ai.pointer.mask = AllInputs.cleared.pointer.mask :=
  (unclipped_snapshot_invariant 16 (inputStateCleared false 0 0 0 0)
    [mergeStepOf (snapshotWithPointer ⟨.POINTER_MODE_RELATIVE, 2, -1, 7⟩),
     mergeStepOf (snapshotWithPointer ⟨.POINTER_MODE_ABSOLUTE, 30, 40, 0⟩)] rfl rfl).2.2.1

theorem getW_run (e : Env) (w : World) : getW e w = .ok w w := rfl

theorem getE_run (e : Env) (w : World) : getE e w = .ok e w := rfl

theorem stamp_run (e : Env) (w : World) : stamp e w = .ok w.trace.length w := rfl

theorem modifyW_run (f : World → World) (e : Env) (w : World) :
    modifyW f e w = .ok () (f w) := rfl

theorem stopWith_run {α : Type} (o : Outcome) (e : Env) (w : World) :
    (stopWith o : M α) e w = .stop o w := rfl

theorem emit_run (ev : Event) (e : Env) (w : World) :
    emit ev e w = .ok () { w with trace := w.trace ++ [ev] } := rfl

theorem call_run (fn : Fn) (args : List Arg) (e : Env) (w : World) :
    call fn args e w = .ok () { w with trace := w.trace ++ [.call fn args] } := rfl

theorem sendData_run (d : Data) (e : Env) (w : World) :
    sendData d e w = .ok () { w with trace := w.trace ++ [.sendData d] } := rfl

theorem sendMessage_run (m : MsgB) (e : Env) (w : World) :
    sendMessage m e w =
      .ok (e.sendMessageRet w.trace.length) { w with trace := w.trace ++ [.sendMessage m] } :=
  rfl

theorem bind_ok {α β : Type} {m : M α} {f : α → M β} {e : Env} {w w1 : World} {a : α}
    (h : m e w = .ok a w1) : (m >>= f) e w = f a e w1 := by
  show M.bind m f e w = _
  unfold M.bind
  rw [h]

theorem bind_stop {α β : Type} {m : M α} {f : α → M β} {e : Env} {w w1 : World}
    {o : Outcome} (h : m e w = .stop o w1) : (m >>= f) e w = .stop o w1 := by
  show M.bind m f e w = _
  unfold M.bind
  rw [h]

theorem whenM_call_run (c : Bool) (fn : Fn) (args : List Arg) (e : Env) (w : World) :
    whenM c (call fn args) e w =
      .ok () { w with trace := w.trace ++ (if c then [.call fn args] else []) } := by
  cases c <;> simp [whenM, call_run, pure_run]

theorem whenM_call2_run (c : Bool) (f1 f2 : Fn) (a1 a2 : List Arg) (e : Env) (w : World) :
    whenM c (do call f1 a1; call f2 a2) e w =
      .ok () { w with
        trace := w.trace ++ (if c then [.call f1 a1, .call f2 a2] else []) } := by
  cases c <;> simp [whenM, call_run, pure_run, bind_run, M.bind]

theorem exitPath_run (draw : Bool) (e : Env) (w : World) :
    exitPath draw e w = .ok () { w with trace := w.trace ++ exitEvents draw w } := by
  unfold exitPath exitEvents
  simp only [bind_run, M.bind, call_run, whenM_call_run, whenM_call2_run, getW_run,
    List.append_assoc]

theorem whenM_modifyW_run (c : Bool) (f : World → World) (e : Env) (w : World) :
    whenM c (modifyW f) e w = .ok () (if c then f w else w) := by
  cases c <;> simp [whenM, modifyW_run, pure_run]

theorem enterPhase_run (draw : Bool) (e : Env) (w : World) :
    enterPhase draw e w =
      .ok e.timeIncrement { builtInputs w with trace := w.trace ++ enterEvents e draw w } := by
  unfold enterPhase enterEvents builtInputs
  simp only [bind_run, pure_run, M.bind, call_run, whenM_call_run, whenM_modifyW_run,
    getW_run, getE_run, List.append_assoc]
  cases w.inputs_built <;> rfl

theorem builtInputs_fields (w : World) :
    (builtInputs w).is_exiting = w.is_exiting ∧
    (builtInputs w).game_info = w.game_info ∧
    (builtInputs w).shared_config = w.shared_config ∧
    (builtInputs w).framecount = w.framecount ∧
    (builtInputs w).nondraw_framecount = w.nondraw_framecount ∧
    (builtInputs w).skipping_draw = w.skipping_draw ∧
    (builtInputs w).skip_counter = w.skip_counter ∧
    (builtInputs w).fps = w.fps ∧ (builtInputs w).lfps = w.lfps ∧
    (builtInputs w).threadListChanged = w.threadListChanged ∧
    (builtInputs w).incoming = w.incoming ∧ (builtInputs w).trace = w.trace ∧
    (builtInputs w).avencoder = w.avencoder ∧
    (builtInputs w).didASavestate = w.didASavestate ∧
    (builtInputs w).inputs_built = true ∧
    (w.inputs_built = true → builtInputs w = w) := by
  unfold builtInputs
  cases h : w.inputs_built <;> simp [h]

theorem quietCall_enterEvents (e : Env) (draw : Bool) (w : World) :
    (enterEvents e draw w).all quietCall = true := by
  unfold enterEvents
  simp only [List.all_append, Bool.and_eq_true]
  repeat' apply And.intro
  all_goals first | rfl | (split <;> rfl)

theorem quietCall_exitEvents (draw : Bool) (w : World) :
    (exitEvents draw w).all quietCall = true := by
  unfold exitEvents
  simp only [List.all_append, Bool.and_eq_true]
  repeat' apply And.intro
  all_goals first | rfl | (split <;> rfl)

theorem count_enterEvents (e : Env) (draw : Bool) (w : World) :
    (enterEvents e draw w).count (.call .flushDelay []) = 0 ∧
    (enterEvents e draw w).count (.call .draw []) = 0 ∧
    (enterEvents e draw w).count (.call .exitFrameBoundary []) = 0 := by
  unfold enterEvents
  simp only [List.count_append]
  refine ⟨?_, ?_, ?_⟩ <;> split_ifs <;> rfl

theorem count_exitEvents (draw : Bool) (w : World) :
    (exitEvents draw w).count (.call .flushDelay []) = 1 ∧
    (exitEvents draw w).count (.call .draw []) = (if draw then 1 else 0) ∧
    (exitEvents draw w).count (.call .exitFrameBoundary []) = 1 := by
  unfold exitEvents
  simp only [List.count_append]
  refine ⟨?_, ?_, ?_⟩ <;> split_ifs <;> rfl

/-- C16: when `is_exiting` is true at the exit check, `frameBoundary` returns,
and what it adds to the trace is the events of the start of the function
followed by those of the exit path: only collaborator calls (no `lockSocket`,
no send, no receive), none of them `updateGameInputs` or `skipDraw`, with
`flushDelay` once, the draw callback once when it is present and never
otherwise (whatever `skipping_draw` is), and `exitFrameBoundary` once, last.
The frame count, the non-draw frame count and `skipping_draw` are unchanged;
so are the input snapshots once they have been built (the very first call
builds and clears them). -/
theorem frameBoundary_exit_path (e : Env) (draw : Bool) (w : World)
    (hx : w.is_exiting = true) :
    runFrame e draw w =
      .ok () { builtInputs w with
        trace := w.trace ++ (enterEvents e draw w ++ exitEvents draw w) } ∧
    (∀ ev ∈ enterEvents e draw w ++ exitEvents draw w, quietCall ev = true) ∧
    (enterEvents e draw w ++ exitEvents draw w).count (.call .flushDelay []) = 1 ∧
    (enterEvents e draw w ++ exitEvents draw w).count (.call .draw []) =
      (if draw then 1 else 0) ∧
    (enterEvents e draw w ++ exitEvents draw w).count (.call .exitFrameBoundary []) = 1 ∧
    (enterEvents e draw w ++ exitEvents draw w).getLast? = some (.call .exitFrameBoundary []) ∧
    (builtInputs w).framecount = w.framecount ∧
    (builtInputs w).nondraw_framecount = w.nondraw_framecount ∧
    (builtInputs w).skipping_draw = w.skipping_draw ∧
    (w.inputs_built = true → (builtInputs w).inp = w.inp) := by
  obtain ⟨h1, h2, h3, h4, h5, h6, _, _, _, _, _, _, _, _, _, h16⟩ := builtInputs_fields w
  obtain ⟨c1, c2, c3⟩ := count_enterEvents e draw w
  obtain ⟨d1, d2, d3⟩ := count_exitEvents draw w
  refine ⟨?_, ?_, ?_, ?_, ?_, ?_, h4, h5, h6, fun h => by rw [h16 h]⟩
  · unfold runFrame frameBoundary
    rw [bind_ok (enterPhase_run draw e w), bind_ok (getW_run e _)]
    have hb : ({ builtInputs w with
        trace := w.trace ++ enterEvents e draw w } : World).is_exiting = true := h1.trans hx
    rw [if_pos hb, exitPath_run]
    have he : exitEvents draw { builtInputs w with trace := w.trace ++ enterEvents e draw w } =
        exitEvents draw w := by
      unfold exitEvents
      simp only [h2, h3]
    rw [he]
    simp only [List.append_assoc]
  · intro ev hev
    rcases List.mem_append.mp hev with h | h
    · exact List.all_eq_true.mp (quietCall_enterEvents e draw w) ev h
    · exact List.all_eq_true.mp (quietCall_exitEvents draw w) ev h
  · rw [List.count_append, c1, d1]
  · rw [List.count_append, c2, d2, Nat.zero_add]
  · rw [List.count_append, c3, d3]
  · unfold exitEvents
    simp only [← List.append_assoc]
    exact List.getLast?_concat _

/-- C16, an instance: an exiting process at frame 41 with a draw callback and
an SDL2 game. -/
theorem frameBoundary_exit_path_witness :
    (runFrame envExample true (worldExample 41 true [.tag .MSGN_USERQUIT])).world.trace =
      [.call .setCheckpointThread [], .call .setMainThread [], .call .busyLoopReset [],
       .call .screenCaptureInit [], .call .isUnity [], .call .enterFrameBoundary [],
       .call .mixAllSources [.nat 1], .call .flushDelay [], .call .draw [],
       .call .pushNativeSDLEvents [], .call .pushNativeXlibEvents [],
       .call .pushNativeXcbEvents [], .call .exitFrameBoundary []] :=
  (congrArg (fun r => (R.world r).trace)
    (frameBoundary_exit_path envExample true (worldExample 41 true [.tag .MSGN_USERQUIT])
      rfl).1).trans (by decide)

theorem traced_pure {α β : Type} {Q : Event → Prop} {proj : World → β} (a : α) :
    Traced Q proj (pure a : M α) :=
  ⟨fun _ _ => ⟨[], by simp [pure_run, R.world], by simp⟩, fun _ _ => rfl,
    fun _ _ _ _ h => by cases h⟩

theorem traced_bind {α β γ : Type} {Q : Event → Prop} {proj : World → γ} {m : M α}
    {f : α → M β} (hm : Traced Q proj m) (hf : ∀ a, Traced Q proj (f a)) :
    Traced Q proj (m >>= f) := by
  refine ⟨?_, ?_, ?_⟩
  · intro e w
    obtain ⟨t1, h1, q1⟩ := hm.grows e w
    rw [bind_run]
    unfold M.bind
    cases hr : m e w with
    | ok a w1 =>
      rw [hr] at h1
      obtain ⟨t2, h2, q2⟩ := (hf a).grows e w1
      refine ⟨t1 ++ t2, ?_, ?_⟩
      · simp only [R.world] at h1
        simp only []
        rw [h2, h1, List.append_assoc]
      · intro ev hev
        rcases List.mem_append.mp hev with h | h
        · exact q1 ev h
        · exact q2 ev h
    | stop o w1 =>
      rw [hr] at h1
      exact ⟨t1, h1, q1⟩
  · intro e w
    have h1 := hm.fixed e w
    rw [bind_run]
    unfold M.bind
    cases hr : m e w with
    | ok a w1 =>
      rw [hr] at h1
      simp only [R.world] at h1
      simp only []
      rw [(hf a).fixed e w1, h1]
    | stop o w1 =>
      rw [hr] at h1
      exact h1
  · intro e w s w2 h
    rw [bind_run] at h
    unfold M.bind at h
    cases hr : m e w with
    | ok a w1 =>
      rw [hr] at h
      exact (hf a).exits e w1 s w2 h
    | stop o w1 =>
      rw [hr] at h
      simp only [] at h
      injection h with h1 h2
      subst h1 h2
      exact hm.exits e w s w1 hr

theorem traced_weaken {α β γ : Type} {Q Q1 : Event → Prop} {proj : World → β}
    {proj1 : World → γ} {m : M α} (h : Traced Q proj m) (hq : ∀ ev, Q ev → Q1 ev)
    (hp : ∀ w w1, proj w1 = proj w → proj1 w1 = proj1 w) : Traced Q1 proj1 m :=
  ⟨fun e w => by
      obtain ⟨t, h1, h2⟩ := h.grows e w
      exact ⟨t, h1, fun ev hev => hq ev (h2 ev hev)⟩,
    fun e w => hp _ _ (h.fixed e w), h.exits⟩

theorem traced_modifyW {β : Type} {Q : Event → Prop} {proj : World → β}
    (f : World → World) (h1 : ∀ w, (f w).trace = w.trace)
    (h2 : ∀ w, proj (f w) = proj w) : Traced Q proj (modifyW f) :=
  ⟨fun _ w => ⟨[], by simp [modifyW_run, R.world, h1], by simp⟩, fun _ w => h2 w,
    fun _ _ _ _ h => by cases h⟩

theorem traced_getW {β : Type} {Q : Event → Prop} {proj : World → β} :
    Traced Q proj getW :=
  ⟨fun _ _ => ⟨[], by simp [getW_run, R.world], by simp⟩, fun _ _ => rfl,
    fun _ _ _ _ h => by cases h⟩

theorem traced_getE {β : Type} {Q : Event → Prop} {proj : World → β} :
    Traced Q proj getE :=
  ⟨fun _ _ => ⟨[], by simp [getE_run, R.world], by simp⟩, fun _ _ => rfl,
    fun _ _ _ _ h => by cases h⟩

theorem traced_stamp {β : Type} {Q : Event → Prop} {proj : World → β} :
    Traced Q proj stamp :=
  ⟨fun _ _ => ⟨[], by simp [stamp_run, R.world], by simp⟩, fun _ _ => rfl,
    fun _ _ _ _ h => by cases h⟩

theorem traced_stopWith {α β : Type} {Q : Event → Prop} {proj : World → β} (o : Outcome)
    (ho : ∀ s, o ≠ .exited s) : Traced Q proj (stopWith o : M α) :=
  ⟨fun _ _ => ⟨[], by simp [stopWith_run, R.world], by simp⟩, fun _ _ => rfl,
    fun _ _ s _ h => by
      rw [stopWith_run] at h
      cases h
      exact absurd rfl (ho s)⟩

theorem traced_emit {β : Type} {Q : Event → Prop} {proj : World → β}
    (hp : ChannelFree proj) {ev : Event} (h : Q ev) : Traced Q proj (emit ev) :=
  ⟨fun _ w => ⟨[ev], rfl, by simpa using h⟩, fun _ w => hp w _ w.incoming,
    fun _ _ _ _ h => by cases h⟩

theorem traced_call {β : Type} {Q : Event → Prop} {proj : World → β}
    (hp : ChannelFree proj) {fn : Fn} {args : List Arg} (h : Q (.call fn args)) :
    Traced Q proj (call fn args) := traced_emit hp h

theorem traced_whenM {β : Type} {Q : Event → Prop} {proj : World → β} {c : Bool}
    {body : M Unit} (h : Traced Q proj body) : Traced Q proj (whenM c body) := by
  unfold whenM
  split
  · exact h
  · exact traced_pure _

theorem traced_ite {α β : Type} {Q : Event → Prop} {proj : World → β} {c : Prop}
    [Decidable c] {a b : M α} (ha : Traced Q proj a) (hb : Traced Q proj b) :
    Traced Q proj (if c then a else b) := by
  split
  · exact ha
  · exact hb

theorem traced_readItem {β : Type} {Q : Event → Prop} {proj : World → β}
    (hp : ChannelFree proj) : Traced Q proj readItem := by
  refine ⟨?_, ?_, ?_⟩
  · intro e w
    refine ⟨[], ?_, by simp⟩
    unfold readItem
    split <;> simp [R.world]
  · intro e w
    unfold readItem
    split
    · exact hp w w.trace []
    · exact hp w w.trace _
  · intro e w s w1 h
    unfold readItem at h
    split at h <;> cases h

theorem channelFree_frameFields : ChannelFree frameFields := fun _ _ _ => rfl

theorem sendFrameCountTime_run (e : Env) (w : World) :
    sendFrameCountTime e w =
      if e.sendMessageRet w.trace.length = -1 then
        .stop (.exited 1) { w with trace := w.trace ++ [.sendMessage .MSGB_FRAMECOUNT_TIME] }
      else .ok () { w with trace := w.trace ++ frameCountTimeEvents e w } := by
  unfold sendFrameCountTime frameCountTimeEvents
  rw [bind_run]
  unfold M.bind
  rw [sendMessage_run]
  simp only []
  split
  · rfl
  · simp only [bind_run, M.bind, getW_run, getE_run, stamp_run, sendData_run,
      List.append_assoc, List.length_append, List.length_cons, List.length_nil,
      List.cons_append, List.nil_append, List.singleton_append]

/-! ## What the drains and the render phase add to the trace -/

theorem traced_receiveMessage {β : Type} {Q : Event → Prop} {proj : World → β}
    (hp : ChannelFree proj) (hq : ∀ m, Q (.receiveMessage m)) :
    Traced Q proj receiveMessage := by
  unfold receiveMessage
  repeat' first
    | exact traced_pure _
    | exact traced_stopWith _ (fun _ h => by cases h)
    | exact traced_emit hp (hq _)
    | exact traced_readItem hp
    | apply traced_bind
    | intro _
    | split

theorem traced_receiveMessageNonBlocking {β : Type} {Q : Event → Prop}
    {proj : World → β} (hp : ChannelFree proj)
    (hq : ∀ m, Q (.receiveMessageNonBlocking m)) :
    Traced Q proj receiveMessageNonBlocking := by
  unfold receiveMessageNonBlocking
  repeat' first
    | exact traced_pure _
    | exact traced_stopWith _ (fun _ h => by cases h)
    | exact traced_emit hp (hq _)
    | exact traced_getW
    | exact traced_modifyW _ (fun _ => rfl) (fun w => hp w w.trace _)
    | apply traced_bind
    | intro _
    | split

theorem traced_receiveInt {β : Type} {Q : Event → Prop} {proj : World → β}
    (hp : ChannelFree proj) (hq : Q .receiveData) :
    Traced Q proj receiveInt := by
  unfold receiveInt
  repeat' first
    | exact traced_pure _
    | exact traced_stopWith _ (fun _ h => by cases h)
    | exact traced_emit hp hq
    | exact traced_readItem hp
    | apply traced_bind
    | intro _
    | split

theorem traced_receiveU32 {β : Type} {Q : Event → Prop} {proj : World → β}
    (hp : ChannelFree proj) (hq : Q .receiveData) :
    Traced Q proj receiveU32 := by
  unfold receiveU32
  repeat' first
    | exact traced_pure _
    | exact traced_stopWith _ (fun _ h => by cases h)
    | exact traced_emit hp hq
    | exact traced_readItem hp
    | apply traced_bind
    | intro _
    | split

theorem traced_receiveString {β : Type} {Q : Event → Prop} {proj : World → β}
    (hp : ChannelFree proj) (hq : Q .receiveData) :
    Traced Q proj receiveString := by
  unfold receiveString
  repeat' first
    | exact traced_pure _
    | exact traced_stopWith _ (fun _ h => by cases h)
    | exact traced_emit hp hq
    | exact traced_readItem hp
    | apply traced_bind
    | intro _
    | split

theorem traced_receiveInputs {β : Type} {Q : Event → Prop} {proj : World → β}
    (hp : ChannelFree proj) (hq : Q .receiveData) :
    Traced Q proj receiveInputs := by
  unfold receiveInputs
  repeat' first
    | exact traced_pure _
    | exact traced_stopWith _ (fun _ h => by cases h)
    | exact traced_emit hp hq
    | exact traced_readItem hp
    | apply traced_bind
    | intro _
    | split

theorem traced_receiveConfig {Q : Event → Prop} (hq : Q .receiveData) :
    Traced Q frameFields receiveConfig := by
  unfold receiveConfig
  repeat' first
    | exact traced_pure _
    | exact traced_stopWith _ (fun _ h => by cases h)
    | exact traced_emit channelFree_frameFields hq
    | exact traced_readItem channelFree_frameFields
    | exact traced_modifyW _ (fun _ => rfl) (fun _ => rfl)
    | apply traced_bind
    | intro _
    | split

theorem traced_sendMessage {β : Type} {Q : Event → Prop} {proj : World → β}
    (hp : ChannelFree proj) {m : MsgB} (hq : Q (.sendMessage m)) :
    Traced Q proj (sendMessage m) := by
  unfold sendMessage
  repeat' first
    | exact traced_pure _
    | exact traced_emit hp hq
    | exact traced_stamp
    | exact traced_getE
    | apply traced_bind
    | intro _

theorem traced_sendData {β : Type} {Q : Event → Prop} {proj : World → β}
    (hp : ChannelFree proj) {d : Data} (hq : Q (.sendData d)) :
    Traced Q proj (sendData d) := traced_emit hp hq

theorem traced_sendFrameCountTime {β : Type} {Q : Event → Prop} {proj : World → β}
    (hp : ChannelFree proj) (hq : Q (.sendMessage .MSGB_FRAMECOUNT_TIME))
    (hd : ∀ d, Q (.sendData d)) : Traced Q proj sendFrameCountTime := by
  refine ⟨?_, ?_, ?_⟩
  · intro e w
    rw [sendFrameCountTime_run]
    split
    · exact ⟨_, rfl, by simpa using hq⟩
    · refine ⟨_, rfl, ?_⟩
      intro ev hev
      unfold frameCountTimeEvents at hev
      simp only [List.mem_cons, List.mem_singleton, List.not_mem_nil, or_false] at hev
      rcases hev with h | h | h | h | h | h <;> rw [h]
      · exact hq
      all_goals exact hd _
  · intro e w
    rw [sendFrameCountTime_run]
    split
    · exact hp w _ w.incoming
    · exact hp w _ w.incoming
  · intro e w s w1 h
    rw [sendFrameCountTime_run] at h
    split at h
    · rename_i hr
      injection h with h1 h2
      injection h1 with h1
      subst h1 h2
      exact ⟨rfl, w.trace, rfl, hr⟩
    · cases h

theorem midEvent_of_drainEvent (ev : Event) (h : drainEvent ev = true) :
    midEvent ev = true := by
  unfold drainEvent at h
  split at h
  · cases h
  · cases h
  · exact h

theorem traced_mid_of_drain {α : Type} {m : M α} (h : Traced DrainOK frameFields m) :
    Traced MidOK frameFields m :=
  traced_weaken h midEvent_of_drainEvent (fun _ _ h => h)

theorem traced_handleDisplayMessage (message : MsgN) :
    Traced DrainOK frameFields (handleDisplayMessage message) := by
  unfold handleDisplayMessage
  repeat' first
    | exact traced_pure _
    | exact traced_stopWith _ (fun _ h => by cases h)
    | exact traced_getW
    | exact traced_getE
    | exact traced_stamp
    | exact traced_call channelFree_frameFields rfl
    | exact traced_emit channelFree_frameFields rfl
    | exact traced_sendData channelFree_frameFields rfl
    | exact traced_sendMessage channelFree_frameFields rfl
    | exact traced_receiveMessage channelFree_frameFields (fun _ => rfl)
    | exact traced_receiveInt channelFree_frameFields rfl
    | exact traced_receiveU32 channelFree_frameFields rfl
    | exact traced_receiveString channelFree_frameFields rfl
    | exact traced_receiveInputs channelFree_frameFields rfl
    | exact traced_receiveConfig rfl
    | exact traced_sendFrameCountTime channelFree_frameFields rfl (fun _ => rfl)
    | exact traced_modifyW _ (fun _ => rfl) (fun _ => rfl)
    | apply traced_bind
    | apply traced_whenM
    | apply traced_ite
    | intro _
    | split

theorem traced_blockingDrainLoop :
    ∀ (fuel : Nat) (message : MsgN),
      Traced DrainOK frameFields (blockingDrainLoop fuel message) := by
  intro fuel
  induction fuel with
  | zero => intro message; exact traced_stopWith _ (fun _ h => by cases h)
  | succ fuel ih =>
    intro message
    unfold blockingDrainLoop
    repeat' first
      | exact traced_pure _
      | exact traced_stopWith _ (fun _ h => by cases h)
      | exact traced_getW
      | exact traced_getE
      | exact traced_stamp
      | exact traced_call channelFree_frameFields rfl
      | exact traced_emit channelFree_frameFields rfl
      | exact traced_sendData channelFree_frameFields rfl
      | exact traced_sendMessage channelFree_frameFields rfl
      | exact traced_receiveMessage channelFree_frameFields (fun _ => rfl)
      | exact traced_receiveInt channelFree_frameFields rfl
      | exact traced_receiveU32 channelFree_frameFields rfl
      | exact traced_receiveString channelFree_frameFields rfl
      | exact traced_receiveInputs channelFree_frameFields rfl
      | exact traced_receiveConfig rfl
      | exact traced_sendFrameCountTime channelFree_frameFields rfl (fun _ => rfl)
      | exact traced_handleDisplayMessage _
      | exact ih _
      | exact traced_modifyW _ (fun _ => rfl) (fun _ => rfl)
      | apply traced_bind
      | apply traced_whenM
      | apply traced_ite
      | intro _
      | split

theorem traced_blockingDrain : Traced DrainOK frameFields blockingDrain := by
  unfold blockingDrain
  repeat' first
    | exact traced_pure _
    | exact traced_stopWith _ (fun _ h => by cases h)
    | exact traced_getW
    | exact traced_getE
    | exact traced_stamp
    | exact traced_call channelFree_frameFields rfl
    | exact traced_emit channelFree_frameFields rfl
    | exact traced_sendData channelFree_frameFields rfl
    | exact traced_sendMessage channelFree_frameFields rfl
    | exact traced_receiveMessage channelFree_frameFields (fun _ => rfl)
    | exact traced_receiveInt channelFree_frameFields rfl
    | exact traced_receiveU32 channelFree_frameFields rfl
    | exact traced_receiveString channelFree_frameFields rfl
    | exact traced_receiveInputs channelFree_frameFields rfl
    | exact traced_receiveConfig rfl
    | exact traced_sendFrameCountTime channelFree_frameFields rfl (fun _ => rfl)
    | exact traced_blockingDrainLoop _ _
    | exact traced_modifyW _ (fun _ => rfl) (fun _ => rfl)
    | apply traced_bind
    | apply traced_whenM
    | apply traced_ite
    | intro _
    | split

theorem traced_pushQuitDisplays (window : Nat) :
    ∀ (ds : List Bool) (i : Nat),
      Traced MidOK frameFields (pushQuitDisplays window i ds) := by
  intro ds
  induction ds with
  | nil => intro i; exact traced_pure _
  | cons d rest ih =>
    intro i
    unfold pushQuitDisplays
    repeat' first
      | exact traced_pure _
      | exact traced_stopWith _ (fun _ h => by cases h)
      | exact traced_getW
      | exact traced_getE
      | exact traced_stamp
      | exact traced_call channelFree_frameFields rfl
      | exact traced_emit channelFree_frameFields rfl
      | exact traced_sendData channelFree_frameFields rfl
      | exact traced_sendMessage channelFree_frameFields rfl
      | exact traced_receiveMessage channelFree_frameFields (fun _ => rfl)
      | exact traced_receiveInt channelFree_frameFields rfl
      | exact traced_receiveU32 channelFree_frameFields rfl
      | exact traced_receiveString channelFree_frameFields rfl
      | exact traced_receiveInputs channelFree_frameFields rfl
      | exact traced_receiveConfig rfl
      | exact traced_sendFrameCountTime channelFree_frameFields rfl (fun _ => rfl)
      | exact ih _
      | exact traced_modifyW _ (fun _ => rfl) (fun _ => rfl)
      | apply traced_bind
      | apply traced_whenM
      | apply traced_ite
      | intro _
      | split

theorem traced_pushQuitEvent : Traced MidOK frameFields pushQuitEvent := by
  unfold pushQuitEvent
  repeat' first
    | exact traced_pure _
    | exact traced_stopWith _ (fun _ h => by cases h)
    | exact traced_getW
    | exact traced_getE
    | exact traced_stamp
    | exact traced_call channelFree_frameFields rfl
    | exact traced_emit channelFree_frameFields rfl
    | exact traced_sendData channelFree_frameFields rfl
    | exact traced_sendMessage channelFree_frameFields rfl
    | exact traced_receiveMessage channelFree_frameFields (fun _ => rfl)
    | exact traced_receiveInt channelFree_frameFields rfl
    | exact traced_receiveU32 channelFree_frameFields rfl
    | exact traced_receiveString channelFree_frameFields rfl
    | exact traced_receiveInputs channelFree_frameFields rfl
    | exact traced_receiveConfig rfl
    | exact traced_sendFrameCountTime channelFree_frameFields rfl (fun _ => rfl)
    | exact traced_pushQuitDisplays _ _ _
    | exact traced_modifyW _ (fun _ => rfl) (fun _ => rfl)
    | apply traced_bind
    | apply traced_whenM
    | apply traced_ite
    | intro _
    | split

theorem traced_screen_redraw (draw : Bool) :
    Traced MidOK frameFields (screen_redraw draw) := by
  unfold screen_redraw
  repeat' first
    | exact traced_pure _
    | exact traced_stopWith _ (fun _ h => by cases h)
    | exact traced_getW
    | exact traced_getE
    | exact traced_stamp
    | exact traced_call channelFree_frameFields rfl
    | exact traced_emit channelFree_frameFields rfl
    | exact traced_sendData channelFree_frameFields rfl
    | exact traced_sendMessage channelFree_frameFields rfl
    | exact traced_receiveMessage channelFree_frameFields (fun _ => rfl)
    | exact traced_receiveInt channelFree_frameFields rfl
    | exact traced_receiveU32 channelFree_frameFields rfl
    | exact traced_receiveString channelFree_frameFields rfl
    | exact traced_receiveInputs channelFree_frameFields rfl
    | exact traced_receiveConfig rfl
    | exact traced_sendFrameCountTime channelFree_frameFields rfl (fun _ => rfl)
    | exact traced_modifyW _ (fun _ => rfl) (fun _ => rfl)
    | apply traced_bind
    | apply traced_whenM
    | apply traced_ite
    | intro _
    | split

theorem traced_catchDeadChildrenLoop :
    ∀ (slots : List Int), Traced MidOK frameFields (catchDeadChildrenLoop slots) := by
  intro slots
  induction slots with
  | nil => exact traced_call channelFree_frameFields rfl
  | cons slot rest ih =>
    unfold catchDeadChildrenLoop
    repeat' first
      | exact traced_pure _
      | exact traced_stopWith _ (fun _ h => by cases h)
      | exact traced_getW
      | exact traced_getE
      | exact traced_stamp
      | exact traced_call channelFree_frameFields rfl
      | exact traced_emit channelFree_frameFields rfl
      | exact traced_sendData channelFree_frameFields rfl
      | exact traced_sendMessage channelFree_frameFields rfl
      | exact traced_receiveMessage channelFree_frameFields (fun _ => rfl)
      | exact traced_receiveInt channelFree_frameFields rfl
      | exact traced_receiveU32 channelFree_frameFields rfl
      | exact traced_receiveString channelFree_frameFields rfl
      | exact traced_receiveInputs channelFree_frameFields rfl
      | exact traced_receiveConfig rfl
      | exact traced_sendFrameCountTime channelFree_frameFields rfl (fun _ => rfl)
      | exact ih
      | exact traced_modifyW _ (fun _ => rfl) (fun _ => rfl)
      | apply traced_bind
      | apply traced_whenM
      | apply traced_ite
      | intro _
      | split

theorem traced_catchDeadChildren : Traced MidOK frameFields catchDeadChildren := by
  unfold catchDeadChildren
  repeat' first
    | exact traced_pure _
    | exact traced_stopWith _ (fun _ h => by cases h)
    | exact traced_getW
    | exact traced_getE
    | exact traced_stamp
    | exact traced_call channelFree_frameFields rfl
    | exact traced_emit channelFree_frameFields rfl
    | exact traced_sendData channelFree_frameFields rfl
    | exact traced_sendMessage channelFree_frameFields rfl
    | exact traced_receiveMessage channelFree_frameFields (fun _ => rfl)
    | exact traced_receiveInt channelFree_frameFields rfl
    | exact traced_receiveU32 channelFree_frameFields rfl
    | exact traced_receiveString channelFree_frameFields rfl
    | exact traced_receiveInputs channelFree_frameFields rfl
    | exact traced_receiveConfig rfl
    | exact traced_sendFrameCountTime channelFree_frameFields rfl (fun _ => rfl)
    | exact traced_catchDeadChildrenLoop _
    | exact traced_modifyW _ (fun _ => rfl) (fun _ => rfl)
    | apply traced_bind
    | apply traced_whenM
    | apply traced_ite
    | intro _
    | split

theorem traced_idleBlock : Traced MidOK frameFields idleBlock := by
  unfold idleBlock
  repeat' first
    | exact traced_pure _
    | exact traced_stopWith _ (fun _ h => by cases h)
    | exact traced_getW
    | exact traced_getE
    | exact traced_stamp
    | exact traced_call channelFree_frameFields rfl
    | exact traced_emit channelFree_frameFields rfl
    | exact traced_sendData channelFree_frameFields rfl
    | exact traced_sendMessage channelFree_frameFields rfl
    | exact traced_receiveMessage channelFree_frameFields (fun _ => rfl)
    | exact traced_receiveInt channelFree_frameFields rfl
    | exact traced_receiveU32 channelFree_frameFields rfl
    | exact traced_receiveString channelFree_frameFields rfl
    | exact traced_receiveInputs channelFree_frameFields rfl
    | exact traced_receiveConfig rfl
    | exact traced_sendFrameCountTime channelFree_frameFields rfl (fun _ => rfl)
    | exact traced_catchDeadChildren
    | exact traced_modifyW _ (fun _ => rfl) (fun _ => rfl)
    | apply traced_bind
    | apply traced_whenM
    | apply traced_ite
    | intro _
    | split

theorem traced_handleSavestate (draw : Bool) :
    Traced MidOK frameFields (handleSavestate draw) := by
  unfold handleSavestate
  repeat' first
    | exact traced_pure _
    | exact traced_stopWith _ (fun _ h => by cases h)
    | exact traced_getW
    | exact traced_getE
    | exact traced_stamp
    | exact traced_call channelFree_frameFields rfl
    | exact traced_emit channelFree_frameFields rfl
    | exact traced_sendData channelFree_frameFields rfl
    | exact traced_sendMessage channelFree_frameFields rfl
    | exact traced_receiveMessage channelFree_frameFields (fun _ => rfl)
    | exact traced_receiveInt channelFree_frameFields rfl
    | exact traced_receiveU32 channelFree_frameFields rfl
    | exact traced_receiveString channelFree_frameFields rfl
    | exact traced_receiveInputs channelFree_frameFields rfl
    | exact traced_receiveConfig rfl
    | exact traced_sendFrameCountTime channelFree_frameFields rfl (fun _ => rfl)
    | exact traced_screen_redraw _
    | exact traced_modifyW _ (fun _ => rfl) (fun _ => rfl)
    | apply traced_bind
    | apply traced_whenM
    | apply traced_ite
    | intro _
    | split

theorem traced_handleLoadstate : Traced MidOK frameFields handleLoadstate := by
  unfold handleLoadstate
  repeat' first
    | exact traced_pure _
    | exact traced_stopWith _ (fun _ h => by cases h)
    | exact traced_getW
    | exact traced_getE
    | exact traced_stamp
    | exact traced_call channelFree_frameFields rfl
    | exact traced_emit channelFree_frameFields rfl
    | exact traced_sendData channelFree_frameFields rfl
    | exact traced_sendMessage channelFree_frameFields rfl
    | exact traced_receiveMessage channelFree_frameFields (fun _ => rfl)
    | exact traced_receiveInt channelFree_frameFields rfl
    | exact traced_receiveU32 channelFree_frameFields rfl
    | exact traced_receiveString channelFree_frameFields rfl
    | exact traced_receiveInputs channelFree_frameFields rfl
    | exact traced_receiveConfig rfl
    | exact traced_sendFrameCountTime channelFree_frameFields rfl (fun _ => rfl)
    | exact traced_modifyW _ (fun _ => rfl) (fun _ => rfl)
    | apply traced_bind
    | apply traced_whenM
    | apply traced_ite
    | intro _
    | split

theorem traced_handleControlMessage (draw : Bool) (message : MsgN) :
    Traced MidOK frameFields (handleControlMessage draw message) := by
  unfold handleControlMessage
  repeat' first
    | exact traced_pure _
    | exact traced_stopWith _ (fun _ h => by cases h)
    | exact traced_getW
    | exact traced_getE
    | exact traced_stamp
    | exact traced_call channelFree_frameFields rfl
    | exact traced_emit channelFree_frameFields rfl
    | exact traced_sendData channelFree_frameFields rfl
    | exact traced_sendMessage channelFree_frameFields rfl
    | exact traced_receiveMessage channelFree_frameFields (fun _ => rfl)
    | exact traced_receiveInt channelFree_frameFields rfl
    | exact traced_receiveU32 channelFree_frameFields rfl
    | exact traced_receiveString channelFree_frameFields rfl
    | exact traced_receiveInputs channelFree_frameFields rfl
    | exact traced_receiveConfig rfl
    | exact traced_sendFrameCountTime channelFree_frameFields rfl (fun _ => rfl)
    | exact traced_pushQuitEvent
    | exact traced_screen_redraw _
    | exact traced_handleSavestate _
    | exact traced_handleLoadstate
    | exact traced_modifyW _ (fun _ => rfl) (fun _ => rfl)
    | apply traced_bind
    | apply traced_whenM
    | apply traced_ite
    | intro _
    | split

theorem traced_receiveLoop (draw : Bool) :
    ∀ (fuel : Nat), Traced MidOK frameFields (receiveLoop draw fuel) := by
  intro fuel
  induction fuel with
  | zero => exact traced_stopWith _ (fun _ h => by cases h)
  | succ fuel ih =>
    unfold receiveLoop
    repeat' first
      | exact traced_pure _
      | exact traced_stopWith _ (fun _ h => by cases h)
      | exact traced_getW
      | exact traced_getE
      | exact traced_stamp
      | exact traced_call channelFree_frameFields rfl
      | exact traced_emit channelFree_frameFields rfl
      | exact traced_sendData channelFree_frameFields rfl
      | exact traced_sendMessage channelFree_frameFields rfl
      | exact traced_receiveMessage channelFree_frameFields (fun _ => rfl)
      | exact traced_receiveInt channelFree_frameFields rfl
      | exact traced_receiveU32 channelFree_frameFields rfl
      | exact traced_receiveString channelFree_frameFields rfl
      | exact traced_receiveInputs channelFree_frameFields rfl
      | exact traced_receiveConfig rfl
      | exact traced_sendFrameCountTime channelFree_frameFields rfl (fun _ => rfl)
      | exact traced_receiveMessageNonBlocking channelFree_frameFields (fun _ => rfl)
      | exact traced_idleBlock
      | exact traced_handleControlMessage _ _
      | exact ih
      | exact traced_modifyW _ (fun _ => rfl) (fun _ => rfl)
      | apply traced_bind
      | apply traced_whenM
      | apply traced_ite
      | intro _
      | split

theorem traced_receive_messages (draw : Bool) :
    Traced MidOK frameFields (receive_messages draw) := by
  unfold receive_messages
  repeat' first
    | exact traced_pure _
    | exact traced_stopWith _ (fun _ h => by cases h)
    | exact traced_getW
    | exact traced_getE
    | exact traced_stamp
    | exact traced_call channelFree_frameFields rfl
    | exact traced_emit channelFree_frameFields rfl
    | exact traced_sendData channelFree_frameFields rfl
    | exact traced_sendMessage channelFree_frameFields rfl
    | exact traced_receiveMessage channelFree_frameFields (fun _ => rfl)
    | exact traced_receiveInt channelFree_frameFields rfl
    | exact traced_receiveU32 channelFree_frameFields rfl
    | exact traced_receiveString channelFree_frameFields rfl
    | exact traced_receiveInputs channelFree_frameFields rfl
    | exact traced_receiveConfig rfl
    | exact traced_sendFrameCountTime channelFree_frameFields rfl (fun _ => rfl)
    | exact traced_catchDeadChildren
    | exact traced_receiveLoop _ _
    | exact traced_modifyW _ (fun _ => rfl) (fun _ => rfl)
    | apply traced_bind
    | apply traced_whenM
    | apply traced_ite
    | intro _
    | split

theorem traced_drawHud (draw : Bool) : Traced MidOK frameFields (drawHud draw) := by
  unfold drawHud
  repeat' first
    | exact traced_pure _
    | exact traced_stopWith _ (fun _ h => by cases h)
    | exact traced_getW
    | exact traced_getE
    | exact traced_stamp
    | exact traced_call channelFree_frameFields rfl
    | exact traced_emit channelFree_frameFields rfl
    | exact traced_sendData channelFree_frameFields rfl
    | exact traced_sendMessage channelFree_frameFields rfl
    | exact traced_receiveMessage channelFree_frameFields (fun _ => rfl)
    | exact traced_receiveInt channelFree_frameFields rfl
    | exact traced_receiveU32 channelFree_frameFields rfl
    | exact traced_receiveString channelFree_frameFields rfl
    | exact traced_receiveInputs channelFree_frameFields rfl
    | exact traced_receiveConfig rfl
    | exact traced_sendFrameCountTime channelFree_frameFields rfl (fun _ => rfl)
    | exact traced_modifyW _ (fun _ => rfl) (fun _ => rfl)
    | apply traced_bind
    | apply traced_whenM
    | apply traced_ite
    | intro _
    | split

theorem traced_renderPhase (draw : Bool) (timeIncrement : Nat) :
    Traced MidOK frameFields (renderPhase draw timeIncrement) := by
  unfold renderPhase
  repeat' first
    | exact traced_pure _
    | exact traced_stopWith _ (fun _ h => by cases h)
    | exact traced_getW
    | exact traced_getE
    | exact traced_stamp
    | exact traced_call channelFree_frameFields rfl
    | exact traced_emit channelFree_frameFields rfl
    | exact traced_sendData channelFree_frameFields rfl
    | exact traced_sendMessage channelFree_frameFields rfl
    | exact traced_receiveMessage channelFree_frameFields (fun _ => rfl)
    | exact traced_receiveInt channelFree_frameFields rfl
    | exact traced_receiveU32 channelFree_frameFields rfl
    | exact traced_receiveString channelFree_frameFields rfl
    | exact traced_receiveInputs channelFree_frameFields rfl
    | exact traced_receiveConfig rfl
    | exact traced_sendFrameCountTime channelFree_frameFields rfl (fun _ => rfl)
    | exact traced_drawHud _
    | exact traced_modifyW _ (fun _ => rfl) (fun _ => rfl)
    | apply traced_bind
    | apply traced_whenM
    | apply traced_ite
    | intro _
    | split

/-! ## Checkpoint failure reporting -/

theorem whenM_true_run (body : M Unit) (e : Env) (w : World) :
    whenM true body e w = body e w := rfl

theorem whenM_false_run (body : M Unit) (e : Env) (w : World) :
    whenM false body e w = .ok () w := rfl

theorem handleSavestate_failed (draw : Bool) (e : Env) (w : World)
    (hs : e.checkpoint w.slot w.trace.length ≠ 0)
    (hl : e.isLoading (w.trace.length + 2) = false) :
    handleSavestate draw e w =
      .ok () { w with trace := w.trace ++
        [.call .checkpoint [.int w.slot],
         .call .printError [.int (e.checkpoint w.slot w.trace.length)],
         .call .isLoading [], .sendMessage (.raw (-1))] } := by
  unfold handleSavestate
  simp only [bind_run, pure_run, M.bind, getW_run, getE_run, stamp_run, call_run,
    sendMessage_run, hs, decide_False, whenM_false_run, List.length_append,
    List.length_cons, List.length_nil, List.append_assoc, List.cons_append,
    List.nil_append, hl, Bool.false_eq_true, if_false]

theorem handleSavestate_saved (draw : Bool) (e : Env) (w : World)
    (hs : e.checkpoint w.slot w.trace.length = 0)
    (hl : e.isLoading (w.trace.length + 3) = false) :
    handleSavestate draw e w =
      .ok () { w with
        didASavestate := true
        trace := w.trace ++
          ([.call .checkpoint [.int w.slot], .call .setCurrentToParent [],
            .call .printError [.int 0], .call .isLoading [],
            .sendMessage .MSGB_SAVING_SUCCEEDED] ++
           (if !w.shared_config.ss_fork then
              [.call .messageWindowInsert [.osd (.stateSaved w.slot)]] else [])) } := by
  unfold handleSavestate
  simp only [bind_run, pure_run, M.bind, getW_run, getE_run, stamp_run, call_run,
    sendMessage_run, modifyW_run, hs, decide_True, whenM_true_run, whenM_call_run,
    List.length_append,
    List.length_cons, List.length_nil, List.append_assoc, List.cons_append,
    List.nil_append, hl, Bool.false_eq_true, if_false, if_true]

theorem traced_goal {α β : Type} {Q : Event → Prop} {proj : World → β} {m : M α}
    (h : Traced Q proj m) (e : Env) (w0 w : World) (pre : List Event)
    (hw : w.trace = w0.trace ++ pre) (hq : ∀ ev ∈ pre, Q ev) (hp : proj w = proj w0) :
    ∃ t, (m e w).world.trace = w0.trace ++ t ∧ (∀ ev ∈ t, Q ev) ∧
      proj (m e w).world = proj w0 := by
  obtain ⟨t, h1, h2⟩ := h.grows e w
  refine ⟨pre ++ t, ?_, ?_, ?_⟩
  · rw [h1, hw, List.append_assoc]
  · intro ev hev
    rcases List.mem_append.mp hev with h | h
    · exact hq ev h
    · exact h2 ev h
  · rw [h.fixed e w, hp]

theorem channelFree_didASavestate : ChannelFree World.didASavestate := fun _ _ _ => rfl

theorem traced_receiveConfig_didASavestate :
    Traced NotSaved World.didASavestate receiveConfig := by
  unfold receiveConfig
  repeat' first
    | exact traced_pure _
    | exact traced_stopWith _ (fun _ h => by cases h)
    | exact traced_emit channelFree_didASavestate rfl
    | exact traced_readItem channelFree_didASavestate
    | exact traced_modifyW _ (fun _ => rfl) (fun _ => rfl)
    | apply traced_bind
    | intro _
    | split

theorem traced_screen_redraw_notSaved (draw : Bool) :
    Traced NotSaved World.didASavestate (screen_redraw draw) := by
  unfold screen_redraw
  repeat' first
    | exact traced_pure _
    | exact traced_stopWith _ (fun _ h => by cases h)
    | exact traced_getW
    | exact traced_getE
    | exact traced_stamp
    | exact traced_call channelFree_didASavestate rfl
    | exact traced_emit channelFree_didASavestate rfl
    | exact traced_sendData channelFree_didASavestate rfl
    | exact traced_sendMessage channelFree_didASavestate rfl
    | exact traced_receiveMessage channelFree_didASavestate (fun _ => rfl)
    | exact traced_sendFrameCountTime channelFree_didASavestate rfl (fun _ => rfl)
    | exact traced_modifyW _ (fun _ => rfl) (fun _ => rfl)
    | apply traced_bind
    | apply traced_whenM
    | apply traced_ite
    | intro _
    | split

theorem handleSavestate_unsaved (draw : Bool) (e : Env) (w : World)
    (hs : e.checkpoint w.slot w.trace.length ≠ 0) :
    ∃ t, (handleSavestate draw e w).world.trace = w.trace ++ t ∧
      (∀ ev ∈ t, NotSaved ev) ∧
      (handleSavestate draw e w).world.didASavestate = w.didASavestate := by
  cases hl : e.isLoading (w.trace.length + 2) with
  | false =>
    rw [handleSavestate_failed draw e w hs hl]
    refine ⟨_, rfl, ?_, rfl⟩
    intro ev hev
    simp only [List.mem_cons, List.mem_singleton, List.not_mem_nil, or_false] at hev
    rcases hev with h | h | h | h <;> rw [h] <;> rfl
  | true =>
    unfold handleSavestate
    rw [bind_ok (getW_run e w), bind_ok (getE_run e w), bind_ok (stamp_run e w),
      bind_ok (call_run _ _ e w)]
    simp only [hs, decide_False]
    rw [bind_ok (whenM_false_run _ e _), bind_ok (call_run _ _ e _),
      bind_ok (stamp_run e _), bind_ok (call_run _ _ e _)]
    simp only [List.length_append, List.length_cons, List.length_nil, Nat.zero_add,
      Nat.reduceAdd, Nat.add_assoc]
    rw [if_pos hl]
    refine @traced_goal _ _ NotSaved World.didASavestate _ ?_ e w _
      [.call .checkpoint [.int w.slot],
       .call .printError [.int (e.checkpoint w.slot w.trace.length)],
       .call .isLoading []] ?_ ?_ rfl
    · repeat' first
        | exact traced_pure _
        | exact traced_stopWith _ (fun _ h => by cases h)
        | exact traced_getW
        | exact traced_getE
        | exact traced_stamp
        | exact traced_call channelFree_didASavestate rfl
        | exact traced_emit channelFree_didASavestate rfl
        | exact traced_sendData channelFree_didASavestate rfl
        | exact traced_sendMessage channelFree_didASavestate rfl
        | exact traced_receiveMessage channelFree_didASavestate (fun _ => rfl)
        | exact traced_sendFrameCountTime channelFree_didASavestate rfl (fun _ => rfl)
        | exact traced_receiveConfig_didASavestate
        | exact traced_screen_redraw_notSaved _
        | exact traced_modifyW _ (fun _ => rfl) (fun _ => rfl)
        | apply traced_bind
        | apply traced_whenM
        | apply traced_ite
        | intro _
        | split
    · simp only [List.append_assoc, List.cons_append, List.nil_append]
    · intro ev hev
      simp only [List.mem_cons, List.mem_singleton, List.not_mem_nil, or_false] at hev
      rcases hev with h | h | h <;> rw [h] <;> rfl

theorem handleLoadstate_failed (e : Env) (w : World) (status : Int)
    (hr : e.restore w.slot w.trace.length = some status) :
    handleLoadstate e w =
      sendFrameCountTime e { w with trace := w.trace ++
        [.call .restore [.int w.slot], .call .printError [.int status]] } := by
  unfold handleLoadstate
  rw [bind_ok (getW_run e w), bind_ok (getE_run e w), bind_ok (stamp_run e w),
    bind_ok (call_run _ _ e w)]
  simp only [hr]
  rw [bind_ok (call_run _ _ e _)]
  simp only [List.append_assoc, List.cons_append, List.nil_append]

/-- C20, counterexample: a frame in which the controller requests a restore
(`MSGN_LOADSTATE`) that fails with status 1.  The frame returns, the restore
was attempted, yet no sentinel message (tag -1) is in the trace: the second
`MSGB_FRAMECOUNT_TIME` is what the engine sends instead. -/
theorem loadstate_failure_sends_no_sentinel :
    envExample.restore 0 32 = some 1 ∧
    (runFrame envExample true (worldExample 5 false
      [.tag .MSGN_START_FRAMEBOUNDARY, .tag .MSGN_LOADSTATE,
       .tag .MSGN_END_FRAMEBOUNDARY])).returned = true ∧
    (runFrame envExample true (worldExample 5 false
      [.tag .MSGN_START_FRAMEBOUNDARY, .tag .MSGN_LOADSTATE,
       .tag .MSGN_END_FRAMEBOUNDARY])).world.trace.get? 32 = some (.call .restore [.int 0]) ∧
    .sendMessage (.raw (-1)) ∉
      (runFrame envExample true (worldExample 5 false
        [.tag .MSGN_START_FRAMEBOUNDARY, .tag .MSGN_LOADSTATE,
         .tag .MSGN_END_FRAMEBOUNDARY])).world.trace ∧
    (runFrame envExample true (worldExample 5 false
      [.tag .MSGN_START_FRAMEBOUNDARY, .tag .MSGN_LOADSTATE,
       .tag .MSGN_END_FRAMEBOUNDARY])).world.trace.count
        (.sendMessage .MSGB_FRAMECOUNT_TIME) = 2 := by
  decide!

/-- C20, amended: a save (`MSGN_SAVESTATE`) that fails (non-zero status) while
the process is not resuming from a load sends the sentinel message (tag -1)
as its only message; a save with non-zero status never sends
`MSGB_SAVING_SUCCEEDED` and leaves the flag `didASavestate` as it was,
resuming from a load or not; a save with status 0, not resuming from a load,
sends `MSGB_SAVING_SUCCEEDED` and sets the flag.  A restore (`MSGN_LOADSTATE`)
that fails sends no sentinel and no success message: the only tag it sends is
`MSGB_FRAMECOUNT_TIME`, followed by nothing but payload data. -/
theorem checkpoint_failure_reporting (draw : Bool) (e : Env) (w : World) :
    (e.checkpoint w.slot w.trace.length ≠ 0 → e.isLoading (w.trace.length + 2) = false →
      handleSavestate draw e w =
        .ok () { w with trace := w.trace ++
          [.call .checkpoint [.int w.slot],
           .call .printError [.int (e.checkpoint w.slot w.trace.length)],
           .call .isLoading [], .sendMessage (.raw (-1))] }) ∧
    (e.checkpoint w.slot w.trace.length ≠ 0 →
      ∃ t, (handleSavestate draw e w).world.trace = w.trace ++ t ∧
        .sendMessage .MSGB_SAVING_SUCCEEDED ∉ t ∧
        (handleSavestate draw e w).world.didASavestate = w.didASavestate) ∧
    (e.checkpoint w.slot w.trace.length = 0 → e.isLoading (w.trace.length + 3) = false →
      handleSavestate draw e w =
        .ok () { w with
          didASavestate := true
          trace := w.trace ++
            ([.call .checkpoint [.int w.slot], .call .setCurrentToParent [],
              .call .printError [.int 0], .call .isLoading [],
              .sendMessage .MSGB_SAVING_SUCCEEDED] ++
             (if !w.shared_config.ss_fork then
                [.call .messageWindowInsert [.osd (.stateSaved w.slot)]] else [])) }) ∧
    (∀ status, e.restore w.slot w.trace.length = some status →
      ∃ t, (handleLoadstate e w).world.trace =
          w.trace ++ [.call .restore [.int w.slot], .call .printError [.int status],
            .sendMessage .MSGB_FRAMECOUNT_TIME] ++ t ∧
        ∀ ev ∈ t, ∃ d, ev = .sendData d) := by
  refine ⟨handleSavestate_failed draw e w, ?_, handleSavestate_saved draw e w, ?_⟩
  · intro hs
    obtain ⟨t, h1, h2, h3⟩ := handleSavestate_unsaved draw e w hs
    refine ⟨t, h1, ?_, h3⟩
    intro hm
    exact absurd (h2 _ hm) (by decide)
  · intro status hr
    rw [handleLoadstate_failed e w status hr, sendFrameCountTime_run]
    split
    · exact ⟨[], by simp [R.world], by simp⟩
    · refine ⟨(frameCountTimeEvents e { w with trace := w.trace ++
          [.call .restore [.int w.slot], .call .printError [.int status]] }).tail, ?_, ?_⟩
      · simp [R.world, frameCountTimeEvents]
      · intro ev hev
        simp only [frameCountTimeEvents, List.tail_cons, List.mem_cons, List.mem_singleton,
          List.not_mem_nil, or_false] at hev
        rcases hev with h | h | h | h | h <;> exact ⟨_, h⟩

/-- C20, an instance: a failed save at slot 0 sends the sentinel. -/
theorem checkpoint_failure_reporting_witness :
    (handleSavestate true envExample (worldExample 5 false [])).world.trace =
      [.call .checkpoint [.int 0], .call .printError [.int 1], .call .isLoading [],
       .sendMessage (.raw (-1))] :=
  (congrArg (fun r => (R.world r).trace)
    ((checkpoint_failure_reporting true envExample (worldExample 5 false [])).1
      (by decide) rfl)).trans (by decide)

/-! ## The blocking drain -/

theorem receiveMessage_at (e : Env) (w : World) (m : MsgN) (rest : List Item)
    (t : List Event) :
    receiveMessage e { w with incoming := .tag m :: rest, trace := t } =
      .ok m { w with incoming := rest, trace := t ++ [.receiveMessage m] } := rfl

theorem receiveInt_at (e : Env) (w : World) (v : Int) (rest : List Item)
    (t : List Event) :
    receiveInt e { w with incoming := .int v :: rest, trace := t } =
      .ok v { w with incoming := rest, trace := t ++ [.receiveData] } := rfl

theorem receiveU32_at (e : Env) (w : World) (v : Nat) (rest : List Item)
    (t : List Event) :
    receiveU32 e { w with incoming := .u32 v :: rest, trace := t } =
      .ok v { w with incoming := rest, trace := t ++ [.receiveData] } := rfl

theorem receiveString_at (e : Env) (w : World) (v : String) (rest : List Item)
    (t : List Event) :
    receiveString e { w with incoming := .str v :: rest, trace := t } =
      .ok v { w with incoming := rest, trace := t ++ [.receiveData] } := rfl

theorem handleDisplayMessage_at (e : Env) (w : World) (m : DisplayMsg)
    (rest : List Item) (t : List Event) :
    handleDisplayMessage m.tagOf e { w with incoming := m.payload ++ rest, trace := t } =
      .ok () { w with incoming := rest, trace := t ++ m.applied e t.length } := by
  cases m <;>
    simp only [handleDisplayMessage, DisplayMsg.tagOf, DisplayMsg.payload,
      DisplayMsg.applied, bind_run, M.bind, receiveInt_at, receiveU32_at, receiveString_at,
      call_run, stamp_run, getE_run, sendMessage_run, sendData_run, List.cons_append,
      List.nil_append, List.append_assoc]

theorem tagOf_ne_start (m : DisplayMsg) : m.tagOf ≠ .MSGN_START_FRAMEBOUNDARY := by
  cases m <;> exact fun h => by cases h

theorem length_encodeDisplay (ms : List DisplayMsg) :
    ms.length ≤ (encodeDisplay ms).length := by
  induction ms with
  | nil => exact le_rfl
  | cons m ms ih =>
    simp only [encodeDisplay, List.length_cons, List.length_append]
    omega

theorem blockingDrainLoop_at (e : Env) :
    ∀ (ms : List DisplayMsg) (fuel : Nat) (w : World) (rest : List Item) (t : List Event),
      ms.length < fuel →
      (receiveMessage >>= blockingDrainLoop fuel) e
          { w with
            incoming := encodeDisplay ms ++ .tag .MSGN_START_FRAMEBOUNDARY :: rest
            trace := t } =
        .ok () { w with
          incoming := rest
          trace := drainTrace e t ms ++ [.receiveMessage .MSGN_START_FRAMEBOUNDARY] } := by
  intro ms
  induction ms with
  | nil =>
    intro fuel w rest t hf
    obtain ⟨k, rfl⟩ : ∃ k, fuel = k + 1 := ⟨fuel - 1, by omega⟩
    simp only [encodeDisplay, List.nil_append]
    rw [bind_ok (receiveMessage_at e w _ rest t)]
    unfold blockingDrainLoop
    rw [if_pos rfl]
    rfl
  | cons m ms ih =>
    intro fuel w rest t hf
    obtain ⟨k, rfl⟩ : ∃ k, fuel = k + 1 := ⟨fuel - 1, by omega⟩
    simp only [encodeDisplay, List.cons_append, List.append_assoc]
    rw [bind_ok (receiveMessage_at e w _ _ t)]
    unfold blockingDrainLoop
    rw [if_neg (tagOf_ne_start m), bind_ok (handleDisplayMessage_at e w m _ _)]
    have h := ih k w rest (t ++ [Event.receiveMessage m.tagOf] ++
      m.applied e (t ++ [Event.receiveMessage m.tagOf]).length)
      (by simp only [List.length_cons] at hf; omega)
    simp only [List.length_append, List.length_cons, List.length_nil, Nat.zero_add,
      List.append_assoc, List.cons_append, List.nil_append] at h ⊢
    simp only [drainTrace]
    exact h

theorem stream_head (ms : List DisplayMsg) (rest : List Item) :
    ∃ m tl, encodeDisplay ms ++ .tag .MSGN_START_FRAMEBOUNDARY :: rest = .tag m :: tl := by
  cases ms with
  | nil => exact ⟨_, _, rfl⟩
  | cons m ms => exact ⟨_, _, rfl⟩

/-- C15, amended: when the controller sends, during the blocking drain, any
sequence of messages that the drain has a `case` for (RAMWATCH and the LUA
messages), each with its payload, ending with START_FRAMEBOUNDARY, the drain
returns; every message was fully consumed with its payload and applied, in
order; nothing else of the state changed; and the drain ended exactly at the
START_FRAMEBOUNDARY tag: what follows it on the socket is left unread. -/
theorem blockingDrain_round_trip (e : Env) (w : World) (ms : List DisplayMsg)
    (rest : List Item)
    (hin : w.incoming = encodeDisplay ms ++ .tag .MSGN_START_FRAMEBOUNDARY :: rest) :
    blockingDrain e w =
      .ok () { w with
        incoming := rest
        trace := drainTrace e w.trace ms ++ [.receiveMessage .MSGN_START_FRAMEBOUNDARY] } := by
  have hw : w = { w with
      incoming := encodeDisplay ms ++ .tag .MSGN_START_FRAMEBOUNDARY :: rest
      trace := w.trace } := by
    rw [← hin]
  have hl := length_encodeDisplay ms
  obtain ⟨m, tl, hm⟩ := stream_head ms rest
  have hlen : tl.length + 1 =
      (encodeDisplay ms ++ .tag .MSGN_START_FRAMEBOUNDARY :: rest).length := by
    rw [hm]
    rfl
  rw [List.length_append, List.length_cons] at hlen
  have key := blockingDrainLoop_at e ms (tl.length + 1) w rest w.trace (by omega)
  rw [← hw] at key
  rw [← key]
  unfold blockingDrain
  have h1 : receiveMessage e w =
      .ok m { w with incoming := tl, trace := w.trace ++ [.receiveMessage m] } := by
    rw [hw, hm]
    rfl
  rw [bind_ok h1, bind_ok (getW_run e _), bind_ok h1]

/-- C15, an instance: the messages RAMWATCH("a") and LUA_PIXEL(1, 2, 3)
followed by START_FRAMEBOUNDARY are consumed and applied, and the tag after
START_FRAMEBOUNDARY is left on the socket. -/
theorem blockingDrain_round_trip_witness :
    (blockingDrain envExample (worldExample 5 false
        [.tag .MSGN_RAMWATCH, .str "a", .tag .MSGN_LUA_PIXEL, .int 1, .int 2, .u32 3,
         .tag .MSGN_START_FRAMEBOUNDARY, .tag .MSGN_END_FRAMEBOUNDARY])).world.trace =
      [.receiveMessage .MSGN_RAMWATCH, .receiveData, .call .watchesInsert [.str "a"],
       .receiveMessage .MSGN_LUA_PIXEL, .receiveData, .receiveData, .receiveData,
       .call .luaInsertPixel [.int 1, .int 2, .nat 3],
       .receiveMessage .MSGN_START_FRAMEBOUNDARY] :=
  (congrArg (fun r => (R.world r).trace)
    (blockingDrain_round_trip envExample
      (worldExample 5 false
        [.tag .MSGN_RAMWATCH, .str "a", .tag .MSGN_LUA_PIXEL, .int 1, .int 2, .u32 3,
         .tag .MSGN_START_FRAMEBOUNDARY, .tag .MSGN_END_FRAMEBOUNDARY])
      [.ramwatch "a", .luaPixel 1 2 3] [.tag .MSGN_END_FRAMEBOUNDARY] rfl)).trans
    (by decide)

/-- C15, counterexample: the sequence of the claim, RAMWATCH("a"), CONFIG(cfg),
START_FRAMEBOUNDARY, sent during the blocking drain.  The watch is inserted,
but the drain has no `case` for CONFIG: the payload of CONFIG is read as the
next tag, the frame does not go on to the render phase, and the configuration
is not stored. -/
theorem blockingDrain_does_not_store_config :
    (runFrame envExample true (worldExample 5 false
      [.tag .MSGN_RAMWATCH, .str "a", .tag .MSGN_CONFIG,
       .config (cfgFastForward .FF_RENDER_ALL), .tag .MSGN_START_FRAMEBOUNDARY,
       .tag .MSGN_END_FRAMEBOUNDARY])).stopped = some .desync ∧
    .call .watchesInsert [.str "a"] ∈
      (runFrame envExample true (worldExample 5 false
        [.tag .MSGN_RAMWATCH, .str "a", .tag .MSGN_CONFIG,
         .config (cfgFastForward .FF_RENDER_ALL), .tag .MSGN_START_FRAMEBOUNDARY,
         .tag .MSGN_END_FRAMEBOUNDARY])).world.trace ∧
    (runFrame envExample true (worldExample 5 false
      [.tag .MSGN_RAMWATCH, .str "a", .tag .MSGN_CONFIG,
       .config (cfgFastForward .FF_RENDER_ALL), .tag .MSGN_START_FRAMEBOUNDARY,
       .tag .MSGN_END_FRAMEBOUNDARY])).world.trace.getLast? =
        some (.receiveMessage .MSGN_CONFIG) ∧
    (runFrame envExample true (worldExample 5 false
      [.tag .MSGN_RAMWATCH, .str "a", .tag .MSGN_CONFIG,
       .config (cfgFastForward .FF_RENDER_ALL), .tag .MSGN_START_FRAMEBOUNDARY,
       .tag .MSGN_END_FRAMEBOUNDARY])).world.shared_config =
        cfgFastForward (.FF_RENDER_OTHER 1) ∧
    cfgFastForward (.FF_RENDER_OTHER 1) ≠ cfgFastForward .FF_RENDER_ALL := by
  decide!

/-! ## The outbound handshake and the fatal first send -/

theorem outboundHandshake_run (draw : Bool) (e : Env) (w : World) :
    outboundHandshake draw e w =
      if e.sendMessageRet (w.trace.length + 1) = -1 then
        .stop (.exited 1)
          { w with trace := w.trace ++ [.lockSocket, .sendMessage .MSGB_FRAMECOUNT_TIME] }
      else
        .ok () { w with
          game_info := { w.game_info with tosend := false }
          threadListChanged := false
          trace := w.trace ++ handshakeEvents e draw w } := by
  unfold outboundHandshake
  rw [bind_ok (emit_run _ e w)]
  split
  · rename_i h
    refine (@bind_stop _ _ _ _ _ _ ({ w with
      trace := w.trace ++ [.lockSocket, .sendMessage .MSGB_FRAMECOUNT_TIME] }) _ ?_)
    rw [sendFrameCountTime_run]
    simp only [List.length_append, List.length_cons, List.length_nil, Nat.zero_add]
    rw [if_pos h]
    simp only [List.append_assoc, List.cons_append, List.nil_append]
  · rename_i h
    have h1 : sendFrameCountTime e { w with trace := w.trace ++ [.lockSocket] } =
        .ok () { w with trace := w.trace ++ [.lockSocket] ++
          frameCountTimeEvents e { w with trace := w.trace ++ [.lockSocket] } } := by
      rw [sendFrameCountTime_run]
      simp only [List.length_append, List.length_cons, List.length_nil, Nat.zero_add]
      rw [if_neg h]
    rw [bind_ok h1, bind_ok (getW_run e _)]
    unfold handshakeEvents
    have hgi : w.game_info.tosend = false →
        ({ w.game_info with tosend := false } : GameInfo) = w.game_info := by
      intro h
      rw [← h]
    cases hg : w.game_info.tosend <;> cases ht : w.threadListChanged <;> cases draw <;>
      simp [hg, ht, hgi, bind_run, M.bind, pure_run, getW_run, call_run, sendMessage_run,
        sendData_run, modifyW_run, whenM_true_run, whenM_false_run]

theorem whenM_true (body : M Unit) : whenM true body = body := rfl

theorem whenM_false (body : M Unit) : whenM false body = pure () := rfl

theorem bind_assoc_run {α β γ : Type} (m : M α) (f : α → M β) (g : β → M γ) (e : Env)
    (w : World) : ((m >>= f) >>= g) e w = (m >>= fun a => f a >>= g) e w := by
  show M.bind (M.bind m f) g e w = M.bind m (fun a => M.bind (f a) g) e w
  unfold M.bind
  cases m e w <;> rfl

theorem frameBoundary_head (e : Env) (draw : Bool) (w : World)
    (hx : w.is_exiting = false) :
    runFrame e draw w =
      (do
        outboundHandshake draw
        blockingDrain
        renderPhase draw e.timeIncrement
        receive_messages draw
        inputPhase draw : M Unit) e (frameStart e draw w) := by
  unfold runFrame frameBoundary
  rw [bind_ok (enterPhase_run draw e w), bind_ok (getW_run e _)]
  obtain ⟨h1, _⟩ := builtInputs_fields w
  simp only [h1, hx, Bool.false_eq_true, if_false]
  rw [bind_ok (modifyW_run _ e _)]
  cases draw with
  | false =>
    rw [bind_ok (whenM_false_run _ e _)]
    unfold frameStart builtInputs
    cases hi : w.inputs_built <;> simp [hi, hx]
  | true =>
    rw [whenM_true, bind_assoc_run, bind_ok (getE_run e _), bind_assoc_run,
      bind_ok (getW_run e _), bind_assoc_run, bind_ok (call_run _ _ e _),
      bind_ok (modifyW_run _ e _)]
    unfold frameStart builtInputs
    cases hi : w.inputs_built <;> simp [hi, hx]

theorem channelFree_noFields : ChannelFree noFields := fun _ _ _ => rfl

theorem traced_any_outboundHandshake (draw : Bool) :
    Traced AnyEvent noFields (outboundHandshake draw) := by
  unfold outboundHandshake
  repeat' first
    | exact traced_pure _
    | exact traced_stopWith _ (fun _ h => by cases h)
    | exact traced_getW
    | exact traced_getE
    | exact traced_stamp
    | exact traced_call channelFree_noFields trivial
    | exact traced_emit channelFree_noFields trivial
    | exact traced_sendData channelFree_noFields trivial
    | exact traced_sendMessage channelFree_noFields trivial
    | exact traced_sendFrameCountTime channelFree_noFields trivial (fun _ => trivial)
    | exact traced_modifyW _ (fun _ => rfl) (fun _ => rfl)
    | apply traced_bind
    | apply traced_whenM
    | apply traced_ite
    | intro _
    | split

theorem traced_any_inputPhase (draw : Bool) :
    Traced AnyEvent noFields (inputPhase draw) := by
  unfold inputPhase
  repeat' first
    | exact traced_pure _
    | exact traced_stopWith _ (fun _ h => by cases h)
    | exact traced_getW
    | exact traced_getE
    | exact traced_stamp
    | exact traced_call channelFree_noFields trivial
    | exact traced_emit channelFree_noFields trivial
    | exact traced_sendData channelFree_noFields trivial
    | exact traced_sendMessage channelFree_noFields trivial
    | exact traced_sendFrameCountTime channelFree_noFields trivial (fun _ => trivial)
    | exact traced_modifyW _ (fun _ => rfl) (fun _ => rfl)
    | apply traced_bind
    | apply traced_whenM
    | apply traced_ite
    | intro _
    | split

theorem traced_any_of_mid {α : Type} {m : M α} (h : Traced MidOK frameFields m) :
    Traced AnyEvent noFields m :=
  traced_weaken h (fun _ _ => trivial) (fun _ _ _ => rfl)

theorem traced_any_frameTail (draw : Bool) (timeIncrement : Nat) :
    Traced AnyEvent noFields (do
      outboundHandshake draw
      blockingDrain
      renderPhase draw timeIncrement
      receive_messages draw
      inputPhase draw : M Unit) := by
  refine traced_bind (traced_any_outboundHandshake draw) (fun _ => ?_)
  refine traced_bind (traced_any_of_mid (traced_mid_of_drain traced_blockingDrain))
    (fun _ => ?_)
  refine traced_bind (traced_any_of_mid (traced_renderPhase draw timeIncrement))
    (fun _ => ?_)
  exact traced_bind (traced_any_of_mid (traced_receive_messages draw))
    (fun _ => traced_any_inputPhase draw)

theorem setupEvents_all (e : Env) (draw : Bool) (w : World) :
    (setupEvents e draw w).all setupEvent = true := by
  unfold setupEvents enterEvents
  simp only [List.all_append, Bool.and_eq_true]
  repeat' apply And.intro
  all_goals first | rfl | (split <;> rfl)

theorem frameStart_fields (e : Env) (draw : Bool) (w : World) :
    (frameStart e draw w).trace = w.trace ++ setupEvents e draw w ∧
    (frameStart e draw w).inp = (builtInputs w).inp ∧
    (frameStart e draw w).game_info = w.game_info ∧
    (frameStart e draw w).threadListChanged = w.threadListChanged ∧
    (frameStart e draw w).framecount = (w.framecount + 1) % 2 ^ 64 ∧
    (frameStart e draw w).skipping_draw = w.skipping_draw ∧
    (frameStart e draw w).incoming = w.incoming := by
  obtain ⟨h1, h2, h3, h4, h5, h6, h7, h8, h9, h10, h11, _⟩ := builtInputs_fields w
  exact ⟨rfl, rfl, h2, h10, rfl, h6, h11⟩

theorem runFrame_exiting (e : Env) (draw : Bool) (w : World) (hx : w.is_exiting = true) :
    runFrame e draw w =
      .ok () { builtInputs w with
        trace := w.trace ++ (enterEvents e draw w ++ exitEvents draw w) } := by
  unfold runFrame frameBoundary
  rw [bind_ok (enterPhase_run draw e w), bind_ok (getW_run e _)]
  obtain ⟨h1, h2, h3, _⟩ := builtInputs_fields w
  have hb : ({ builtInputs w with
      trace := w.trace ++ enterEvents e draw w } : World).is_exiting = true := h1.trans hx
  rw [if_pos hb, exitPath_run]
  have he : exitEvents draw { builtInputs w with trace := w.trace ++ enterEvents e draw w } =
      exitEvents draw w := by
    unfold exitEvents
    simp only [h2, h3]
  rw [he]
  simp only [List.append_assoc]

/-- C17: (1) in `sendFrameCountTime`, when the send of the FRAMECOUNT_TIME tag
returns -1 the process exits with status 1 right after that send, and nothing
else is sent.  (2) In a non-exit `frameBoundary` call whose first send fails,
the process exits with status 1; all that has happened before is the set-up
of the frame (collaborator calls that are neither the draw callback nor
`updateGameInputs`) and `lockSocket`: no payload, no rendering, no input
merge.  (3) Whenever a `frameBoundary` call ends in an exit of the process,
the status is 1 and the last thing that happened is a send of the
FRAMECOUNT_TIME tag that returned -1: the return value of no other send ends
the process. -/
theorem fatal_first_send (e : Env) (draw : Bool) (w : World) :
    (e.sendMessageRet w.trace.length = -1 →
      sendFrameCountTime e w =
        .stop (.exited 1)
          { w with trace := w.trace ++ [.sendMessage .MSGB_FRAMECOUNT_TIME] }) ∧
    (w.is_exiting = false →
      e.sendMessageRet ((w.trace ++ setupEvents e draw w).length + 1) = -1 →
      runFrame e draw w =
        .stop (.exited 1)
          { frameStart e draw w with
            trace := w.trace ++ (setupEvents e draw w ++
              [.lockSocket, .sendMessage .MSGB_FRAMECOUNT_TIME]) } ∧
      (∀ ev ∈ setupEvents e draw w, setupEvent ev = true) ∧
      (frameStart e draw w).inp = (builtInputs w).inp) ∧
    (∀ s w1, runFrame e draw w = .stop (.exited s) w1 →
      s = 1 ∧ ∃ t0, w1.trace = t0 ++ [.sendMessage .MSGB_FRAMECOUNT_TIME] ∧
        e.sendMessageRet t0.length = -1) := by
  refine ⟨?_, ?_, ?_⟩
  · intro h
    rw [sendFrameCountTime_run, if_pos h]
  · intro hx hr
    refine ⟨?_, fun ev hev => List.all_eq_true.mp (setupEvents_all e draw w) ev hev, rfl⟩
    rw [frameBoundary_head e draw w hx]
    refine (@bind_stop _ _ _ _ _ _ ({ frameStart e draw w with
      trace := w.trace ++ (setupEvents e draw w ++
        [.lockSocket, .sendMessage .MSGB_FRAMECOUNT_TIME]) }) _ ?_)
    rw [outboundHandshake_run]
    have ht : (frameStart e draw w).trace = w.trace ++ setupEvents e draw w := rfl
    rw [ht, if_pos hr, List.append_assoc]
  · intro s w1 h
    cases hx : w.is_exiting with
    | true =>
      rw [runFrame_exiting e draw w hx] at h
      cases h
    | false =>
      rw [frameBoundary_head e draw w hx] at h
      exact (traced_any_frameTail draw e.timeIncrement).exits e _ s w1 h

/-- C17, an instance: with a transport on which every send fails, a frame
with a draw callback ends in `exit(1)` after 10 events, the last two being
`lockSocket` and the send of the tag. -/
theorem fatal_first_send_witness :
    (runFrame { envExample with sendMessageRet := fun _ => -1 } true
      (worldExample 5 false [.tag .MSGN_START_FRAMEBOUNDARY])).stopped = some (.exited 1) ∧
    (runFrame { envExample with sendMessageRet := fun _ => -1 } true
      (worldExample 5 false [.tag .MSGN_START_FRAMEBOUNDARY])).world.trace.length = 10 :=
  ⟨congrArg R.stopped
      (((fatal_first_send { envExample with sendMessageRet := fun _ => -1 } true
        (worldExample 5 false [.tag .MSGN_START_FRAMEBOUNDARY])).2.1 rfl rfl).1),
    (congrArg (fun r => (R.world r).trace.length)
      (((fatal_first_send { envExample with sendMessageRet := fun _ => -1 } true
        (worldExample 5 false [.tag .MSGN_START_FRAMEBOUNDARY])).2.1 rfl rfl).1)).trans
      (by decide)⟩

/-! ## The order of the handshake -/

theorem swr_receiveMessage : StartsWithReceive receiveMessage := by
  constructor
  intro e w
  have hrd : readItem e w =
      match nextItem w.incoming with
      | none => .stop .blocked { w with incoming := [] }
      | some (it, rest) => .ok it { w with incoming := rest } := rfl
  unfold receiveMessage
  cases hn : nextItem w.incoming with
  | none =>
    rw [hn] at hrd
    exact Or.inl ⟨_, _, bind_stop hrd, rfl⟩
  | some p =>
    obtain ⟨it, rest⟩ := p
    rw [hn] at hrd
    rw [bind_ok hrd]
    cases it
    case tag m => exact Or.inr ⟨m, [], rfl⟩
    all_goals exact Or.inl ⟨_, _, rfl, rfl⟩

theorem swr_bind {α β : Type} {m : M α} {K : α → M β} (hm : StartsWithReceive m)
    (hK : ∀ a, Traced AnyEvent noFields (K a)) : StartsWithReceive (m >>= K) := by
  constructor
  intro e w
  rcases hm.first e w with ⟨o, w1, h1, h2⟩ | ⟨x, t, h⟩
  · exact Or.inl ⟨o, w1, bind_stop h1, h2⟩
  · right
    cases hr : m e w with
    | ok a w1 =>
      rw [hr] at h
      obtain ⟨t2, h2, _⟩ := (hK a).grows e w1
      refine ⟨x, t ++ t2, ?_⟩
      rw [bind_ok hr, h2]
      simp only [R.world] at h
      rw [h]
      simp only [List.append_assoc, List.cons_append]
    | stop o w1 =>
      rw [hr] at h
      refine ⟨x, t, ?_⟩
      rw [bind_stop hr]
      exact h

theorem restEvent_of_midEvent (ev : Event) (h : midEvent ev = true) : restEvent ev = true := by
  cases ev with
  | lockSocket => exact absurd h (by decide)
  | sendMessage m => cases m <;> first | rfl | exact absurd h (by decide)
  | unlockSocket => rfl
  | sendData d => rfl
  | receiveMessage m => rfl
  | receiveMessageNonBlocking m => rfl
  | receiveData => rfl
  | call fn args => rfl

theorem channelFree_flagFields : ChannelFree flagFields := fun _ _ _ => rfl

theorem traced_rest_of_mid {α : Type} {m : M α} (h : Traced MidOK frameFields m) :
    Traced RestOK flagFields m :=
  traced_weaken h restEvent_of_midEvent (fun w w1 h => by
    unfold frameFields at h
    unfold flagFields
    injection h with h1 h2
    injection h2 with h2 h3
    injection h3 with h3 h4
    injection h4 with h4 h5
    rw [h1, h4])

theorem traced_rest_inputPhase (draw : Bool) :
    Traced RestOK flagFields (inputPhase draw) := by
  unfold inputPhase
  repeat' first
    | exact traced_pure _
    | exact traced_stopWith _ (fun _ h => by cases h)
    | exact traced_getW
    | exact traced_getE
    | exact traced_stamp
    | exact traced_call channelFree_flagFields rfl
    | exact traced_emit channelFree_flagFields rfl
    | exact traced_modifyW _ (fun _ => rfl) (fun _ => rfl)
    | apply traced_bind
    | apply traced_whenM
    | apply traced_ite
    | intro _
    | split

theorem traced_rest_frameRest (draw : Bool) (timeIncrement : Nat) :
    Traced RestOK flagFields (do
      blockingDrain
      renderPhase draw timeIncrement
      receive_messages draw
      inputPhase draw : M Unit) := by
  refine traced_bind (traced_rest_of_mid (traced_mid_of_drain traced_blockingDrain))
    (fun _ => ?_)
  refine traced_bind (traced_rest_of_mid (traced_renderPhase draw timeIncrement))
    (fun _ => ?_)
  exact traced_bind (traced_rest_of_mid (traced_receive_messages draw))
    (fun _ => traced_rest_inputPhase draw)

theorem traced_any_of_rest {α : Type} {m : M α} (h : Traced RestOK flagFields m) :
    Traced AnyEvent noFields m :=
  traced_weaken h (fun _ _ => trivial) (fun _ _ _ => rfl)

theorem swr_frameRest (draw : Bool) (timeIncrement : Nat) :
    StartsWithReceive (do
      blockingDrain
      renderPhase draw timeIncrement
      receive_messages draw
      inputPhase draw : M Unit) := by
  refine swr_bind ?_ (fun _ => ?_)
  · unfold blockingDrain
    refine swr_bind swr_receiveMessage (fun m => ?_)
    exact traced_bind traced_getW (fun _ =>
      traced_any_of_mid (traced_mid_of_drain (traced_blockingDrainLoop _ _)))
  · refine traced_bind (traced_any_of_mid (traced_renderPhase draw timeIncrement))
      (fun _ => ?_)
    exact traced_bind (traced_any_of_mid (traced_receive_messages draw))
      (fun _ => traced_any_inputPhase draw)

theorem frame_after_handshake (e : Env) (draw : Bool) (w : World)
    (hx : w.is_exiting = false)
    (hs : e.sendMessageRet ((w.trace ++ setupEvents e draw w).length + 1) ≠ -1) :
    ∃ rest, (runFrame e draw w).world.trace =
        w.trace ++ (setupEvents e draw w ++
          (handshakeEvents e draw (frameStart e draw w) ++ rest)) ∧
      (∀ ev ∈ rest, restEvent ev = true) ∧
      (rest = [] ∨ ∃ m t, rest = .receiveMessage m :: t) ∧
      (runFrame e draw w).world.game_info.tosend = false ∧
      (runFrame e draw w).world.threadListChanged = false := by
  have ht : (frameStart e draw w).trace = w.trace ++ setupEvents e draw w := rfl
  have h4 : outboundHandshake draw e (frameStart e draw w) =
      .ok () { frameStart e draw w with
        game_info := { (frameStart e draw w).game_info with tosend := false }
        threadListChanged := false
        trace := (frameStart e draw w).trace ++
          handshakeEvents e draw (frameStart e draw w) } := by
    rw [outboundHandshake_run, ht, if_neg hs]
  rw [frameBoundary_head e draw w hx, bind_ok h4]
  have tr := traced_rest_frameRest draw e.timeIncrement
  obtain ⟨rest, g1, g2⟩ := tr.grows e { frameStart e draw w with
        game_info := { (frameStart e draw w).game_info with tosend := false }
        threadListChanged := false
        trace := (frameStart e draw w).trace ++
          handshakeEvents e draw (frameStart e draw w) }
  have g3 := tr.fixed e { frameStart e draw w with
        game_info := { (frameStart e draw w).game_info with tosend := false }
        threadListChanged := false
        trace := (frameStart e draw w).trace ++
          handshakeEvents e draw (frameStart e draw w) }
  have g4 := (swr_frameRest draw e.timeIncrement).first e { frameStart e draw w with
        game_info := { (frameStart e draw w).game_info with tosend := false }
        threadListChanged := false
        trace := (frameStart e draw w).trace ++
          handshakeEvents e draw (frameStart e draw w) }
  unfold flagFields at g3
  injection g3 with g3a g3b
  refine ⟨rest, ?_, g2, ?_, g3a, g3b⟩
  · rw [g1, ht]
    simp only [List.append_assoc]
  · rcases g4 with ⟨o, w1, k1, k2⟩ | ⟨x, t, k⟩
    · left
      rw [k1] at g1
      simp only [R.world] at g1
      rw [k2] at g1
      exact (List.append_right_eq_self.mp g1.symm)
    · right
      rw [k] at g1
      exact ⟨x, t, (List.append_cancel_left g1).symm⟩

theorem setupEvent_quiet (ev : Event) (h : setupEvent ev = true) :
    sentTag ev = none ∧ ev.isReceive = false ∧ ev ≠ .lockSocket ∧ ev ≠ .unlockSocket ∧
      ev ≠ .call .draw [] ∧ ev ≠ .call .updateGameInputs [] := by
  cases ev with
  | call fn args =>
    refine ⟨rfl, rfl, (fun h1 => by cases h1), (fun h1 => by cases h1), ?_, ?_⟩
    · intro h1
      injection h1 with h1 h2
      subst h1
      simp [setupEvent] at h
    · intro h1
      injection h1 with h1 h2
      subst h1
      simp [setupEvent] at h
  | lockSocket => simp [setupEvent] at h
  | unlockSocket => simp [setupEvent] at h
  | sendMessage m => simp [setupEvent] at h
  | sendData d => simp [setupEvent] at h
  | receiveMessage m => simp [setupEvent] at h
  | receiveMessageNonBlocking m => simp [setupEvent] at h
  | receiveData => simp [setupEvent] at h

theorem handshakeEvents_frameStart (e : Env) (draw : Bool) (w : World) :
    handshakeEvents e draw (frameStart e draw w) =
      [.lockSocket, .sendMessage .MSGB_FRAMECOUNT_TIME,
       .sendData (.u64 ((w.framecount + 1) % 2 ^ 64)),
       .sendData (.u64 (toU64 (e.getTicks .TIMETYPE_UNTRACKED_MONOTONIC
         ((w.trace ++ setupEvents e draw w).length + 3)).1)),
       .sendData (.u64 (toU64 (e.getTicks .TIMETYPE_UNTRACKED_MONOTONIC
         ((w.trace ++ setupEvents e draw w).length + 3)).2)),
       .sendData (.u64 (toU64 (e.getTicks .TIMETYPE_UNTRACKED_REALTIME
         ((w.trace ++ setupEvents e draw w).length + 5)).1)),
       .sendData (.u64 (toU64 (e.getTicks .TIMETYPE_UNTRACKED_REALTIME
         ((w.trace ++ setupEvents e draw w).length + 5)).2))] ++
      ((if w.game_info.tosend then
          [.sendMessage .MSGB_GAMEINFO, .sendData .gameInfo] else []) ++
       ([.sendMessage .MSGB_FPS, .sendData (.f32 (frameStart e draw w).fps),
         .sendData (.f32 (frameStart e draw w).lfps), .call .hasThreadListChanged []] ++
        ((if w.threadListChanged then
            [.sendMessage .MSGB_INVALIDATE_SAVESTATES, .call .resetThreadListChanged []]
          else []) ++
         ((if !draw then [.sendMessage .MSGB_NONDRAW_FRAME] else []) ++
          [.sendMessage .MSGB_START_FRAMEBOUNDARY, .call .watchesReset [],
           .call .luaDrawReset []])))) := by
  obtain ⟨h1, _, h3, h4, h5, _⟩ := frameStart_fields e draw w
  unfold handshakeEvents frameCountTimeEvents
  simp only [h1, h3, h4, h5, List.length_append, List.length_cons, List.length_nil,
    List.append_assoc, List.cons_append, List.nil_append, Nat.add_assoc, Nat.reduceAdd,
    Nat.zero_add]

theorem handshakeEvents_tags (e : Env) (draw : Bool) (w : World) :
    (handshakeEvents e draw w).filterMap sentTag = handshakeTags draw w ∧
    ∀ ev ∈ handshakeEvents e draw w, ev.isReceive = false := by
  unfold handshakeEvents handshakeTags frameCountTimeEvents
  cases w.game_info.tosend <;> cases w.threadListChanged <;> cases draw <;>
    simp [sentTag, Event.isReceive]

/-- C13: in a non-exit `frameBoundary` call whose first send succeeds, the
trace of the call is the set-up of the frame (no send, no receive), then the
outbound handshake, then the rest, which is empty or starts with the receive
of a message tag.  The handshake is, in this order: `lockSocket`; the tag
FRAMECOUNT_TIME followed by five 64-bit values (the frame count, seconds and
nanoseconds of the untracked monotonic clock, seconds and nanoseconds of the
untracked realtime clock); GAMEINFO and its record if and only if
`game_info.tosend` was set; FPS followed by fps and lfps; the query of the
thread list, then INVALIDATE_SAVESTATES and the reset of the change flag if
and only if the thread list changed; NONDRAW_FRAME if and only if no draw
callback was given; START_FRAMEBOUNDARY, once, as the last tag.  The
handshake contains no receive, and the change flag is cleared afterwards. -/
theorem handshake_order (e : Env) (draw : Bool) (w : World)
    (hx : w.is_exiting = false)
    (hs : e.sendMessageRet ((w.trace ++ setupEvents e draw w).length + 1) ≠ -1) :
    ∃ rest,
      (runFrame e draw w).world.trace =
        w.trace ++ (setupEvents e draw w ++
          (handshakeEvents e draw (frameStart e draw w) ++ rest)) ∧
      (∀ ev ∈ setupEvents e draw w, sentTag ev = none ∧ ev.isReceive = false) ∧
      handshakeEvents e draw (frameStart e draw w) =
        [.lockSocket, .sendMessage .MSGB_FRAMECOUNT_TIME,
         .sendData (.u64 ((w.framecount + 1) % 2 ^ 64)),
         .sendData (.u64 (toU64 (e.getTicks .TIMETYPE_UNTRACKED_MONOTONIC
           ((w.trace ++ setupEvents e draw w).length + 3)).1)),
         .sendData (.u64 (toU64 (e.getTicks .TIMETYPE_UNTRACKED_MONOTONIC
           ((w.trace ++ setupEvents e draw w).length + 3)).2)),
         .sendData (.u64 (toU64 (e.getTicks .TIMETYPE_UNTRACKED_REALTIME
           ((w.trace ++ setupEvents e draw w).length + 5)).1)),
         .sendData (.u64 (toU64 (e.getTicks .TIMETYPE_UNTRACKED_REALTIME
           ((w.trace ++ setupEvents e draw w).length + 5)).2))] ++
        ((if w.game_info.tosend then
            [.sendMessage .MSGB_GAMEINFO, .sendData .gameInfo] else []) ++
         ([.sendMessage .MSGB_FPS, .sendData (.f32 (frameStart e draw w).fps),
           .sendData (.f32 (frameStart e draw w).lfps), .call .hasThreadListChanged []] ++
          ((if w.threadListChanged then
              [.sendMessage .MSGB_INVALIDATE_SAVESTATES, .call .resetThreadListChanged []]
            else []) ++
           ((if !draw then [.sendMessage .MSGB_NONDRAW_FRAME] else []) ++
            [.sendMessage .MSGB_START_FRAMEBOUNDARY, .call .watchesReset [],
             .call .luaDrawReset []])))) ∧
      (handshakeEvents e draw (frameStart e draw w)).filterMap sentTag =
        [.MSGB_FRAMECOUNT_TIME] ++ (if w.game_info.tosend then [.MSGB_GAMEINFO] else []) ++
          [.MSGB_FPS] ++
          (if w.threadListChanged then [.MSGB_INVALIDATE_SAVESTATES] else []) ++
          (if !draw then [.MSGB_NONDRAW_FRAME] else []) ++ [.MSGB_START_FRAMEBOUNDARY] ∧
      (∀ ev ∈ handshakeEvents e draw (frameStart e draw w), ev.isReceive = false) ∧
      (rest = [] ∨ ∃ m t, rest = .receiveMessage m :: t) ∧
      (runFrame e draw w).world.threadListChanged = false := by
  obtain ⟨rest, h1, _, h3, _, h5⟩ := frame_after_handshake e draw w hx hs
  obtain ⟨k1, k2⟩ := handshakeEvents_tags e draw (frameStart e draw w)
  obtain ⟨_, _, f3, f4, _⟩ := frameStart_fields e draw w
  refine ⟨rest, h1, ?_, handshakeEvents_frameStart e draw w, ?_, k2, h3, h5⟩
  · intro ev hev
    have h := setupEvent_quiet ev (List.all_eq_true.mp (setupEvents_all e draw w) ev hev)
    exact ⟨h.1, h.2.1⟩
  · rw [k1]
    unfold handshakeTags
    rw [f3, f4]

/-- C13, an instance: the first frame of a fresh process with a draw
callback sends the tags FRAMECOUNT_TIME, GAMEINFO, FPS and START_FRAMEBOUNDARY
before its first receive. -/
theorem handshake_order_witness :
    (handshakeEvents envExample true
      (frameStart envExample true
        (worldExample 5 false [.tag .MSGN_START_FRAMEBOUNDARY]))).filterMap sentTag =
      [.MSGB_FRAMECOUNT_TIME, .MSGB_GAMEINFO, .MSGB_FPS, .MSGB_START_FRAMEBOUNDARY] :=
  (handshake_order envExample true (worldExample 5 false [.tag .MSGN_START_FRAMEBOUNDARY])
    rfl (by decide)).elim (fun _ h => h.2.2.2.1.trans (by decide))

/-! ## GAMEINFO is sent once -/

theorem count_zero_of_all (p : Event → Bool) (x : Event) {l : List Event}
    (h : ∀ ev ∈ l, p ev = true) (hp : p x = false) : l.count x = 0 := by
  refine List.count_eq_zero.mpr (fun hmem => ?_)
  have h1 := h x hmem
  rw [hp] at h1
  cases h1

theorem count_gameinfo_handshake (e : Env) (draw : Bool) (w : World) :
    (handshakeEvents e draw w).count (.sendMessage .MSGB_GAMEINFO) =
      if w.game_info.tosend then 1 else 0 := by
  unfold handshakeEvents frameCountTimeEvents
  cases w.game_info.tosend <;> cases w.threadListChanged <;> cases draw <;>
    simp [List.count_cons]

theorem runFrame_first_send_fails (e : Env) (draw : Bool) (w : World)
    (hx : w.is_exiting = false)
    (hr : e.sendMessageRet ((w.trace ++ setupEvents e draw w).length + 1) = -1) :
    runFrame e draw w =
      .stop (.exited 1)
        { frameStart e draw w with
          trace := w.trace ++ (setupEvents e draw w ++
            [.lockSocket, .sendMessage .MSGB_FRAMECOUNT_TIME]) } := by
  rw [frameBoundary_head e draw w hx]
  refine (@bind_stop _ _ _ _ _ _ ({ frameStart e draw w with
    trace := w.trace ++ (setupEvents e draw w ++
      [.lockSocket, .sendMessage .MSGB_FRAMECOUNT_TIME]) }) _ ?_)
  rw [outboundHandshake_run]
  have ht : (frameStart e draw w).trace = w.trace ++ setupEvents e draw w := rfl
  rw [ht, if_pos hr, List.append_assoc]

theorem count_gameinfo_setup (e : Env) (draw : Bool) (w : World) :
    (setupEvents e draw w).count (.sendMessage .MSGB_GAMEINFO) = 0 :=
  count_zero_of_all setupEvent _
    (fun ev hev => List.all_eq_true.mp (setupEvents_all e draw w) ev hev) rfl

theorem frame_no_gameinfo (e : Env) (draw : Bool) (w : World)
    (ht : w.game_info.tosend = false) :
    ∃ t, (runFrame e draw w).world.trace = w.trace ++ t ∧
      t.count (.sendMessage .MSGB_GAMEINFO) = 0 ∧
      (runFrame e draw w).world.game_info.tosend = false := by
  obtain ⟨_, b2, _⟩ := builtInputs_fields w
  obtain ⟨_, _, f3, _⟩ := frameStart_fields e draw w
  cases hx : w.is_exiting with
  | true =>
    rw [runFrame_exiting e draw w hx]
    refine ⟨_, rfl, ?_, ?_⟩
    · rw [List.count_append,
        count_zero_of_all quietCall (.sendMessage .MSGB_GAMEINFO) (fun ev hev =>
          List.all_eq_true.mp (quietCall_enterEvents e draw w) ev hev) rfl,
        count_zero_of_all quietCall (.sendMessage .MSGB_GAMEINFO) (fun ev hev =>
          List.all_eq_true.mp (quietCall_exitEvents draw w) ev hev) rfl]
    · show (builtInputs w).game_info.tosend = false
      rw [b2, ht]
  | false =>
    by_cases hs : e.sendMessageRet ((w.trace ++ setupEvents e draw w).length + 1) = -1
    · rw [runFrame_first_send_fails e draw w hx hs]
      refine ⟨_, rfl, ?_, ?_⟩
      · rw [List.count_append, count_gameinfo_setup]
        rfl
      · show (frameStart e draw w).game_info.tosend = false
        rw [f3, ht]
    · obtain ⟨rest, h1, h2, _, h4, _⟩ := frame_after_handshake e draw w hx hs
      refine ⟨_, h1, ?_, h4⟩
      rw [List.count_append, List.count_append, count_gameinfo_setup,
        count_gameinfo_handshake, f3, ht, count_zero_of_all restEvent (.sendMessage .MSGB_GAMEINFO) h2 rfl]
      rfl

theorem frame_first_gameinfo (e : Env) (draw : Bool) (w w1 : World)
    (ht : w.game_info.tosend = true) (hx : w.is_exiting = false)
    (hr : runFrame e draw w = .ok () w1) :
    ∃ t, w1.trace = w.trace ++ t ∧ t.count (.sendMessage .MSGB_GAMEINFO) = 1 ∧
      w1.game_info.tosend = false := by
  obtain ⟨_, _, f3, _⟩ := frameStart_fields e draw w
  have hs : e.sendMessageRet ((w.trace ++ setupEvents e draw w).length + 1) ≠ -1 := by
    intro hs
    rw [runFrame_first_send_fails e draw w hx hs] at hr
    cases hr
  obtain ⟨rest, h1, h2, _, h4, _⟩ := frame_after_handshake e draw w hx hs
  rw [hr] at h1 h4
  refine ⟨_, h1, ?_, h4⟩
  rw [List.count_append, List.count_append, count_gameinfo_setup,
    count_gameinfo_handshake, f3, ht, count_zero_of_all restEvent (.sendMessage .MSGB_GAMEINFO) h2 rfl]
  rfl

theorem runFrames_no_gameinfo :
    ∀ (fs : List (Env × Bool × List Item)) (w wN : World),
      w.game_info.tosend = false → runFrames w fs = some wN →
      ∃ t, wN.trace = w.trace ++ t ∧ t.count (.sendMessage .MSGB_GAMEINFO) = 0 ∧
        wN.game_info.tosend = false := by
  intro fs
  induction fs with
  | nil =>
    intro w wN ht h
    unfold runFrames at h
    injection h with h
    subst h
    exact ⟨[], by simp, rfl, ht⟩
  | cons f fs ih =>
    intro w wN ht h
    obtain ⟨e, draw, more⟩ := f
    unfold runFrames at h
    obtain ⟨t1, a1, a2, a3⟩ :=
      frame_no_gameinfo e draw { w with incoming := w.incoming ++ more } ht
    cases hr : runFrame e draw { w with incoming := w.incoming ++ more } with
    | stop o w1 =>
      rw [hr] at h
      cases h
    | ok u w1 =>
      rw [hr] at h a1 a3
      simp only [R.world] at a1 a3
      obtain ⟨t2, b1, b2, b3⟩ := ih w1 wN a3 h
      refine ⟨t1 ++ t2, ?_, ?_, b3⟩
      · rw [b1, a1, List.append_assoc]
      · rw [List.count_append, a2, b2]

/-- C14: starting from a state with `game_info.tosend` set, in any sequence
of `frameBoundary` calls that all return and of which the first is a non-exit
call, the first call sends GAMEINFO exactly once and clears `tosend`, and the
later calls, whatever their draw callbacks and whatever the controller sends,
send no GAMEINFO and leave `tosend` cleared.  More generally, a
`frameBoundary` call made with `tosend` cleared sends no GAMEINFO and leaves
`tosend` cleared, however the call ends. -/
theorem gameinfo_sent_once (w : World) (e : Env) (draw : Bool) (more : List Item)
    (fs : List (Env × Bool × List Item)) (wN : World)
    (ht : w.game_info.tosend = true) (hx : w.is_exiting = false)
    (hr : runFrames w ((e, draw, more) :: fs) = some wN) :
    (∃ w1 t1 t2,
      runFrame e draw { w with incoming := w.incoming ++ more } = .ok () w1 ∧
      w1.trace = w.trace ++ t1 ∧ t1.count (.sendMessage .MSGB_GAMEINFO) = 1 ∧
      w1.game_info.tosend = false ∧
      runFrames w1 fs = some wN ∧
      wN.trace = w1.trace ++ t2 ∧ t2.count (.sendMessage .MSGB_GAMEINFO) = 0 ∧
      wN.game_info.tosend = false) ∧
    (∀ (e2 : Env) (draw2 : Bool) (w2 : World), w2.game_info.tosend = false →
      ∃ t, (runFrame e2 draw2 w2).world.trace = w2.trace ++ t ∧
        t.count (.sendMessage .MSGB_GAMEINFO) = 0 ∧
        (runFrame e2 draw2 w2).world.game_info.tosend = false) := by
  refine ⟨?_, frame_no_gameinfo⟩
  unfold runFrames at hr
  cases h1 : runFrame e draw { w with incoming := w.incoming ++ more } with
  | stop o w1 =>
    rw [h1] at hr
    cases hr
  | ok u w1 =>
    rw [h1] at hr
    obtain ⟨t1, a1, a2, a3⟩ :=
      frame_first_gameinfo e draw { w with incoming := w.incoming ++ more } w1 ht hx h1
    obtain ⟨t2, b1, b2, b3⟩ := runFrames_no_gameinfo fs w1 wN a3 hr
    exact ⟨w1, t1, t2, rfl, a1, a2, a3, hr, b1, b2, b3⟩

/-- C14, an instance: two frames of a fresh process, the first with a draw
callback and the second without; both return. -/
theorem gameinfo_sent_once_witness :
    ∃ wN, runFrames
        (worldExample 5 false [.tag .MSGN_START_FRAMEBOUNDARY, .tag .MSGN_END_FRAMEBOUNDARY])
        [(envExample, true, []),
         (envExample, false,
           [.tag .MSGN_START_FRAMEBOUNDARY, .tag .MSGN_END_FRAMEBOUNDARY])] = some wN ∧
      wN.game_info.tosend = false :=
  ⟨(runFrames
      (worldExample 5 false [.tag .MSGN_START_FRAMEBOUNDARY, .tag .MSGN_END_FRAMEBOUNDARY])
      [(envExample, true, []),
       (envExample, false,
         [.tag .MSGN_START_FRAMEBOUNDARY, .tag .MSGN_END_FRAMEBOUNDARY])]).get (by decide!),
    (Option.some_get _).symm,
    match gameinfo_sent_once
      (worldExample 5 false [.tag .MSGN_START_FRAMEBOUNDARY, .tag .MSGN_END_FRAMEBOUNDARY])
      envExample true []
      [(envExample, false,
         [.tag .MSGN_START_FRAMEBOUNDARY, .tag .MSGN_END_FRAMEBOUNDARY])] _
      rfl rfl (Option.some_get _).symm with
    | ⟨⟨_, _, _, h⟩, _⟩ => h.2.2.2.2.2.2.2⟩

/-! ## Why the non-blocking drain returns -/

theorem bind_eq_ok {α β : Type} {m : M α} {f : α → M β} {e : Env} {w w1 : World} {b : β}
    (h : (m >>= f) e w = .ok b w1) : ∃ a w2, m e w = .ok a w2 ∧ f a e w2 = .ok b w1 := by
  rw [bind_run] at h
  unfold M.bind at h
  cases hr : m e w with
  | ok a w2 =>
    rw [hr] at h
    exact ⟨a, w2, rfl, h⟩
  | stop o w2 =>
    rw [hr] at h
    cases h

theorem endsTrue_pure : EndsTrue (pure true) :=
  ⟨fun _ _ _ h => by cases h⟩

theorem endsTrue_bind {α : Type} {m : M α} {f : α → M Bool} (hf : ∀ a, EndsTrue (f a)) :
    EndsTrue (m >>= f) := by
  constructor
  intro e w w1 h
  obtain ⟨a, w2, _, h2⟩ := bind_eq_ok h
  exact (hf a).ne_false e w2 w1 h2

theorem endsTrue_handleControlMessage (draw : Bool) (m : MsgN) (hr : recognized m = true)
    (hne : m ≠ .MSGN_END_FRAMEBOUNDARY) : EndsTrue (handleControlMessage draw m) := by
  cases m
  case other v =>
    have hv : v = -1 := by simpa [recognized] using hr
    subst hv
    exact endsTrue_pure
  case MSGN_END_FRAMEBOUNDARY => exact absurd rfl hne
  all_goals first
    | exact absurd hr (by decide)
    | (unfold handleControlMessage
       repeat' first
         | exact endsTrue_pure
         | apply endsTrue_bind
         | intro _)

theorem handleControlMessage_false (draw : Bool) (m : MsgN) (e : Env) (w w1 : World)
    (h : handleControlMessage draw m e w = .ok false w1) :
    (m = .MSGN_END_FRAMEBOUNDARY ∧ w1 = w) ∨
    (recognized m = false ∧ w1 = { w with trace := w.trace ++ [.call .logError []] }) := by
  by_cases hend : m = .MSGN_END_FRAMEBOUNDARY
  · subst hend
    left
    injection h with _ h2
    exact ⟨rfl, h2.symm⟩
  · cases hr : recognized m with
    | true => exact absurd h ((endsTrue_handleControlMessage draw m hr hend).ne_false e w w1)
    | false =>
      right
      refine ⟨rfl, ?_⟩
      cases m <;> first
        | exact absurd hr (by decide)
        | (injection h with _ h2
           exact h2.symm)
        | skip
      rename_i v
      have hv : v ≠ -1 := by simpa [recognized] using hr
      unfold handleControlMessage at h
      simp only [hv, if_false] at h
      injection h with _ h2
      exact h2.symm

theorem traced_quiet_catchDeadChildrenLoop :
    ∀ (slots : List Int), Traced QuietOK World.is_exiting (catchDeadChildrenLoop slots) := by
  intro slots
  induction slots with
  | nil => exact traced_call channelFree_is_exiting rfl
  | cons slot rest ih =>
    unfold catchDeadChildrenLoop
    repeat' first
      | exact traced_pure _
      | exact traced_stopWith _ (fun _ h => by cases h)
      | exact traced_getW
      | exact traced_getE
      | exact traced_stamp
      | exact traced_call channelFree_is_exiting rfl
      | exact ih
      | apply traced_bind
      | apply traced_whenM
      | apply traced_ite
      | intro _
      | split

theorem traced_quiet_catchDeadChildren :
    Traced QuietOK World.is_exiting catchDeadChildren := by
  unfold catchDeadChildren
  repeat' first
    | exact traced_pure _
    | exact traced_stopWith _ (fun _ h => by cases h)
    | exact traced_getW
    | exact traced_getE
    | exact traced_stamp
    | exact traced_call channelFree_is_exiting rfl
    | exact traced_quiet_catchDeadChildrenLoop _
    | apply traced_bind
    | apply traced_whenM
    | apply traced_ite
    | intro _
    | split

theorem traced_quiet_idleBlock : Traced QuietOK World.is_exiting idleBlock := by
  unfold idleBlock
  repeat' first
    | exact traced_pure _
    | exact traced_stopWith _ (fun _ h => by cases h)
    | exact traced_getW
    | exact traced_getE
    | exact traced_stamp
    | exact traced_call channelFree_is_exiting rfl
    | exact traced_quiet_catchDeadChildren
    | apply traced_bind
    | apply traced_whenM
    | apply traced_ite
    | intro _
    | split

theorem idleBlock_false (e : Env) (w w1 : World) (h : idleBlock e w = .ok false w1) :
    w.is_exiting = true ∧
    w1 = { w with trace := w.trace ++
      [.call .pushNativeXlibEvents [], .call .pushNativeXcbEvents []] } := by
  unfold idleBlock at h
  rw [bind_ok (call_run _ _ e w), bind_ok (call_run _ _ e _), bind_ok (getW_run e _)] at h
  cases hx : w.is_exiting with
  | true =>
    simp only [hx, if_true] at h
    injection h with _ h2
    refine ⟨rfl, ?_⟩
    rw [← h2]
    simp only [List.append_assoc, List.cons_append, List.nil_append]
  | false =>
    simp only [hx, Bool.false_eq_true, if_false] at h
    have hb : EndsTrue (do
        whenM (!w.shared_config.fastforward) (call .usleep [.nat 100])
        catchDeadChildren
        pure true) := endsTrue_bind (fun _ => endsTrue_bind (fun _ => endsTrue_pure))
    exact absurd h (hb.ne_false e _ w1)

theorem receiveMessageNonBlocking_ok (e : Env) (w w1 : World) (m : MsgN) (never : Bool)
    (h : receiveMessageNonBlocking e w = .ok (m, never) w1) :
    w1.trace = w.trace ++ [.receiveMessageNonBlocking m] ∧ w1.is_exiting = w.is_exiting := by
  unfold receiveMessageNonBlocking at h
  rw [bind_ok (getW_run e w)] at h
  cases hi : w.incoming with
  | nil =>
    simp only [hi] at h
    injection h with h1 h2
    injection h1 with h1 _
    subst h1 h2
    exact ⟨rfl, rfl⟩
  | cons it rest =>
    cases it <;> simp only [hi] at h
    case idle =>
      injection h with h1 h2
      injection h1 with h1 _
      subst h1 h2
      exact ⟨rfl, rfl⟩
    case tag x =>
      injection h with h1 h2
      injection h1 with h1 _
      subst h1 h2
      exact ⟨rfl, rfl⟩
    all_goals cases h

theorem isNeg_other (m : MsgN) (h : m.isNeg = true) : ∃ v, v < 0 ∧ m = .other v := by
  cases m
  case other v => exact ⟨v, by simpa [MsgN.isNeg] using h, rfl⟩
  all_goals exact absurd h (by decide)

theorem receiveLoop_returns (draw : Bool) :
    ∀ (fuel : Nat) (e : Env) (w w1 : World),
      receiveLoop draw fuel e w = .ok () w1 → ReturnCause w1.trace w1.is_exiting := by
  intro fuel
  induction fuel with
  | zero =>
    intro e w w1 h
    cases h
  | succ fuel ih =>
    intro e w w1 h
    unfold receiveLoop at h
    obtain ⟨⟨m, never⟩, w2, h1, h2⟩ := bind_eq_ok h
    obtain ⟨t2, x2⟩ := receiveMessageNonBlocking_ok e w w2 m never h1
    simp only [] at h2
    obtain ⟨g, w3, h3, h4⟩ := bind_eq_ok h2
    cases g with
    | false =>
      simp only [Bool.not_false, if_true] at h4
      injection h4 with _ h4
      subst h4
      cases hn : m.isNeg with
      | false =>
        rw [hn] at h3
        cases h3
      | true =>
        rw [hn, if_pos rfl] at h3
        obtain ⟨i1, i2⟩ := idleBlock_false e w2 w3 h3
        obtain ⟨v, hv, rfl⟩ := isNeg_other m hn
        right
        left
        subst i2
        refine ⟨i1, w.trace, v, hv, ?_⟩
        show w2.trace ++ _ = _
        rw [t2]
        simp only [List.append_assoc, List.cons_append, List.nil_append]
    | true =>
      simp only [Bool.not_true, Bool.false_eq_true, if_false] at h4
      obtain ⟨g2, w4, h5, h6⟩ := bind_eq_ok h4
      have hmid : ∃ mid, w3.trace = w2.trace ++ mid ∧ (∀ ev ∈ mid, quietCall ev = true) ∧
          (m.isNeg = false → mid = []) := by
        cases hn : m.isNeg with
        | false =>
          rw [hn] at h3
          injection h3 with _ h3
          subst h3
          exact ⟨[], by simp, by simp, fun _ => rfl⟩
        | true =>
          rw [hn, if_pos rfl] at h3
          obtain ⟨mid, k1, k2⟩ := traced_quiet_idleBlock.grows e w2
          rw [h3] at k1
          exact ⟨mid, k1, k2, fun h => by cases h⟩
      obtain ⟨mid, m1, m2, m3⟩ := hmid
      cases g2 with
      | false =>
        simp only [Bool.not_false, if_true] at h6
        injection h6 with _ h6
        subst h6
        rcases handleControlMessage_false draw m e w3 w4 h5 with ⟨c1, c2⟩ | ⟨c1, c2⟩
        · left
          subst c1 c2
          refine ⟨w.trace, ?_⟩
          rw [m1, m3 rfl, t2, List.append_nil]
        · right
          right
          subst c2
          refine ⟨w.trace, m, mid, c1, ?_, m2⟩
          show w3.trace ++ _ = _
          rw [m1, t2]
          simp only [List.append_assoc, List.cons_append, List.nil_append]
      | true =>
        simp only [Bool.not_true, Bool.false_eq_true, if_false] at h6
        cases never with
        | true =>
          simp only [if_true] at h6
          cases h6
        | false =>
          simp only [Bool.false_eq_true, if_false] at h6
          exact ih e w4 w1 h6

theorem receive_messages_returns (draw : Bool) (e : Env) (w w1 : World)
    (h : receive_messages draw e w = .ok () w1) : ReturnCause w1.trace w1.is_exiting := by
  unfold receive_messages at h
  obtain ⟨_, _, _, h⟩ := bind_eq_ok h
  obtain ⟨_, _, _, h⟩ := bind_eq_ok h
  obtain ⟨_, _, _, h⟩ := bind_eq_ok h
  obtain ⟨_, _, _, h⟩ := bind_eq_ok h
  exact receiveLoop_returns draw _ e _ w1 h

theorem receiveMessageNonBlocking_tag (e : Env) (w : World) (m : MsgN) (rest : List Item)
    (hin : w.incoming = .tag m :: rest) :
    receiveMessageNonBlocking e w =
      .ok (m, false) { w with
        incoming := rest
        trace := w.trace ++ [.receiveMessageNonBlocking m] } := by
  have hw : w = { w with incoming := .tag m :: rest } := by rw [← hin]
  conv_lhs => rw [hw]
  rfl

theorem receiveMessageNonBlocking_none (e : Env) (w : World) :
    (w.incoming = [] →
      receiveMessageNonBlocking e w =
        .ok (.other (-1), true) { w with
          trace := w.trace ++ [.receiveMessageNonBlocking (.other (-1))] }) ∧
    (∀ rest, w.incoming = .idle :: rest →
      receiveMessageNonBlocking e w =
        .ok (.other (-1), false) { w with
          incoming := rest
          trace := w.trace ++ [.receiveMessageNonBlocking (.other (-1))] }) := by
  constructor
  · intro hin
    have hw : w = { w with incoming := [] } := by rw [← hin]
    have h1 : receiveMessageNonBlocking e { w with incoming := [] } =
        .ok (.other (-1), true) { w with
          incoming := []
          trace := w.trace ++ [.receiveMessageNonBlocking (.other (-1))] } := rfl
    rw [← hw] at h1
    rw [h1, ← hin]
  · intro rest hin
    have hw : w = { w with incoming := .idle :: rest } := by rw [← hin]
    conv_lhs => rw [hw]
    rfl

theorem idleBlock_exiting (e : Env) (w : World) (hx : w.is_exiting = true) :
    idleBlock e w =
      .ok false { w with trace := w.trace ++
        [.call .pushNativeXlibEvents [], .call .pushNativeXcbEvents []] } := by
  unfold idleBlock
  rw [bind_ok (call_run _ _ e w), bind_ok (call_run _ _ e _), bind_ok (getW_run e _)]
  simp only [hx, if_true, List.append_assoc, List.cons_append, List.nil_append]
  rfl

theorem receiveLoop_step (draw : Bool) (fuel : Nat) (e : Env) (w w2 : World) (m : MsgN)
    (never : Bool) (h : receiveMessageNonBlocking e w = .ok (m, never) w2) :
    receiveLoop draw (fuel + 1) e w =
      (do
        let goOn ← (if m.isNeg then idleBlock else pure true)
        if !goOn then pure ()
        else do
          let goOn ← handleControlMessage draw m
          if !goOn then pure ()
          else if never then stopWith .blocked
          else receiveLoop draw fuel : M Unit) e w2 := by
  rw [receiveLoop, bind_ok h]

theorem receiveLoop_end (draw : Bool) (fuel : Nat) (e : Env) (w : World) (rest : List Item)
    (hin : w.incoming = .tag .MSGN_END_FRAMEBOUNDARY :: rest) :
    receiveLoop draw (fuel + 1) e w =
      .ok () { w with
        incoming := rest
        trace := w.trace ++ [.receiveMessageNonBlocking .MSGN_END_FRAMEBOUNDARY] } := by
  rw [receiveLoop_step draw fuel e w _ _ _ (receiveMessageNonBlocking_tag e w _ rest hin)]
  rfl

theorem receiveLoop_unrecognized (draw : Bool) (fuel : Nat) (e : Env) (w : World)
    (m : MsgN) (rest : List Item) (hr : recognized m = false) (hn : m.isNeg = false)
    (hin : w.incoming = .tag m :: rest) :
    receiveLoop draw (fuel + 1) e w =
      .ok () { w with
        incoming := rest
        trace := w.trace ++ [.receiveMessageNonBlocking m, .call .logError []] } := by
  rw [receiveLoop_step draw fuel e w _ _ _ (receiveMessageNonBlocking_tag e w _ rest hin)]
  simp only [hn, Bool.false_eq_true, if_false]
  rw [bind_ok (pure_run true e _)]
  simp only [Bool.not_true, Bool.false_eq_true, if_false]
  have hh : handleControlMessage draw m e { w with
        incoming := rest
        trace := w.trace ++ [.receiveMessageNonBlocking m] } =
      .ok false { w with
        incoming := rest
        trace := w.trace ++ [.receiveMessageNonBlocking m, .call .logError []] } := by
    cases m <;> first
      | exact absurd hr (by decide)
      | (simp only [handleControlMessage, bind_run, M.bind, call_run, pure_run,
          List.append_assoc, List.cons_append, List.nil_append])
      | skip
    rename_i v
    have hv : v ≠ -1 := by simpa [recognized] using hr
    simp only [handleControlMessage, hv, if_false, bind_run, M.bind, call_run, pure_run,
      List.append_assoc, List.cons_append, List.nil_append]
  rw [bind_ok hh]
  rfl

theorem receiveLoop_exiting (draw : Bool) (fuel : Nat) (e : Env) (w : World)
    (hx : w.is_exiting = true) :
    (w.incoming = [] →
      receiveLoop draw (fuel + 1) e w =
        .ok () { w with trace := w.trace ++
          [.receiveMessageNonBlocking (.other (-1)), .call .pushNativeXlibEvents [],
           .call .pushNativeXcbEvents []] }) ∧
    (∀ rest, w.incoming = .idle :: rest →
      receiveLoop draw (fuel + 1) e w =
        .ok () { w with
          incoming := rest
          trace := w.trace ++
            [.receiveMessageNonBlocking (.other (-1)), .call .pushNativeXlibEvents [],
             .call .pushNativeXcbEvents []] }) := by
  obtain ⟨n1, n2⟩ := receiveMessageNonBlocking_none e w
  constructor
  · intro hin
    rw [receiveLoop_step draw fuel e w _ _ _ (n1 hin)]
    have hi : (MsgN.other (-1)).isNeg = true := by decide
    rw [if_pos hi, bind_ok (idleBlock_exiting e { w with
      trace := w.trace ++ [.receiveMessageNonBlocking (.other (-1))] } hx)]
    simp only [Bool.not_false, if_true, pure_run, List.append_assoc, List.cons_append,
      List.nil_append]
  · intro rest hin
    rw [receiveLoop_step draw fuel e w _ _ _ (n2 rest hin)]
    have hi : (MsgN.other (-1)).isNeg = true := by decide
    rw [if_pos hi, bind_ok (idleBlock_exiting e { w with
      incoming := rest
      trace := w.trace ++ [.receiveMessageNonBlocking (.other (-1))] } hx)]
    simp only [Bool.not_false, if_true, pure_run, List.append_assoc, List.cons_append,
      List.nil_append]

theorem pushQuitDisplays_run (window : Nat) :
    ∀ (ds : List Bool) (i : Nat) (e : Env) (w : World),
      pushQuitDisplays window i ds e w =
        .ok () { w with trace := w.trace ++ quitDisplayEvents window i ds } := by
  intro ds
  induction ds with
  | nil =>
    intro i e w
    simp only [pushQuitDisplays, quitDisplayEvents, List.append_nil]
    rfl
  | cons d rest ih =>
    intro i e w
    unfold pushQuitDisplays quitDisplayEvents
    rw [bind_ok (whenM_call2_run d _ _ _ _ e w), ih]
    simp only [List.append_assoc]

theorem pushQuitEvent_run (e : Env) (w : World) :
    pushQuitEvent e w = .ok () { w with trace := w.trace ++ quitEvents w } := by
  unfold pushQuitEvent quitEvents
  rw [bind_ok (getW_run e w), bind_ok (whenM_call_run _ _ _ e w),
    bind_ok (whenM_call_run _ _ _ e _)]
  cases w.gameXWindows with
  | nil =>
    simp only [List.append_nil, List.append_assoc]
    rfl
  | cons front tl =>
    simp only []
    rw [pushQuitDisplays_run]
    simp only [List.append_assoc]

theorem handleControlMessage_userquit (draw : Bool) (e : Env) (w : World) :
    handleControlMessage draw .MSGN_USERQUIT e w =
      .ok true { w with is_exiting := true, trace := w.trace ++ quitEvents w } := by
  simp only [handleControlMessage]
  rw [bind_ok (pushQuitEvent_run e w), bind_ok (modifyW_run _ e _)]
  rfl

theorem receiveLoop_continues (draw : Bool) (fuel : Nat) (e : Env) (w w3 : World)
    (m : MsgN) (rest : List Item) (hn : m.isNeg = false)
    (hin : w.incoming = .tag m :: rest)
    (hh : handleControlMessage draw m e { w with
        incoming := rest
        trace := w.trace ++ [.receiveMessageNonBlocking m] } = .ok true w3) :
    receiveLoop draw (fuel + 1) e w = receiveLoop draw fuel e w3 := by
  rw [receiveLoop_step draw fuel e w _ _ _ (receiveMessageNonBlocking_tag e w _ rest hin)]
  simp only [hn, Bool.false_eq_true, if_false]
  rw [bind_ok (pure_run true e _)]
  simp only [Bool.not_true, Bool.false_eq_true, if_false]
  rw [bind_ok hh]
  simp only [Bool.not_true, Bool.false_eq_true, if_false]

theorem traced_quiet_pushQuitDisplays (window : Nat) :
    ∀ (ds : List Bool) (i : Nat),
      Traced QuietOK World.is_exiting (pushQuitDisplays window i ds) := by
  intro ds
  induction ds with
  | nil => intro i; exact traced_pure _
  | cons d rest ih =>
    intro i
    unfold pushQuitDisplays
    repeat' first
      | exact traced_pure _
      | exact traced_getW
      | exact traced_call channelFree_is_exiting rfl
      | exact ih _
      | apply traced_bind
      | apply traced_whenM
      | intro _
      | split

theorem traced_quiet_pushQuitEvent : Traced QuietOK World.is_exiting pushQuitEvent := by
  unfold pushQuitEvent
  repeat' first
    | exact traced_pure _
    | exact traced_getW
    | exact traced_call channelFree_is_exiting rfl
    | exact traced_quiet_pushQuitDisplays _ _ _
    | apply traced_bind
    | apply traced_whenM
    | intro _
    | split

theorem ok_of_returned (r : R Unit) (h : r.returned = true) : r = .ok () r.world := by
  cases r with
  | ok a w => rfl
  | stop o w => cases h

/-- C18: (1) when `receive_messages` returns, the last poll received
END_FRAMEBOUNDARY, or it found no message while the game is exiting, or it
received a value without a `case` and the error was logged.  Conversely, at
any iteration of the loop: (2) END_FRAMEBOUNDARY makes the function return at
once; (3) so does a poll that finds no message while `is_exiting` is true;
(4) so does an unrecognized tag, after the error is logged.  (5) The handler
of a recognized message other than END_FRAMEBOUNDARY never ends the loop: when
it returns, the loop polls again.  (6) USERQUIT pushes the quit event, sets
`is_exiting` and nothing else, and the loop goes on. -/
theorem receive_messages_return_causes (draw : Bool) (e : Env) (w : World) (fuel : Nat) :
    (∀ w1, receive_messages draw e w = .ok () w1 → ReturnCause w1.trace w1.is_exiting) ∧
    (∀ rest, w.incoming = .tag .MSGN_END_FRAMEBOUNDARY :: rest →
      receiveLoop draw (fuel + 1) e w =
        .ok () { w with
          incoming := rest
          trace := w.trace ++ [.receiveMessageNonBlocking .MSGN_END_FRAMEBOUNDARY] }) ∧
    (w.is_exiting = true →
      (w.incoming = [] →
        receiveLoop draw (fuel + 1) e w =
          .ok () { w with trace := w.trace ++
            [.receiveMessageNonBlocking (.other (-1)), .call .pushNativeXlibEvents [],
             .call .pushNativeXcbEvents []] }) ∧
      (∀ rest, w.incoming = .idle :: rest →
        receiveLoop draw (fuel + 1) e w =
          .ok () { w with
            incoming := rest
            trace := w.trace ++
              [.receiveMessageNonBlocking (.other (-1)), .call .pushNativeXlibEvents [],
               .call .pushNativeXcbEvents []] })) ∧
    (∀ m rest, recognized m = false → m.isNeg = false → w.incoming = .tag m :: rest →
      receiveLoop draw (fuel + 1) e w =
        .ok () { w with
          incoming := rest
          trace := w.trace ++ [.receiveMessageNonBlocking m, .call .logError []] }) ∧
    (∀ m, recognized m = true → m ≠ .MSGN_END_FRAMEBOUNDARY →
      (∀ w1, handleControlMessage draw m e w ≠ .ok false w1) ∧
      (∀ rest w3, m.isNeg = false → w.incoming = .tag m :: rest →
        handleControlMessage draw m e { w with
          incoming := rest
          trace := w.trace ++ [.receiveMessageNonBlocking m] } = .ok true w3 →
        receiveLoop draw (fuel + 1) e w = receiveLoop draw fuel e w3)) ∧
    (handleControlMessage draw .MSGN_USERQUIT e w =
        .ok true { w with is_exiting := true, trace := w.trace ++ quitEvents w } ∧
      (∀ ev ∈ quitEvents w, quietCall ev = true) ∧
      (∀ rest, w.incoming = .tag .MSGN_USERQUIT :: rest →
        receiveLoop draw (fuel + 1) e w =
          receiveLoop draw fuel e { w with
            is_exiting := true
            incoming := rest
            trace := w.trace ++ (.receiveMessageNonBlocking .MSGN_USERQUIT :: quitEvents w) })) := by
  refine ⟨receive_messages_returns draw e w, receiveLoop_end draw fuel e w,
    receiveLoop_exiting draw fuel e w, ?_, ?_, handleControlMessage_userquit draw e w, ?_, ?_⟩
  · intro m rest hr hn hin
    exact receiveLoop_unrecognized draw fuel e w m rest hr hn hin
  · intro m hr hne
    refine ⟨(endsTrue_handleControlMessage draw m hr hne).ne_false e w, ?_⟩
    intro rest w3 hn hin hh
    exact receiveLoop_continues draw fuel e w w3 m rest hn hin hh
  · intro ev hev
    have h := (traced_quiet_pushQuitEvent).grows e w
    rw [pushQuitEvent_run] at h
    obtain ⟨t, h1, h2⟩ := h
    have h3 : quitEvents w = t := List.append_cancel_left h1
    rw [h3] at hev
    exact h2 ev hev
  · intro rest hin
    refine receiveLoop_continues draw fuel e w _ .MSGN_USERQUIT rest rfl hin ?_
    rw [handleControlMessage_userquit]
    simp only [List.append_assoc, List.cons_append, List.nil_append]
    rfl

/-- C18, an instance: the controller sends USERQUIT and nothing more; the
drain goes on after USERQUIT and returns at the next poll, which finds no
message while the game is exiting. -/
theorem receive_messages_return_causes_witness :
    ReturnCause
      (receive_messages true envExample (worldExample 5 false [.tag .MSGN_USERQUIT])).world.trace
      (receive_messages true envExample
        (worldExample 5 false [.tag .MSGN_USERQUIT])).world.is_exiting :=
  (receive_messages_return_causes true envExample
    (worldExample 5 false [.tag .MSGN_USERQUIT]) 0).1 _
    (ok_of_returned _ (by decide!))

/-! ## The order of the phases -/

theorem inputPhase_run (draw : Bool) (e : Env) (w : World) :
    inputPhase draw e w =
      .ok () { w with
        inp := updateGameInputs e.MAXKEYS w.shared_config.nb_controllers w.inp
        skipping_draw := (skipDraw e.undefShl w.shared_config w.skip_counter w.fps).1
        skip_counter := (skipDraw e.undefShl w.shared_config w.skip_counter w.fps).2
        trace := w.trace ++ inputEvents e draw w } := by
  unfold inputPhase inputEvents afterUnlockEvents afterMergeEvents
  simp only [bind_run, pure_run, M.bind, emit_run, call_run, whenM_call_run, whenM_call2_run,
    getW_run, getE_run, modifyW_run, List.append_assoc, List.cons_append, List.nil_append]

theorem receiveMessage_ok_trace (e : Env) (w w1 : World) (m : MsgN)
    (h : receiveMessage e w = .ok m w1) : w1.trace = w.trace ++ [.receiveMessage m] := by
  rcases swr_receiveMessage.first e w with ⟨o, w2, h1, _⟩ | ⟨x, t, h2⟩
  · rw [h] at h1
    cases h1
  · unfold receiveMessage at h
    obtain ⟨it, w2, r1, r2⟩ := bind_eq_ok h
    have hrd : readItem e w =
        match nextItem w.incoming with
        | none => .stop .blocked { w with incoming := [] }
        | some (it, rest) => .ok it { w with incoming := rest } := rfl
    have ht : w2.trace = w.trace := by
      rw [hrd] at r1
      cases hn : nextItem w.incoming with
      | none =>
        rw [hn] at r1
        cases r1
      | some p =>
        rw [hn] at r1
        injection r1 with _ r1
        rw [← r1]
    cases it
    case tag x =>
      injection r2 with r3 r4
      subst r3
      rw [← r4]
      show w2.trace ++ _ = _
      rw [ht]
    all_goals cases r2

theorem blockingDrainLoop_ok :
    ∀ (fuel : Nat) (m : MsgN) (e : Env) (w w1 : World) (t0 pre : List Event),
      w.trace = t0 ++ (pre ++ [.receiveMessage m]) → (∀ ev ∈ pre, drainEvent ev = true) →
      blockingDrainLoop fuel m e w = .ok () w1 →
      ∃ dr, w1.trace = t0 ++ (dr ++ [.receiveMessage .MSGN_START_FRAMEBOUNDARY]) ∧
        ∀ ev ∈ dr, drainEvent ev = true := by
  intro fuel
  induction fuel with
  | zero =>
    intro m e w w1 t0 pre _ _ h
    cases h
  | succ fuel ih =>
    intro m e w w1 t0 pre hw hp h
    unfold blockingDrainLoop at h
    by_cases hm : m = .MSGN_START_FRAMEBOUNDARY
    · rw [if_pos hm] at h
      injection h with _ h
      subst h hm
      exact ⟨pre, hw, hp⟩
    · rw [if_neg hm] at h
      obtain ⟨_, w2, h1, h2⟩ := bind_eq_ok h
      obtain ⟨m2, w3, h3, h4⟩ := bind_eq_ok h2
      obtain ⟨t1, g1, g2⟩ := (traced_handleDisplayMessage m).grows e w
      rw [h1] at g1
      have g3 := receiveMessage_ok_trace e w2 w3 m2 h3
      refine ih m2 e w3 w1 t0 (pre ++ ([.receiveMessage m] ++ t1)) ?_ ?_ h4
      · rw [g3]
        simp only [R.world] at g1
        rw [g1, hw]
        simp only [List.append_assoc]
      · intro ev hev
        rcases List.mem_append.mp hev with k | k
        · exact hp ev k
        · rcases List.mem_append.mp k with k | k
          · rw [List.mem_singleton.mp k]
            rfl
          · exact g2 ev k

theorem blockingDrain_ok (e : Env) (w w1 : World) (h : blockingDrain e w = .ok () w1) :
    ∃ dr, w1.trace = w.trace ++ (dr ++ [.receiveMessage .MSGN_START_FRAMEBOUNDARY]) ∧
      ∀ ev ∈ dr, drainEvent ev = true := by
  unfold blockingDrain at h
  obtain ⟨m, w2, h1, h2⟩ := bind_eq_ok h
  obtain ⟨_, w3, h3, h4⟩ := bind_eq_ok h2
  injection h3 with h3a h3b
  subst h3a h3b
  exact blockingDrainLoop_ok _ m e _ w1 w.trace [] (receiveMessage_ok_trace e w _ m h1)
    (by simp) h4

theorem traced_quiet_drawHud (draw : Bool) :
    Traced QuietOK World.is_exiting (drawHud draw) := by
  unfold drawHud
  repeat' first
    | exact traced_pure _
    | exact traced_getW
    | exact traced_getE
    | exact traced_stamp
    | exact traced_call channelFree_is_exiting rfl
    | exact traced_modifyW _ (fun _ => rfl) (fun _ => rfl)
    | apply traced_bind
    | apply traced_whenM
    | apply traced_ite
    | intro _
    | split

theorem traced_quiet_renderPhase (draw : Bool) (timeIncrement : Nat) :
    Traced QuietOK World.is_exiting (renderPhase draw timeIncrement) := by
  unfold renderPhase
  repeat' first
    | exact traced_pure _
    | exact traced_getW
    | exact traced_getE
    | exact traced_stamp
    | exact traced_call channelFree_is_exiting rfl
    | exact traced_quiet_drawHud _
    | exact traced_modifyW _ (fun _ => rfl) (fun _ => rfl)
    | apply traced_bind
    | apply traced_whenM
    | apply traced_ite
    | intro _
    | split

theorem handshakeEvents_class (e : Env) (draw : Bool) (w : World) :
    ∃ hs, handshakeEvents e draw w = .lockSocket :: hs ∧
      ∀ ev ∈ hs, handshakeEvent ev = true := by
  refine ⟨(handshakeEvents e draw w).tail, rfl, ?_⟩
  unfold handshakeEvents frameCountTimeEvents
  cases w.game_info.tosend <;> cases w.threadListChanged <;> cases draw <;>
    simp [handshakeEvent, setupEvent]

theorem afterUnlockEvents_all (draw : Bool) (w : World) :
    (afterUnlockEvents draw w).all setupEvent = true := by
  unfold afterUnlockEvents
  simp only [List.all_append, Bool.and_eq_true]
  repeat' apply And.intro
  all_goals first | rfl | (split <;> rfl)

theorem afterMergeEvents_all (w : World) : (afterMergeEvents w).all setupEvent = true := by
  unfold afterMergeEvents
  simp only [List.all_append, Bool.and_eq_true]
  repeat' apply And.intro
  all_goals first | rfl | (split <;> rfl)

theorem frame_phases (e : Env) (draw : Bool) (w w1 : World)
    (hx : w.is_exiting = false) (hr : runFrame e draw w = .ok () w1) :
    ∃ hs dr render drain2 post1 post2,
      w1.trace = w.trace ++ setupEvents e draw w ++ [.lockSocket] ++ hs ++ dr ++
        [.receiveMessage .MSGN_START_FRAMEBOUNDARY] ++ render ++ drain2 ++
        [.unlockSocket] ++ post1 ++ [.call .updateGameInputs []] ++ post2 ++
        [.call .skipDraw [.nat w1.fps], .call .exitFrameBoundary []] ++
        (if w1.skipping_draw then [] else [.call .hudNewFrame []]) ∧
      (∀ ev ∈ hs, handshakeEvent ev = true) ∧
      (∀ ev ∈ dr, drainEvent ev = true) ∧
      (∀ ev ∈ render, quietCall ev = true ∧ midEvent ev = true) ∧
      (∀ ev ∈ drain2, midEvent ev = true) ∧
      (∀ ev ∈ post1, setupEvent ev = true) ∧
      (∀ ev ∈ post2, setupEvent ev = true) := by
  have hs : e.sendMessageRet ((w.trace ++ setupEvents e draw w).length + 1) ≠ -1 := by
    intro hs
    rw [runFrame_first_send_fails e draw w hx hs] at hr
    cases hr
  have ht : (frameStart e draw w).trace = w.trace ++ setupEvents e draw w := rfl
  have h4 : outboundHandshake draw e (frameStart e draw w) =
      .ok () { frameStart e draw w with
        game_info := { (frameStart e draw w).game_info with tosend := false }
        threadListChanged := false
        trace := (frameStart e draw w).trace ++
          handshakeEvents e draw (frameStart e draw w) } := by
    rw [outboundHandshake_run, ht, if_neg hs]
  rw [frameBoundary_head e draw w hx, bind_ok h4] at hr
  obtain ⟨_, w5, d1, hr⟩ := bind_eq_ok hr
  obtain ⟨_, w6, r1, hr⟩ := bind_eq_ok hr
  obtain ⟨_, w7, m1, hr⟩ := bind_eq_ok hr
  obtain ⟨hsl, k1, k2⟩ := handshakeEvents_class e draw (frameStart e draw w)
  obtain ⟨dr, d2, d3⟩ := blockingDrain_ok e _ w5 d1
  obtain ⟨render, r2, r3⟩ := (traced_quiet_renderPhase draw e.timeIncrement).grows e w5
  obtain ⟨render2, r4, r5⟩ := (traced_renderPhase draw e.timeIncrement).grows e w5
  have r6 : render2 = render := List.append_cancel_left (r4.symm.trans r2)
  subst r6
  rw [r1] at r2
  obtain ⟨drain2, m2, m3⟩ := (traced_receive_messages draw).grows e w6
  rw [m1] at m2
  simp only [R.world] at r2 m2
  rw [inputPhase_run] at hr
  injection hr with _ hr
  subst hr
  have hfin : ∀ (b : Bool) (x : Event),
      (if !b then [x] else []) = (if b then [] else [x]) := by
    intro b x
    cases b <;> rfl
  refine ⟨hsl, dr, render2, drain2, afterUnlockEvents draw w7, afterMergeEvents w7, ?_, k2, d3,
    fun ev hev => ⟨r3 ev hev, r5 ev hev⟩, m3, fun ev hev => List.all_eq_true.mp (afterUnlockEvents_all draw w7) ev hev,
    fun ev hev => List.all_eq_true.mp (afterMergeEvents_all w7) ev hev⟩
  show w7.trace ++ inputEvents e draw w7 = _
  rw [m2, r2, d2]
  show ((frameStart e draw w).trace ++ handshakeEvents e draw (frameStart e draw w) ++ _ ++ _
    ++ _) ++ _ = _
  rw [k1, ht]
  unfold inputEvents
  rw [hfin]
  simp only [List.append_assoc, List.cons_append, List.nil_append]

theorem setupEvent_class (ev : Event) (h : setupEvent ev = true) :
    phaseMarker ev = false ∧ ev.isDraw = false ∧ ev.isSocketIO = false := by
  cases ev with
  | call fn args =>
    cases fn <;> first
      | exact ⟨rfl, rfl, rfl⟩
      | exact absurd h (by simp [setupEvent])
  | lockSocket => simp [setupEvent] at h
  | unlockSocket => simp [setupEvent] at h
  | sendMessage m => simp [setupEvent] at h
  | sendData d => simp [setupEvent] at h
  | receiveMessage m => simp [setupEvent] at h
  | receiveMessageNonBlocking m => simp [setupEvent] at h
  | receiveData => simp [setupEvent] at h

theorem handshakeEvent_class (ev : Event) (h : handshakeEvent ev = true) :
    phaseMarker ev = false ∧ ev.isDraw = false ∧ ev.isReceive = false := by
  cases ev with
  | call fn args =>
    have h1 := setupEvent_class (.call fn args) h
    exact ⟨h1.1, h1.2.1, rfl⟩
  | lockSocket => simp [handshakeEvent, setupEvent] at h
  | unlockSocket => simp [handshakeEvent, setupEvent] at h
  | sendMessage m => exact ⟨rfl, rfl, rfl⟩
  | sendData d => exact ⟨rfl, rfl, rfl⟩
  | receiveMessage m => simp [handshakeEvent, setupEvent] at h
  | receiveMessageNonBlocking m => simp [handshakeEvent, setupEvent] at h
  | receiveData => simp [handshakeEvent, setupEvent] at h

theorem midEvent_class (ev : Event) (h : midEvent ev = true) : phaseMarker ev = false := by
  cases ev with
  | call fn args =>
    cases fn <;> first
      | rfl
      | exact absurd h (by simp [midEvent])
  | lockSocket => simp [midEvent] at h
  | unlockSocket => simp [midEvent] at h
  | sendMessage m => rfl
  | sendData d => rfl
  | receiveMessage m => rfl
  | receiveMessageNonBlocking m => rfl
  | receiveData => rfl

theorem drainEvent_class (ev : Event) (h : drainEvent ev = true) :
    phaseMarker ev = false ∧ ev.isDraw = false := by
  refine ⟨midEvent_class ev (midEvent_of_drainEvent ev h), ?_⟩
  cases ev with
  | call fn args =>
    cases fn <;> first
      | rfl
      | exact absurd h (by simp [drainEvent])
  | lockSocket => rfl
  | unlockSocket => rfl
  | sendMessage m => rfl
  | sendData d => rfl
  | receiveMessage m => rfl
  | receiveMessageNonBlocking m => rfl
  | receiveData => rfl

theorem quietCall_class (ev : Event) (h : quietCall ev = true) : ev.isSocketIO = false := by
  cases ev with
  | call fn args => rfl
  | lockSocket => simp [quietCall] at h
  | unlockSocket => simp [quietCall] at h
  | sendMessage m => simp [quietCall] at h
  | sendData d => simp [quietCall] at h
  | receiveMessage m => simp [quietCall] at h
  | receiveMessageNonBlocking m => simp [quietCall] at h
  | receiveData => simp [quietCall] at h

/-- C19, amended: the trace of a non-exit `frameBoundary` call that returns
is, in this order: the set-up of the frame; `lockSocket`; the outbound
handshake; the blocking drain, ending with the receive of START_FRAMEBOUNDARY;
the render phase; the non-blocking drain; `unlockSocket`; collaborator calls;
`updateGameInputs`; collaborator calls; `skipDraw`, then `exitFrameBoundary`,
followed by `hud.newFrame` exactly when the next frame is not skipped.  None
of the parts between the markers contains `lockSocket`, `unlockSocket`,
`updateGameInputs`, `skipDraw` or `exitFrameBoundary`, so each of them occurs
exactly once, where shown.  The draw callback can only be invoked in the
render phase and the non-blocking drain, after START_FRAMEBOUNDARY was
received; sends and receives occur only between `lockSocket` and
`unlockSocket`; and the handshake contains no receive. -/
theorem frame_phase_order (e : Env) (draw : Bool) (w w1 : World)
    (hx : w.is_exiting = false) (hr : runFrame e draw w = .ok () w1) :
    ∃ hs dr render drain2 post1 post2,
      w1.trace = w.trace ++ setupEvents e draw w ++ [.lockSocket] ++ hs ++ dr ++
        [.receiveMessage .MSGN_START_FRAMEBOUNDARY] ++ render ++ drain2 ++
        [.unlockSocket] ++ post1 ++ [.call .updateGameInputs []] ++ post2 ++
        [.call .skipDraw [.nat w1.fps], .call .exitFrameBoundary []] ++
        (if w1.skipping_draw then [] else [.call .hudNewFrame []]) ∧
      (∀ ev ∈ setupEvents e draw w ++ hs ++ dr ++ render ++ drain2 ++ post1 ++ post2,
        phaseMarker ev = false) ∧
      (∀ ev ∈ setupEvents e draw w ++ hs ++ dr ++ post1 ++ post2, ev.isDraw = false) ∧
      (∀ ev ∈ setupEvents e draw w ++ render ++ post1 ++ post2, ev.isSocketIO = false) ∧
      (∀ ev ∈ hs, ev.isReceive = false) := by
  obtain ⟨hs, dr, render, drain2, post1, post2, h1, c2, c3, c4, c5, c6, c7⟩ :=
    frame_phases e draw w w1 hx hr
  have c1 : ∀ ev ∈ setupEvents e draw w, setupEvent ev = true :=
    fun ev hev => List.all_eq_true.mp (setupEvents_all e draw w) ev hev
  refine ⟨hs, dr, render, drain2, post1, post2, h1, ?_, ?_, ?_, ?_⟩
  · intro ev hev
    simp only [List.mem_append] at hev
    rcases hev with (((((h | h) | h) | h) | h) | h) | h
    · exact (setupEvent_class ev (c1 ev h)).1
    · exact (handshakeEvent_class ev (c2 ev h)).1
    · exact (drainEvent_class ev (c3 ev h)).1
    · exact midEvent_class ev (c4 ev h).2
    · exact midEvent_class ev (c5 ev h)
    · exact (setupEvent_class ev (c6 ev h)).1
    · exact (setupEvent_class ev (c7 ev h)).1
  · intro ev hev
    simp only [List.mem_append] at hev
    rcases hev with (((h | h) | h) | h) | h
    · exact (setupEvent_class ev (c1 ev h)).2.1
    · exact (handshakeEvent_class ev (c2 ev h)).2.1
    · exact (drainEvent_class ev (c3 ev h)).2
    · exact (setupEvent_class ev (c6 ev h)).2.1
    · exact (setupEvent_class ev (c7 ev h)).2.1
  · intro ev hev
    simp only [List.mem_append] at hev
    rcases hev with ((h | h) | h) | h
    · exact (setupEvent_class ev (c1 ev h)).2.2
    · exact quietCall_class ev (c4 ev h).1
    · exact (setupEvent_class ev (c6 ev h)).2.2
    · exact (setupEvent_class ev (c7 ev h)).2.2
  · intro ev hev
    exact (handshakeEvent_class ev (c2 ev hev)).2.2

/-- C19, an instance: a frame with a draw callback in which the controller
answers START_FRAMEBOUNDARY and END_FRAMEBOUNDARY. -/
theorem frame_phase_order_witness :
    ∃ hs dr render drain2 post1 post2 : List Event,
      (runFrame envExample true (worldExample 5 false
        [.tag .MSGN_START_FRAMEBOUNDARY, .tag .MSGN_END_FRAMEBOUNDARY])).world.trace =
        (worldExample 5 false
          [.tag .MSGN_START_FRAMEBOUNDARY, .tag .MSGN_END_FRAMEBOUNDARY]).trace ++
        setupEvents envExample true (worldExample 5 false
          [.tag .MSGN_START_FRAMEBOUNDARY, .tag .MSGN_END_FRAMEBOUNDARY]) ++
        [.lockSocket] ++ hs ++ dr ++
        [.receiveMessage .MSGN_START_FRAMEBOUNDARY] ++ render ++ drain2 ++
        [.unlockSocket] ++ post1 ++ [.call .updateGameInputs []] ++ post2 ++
        [.call .skipDraw [.nat (runFrame envExample true (worldExample 5 false
          [.tag .MSGN_START_FRAMEBOUNDARY, .tag .MSGN_END_FRAMEBOUNDARY])).world.fps],
         .call .exitFrameBoundary []] ++
        (if (runFrame envExample true (worldExample 5 false
          [.tag .MSGN_START_FRAMEBOUNDARY, .tag .MSGN_END_FRAMEBOUNDARY])).world.skipping_draw
          then [] else [.call .hudNewFrame []]) ∧
      ∀ ev ∈ hs, ev.isReceive = false :=
  match frame_phase_order envExample true
      (worldExample 5 false [.tag .MSGN_START_FRAMEBOUNDARY, .tag .MSGN_END_FRAMEBOUNDARY]) _
      rfl (ok_of_returned _ (by decide!)) with
  | ⟨hs, dr, render, drain2, post1, post2, h1, _, _, _, h5⟩ =>
    ⟨hs, dr, render, drain2, post1, post2, h1, h5⟩

/-- C19, counterexample: a frame that returns, in render mode FF_RENDER_ALL
(the next frame is not skipped).  After `skipDraw` and `exitFrameBoundary`
comes a call of `hud.newFrame`: `exitFrameBoundary` is not called last. -/
theorem exitFrameBoundary_not_last :
    (runFrame envExample true
      { worldExample 5 false
          [.tag .MSGN_START_FRAMEBOUNDARY, .tag .MSGN_END_FRAMEBOUNDARY] with
        shared_config := cfgFastForward .FF_RENDER_ALL }).returned = true ∧
    (runFrame envExample true
      { worldExample 5 false
          [.tag .MSGN_START_FRAMEBOUNDARY, .tag .MSGN_END_FRAMEBOUNDARY] with
        shared_config := cfgFastForward .FF_RENDER_ALL }).world.trace.reverse.take 3 =
      [.call .hudNewFrame [], .call .exitFrameBoundary [], .call .skipDraw [.nat 0]] := by
  decide!

/-! ## The socket override, the window hooks, and the shift of `skipDraw` -/

/-- C27: the `socket` override returns -1 with `errno` set to `EACCES`
without calling the original function if and only if the domain is `AF_INET`
or `AF_INET6` and the bit `DEBUG_NATIVE_INET` is clear; when it does not deny,
it calls the original function and returns exactly what that returns, with the
`errno` that it leaves. -/
theorem socket_denies_inet (debug_native_inet : Bool)
    (orig : Int → Int → Int → Int → Int × Int) (errno domain type protocol : Int) :
    (((socket debug_native_inet orig errno domain type protocol).calledOrig = false ∧
        (socket debug_native_inet orig errno domain type protocol).ret = -1 ∧
        (socket debug_native_inet orig errno domain type protocol).errno = EACCES) ↔
      ((domain = AF_INET ∨ domain = AF_INET6) ∧ debug_native_inet = false)) ∧
    ((socket debug_native_inet orig errno domain type protocol).calledOrig = false ↔
      ((domain = AF_INET ∨ domain = AF_INET6) ∧ debug_native_inet = false)) ∧
    (¬((domain = AF_INET ∨ domain = AF_INET6) ∧ debug_native_inet = false) →
      socket debug_native_inet orig errno domain type protocol =
        { ret := (orig domain type protocol errno).1
          errno := (orig domain type protocol errno).2
          calledOrig := true }) := by
  unfold socket
  by_cases hd : domain = AF_INET ∨ domain = AF_INET6
  · cases debug_native_inet <;> simp [hd]
  · simp [hd]

/-- C27, an instance: an `AF_INET` socket is denied while the bit is clear,
and an `AF_UNIX` socket (domain 1) goes to the original function. -/
theorem socket_denies_inet_witness :
    socket false origSocketExample 0 1 1 0 = { ret := 3, errno := 0, calledOrig := true } ∧
    socket false origSocketExample 0 AF_INET 1 0 =
      { ret := -1, errno := EACCES, calledOrig := false } :=
  ⟨(socket_denies_inet false origSocketExample 0 1 1 0).2.2 (by decide), by decide⟩

theorem eraseFirst_eq_erase (w : Nat) (l : List Nat) : eraseFirst w l = l.erase w := by
  induction l with
  | nil => rfl
  | cons x rest ih =>
    unfold eraseFirst
    by_cases h : w = x
    · subst h
      simp
    · rw [if_neg h, ih, List.erase_cons_tail]
      simpa using fun h1 => h h1.symm

theorem eraseFirst_head (w front : Nat) (rest : List Nat) (h : w ≠ front) :
    (eraseFirst w (front :: rest)).head? = some front := by
  unfold eraseFirst
  rw [if_neg h]
  rfl

/-- C22: when `XDestroyWindow` is called on the front of `gameXWindows`, the
front is removed; if no game window remains, WINDOW_ID is sent with payload 0;
if others remain and the process is not exiting, WINDOW_ID is sent with the new
front, converted to 32 bits; if others remain and the process is exiting,
nothing is sent.  When the window is not the front (or the list is empty),
the list loses the first occurrence of the window and nothing else, its front
is unchanged, and no WINDOW_ID is sent.  In every case the original function
is called once, last. -/
theorem XDestroyWindow_reports_window (front : Nat) (rest : List Nat)
    (is_exiting inited : Bool) (w : Nat) :
    (XDestroyWindow [front] is_exiting inited front =
      ([], [.ScreenCapture_isInited, .ScreenCapture_fini, .lockSocket,
        .sendMessage_MSGB_WINDOW_ID, .sendData_u32 0, .unlockSocket,
        .orig_XDestroyWindow front])) ∧
    (∀ next others, rest = next :: others →
      XDestroyWindow (front :: rest) false inited front =
        (rest, [.ScreenCapture_isInited, .ScreenCapture_fini, .lockSocket,
          .sendMessage_MSGB_WINDOW_ID, .sendData_u32 (next % 2 ^ 32), .unlockSocket] ++
          (if inited then [.ScreenCapture_init] else []) ++
          [.orig_XDestroyWindow front])) ∧
    (∀ next others, rest = next :: others →
      XDestroyWindow (front :: rest) true inited front =
        (rest, [.ScreenCapture_isInited, .ScreenCapture_fini,
          .orig_XDestroyWindow front])) ∧
    (w ≠ front →
      XDestroyWindow (front :: rest) is_exiting inited w =
        ((front :: rest).erase w, [.orig_XDestroyWindow w]) ∧
      ((front :: rest).erase w).head? = some front ∧
      ∀ ev ∈ (XDestroyWindow (front :: rest) is_exiting inited w).2,
        ev.isWindowId = false) ∧
    XDestroyWindow [] is_exiting inited w = ([], [.orig_XDestroyWindow w]) := by
  refine ⟨?_, ?_, ?_, ?_, rfl⟩
  · simp [XDestroyWindow, sendXWindow]
  · intro next others h
    subst h
    simp [XDestroyWindow, sendXWindow]
  · intro next others h
    subst h
    simp [XDestroyWindow]
  · intro h
    have h1 : XDestroyWindow (front :: rest) is_exiting inited w =
        ((front :: rest).erase w, [.orig_XDestroyWindow w]) := by
      simp only [XDestroyWindow, if_neg h, eraseFirst_eq_erase]
    refine ⟨h1, ?_, ?_⟩
    · rw [← eraseFirst_eq_erase]
      exact eraseFirst_head w front rest h
    · rw [h1]
      intro ev hev
      rw [List.mem_singleton.mp hev]
      rfl

/-- C22, an instance: with game windows 7, 5, 7, destroying 5 removes it and
sends nothing. -/
theorem XDestroyWindow_reports_window_witness :
    XDestroyWindow [7, 5, 7] false true 5 = ([7, 7], [.orig_XDestroyWindow 5]) :=
  ((XDestroyWindow_reports_window 7 [5, 7] false true 5).2.2.2.1 (by decide)).1.trans
    (by decide)

theorem inputEventBit_eq (i : Nat) :
    inputEventBit i = decide (i = 0 ∨ i = 1 ∨ i = 2 ∨ i = 3 ∨ i = 6) := by
  unfold inputEventBit KeyPressMask KeyReleaseMask ButtonPressMask ButtonReleaseMask
    PointerMotionMask
  congr 1
  have h : ∀ k, 2 ^ i = 2 ^ k ↔ i = k := fun k => Nat.pow_right_injective (le_refl 2) |>.eq_iff
  simp only [h]

theorem maskInputEvents_eq (m : Nat) :
    maskInputEvents m = m &&& 0xFFFFFFFFFFFFFFB0 := by
  unfold maskInputEvents notLong KeyPressMask KeyReleaseMask ButtonPressMask
    ButtonReleaseMask PointerMotionMask
  rw [Nat.land_assoc]
  rfl

theorem testBit_keepMask (i : Nat) :
    Nat.testBit 0xFFFFFFFFFFFFFFB0 i =
      (decide (i < 64) && !decide (i = 0 ∨ i = 1 ∨ i = 2 ∨ i = 3 ∨ i = 6)) := by
  by_cases h : i < 64
  · interval_cases i <;> rfl
  · have h1 : Nat.testBit 0xFFFFFFFFFFFFFFB0 i = false :=
      Nat.testBit_lt_two_pow (lt_of_lt_of_le (by norm_num) (Nat.pow_le_pow_right (by norm_num)
        (not_lt.mp h)))
    rw [h1]
    simp [h]

/-- C25, counterexample: in the native state `XChangeWindowAttributes`, called
with `CWEventMask` set and an event mask that contains `KeyPressMask`, hands
the mask to the original function as it is (the stripped mask would be
another one) and records nothing in the event queue. -/
theorem XChangeWindowAttributes_native_keeps_mask :
    XChangeWindowAttributes true CWEventMask (KeyPressMask ||| 2 ^ 15) =
      { recorded := none, forwarded := KeyPressMask ||| 2 ^ 15 } ∧
    CWEventMask &&& CWEventMask ≠ 0 ∧
    maskInputEvents (KeyPressMask ||| 2 ^ 15) = 2 ^ 15 ∧
    KeyPressMask ||| 2 ^ 15 ≠ 2 ^ 15 := by
  decide

/-- C25, amended: for every event mask `m` (a 64-bit pattern) passed to
`XSelectInput`, and for the `event_mask` attribute passed to `XCreateWindow`,
or to `XChangeWindowAttributes` in the non-native state, when `CWEventMask`
is set, the mask forwarded to the X server is `m` with exactly the bits
`KeyPressMask`, `KeyReleaseMask`, `ButtonPressMask`, `ButtonReleaseMask` and
`PointerMotionMask` cleared and every other bit unchanged, and the mask
recorded in the emulated event queue is `m` itself; stripping twice is the
same as stripping once. -/
theorem input_events_masked (m valuemask : Nat) (hm : m < 2 ^ 64)
    (hv : valuemask &&& CWEventMask ≠ 0) :
    XSelectInput m = { recorded := some m, forwarded := maskInputEvents m } ∧
    XCreateWindow valuemask m = { recorded := some m, forwarded := maskInputEvents m } ∧
    XChangeWindowAttributes false valuemask m =
      { recorded := some m, forwarded := maskInputEvents m } ∧
    (∀ i, (maskInputEvents m).testBit i = (m.testBit i && !inputEventBit i)) ∧
    maskInputEvents m < 2 ^ 64 ∧
    maskInputEvents (maskInputEvents m) = maskInputEvents m := by
  refine ⟨rfl, ?_, ?_, ?_, ?_, ?_⟩
  · unfold XCreateWindow
    rw [if_pos hv]
  · unfold XChangeWindowAttributes
    rw [if_neg (by decide), if_pos hv]
  · intro i
    rw [maskInputEvents_eq, Nat.testBit_land, testBit_keepMask, inputEventBit_eq]
    by_cases h : i < 64
    · simp [h]
    · have h1 : m.testBit i = false :=
        Nat.testBit_lt_two_pow (lt_of_lt_of_le hm (Nat.pow_le_pow_right (by norm_num)
          (not_lt.mp h)))
      simp [h1]
  · rw [maskInputEvents_eq]
    exact lt_of_le_of_lt Nat.and_le_left hm
  · rw [maskInputEvents_eq, maskInputEvents_eq m, Nat.land_assoc]
    rfl

/-- C25, an instance: a mask with all five input bits and two others. -/
theorem input_events_masked_witness :
    (XSelectInput 0x2004F).forwarded = 0x20000 ∧ (XSelectInput 0x2004F).recorded = some 0x2004F ∧
    (XCreateWindow 0x800 0x2004F).forwarded = 0x20000 :=
  ⟨(congrArg MaskEffect.forwarded
      (input_events_masked 0x2004F 0x800 (by decide) (by decide)).1).trans (by decide),
    by decide,
    (congrArg MaskEffect.forwarded
      (input_events_masked 0x2004F 0x800 (by decide) (by decide)).2.1).trans (by decide)⟩

theorem map_range_update (f : Nat → Nat) (j a : Nat) :
    (List.range (j + 1)).map (Function.update f j a) = (List.range j).map f ++ [a] := by
  rw [List.range_succ, List.map_append]
  congr 1
  · apply List.map_congr_left
    intro i hi
    rw [Function.update_noteq (Nat.ne_of_lt (List.mem_range.mp hi))]
  · simp

theorem netWmState_invariant (FULLSCREEN ABOVE : Nat) (screen : Nat × Nat)
    (xrandr : Option (Nat × Nat)) (garbage : Nat → Nat) (w : Nat) (atoms : List Nat) :
    ∀ n, n ≤ atoms.length →
      (List.range (forLoop n (netWmStateBody FULLSCREEN ABOVE screen xrandr w atoms)
          { newatoms := garbage, j := 0, calls := [] }).j).map
        (forLoop n (netWmStateBody FULLSCREEN ABOVE screen xrandr w atoms)
          { newatoms := garbage, j := 0, calls := [] }).newatoms =
      (atoms.take n).filter (fun a => decide (a ≠ FULLSCREEN ∧ a ≠ ABOVE)) := by
  intro n
  induction n with
  | zero =>
    intro _
    rfl
  | succ n ih =>
    intro hn
    have hlt : n < atoms.length := hn
    have ih1 := ih (Nat.le_of_lt hlt)
    rw [forLoop_succ]
    generalize forLoop n (netWmStateBody FULLSCREEN ABOVE screen xrandr w atoms)
      { newatoms := garbage, j := 0, calls := [] } = s at ih1 ⊢
    have hg : atoms.getD n 0 = atoms[n] := by
      simp [List.getD, List.getElem?_eq_getElem hlt]
    rw [List.take_succ, List.getElem?_eq_getElem hlt, Option.toList_some, List.filter_append]
    unfold netWmStateBody
    rw [hg]
    by_cases h1 : atoms[n] = FULLSCREEN
    · rw [if_pos h1]
      simp [h1, ih1]
    · rw [if_neg h1]
      by_cases h2 : atoms[n] = ABOVE
      · rw [if_pos h2]
        simp [h2, ih1]
      · rw [if_neg h2]
        simp only []
        rw [map_range_update, ih1]
        simp [h1, h2]

/-- C26: in the non-native state, for every input atom list of `nelements`
atoms, the branch `_NET_WM_STATE` of `XChangeProperty` forwards to the original
function exactly the input list without the occurrences of
`_NET_WM_STATE_FULLSCREEN` and `_NET_WM_STATE_ABOVE`, the other atoms in their
original order, and the forwarded element count is the number of retained
atoms, never more than `nelements`. -/
theorem XChangeProperty_filters_wm_state (FULLSCREEN ABOVE : Nat) (screen : Nat × Nat)
    (xrandr : Option (Nat × Nat)) (garbage : Nat → Nat) (w : Nat) (atoms : List Nat) :
    (XChangeProperty_NET_WM_STATE FULLSCREEN ABOVE screen xrandr garbage w atoms).1 =
      atoms.filter (fun a => decide (a ≠ FULLSCREEN ∧ a ≠ ABOVE)) ∧
    (XChangeProperty_NET_WM_STATE FULLSCREEN ABOVE screen xrandr garbage w atoms).2.1 =
      (atoms.filter (fun a => decide (a ≠ FULLSCREEN ∧ a ≠ ABOVE))).length ∧
    (XChangeProperty_NET_WM_STATE FULLSCREEN ABOVE screen xrandr garbage w atoms).2.1 ≤
      atoms.length ∧
    (∀ a, a ∈ (XChangeProperty_NET_WM_STATE FULLSCREEN ABOVE screen xrandr garbage w atoms).1 ↔
      a ∈ atoms ∧ a ≠ FULLSCREEN ∧ a ≠ ABOVE) := by
  have h := netWmState_invariant FULLSCREEN ABOVE screen xrandr garbage w atoms atoms.length
    (le_refl _)
  rw [List.take_length] at h
  have h1 : (XChangeProperty_NET_WM_STATE FULLSCREEN ABOVE screen xrandr garbage w atoms).1 =
      atoms.filter (fun a => decide (a ≠ FULLSCREEN ∧ a ≠ ABOVE)) := h
  have h2 : (XChangeProperty_NET_WM_STATE FULLSCREEN ABOVE screen xrandr garbage w atoms).2.1 =
      (atoms.filter (fun a => decide (a ≠ FULLSCREEN ∧ a ≠ ABOVE))).length := by
    rw [← h1]
    simp [XChangeProperty_NET_WM_STATE]
  refine ⟨h1, h2, ?_, ?_⟩
  · rw [h2]
    exact List.length_filter_le _ _
  · intro a
    rw [h1]
    simp [List.mem_filter]

/-- C24: the shift count of `skipDraw` leaves the range 0..31 for a frame rate
above 1 in AUTO mode.  At `fps = 2.0` the test `fps > 1` holds, `fps - 1` is
`1.0` with biased exponent 127, and the count `127 - 126 - 3` wraps in
`unsigned int` arithmetic to 4294967294, so `1U << count` is undefined: the
frequency, and with it the returned flag, depends on what the target does with
the oversized shift (a target that yields 0 renders the fourth call, a target
that masks the count to five bits skips it).  The same happens at `fps = 3.0`
and `fps = 4.0`; `fps = 5.0` is the first integer frame rate with a count in
range, and the float `2^34` (pattern `0x50800000`) exceeds the range at the
other end with count 32. -/
theorem skipShiftCount_out_of_range :
    isAuto (cfgFastForward (.FF_RENDER_OTHER 1)) = true ∧
    f32_gt_one (f32_of_nat 2) = true ∧
    f32_sub_one (f32_of_nat 2) = F32_ONE ∧
    f32_exp (f32_sub_one (f32_of_nat 2)) = 127 ∧
    skipShiftCount (f32_sub_one (f32_of_nat 2)) = 4294967294 ∧
    ¬ skipShiftCount (f32_sub_one (f32_of_nat 2)) < 32 ∧
    skip_freq (fun _ => 0) (f32_of_nat 2) = 4 ∧
    skip_freq (fun c => 2 ^ (c % 32)) (f32_of_nat 2) = 2 ^ 30 ∧
    skipDraw (fun _ => 0) (cfgFastForward (.FF_RENDER_OTHER 1)) 3 (f32_of_nat 2) =
      (false, 0) ∧
    skipDraw (fun c => 2 ^ (c % 32)) (cfgFastForward (.FF_RENDER_OTHER 1)) 3 (f32_of_nat 2) =
      (true, 4) ∧
    skipShiftCount (f32_sub_one (f32_of_nat 3)) = 4294967295 ∧
    skipShiftCount (f32_sub_one (f32_of_nat 4)) = 4294967295 ∧
    skipShiftCount (f32_sub_one (f32_of_nat 5)) = 0 ∧
    f32_gt_one 0x50800000 = true ∧
    skipShiftCount (f32_sub_one 0x50800000) = 32 := by
  decide

/-! ## The render decision and dumped frames -/

theorem drawHud_run (draw : Bool) (e : Env) (w : World) :
    drawHud draw e w = .ok () { w with trace := w.trace ++ hudEvents draw w } := by
  unfold drawHud hudEvents
  cases draw <;>
    simp [bind_run, M.bind, pure_run, getW_run, call_run, List.append_assoc]

theorem renderPhase_run (draw : Bool) (timeIncrement : Nat) (e : Env) (w : World) :
    renderPhase draw timeIncrement e w =
      .ok () { w with
        nondraw_framecount :=
          if draw then w.nondraw_framecount else (w.nondraw_framecount + 1) % 2 ^ 64
        avencoder := w.shared_config.av_dumping
        trace := w.trace ++ renderEvents draw timeIncrement w } := by
  rcases w with ⟨fc, nfc, das, sc, ib, fps, lfps, ex, sk, cfg, gi, inp, av, tlc, gx, gd, slot,
    pai, inc, tr⟩
  unfold renderPhase renderEvents hudEvents drawHud
  cases draw <;> cases sk <;> cases av <;> cases ho : cfg.osd_encode <;>
    cases ha : cfg.av_dumping <;>
    simp [ho, ha, bind_run, M.bind, pure_run, getW_run, call_run, modifyW_run,
      whenM_true_run, whenM_false_run, whenM_true, whenM_false, whenM]

theorem channelFree_renderFields : ChannelFree renderFields := fun _ _ _ => rfl

theorem keeps_handleDisplayMessage_renderFields (message : MsgN) :
    Keeps renderFields (handleDisplayMessage message) := by
  unfold handleDisplayMessage
  repeat' first
    | exact keeps_pure _ _
    | exact keeps_stopWith _ _
    | exact keeps_getW _
    | exact keeps_getE _
    | exact keeps_stamp _
    | exact keeps_call channelFree_renderFields _ _
    | exact keeps_emit channelFree_renderFields _
    | exact keeps_receiveMessage channelFree_renderFields
    | exact keeps_receiveInt channelFree_renderFields
    | exact keeps_receiveU32 channelFree_renderFields
    | exact keeps_receiveString channelFree_renderFields
    | exact keeps_sendMessage channelFree_renderFields _
    | exact keeps_sendData channelFree_renderFields _
    | apply keeps_bind
    | apply keeps_whenM
    | apply keeps_ite
    | intro _
    | split

theorem keeps_blockingDrainLoop_renderFields :
    ∀ (fuel : Nat) (message : MsgN),
      Keeps renderFields (blockingDrainLoop fuel message) := by
  intro fuel
  induction fuel with
  | zero => intro message; exact keeps_stopWith _ _
  | succ fuel ih =>
    intro message
    unfold blockingDrainLoop
    repeat' first
      | exact keeps_pure _ _
      | exact keeps_stopWith _ _
      | exact keeps_getW _
      | exact keeps_getE _
      | exact keeps_stamp _
      | exact keeps_call channelFree_renderFields _ _
      | exact keeps_emit channelFree_renderFields _
      | exact keeps_receiveMessage channelFree_renderFields
      | exact keeps_receiveInt channelFree_renderFields
      | exact keeps_receiveU32 channelFree_renderFields
      | exact keeps_receiveString channelFree_renderFields
      | exact keeps_sendMessage channelFree_renderFields _
      | exact keeps_sendData channelFree_renderFields _
      | exact keeps_handleDisplayMessage_renderFields _
      | exact ih _
      | apply keeps_bind
      | apply keeps_whenM
      | apply keeps_ite
      | intro _
      | split

theorem keeps_blockingDrain_renderFields : Keeps renderFields blockingDrain := by
  unfold blockingDrain
  repeat' first
    | exact keeps_pure _ _
    | exact keeps_stopWith _ _
    | exact keeps_getW _
    | exact keeps_getE _
    | exact keeps_stamp _
    | exact keeps_call channelFree_renderFields _ _
    | exact keeps_emit channelFree_renderFields _
    | exact keeps_receiveMessage channelFree_renderFields
    | exact keeps_receiveInt channelFree_renderFields
    | exact keeps_receiveU32 channelFree_renderFields
    | exact keeps_receiveString channelFree_renderFields
    | exact keeps_sendMessage channelFree_renderFields _
    | exact keeps_sendData channelFree_renderFields _
    | exact keeps_blockingDrainLoop_renderFields _ _
    | apply keeps_bind
    | apply keeps_whenM
    | apply keeps_ite
    | intro _
    | split

theorem keeps_of_ok {α β : Type} {proj : World → β} {m : M α} (h : Keeps proj m)
    {e : Env} {w w1 : World} {a : α} (h1 : m e w = .ok a w1) : proj w1 = proj w := by
  have h2 := h.keep e w
  rw [h1] at h2
  exact h2

theorem fixed_of_ok {α β : Type} {Q : Event → Prop} {proj : World → β} {m : M α}
    (h : Traced Q proj m) {e : Env} {w w1 : World} {a : α} (h1 : m e w = .ok a w1) :
    proj w1 = proj w := by
  have h2 := h.fixed e w
  rw [h1] at h2
  exact h2

theorem renderEvents_congr (draw : Bool) (timeIncrement : Nat) (a b : World)
    (h : renderFields a = renderFields b) :
    renderEvents draw timeIncrement a = renderEvents draw timeIncrement b := by
  unfold renderFields at h
  simp only [Prod.mk.injEq] at h
  obtain ⟨h1, h2, h3, h4, h5, h6, h7⟩ := h
  unfold renderEvents hudEvents
  rw [h1, h2, h3, h4, h5, h6, h7]

theorem frame_render (e : Env) (draw : Bool) (w w1 : World)
    (hx : w.is_exiting = false) (hr : runFrame e draw w = .ok () w1) :
    ∃ hs dr drain2 post1 post2,
      w1.trace = w.trace ++ setupEvents e draw w ++ [.lockSocket] ++ hs ++ dr ++
        [.receiveMessage .MSGN_START_FRAMEBOUNDARY] ++
        renderEvents draw e.timeIncrement (frameStart e draw w) ++ drain2 ++
        [.unlockSocket] ++ post1 ++ [.call .updateGameInputs []] ++ post2 ++
        [.call .skipDraw [.nat w1.fps], .call .exitFrameBoundary []] ++
        (if w1.skipping_draw then [] else [.call .hudNewFrame []]) ∧
      (∀ ev ∈ hs, handshakeEvent ev = true) ∧
      (∀ ev ∈ dr, drainEvent ev = true) ∧
      (∀ ev ∈ drain2, midEvent ev = true) ∧
      (∀ ev ∈ post1, setupEvent ev = true) ∧
      (∀ ev ∈ post2, setupEvent ev = true) ∧
      w1.skipping_draw = (skipDraw e.undefShl w1.shared_config w.skip_counter w1.fps).1 ∧
      w1.skip_counter = (skipDraw e.undefShl w1.shared_config w.skip_counter w1.fps).2 ∧
      w1.fps = (frameStart e draw w).fps := by
  have hs : e.sendMessageRet ((w.trace ++ setupEvents e draw w).length + 1) ≠ -1 := by
    intro hs
    rw [runFrame_first_send_fails e draw w hx hs] at hr
    cases hr
  have ht : (frameStart e draw w).trace = w.trace ++ setupEvents e draw w := rfl
  have h4 : outboundHandshake draw e (frameStart e draw w) =
      .ok () { frameStart e draw w with
        game_info := { (frameStart e draw w).game_info with tosend := false }
        threadListChanged := false
        trace := (frameStart e draw w).trace ++
          handshakeEvents e draw (frameStart e draw w) } := by
    rw [outboundHandshake_run, ht, if_neg hs]
  rw [frameBoundary_head e draw w hx, bind_ok h4] at hr
  obtain ⟨_, w5, d1, hr⟩ := bind_eq_ok hr
  obtain ⟨_, w6, r1, hr⟩ := bind_eq_ok hr
  obtain ⟨_, w7, m1, hr⟩ := bind_eq_ok hr
  obtain ⟨hsl, k1, k2⟩ := handshakeEvents_class e draw (frameStart e draw w)
  obtain ⟨dr, d2, d3⟩ := blockingDrain_ok e _ w5 d1
  have d7 := keeps_of_ok keeps_blockingDrain_renderFields d1
  have d6 : renderFields w5 = renderFields (frameStart e draw w) := d7
  have d5 := fixed_of_ok traced_blockingDrain d1
  have r7 := fixed_of_ok (traced_renderPhase draw e.timeIncrement) r1
  have m4 := fixed_of_ok (traced_receive_messages draw) m1
  rw [renderPhase_run] at r1
  injection r1 with _ r1
  obtain ⟨drain2, m2, m3⟩ := (traced_receive_messages draw).grows e w6
  rw [m1] at m2
  simp only [R.world] at m2
  rw [inputPhase_run] at hr
  injection hr with _ hr
  subst hr
  have f7 := m4.trans (r7.trans d5)
  unfold frameFields at f7
  simp only [Prod.mk.injEq] at f7
  obtain ⟨_, _, f3, _, _, f6, _, _⟩ := f7
  have f3b : w7.skip_counter = w.skip_counter := f3.trans (builtInputs_fields w).2.2.2.2.2.2.1
  have hfin : ∀ (b : Bool) (x : Event),
      (if !b then [x] else []) = (if b then [] else [x]) := by
    intro b x
    cases b <;> rfl
  refine ⟨hsl, dr, drain2, afterUnlockEvents draw w7, afterMergeEvents w7, ?_, k2, d3, m3,
    fun ev hev => List.all_eq_true.mp (afterUnlockEvents_all draw w7) ev hev,
    fun ev hev => List.all_eq_true.mp (afterMergeEvents_all w7) ev hev, ?_, ?_, f6⟩
  · show w7.trace ++ inputEvents e draw w7 = _
    rw [m2, ← r1]
    show ((w5.trace ++ renderEvents draw e.timeIncrement w5) ++ _) ++ _ = _
    rw [renderEvents_congr draw e.timeIncrement w5 _ d6, d2]
    show ((((frameStart e draw w).trace ++ handshakeEvents e draw (frameStart e draw w) ++ _)
      ++ _) ++ _) ++ _ = _
    rw [k1, ht]
    unfold inputEvents
    rw [hfin]
    simp only [List.append_assoc, List.cons_append, List.nil_append]
  · show (skipDraw e.undefShl w7.shared_config w7.skip_counter w7.fps).1 =
      (skipDraw e.undefShl w7.shared_config w.skip_counter w7.fps).1
    rw [f3b]
  · show (skipDraw e.undefShl w7.shared_config w7.skip_counter w7.fps).2 =
      (skipDraw e.undefShl w7.shared_config w.skip_counter w7.fps).2
    rw [f3b]

theorem renderEvents_draw_count (draw : Bool) (timeIncrement : Nat) (w : World) :
    (renderEvents draw timeIncrement w).count (.call .draw []) =
        (if draw && !w.skipping_draw then 1 else 0) ∧
    (renderEvents draw timeIncrement w).count (.call .copyScreenToSurface []) =
        (if draw && !w.skipping_draw then 1 else 0) := by
  unfold renderEvents hudEvents
  cases draw <;> cases w.skipping_draw <;> cases w.shared_config.osd_encode <;>
    cases w.shared_config.av_dumping <;> cases w.avencoder <;> simp

theorem renderEvents_encode (draw : Bool) (timeIncrement : Nat) (w : World) :
    (renderEvents draw timeIncrement w).any Event.isEncode = w.shared_config.av_dumping ∧
    (renderEvents draw timeIncrement w).count
        (.call .encodeOneFrame [.bool draw, .nat timeIncrement]) =
      (if w.shared_config.av_dumping then 1 else 0) := by
  unfold renderEvents hudEvents
  cases draw <;> cases w.skipping_draw <;> cases w.shared_config.osd_encode <;>
    cases w.shared_config.av_dumping <;> cases w.avencoder <;> simp [Event.isEncode]

theorem skipDraw_dumping (u : Nat → Nat) (cfg : SharedConfig) (c fps : Nat)
    (h : cfg.av_dumping = true) : (skipDraw u cfg c fps).1 = false := by
  unfold skipDraw
  cases cfg.fastforward <;> cases cfg.running <;> simp [h]

theorem frameStart_renderFields (e : Env) (draw : Bool) (w : World) :
    (frameStart e draw w).skipping_draw = w.skipping_draw ∧
    (frameStart e draw w).shared_config = w.shared_config ∧
    (frameStart e draw w).avencoder = w.avencoder :=
  ⟨(builtInputs_fields w).2.2.2.2.2.1, (builtInputs_fields w).2.2.1,
    (builtInputs_fields w).2.2.2.2.2.2.2.2.2.2.2.2.1⟩

/-- C21: the render decision.  The trace of a non-exit `frameBoundary` call
that returns contains, right after the receive of START_FRAMEBOUNDARY that
ends the blocking drain, the events of the render phase.  Among these the
draw callback is invoked exactly once, and the live surface is copied into the
capture buffer exactly once, when a draw callback is present and
`Global::skipping_draw` is false on entry, and neither happens otherwise.  The
value of `Global::skipping_draw` on entry is the first component of what
`skipDraw` returned at the end of the preceding non-exit call that returned.
At the end of the call `Global::skipping_draw` is what `skipDraw(fps)` returns
for the configuration and `fps` of that moment, and the call of `skipDraw` and
`exitFrameBoundary` is followed by `hud.newFrame` exactly when that value is
false. -/
theorem render_decision (e : Env) (draw : Bool) (w w1 : World)
    (hx : w.is_exiting = false) (hr : runFrame e draw w = .ok () w1) :
    (∃ hs dr drain2 post1 post2,
      w1.trace = w.trace ++ setupEvents e draw w ++ [.lockSocket] ++ hs ++ dr ++
        [.receiveMessage .MSGN_START_FRAMEBOUNDARY] ++
        renderEvents draw e.timeIncrement (frameStart e draw w) ++ drain2 ++
        [.unlockSocket] ++ post1 ++ [.call .updateGameInputs []] ++ post2 ++
        [.call .skipDraw [.nat w1.fps], .call .exitFrameBoundary []] ++
        (if w1.skipping_draw then [] else [.call .hudNewFrame []]) ∧
      (∀ ev ∈ setupEvents e draw w ++ hs ++ dr ++ post1 ++ post2, ev.isDraw = false)) ∧
    (renderEvents draw e.timeIncrement (frameStart e draw w)).count (.call .draw []) =
      (if draw && !w.skipping_draw then 1 else 0) ∧
    (renderEvents draw e.timeIncrement (frameStart e draw w)).count
        (.call .copyScreenToSurface []) =
      (if draw && !w.skipping_draw then 1 else 0) ∧
    (.call .draw [] ∈ renderEvents draw e.timeIncrement (frameStart e draw w) ↔
      draw = true ∧ w.skipping_draw = false) ∧
    (.call .copyScreenToSurface [] ∈ renderEvents draw e.timeIncrement (frameStart e draw w) ↔
      draw = true ∧ w.skipping_draw = false) ∧
    (w1.skipping_draw, w1.skip_counter) =
      skipDraw e.undefShl w1.shared_config w.skip_counter w1.fps ∧
    (∀ (e0 : Env) (draw0 : Bool) (w0 wp : World) (more : List Item),
      w0.is_exiting = false → runFrame e0 draw0 w0 = .ok () wp →
      w = { wp with incoming := wp.incoming ++ more } →
      w.skipping_draw = (skipDraw e0.undefShl wp.shared_config w0.skip_counter wp.fps).1) := by
  obtain ⟨hs, dr, drain2, post1, post2, h1, c2, c3, _, c6, c7, s1, s2, _⟩ :=
    frame_render e draw w w1 hx hr
  have c1 : ∀ ev ∈ setupEvents e draw w, setupEvent ev = true :=
    fun ev hev => List.all_eq_true.mp (setupEvents_all e draw w) ev hev
  obtain ⟨k1, k2⟩ := renderEvents_draw_count draw e.timeIncrement (frameStart e draw w)
  have hsk := (frameStart_renderFields e draw w).1
  rw [hsk] at k1 k2
  have hiff : ∀ n : Nat, n = (if draw && !w.skipping_draw then 1 else 0) →
      (0 < n ↔ draw = true ∧ w.skipping_draw = false) := by
    intro n hn
    rw [hn]
    cases draw <;> cases w.skipping_draw <;> simp
  refine ⟨⟨hs, dr, drain2, post1, post2, h1, ?_⟩, k1, k2, ?_, ?_, ?_, ?_⟩
  · intro ev hev
    simp only [List.mem_append] at hev
    rcases hev with (((h | h) | h) | h) | h
    · exact (setupEvent_class ev (c1 ev h)).2.1
    · exact (handshakeEvent_class ev (c2 ev h)).2.1
    · exact (drainEvent_class ev (c3 ev h)).2
    · exact (setupEvent_class ev (c6 ev h)).2.1
    · exact (setupEvent_class ev (c7 ev h)).2.1
  · rw [← List.count_pos_iff]
    exact hiff _ k1
  · rw [← List.count_pos_iff]
    exact hiff _ k2
  · rw [s1, s2]
  · intro e0 draw0 w0 wp more hx0 hr0 hw
    obtain ⟨_, _, _, _, _, _, _, _, _, _, _, t1, _, _⟩ := frame_render e0 draw0 w0 wp hx0 hr0
    rw [hw]
    exact t1

/-- C21, an instance: a frame with a draw callback, not skipped, in which
the controller answers START_FRAMEBOUNDARY and END_FRAMEBOUNDARY: the render
phase invokes the draw callback once and copies the surface once. -/
theorem render_decision_witness :
    (renderEvents true envExample.timeIncrement (frameStart envExample true
      (worldExample 5 false
        [.tag .MSGN_START_FRAMEBOUNDARY, .tag .MSGN_END_FRAMEBOUNDARY]))).count
        (.call .draw []) =
      (if true && !(worldExample 5 false
        [.tag .MSGN_START_FRAMEBOUNDARY, .tag .MSGN_END_FRAMEBOUNDARY]).skipping_draw
        then 1 else 0) ∧
    (renderEvents true envExample.timeIncrement (frameStart envExample true
      (worldExample 5 false
        [.tag .MSGN_START_FRAMEBOUNDARY, .tag .MSGN_END_FRAMEBOUNDARY]))).count
        (.call .copyScreenToSurface []) =
      (if true && !(worldExample 5 false
        [.tag .MSGN_START_FRAMEBOUNDARY, .tag .MSGN_END_FRAMEBOUNDARY]).skipping_draw
        then 1 else 0) :=
  match render_decision envExample true
      (worldExample 5 false [.tag .MSGN_START_FRAMEBOUNDARY, .tag .MSGN_END_FRAMEBOUNDARY]) _
      rfl (ok_of_returned _ (by decide!)) with
  | ⟨_, h1, h2, _⟩ => ⟨h1, h2⟩

theorem runFrame_dumping (e : Env) (draw : Bool) (w w1 : World)
    (hi : w.shared_config.av_dumping = true → w.skipping_draw = false)
    (hr : runFrame e draw w = .ok () w1) :
    w1.shared_config.av_dumping = true → w1.skipping_draw = false := by
  cases hx : w.is_exiting with
  | true =>
    rw [runFrame_exiting e draw w hx] at hr
    injection hr with _ hr
    subst hr
    intro h
    have h1 : (builtInputs w).shared_config.av_dumping = true := h
    rw [(builtInputs_fields w).2.2.1] at h1
    show (builtInputs w).skipping_draw = false
    exact ((builtInputs_fields w).2.2.2.2.2.1).trans (hi h1)
  | false =>
    obtain ⟨_, _, _, _, _, _, _, _, _, _, _, s1, _, _⟩ := frame_render e draw w w1 hx hr
    intro h
    rw [s1]
    exact skipDraw_dumping _ _ _ _ h

theorem runFrames_dumping :
    ∀ (fs : List (Env × Bool × List Item)) (w wN : World),
      (w.shared_config.av_dumping = true → w.skipping_draw = false) →
      runFrames w fs = some wN →
      (wN.shared_config.av_dumping = true → wN.skipping_draw = false) := by
  intro fs
  induction fs with
  | nil =>
    intro w wN hi h
    unfold runFrames at h
    injection h with h
    subst h
    exact hi
  | cons f fs ih =>
    intro w wN hi h
    obtain ⟨e, draw, more⟩ := f
    unfold runFrames at h
    cases hr : runFrame e draw { w with incoming := w.incoming ++ more } with
    | stop o w1 =>
      rw [hr] at h
      cases h
    | ok u w1 =>
      rw [hr] at h
      exact ih w1 wN
        (runFrame_dumping e draw { w with incoming := w.incoming ++ more } w1 hi hr) h

/-- C23: dumped frames are never render-skipped.  Take any sequence of
`frameBoundary` calls that all return, started with `Global::skipping_draw`
false, in which the state is passed from one call to the next (so that
`shared_config` changes only inside the calls, by the handlers of the
non-blocking drain).  In the state `w` reached, `av_dumping` implies that
`Global::skipping_draw` is false.  Hence in the next non-exit call, whatever
the collaborators answer and the controller sends: the render phase feeds a
frame to the encoder exactly when `av_dumping` is set in `w`, it does so once,
and then rendering is not suppressed in that render phase, which updates the
window title and, when a draw callback is present, copies the surface and
invokes the callback.  When the call returns, these render events stand in its
trace right after the receive of START_FRAMEBOUNDARY, and the invariant holds
again because `skipDraw`, called with the final configuration, returns false
when `av_dumping` is set. -/
theorem dumped_frames_not_skipped (w0 : World) (fs : List (Env × Bool × List Item))
    (w : World) (h0 : w0.skipping_draw = false) (hrun : runFrames w0 fs = some w) :
    (w.shared_config.av_dumping = true → w.skipping_draw = false) ∧
    (∀ (e : Env) (draw : Bool) (more : List Item),
      ((renderEvents draw e.timeIncrement
          (frameStart e draw { w with incoming := w.incoming ++ more })).any Event.isEncode =
        w.shared_config.av_dumping) ∧
      ((renderEvents draw e.timeIncrement
          (frameStart e draw { w with incoming := w.incoming ++ more })).count
          (.call .encodeOneFrame [.bool draw, .nat e.timeIncrement]) =
        (if w.shared_config.av_dumping then 1 else 0)) ∧
      (w.shared_config.av_dumping = true →
        (frameStart e draw { w with incoming := w.incoming ++ more }).skipping_draw = false ∧
        (renderEvents draw e.timeIncrement
          (frameStart e draw { w with incoming := w.incoming ++ more })).count
          (.call .draw []) = (if draw then 1 else 0) ∧
        (renderEvents draw e.timeIncrement
          (frameStart e draw { w with incoming := w.incoming ++ more })).count
          (.call .copyScreenToSurface []) = (if draw then 1 else 0)) ∧
      (∀ w1, w.is_exiting = false →
        runFrame e draw { w with incoming := w.incoming ++ more } = .ok () w1 →
        (∃ pre post,
          w1.trace = w.trace ++ pre ++ [.receiveMessage .MSGN_START_FRAMEBOUNDARY] ++
            renderEvents draw e.timeIncrement
              (frameStart e draw { w with incoming := w.incoming ++ more }) ++ post ∧
          ∀ ev ∈ pre, ev.isDraw = false) ∧
        (w1.skipping_draw =
          (skipDraw e.undefShl w1.shared_config w.skip_counter w1.fps).1) ∧
        (w1.shared_config.av_dumping = true → w1.skipping_draw = false))) := by
  have hinv := runFrames_dumping fs w0 w (fun _ => h0) hrun
  refine ⟨hinv, fun e draw more => ?_⟩
  obtain ⟨f1, f2, _⟩ := frameStart_renderFields e draw { w with incoming := w.incoming ++ more }
  obtain ⟨g1, g2⟩ := renderEvents_encode draw e.timeIncrement
    (frameStart e draw { w with incoming := w.incoming ++ more })
  obtain ⟨k1, k2⟩ := renderEvents_draw_count draw e.timeIncrement
    (frameStart e draw { w with incoming := w.incoming ++ more })
  rw [f2] at g1 g2
  rw [f1] at k1 k2
  refine ⟨g1, g2, fun h => ?_, fun w1 hx hr => ?_⟩
  · have hs : w.skipping_draw = false := hinv h
    have hs3 : (if draw && !w.skipping_draw then 1 else 0) = (if draw then 1 else 0) := by
      rw [hs]
      cases draw <;> rfl
    exact ⟨f1.trans hs, k1.trans hs3, k2.trans hs3⟩
  · obtain ⟨hs, dr, drain2, post1, post2, h1, c2, c3, _, _, _, s1, _, _⟩ :=
      frame_render e draw { w with incoming := w.incoming ++ more } w1 hx hr
    have c1 : ∀ ev ∈ setupEvents e draw { w with incoming := w.incoming ++ more },
        setupEvent ev = true :=
      fun ev hev => List.all_eq_true.mp (setupEvents_all e draw _) ev hev
    refine ⟨⟨setupEvents e draw { w with incoming := w.incoming ++ more } ++
        [.lockSocket] ++ hs ++ dr,
      drain2 ++ [.unlockSocket] ++ post1 ++ [.call .updateGameInputs []] ++ post2 ++
        [.call .skipDraw [.nat w1.fps], .call .exitFrameBoundary []] ++
        (if w1.skipping_draw then [] else [.call .hudNewFrame []]), ?_, ?_⟩, s1,
      runFrame_dumping e draw { w with incoming := w.incoming ++ more } w1 hinv hr⟩
    · rw [h1]
      simp only [List.append_assoc]
    · intro ev hev
      simp only [List.mem_append, List.mem_singleton] at hev
      rcases hev with ((h | h) | h) | h
      · exact (setupEvent_class ev (c1 ev h)).2.1
      · rw [h]
        rfl
      · exact (handshakeEvent_class ev (c2 ev h)).2.1
      · exact (drainEvent_class ev (c3 ev h)).2

/-- C23, an instance: a process that dumps in fast-forward with render mode
FF_RENDER_NO makes one `frameBoundary` call that returns; in the state reached
`av_dumping` is set and `Global::skipping_draw` is false. -/
theorem dumped_frames_not_skipped_witness :
    ∃ w, runFrames
        (worldDumping true [.tag .MSGN_START_FRAMEBOUNDARY, .tag .MSGN_END_FRAMEBOUNDARY])
        [(envExample, true, [])] = some w ∧
      w.shared_config.av_dumping = true ∧ w.skipping_draw = false :=
  ⟨(runFrames
      (worldDumping true [.tag .MSGN_START_FRAMEBOUNDARY, .tag .MSGN_END_FRAMEBOUNDARY])
      [(envExample, true, [])]).get (by decide!),
    (Option.some_get _).symm,
    by decide!,
    (dumped_frames_not_skipped
      (worldDumping true [.tag .MSGN_START_FRAMEBOUNDARY, .tag .MSGN_END_FRAMEBOUNDARY])
      [(envExample, true, [])] _ rfl (Option.some_get _).symm).1 (by decide!)⟩

/-- Without dumping the same call leaves `Global::skipping_draw` set: the
render mode FF_RENDER_NO skips every frame that is not dumped. -/
theorem not_dumping_skips :
    (runFrame envExample true
      (worldDumping false
        [.tag .MSGN_START_FRAMEBOUNDARY, .tag .MSGN_END_FRAMEBOUNDARY])).returned = true ∧
    (runFrame envExample true
      (worldDumping false
        [.tag .MSGN_START_FRAMEBOUNDARY, .tag .MSGN_END_FRAMEBOUNDARY])).world.skipping_draw =
      true := by
  decide!

end libtas
